import Mathlib

/-!
# The Rhapsody finite-state-machine engine (`src/fsm/rhapsody.c`)

A shallow embedding of the table-driven state machine interpreter and of the
properties its specification states about it.

Conventions of the embedding:

* `uint32_t` and `uint8_t` values are natural numbers; the only arithmetic the
  engine performs that can leave the range (`timer++`) is reduced modulo `2^32`.
* The two objects every engine routine reaches through the configuration
  (`workspace_ptr` and `trans_input_ptr`) together with the rest of the program
  state (`env`) form the memory `FSM_MEM` that the callbacks read and write.
* A function pointer is an optional state transformer; `none` is `NULL`.
* Reading outside a table (a state index beyond the state table, a transition
  table without `FSM_TRANS_END`) has no defined result: the routine yields `none`.
* `FSM_RUN.calls` is an observation log: the engine appends one entry for every
  callback it invokes.  The callbacks themselves cannot see or change it.
-/

set_option autoImplicit false

namespace Rhapsody

/-! ## Constants -/

/-- Marker of the last entry of a transition table (`rhapsody.h`). -/
def FSM_TRANS_END : Nat := 255

/-- The table `bitmasks_32bit` of `rhapsody.c`. -/
def bitmasks_32bit : List Nat :=
  [0x00000001, 0x00000002, 0x00000004, 0x00000008,
   0x00000010, 0x00000020, 0x00000040, 0x00000080,
   0x00000100, 0x00000200, 0x00000400, 0x00000800,
   0x00001000, 0x00002000, 0x00004000, 0x00008000,
   0x00010000, 0x00020000, 0x00040000, 0x00080000,
   0x00100000, 0x00200000, 0x00400000, 0x00800000,
   0x01000000, 0x02000000, 0x04000000, 0x08000000,
   0x10000000, 0x20000000, 0x40000000, 0x80000000]

/-- Input-word bit reserved for timer 1: `bitmasks_32bit[31]`. -/
def FSM_TIMER1_BIT : Nat := bitmasks_32bit.getD 31 0

/-- Input-word bit reserved for timer 2: `bitmasks_32bit[30]`. -/
def FSM_TIMER2_BIT : Nat := bitmasks_32bit.getD 30 0

/-- Input-word bit reserved for timer 3: `bitmasks_32bit[29]`. -/
def FSM_TIMER3_BIT : Nat := bitmasks_32bit.getD 29 0

/-- The all-ones value stored in the transition history to mean "nothing seen yet". -/
def RESERVED_INPUT_WORD_VALUE : Nat := 0xFFFFFFFF

/-- The C constant `true` stored in a `uint8_t` flag. -/
def TRUE : Nat := 1

/-- The C constant `false` stored in a `uint8_t` flag. -/
def FALSE : Nat := 0

/-- Complement of a 32-bit value (`~x` on `uint32_t`). -/
def not32 (x : Nat) : Nat := 0xFFFFFFFF ^^^ x

/-! ## Data model (`rhapsody.h`) -/

/-- The persistent workspace `FSM_WORKSPACE_T`. -/
structure FSM_WORKSPACE_T where
  timer1 : Nat
  timer1_timeout : Nat
  timer1_timeout_backup : Nat
  timer2 : Nat
  timer2_timeout : Nat
  timer2_timeout_backup : Nat
  timer3 : Nat
  timer3_timeout : Nat
  timer3_timeout_backup : Nat
  last_input_word : Nat
  last_event_trans_cond_mask : Nat
  timer1_enable : Nat
  timer2_enable : Nat
  timer3_enable : Nat
  current_state : Nat
  transition : Nat
  deriving DecidableEq, Repr

/-- The memory the engine and the callbacks work on: the workspace
(`*workspace_ptr`), the input word (`*trans_input_ptr`) and the remaining
program state. -/
structure FSM_MEM (ε : Type) where
  workspace : FSM_WORKSPACE_T
  trans_input : Nat
  env : ε
  deriving DecidableEq

/-- A callback `void f(void)`: it may read and write the whole memory. -/
abbrev FSM_FUNCT (ε : Type) : Type := FSM_MEM ε → FSM_MEM ε

/-- One transition rule, `FSM_TRANS_CONFIG_T`. -/
structure FSM_TRANS_CONFIG_T (ε : Type) where
  next_state : Nat
  trans_cond_mask : Nat
  trans_dont_care_mask : Nat
  trans_funct_ptr : Option (FSM_FUNCT ε)

/-- One state descriptor, `FSM_STATE_CONFIG_T`; `state_trans_config_ptr` is the
array the pointer of that name points to. -/
structure FSM_STATE_CONFIG_T (ε : Type) where
  entry_action_funct_ptr : Option (FSM_FUNCT ε)
  activity_funct_ptr : Option (FSM_FUNCT ε)
  exit_action_funct_ptr : Option (FSM_FUNCT ε)
  state_trans_config_ptr : List (FSM_TRANS_CONFIG_T ε)

/-- The engine configuration `FSM_CONFIG_T`.  The fields `trans_input_ptr` and
`workspace_ptr` are the two components of `FSM_MEM`.  The input-refresh callback
is invoked without a null test, hence it is not optional here. -/
structure FSM_CONFIG_T (ε : Type) where
  initial_state : Nat
  state_config_ptr : List (FSM_STATE_CONFIG_T ε)
  process_inputs_funct_ptr : FSM_FUNCT ε
  power_up_trans_funct_ptr : Option (FSM_FUNCT ε)

/-- A callback invocation as recorded in the observation log. -/
inductive FSM_CALL where
  | power_up
  | entry (state : Nat)
  | activity (state : Nat)
  | process_inputs
  | exit (state : Nat)
  | trans (state next_state cond_mask : Nat)
  deriving DecidableEq, Repr

/-- The memory together with the log of the callbacks invoked so far. -/
structure FSM_RUN (ε : Type) where
  mem : FSM_MEM ε
  calls : List FSM_CALL
  deriving DecidableEq

/-- The statement `if (NULL != f) (*f)();`, recording the call when it happens. -/
def fsm_call {ε : Type} (c : FSM_CALL) (f : Option (FSM_FUNCT ε)) (r : FSM_RUN ε) : FSM_RUN ε :=
  match f with
  | none => r
  | some g => { mem := g r.mem, calls := r.calls ++ [c] }

/-! ## `fsm_init` -/

/-- The routine `fsm_init`: reset the workspace, clear the input word, then run the
power-up callback if there is one. -/
def fsm_init {ε : Type} (cfg : FSM_CONFIG_T ε) (r : FSM_RUN ε) : FSM_RUN ε :=
  let ws : FSM_WORKSPACE_T :=
    { r.mem.workspace with
      current_state := cfg.initial_state
      transition := TRUE
      timer1_enable := FALSE
      timer1 := 0
      timer1_timeout := 0
      timer1_timeout_backup := 0
      timer2_enable := FALSE
      timer2 := 0
      timer2_timeout := 0
      timer2_timeout_backup := 0
      timer3_enable := FALSE
      timer3 := 0
      timer3_timeout := 0
      timer3_timeout_backup := 0
      last_input_word := RESERVED_INPUT_WORD_VALUE
      last_event_trans_cond_mask := RESERVED_INPUT_WORD_VALUE }
  let r1 : FSM_RUN ε := { r with mem := { r.mem with workspace := ws, trans_input := 0 } }
  fsm_call FSM_CALL.power_up cfg.power_up_trans_funct_ptr r1

/-! ## `fsm_process` -/

/-- Timer 1 part of `fsm_process` (IF1/IF2). -/
def fsm_process_timer1 {ε : Type} (m : FSM_MEM ε) : FSM_MEM ε :=
  if FALSE ≠ m.workspace.timer1_enable then
    if m.workspace.timer1 < m.workspace.timer1_timeout ∧
        m.workspace.timer1 < m.workspace.timer1_timeout_backup then
      { m with workspace := { m.workspace with timer1 := (m.workspace.timer1 + 1) % 2 ^ 32 } }
    else
      { m with trans_input := m.trans_input ||| FSM_TIMER1_BIT }
  else m

/-- Timer 2 part of `fsm_process` (IF3/IF4). -/
def fsm_process_timer2 {ε : Type} (m : FSM_MEM ε) : FSM_MEM ε :=
  if FALSE ≠ m.workspace.timer2_enable then
    if m.workspace.timer2 < m.workspace.timer2_timeout ∧
        m.workspace.timer2 < m.workspace.timer2_timeout_backup then
      { m with workspace := { m.workspace with timer2 := (m.workspace.timer2 + 1) % 2 ^ 32 } }
    else
      { m with trans_input := m.trans_input ||| FSM_TIMER2_BIT }
  else m

/-- Timer 3 part of `fsm_process`. -/
def fsm_process_timer3 {ε : Type} (m : FSM_MEM ε) : FSM_MEM ε :=
  if FALSE ≠ m.workspace.timer3_enable then
    if m.workspace.timer3 < m.workspace.timer3_timeout ∧
        m.workspace.timer3 < m.workspace.timer3_timeout_backup then
      { m with workspace := { m.workspace with timer3 := (m.workspace.timer3 + 1) % 2 ^ 32 } }
    else
      { m with trans_input := m.trans_input ||| FSM_TIMER3_BIT }
  else m

/-- The three timer blocks in the order of the source. -/
def fsm_process_timers {ε : Type} (m : FSM_MEM ε) : FSM_MEM ε :=
  fsm_process_timer3 (fsm_process_timer2 (fsm_process_timer1 m))

/-- IF5/IF6: after a transition run the entry action, if any, and reset the flag. -/
def fsm_process_entry {ε : Type} (sc : FSM_STATE_CONFIG_T ε) (s : Nat) (r : FSM_RUN ε) :
    FSM_RUN ε :=
  if FALSE ≠ r.mem.workspace.transition then
    let r1 := fsm_call (FSM_CALL.entry s) sc.entry_action_funct_ptr r
    { r1 with mem := { r1.mem with workspace := { r1.mem.workspace with transition := FALSE } } }
  else r

/-- IF7 and the input refresh: the activity function, then `process_inputs_funct_ptr`. -/
def fsm_process_activity {ε : Type} (cfg : FSM_CONFIG_T ε) (sc : FSM_STATE_CONFIG_T ε) (s : Nat)
    (r : FSM_RUN ε) : FSM_RUN ε :=
  let r1 := fsm_call (FSM_CALL.activity s) sc.activity_funct_ptr r
  { mem := cfg.process_inputs_funct_ptr r1.mem, calls := r1.calls ++ [FSM_CALL.process_inputs] }

/-- The test of IF10: `0 == ((input ^ trans_cond_mask) & trans_dont_care_mask)`. -/
def fsm_trans_check {ε : Type} (input : Nat) (t : FSM_TRANS_CONFIG_T ε) : Prop :=
  0 = (input ^^^ t.trans_cond_mask) &&& t.trans_dont_care_mask

instance {ε : Type} (input : Nat) (t : FSM_TRANS_CONFIG_T ε) : Decidable (fsm_trans_check input t) :=
  inferInstanceAs (Decidable (0 = _))

/-- The test of IF11: the condition mask differs from the one of the last event, or
the rule leads to another state. -/
def fsm_race_check {ε : Type} (ws : FSM_WORKSPACE_T) (t : FSM_TRANS_CONFIG_T ε) : Prop :=
  ws.last_event_trans_cond_mask ≠ t.trans_cond_mask ∨ ws.current_state ≠ t.next_state

instance {ε : Type} (ws : FSM_WORKSPACE_T) (t : FSM_TRANS_CONFIG_T ε) :
    Decidable (fsm_race_check ws t) :=
  inferInstanceAs (Decidable (_ ∨ _))

/-- THEN11 and IF12/THEN12: store the condition mask of the rule as the last event;
when the rule leads to another state reset both history words and set
`current_state`. -/
def fsm_fire_update {ε : Type} (t : FSM_TRANS_CONFIG_T ε) (r : FSM_RUN ε) : FSM_RUN ε :=
  let ws1 : FSM_WORKSPACE_T :=
    { r.mem.workspace with last_event_trans_cond_mask := t.trans_cond_mask }
  let ws2 : FSM_WORKSPACE_T :=
    if ws1.current_state ≠ t.next_state then
      { ws1 with
        last_input_word := RESERVED_INPUT_WORD_VALUE
        last_event_trans_cond_mask := RESERVED_INPUT_WORD_VALUE
        current_state := t.next_state }
    else ws1
  { r with mem := { r.mem with workspace := ws2 } }

/-- THEN11 .. `break`: what the engine does once a rule passed both tests: the
workspace update, the exit action (IF13), the transition action (IF14) and the
transition flag.  `sc` is the descriptor `local_state_config_ptr` fetched at the start
of the step and `s` its index. -/
def fsm_fire {ε : Type} (sc : FSM_STATE_CONFIG_T ε) (s : Nat) (t : FSM_TRANS_CONFIG_T ε)
    (r : FSM_RUN ε) : FSM_RUN ε :=
  let r3 := fsm_call (FSM_CALL.exit s) sc.exit_action_funct_ptr (fsm_fire_update t r)
  let r4 := fsm_call (FSM_CALL.trans s t.next_state t.trans_cond_mask) t.trans_funct_ptr r3
  { r4 with mem := { r4.mem with workspace := { r4.mem.workspace with transition := TRUE } } }

/-- The `while` loop over the transition table.  The list is the part of the table
from the current entry on; running off its end is an out-of-bounds read. -/
def fsm_scan {ε : Type} (sc : FSM_STATE_CONFIG_T ε) (s : Nat) :
    List (FSM_TRANS_CONFIG_T ε) → FSM_RUN ε → Option (FSM_RUN ε)
  | [], _ => none
  | t :: rest, r =>
    if FSM_TRANS_END ≠ t.next_state then
      if fsm_trans_check r.mem.trans_input t then
        if fsm_race_check r.mem.workspace t then
          some (fsm_fire sc s t r)
        else fsm_scan sc s rest r
      else fsm_scan sc s rest r
    else some r

/-- THEN9: `last_input_word = *trans_input_ptr`. -/
def fsm_store_input {ε : Type} (r : FSM_RUN ε) : FSM_RUN ε :=
  { r with mem := { r.mem with
      workspace := { r.mem.workspace with last_input_word := r.mem.trans_input } } }

/-- IF9: when the input word changed, remember it and scan the transition table. -/
def fsm_process_transitions {ε : Type} (sc : FSM_STATE_CONFIG_T ε) (s : Nat) (r : FSM_RUN ε) :
    Option (FSM_RUN ε) :=
  if r.mem.trans_input ≠ r.mem.workspace.last_input_word then
    fsm_scan sc s sc.state_trans_config_ptr (fsm_store_input r)
  else some r

/-- The part of a step before the transition check: timers, entry action, activity
and input refresh, for the state descriptor `sc` with index `s`. -/
def fsm_process_front {ε : Type} (cfg : FSM_CONFIG_T ε) (sc : FSM_STATE_CONFIG_T ε) (s : Nat)
    (r : FSM_RUN ε) : FSM_RUN ε :=
  fsm_process_activity cfg sc s
    (fsm_process_entry sc s { r with mem := fsm_process_timers r.mem })

/-- The routine `fsm_process`: one step of the engine. -/
def fsm_process {ε : Type} (cfg : FSM_CONFIG_T ε) (r : FSM_RUN ε) : Option (FSM_RUN ε) :=
  let s := (fsm_process_timers r.mem).workspace.current_state
  match cfg.state_config_ptr.get? s with
  | none => none
  | some sc => fsm_process_transitions sc s (fsm_process_front cfg sc s r)

/-- The outcome of the loop of `fsm_scan` without its effects: `none` when the scan
leaves the table, `some none` when it stops at `FSM_TRANS_END`, `some (some t)` when
it leaves the loop through the firing branch at rule `t`. -/
def fsm_find_trans {ε : Type} (input : Nat) (ws : FSM_WORKSPACE_T) :
    List (FSM_TRANS_CONFIG_T ε) → Option (Option (FSM_TRANS_CONFIG_T ε))
  | [] => none
  | t :: rest =>
    if FSM_TRANS_END ≠ t.next_state then
      if fsm_trans_check input t ∧ fsm_race_check ws t then some (some t)
      else fsm_find_trans input ws rest
    else some none

/-- The engine run for `n` consecutive steps. -/
def fsm_process_n {ε : Type} (cfg : FSM_CONFIG_T ε) : Nat → FSM_RUN ε → Option (FSM_RUN ε)
  | 0, r => some r
  | n + 1, r => (fsm_process_n cfg n r).bind (fsm_process cfg)

/-! ## Timer control -/

/-- The routine `fsm_timer1_enable`. -/
def fsm_timer1_enable {ε : Type} (timeout : Nat) (m : FSM_MEM ε) : FSM_MEM ε :=
  { m with
    trans_input := m.trans_input &&& not32 FSM_TIMER1_BIT
    workspace := { m.workspace with
      timer1 := 0
      timer1_timeout := timeout
      timer1_timeout_backup := timeout
      timer1_enable := TRUE } }

/-- The routine `fsm_timer2_enable`. -/
def fsm_timer2_enable {ε : Type} (timeout : Nat) (m : FSM_MEM ε) : FSM_MEM ε :=
  { m with
    trans_input := m.trans_input &&& not32 FSM_TIMER2_BIT
    workspace := { m.workspace with
      timer2 := 0
      timer2_timeout := timeout
      timer2_timeout_backup := timeout
      timer2_enable := TRUE } }

/-- The routine `fsm_timer3_enable`. -/
def fsm_timer3_enable {ε : Type} (timeout : Nat) (m : FSM_MEM ε) : FSM_MEM ε :=
  { m with
    trans_input := m.trans_input &&& not32 FSM_TIMER3_BIT
    workspace := { m.workspace with
      timer3 := 0
      timer3_timeout := timeout
      timer3_timeout_backup := timeout
      timer3_enable := TRUE } }

/-- The routine `fsm_timer1_new_timeout`: a new timeout without restarting the count. -/
def fsm_timer1_new_timeout {ε : Type} (timeout : Nat) (m : FSM_MEM ε) : FSM_MEM ε :=
  { m with
    trans_input := m.trans_input &&& not32 FSM_TIMER1_BIT
    workspace := { m.workspace with
      timer1_timeout := timeout
      timer1_timeout_backup := timeout
      timer1_enable := TRUE } }

/-- The routine `fsm_timer1_restart_with_timeout_and_old_time`. -/
def fsm_timer1_restart_with_timeout_and_old_time {ε : Type} (restartvalue : Nat) (timeout : Nat) (m : FSM_MEM ε) : FSM_MEM ε :=
  { m with
    trans_input := m.trans_input &&& not32 FSM_TIMER1_BIT
    workspace := { m.workspace with
      timer1_timeout := timeout
      timer1_timeout_backup := timeout
      timer1 := restartvalue
      timer1_enable := TRUE } }

/-- The routine `fsm_timer1_disable`. -/
def fsm_timer1_disable {ε : Type} (m : FSM_MEM ε) : FSM_MEM ε :=
  { m with
    trans_input := m.trans_input &&& not32 FSM_TIMER1_BIT
    workspace := { m.workspace with
      timer1 := 0
      timer1_enable := FALSE } }

/-- The routine `fsm_timer1_stop`: stop without resetting the count. -/
def fsm_timer1_stop {ε : Type} (m : FSM_MEM ε) : FSM_MEM ε :=
  { m with
    trans_input := m.trans_input &&& not32 FSM_TIMER1_BIT
    workspace := { m.workspace with
      timer1_enable := FALSE } }

/-- The routine `fsm_timer1_start`: start without resetting the count. -/
def fsm_timer1_start {ε : Type} (m : FSM_MEM ε) : FSM_MEM ε :=
  { m with
    trans_input := m.trans_input &&& not32 FSM_TIMER1_BIT
    workspace := { m.workspace with
      timer1_enable := TRUE } }

/-- The routine `fsm_timer1_get_elapsed`. -/
def fsm_timer1_get_elapsed {ε : Type} (m : FSM_MEM ε) : Nat :=
  m.workspace.timer1

/-- The routine `fsm_timer1_get_timeout`. -/
def fsm_timer1_get_timeout {ε : Type} (m : FSM_MEM ε) : Nat :=
  m.workspace.timer1_timeout

/-- The routine `fsm_timer2_new_timeout`: a new timeout without restarting the count. -/
def fsm_timer2_new_timeout {ε : Type} (timeout : Nat) (m : FSM_MEM ε) : FSM_MEM ε :=
  { m with
    trans_input := m.trans_input &&& not32 FSM_TIMER2_BIT
    workspace := { m.workspace with
      timer2_timeout := timeout
      timer2_timeout_backup := timeout
      timer2_enable := TRUE } }

/-- The routine `fsm_timer2_restart_with_timeout_and_old_time`. -/
def fsm_timer2_restart_with_timeout_and_old_time {ε : Type} (restartvalue : Nat) (timeout : Nat) (m : FSM_MEM ε) : FSM_MEM ε :=
  { m with
    trans_input := m.trans_input &&& not32 FSM_TIMER2_BIT
    workspace := { m.workspace with
      timer2_timeout := timeout
      timer2_timeout_backup := timeout
      timer2 := restartvalue
      timer2_enable := TRUE } }

/-- The routine `fsm_timer2_disable`. -/
def fsm_timer2_disable {ε : Type} (m : FSM_MEM ε) : FSM_MEM ε :=
  { m with
    trans_input := m.trans_input &&& not32 FSM_TIMER2_BIT
    workspace := { m.workspace with
      timer2 := 0
      timer2_enable := FALSE } }

/-- The routine `fsm_timer2_stop`: stop without resetting the count. -/
def fsm_timer2_stop {ε : Type} (m : FSM_MEM ε) : FSM_MEM ε :=
  { m with
    trans_input := m.trans_input &&& not32 FSM_TIMER2_BIT
    workspace := { m.workspace with
      timer2_enable := FALSE } }

/-- The routine `fsm_timer2_start`: start without resetting the count. -/
def fsm_timer2_start {ε : Type} (m : FSM_MEM ε) : FSM_MEM ε :=
  { m with
    trans_input := m.trans_input &&& not32 FSM_TIMER2_BIT
    workspace := { m.workspace with
      timer2_enable := TRUE } }

/-- The routine `fsm_timer2_get_elapsed`. -/
def fsm_timer2_get_elapsed {ε : Type} (m : FSM_MEM ε) : Nat :=
  m.workspace.timer2

/-- The routine `fsm_timer2_get_timeout`. -/
def fsm_timer2_get_timeout {ε : Type} (m : FSM_MEM ε) : Nat :=
  m.workspace.timer2_timeout

/-- The routine `fsm_timer3_new_timeout`: a new timeout without restarting the count. -/
def fsm_timer3_new_timeout {ε : Type} (timeout : Nat) (m : FSM_MEM ε) : FSM_MEM ε :=
  { m with
    trans_input := m.trans_input &&& not32 FSM_TIMER3_BIT
    workspace := { m.workspace with
      timer3_timeout := timeout
      timer3_timeout_backup := timeout
      timer3_enable := TRUE } }

/-- The routine `fsm_timer3_restart_with_timeout_and_old_time`. -/
def fsm_timer3_restart_with_timeout_and_old_time {ε : Type} (restartvalue : Nat) (timeout : Nat) (m : FSM_MEM ε) : FSM_MEM ε :=
  { m with
    trans_input := m.trans_input &&& not32 FSM_TIMER3_BIT
    workspace := { m.workspace with
      timer3_timeout := timeout
      timer3_timeout_backup := timeout
      timer3 := restartvalue
      timer3_enable := TRUE } }

/-- The routine `fsm_timer3_disable`. -/
def fsm_timer3_disable {ε : Type} (m : FSM_MEM ε) : FSM_MEM ε :=
  { m with
    trans_input := m.trans_input &&& not32 FSM_TIMER3_BIT
    workspace := { m.workspace with
      timer3 := 0
      timer3_enable := FALSE } }

/-- The routine `fsm_timer3_stop`: stop without resetting the count. -/
def fsm_timer3_stop {ε : Type} (m : FSM_MEM ε) : FSM_MEM ε :=
  { m with
    trans_input := m.trans_input &&& not32 FSM_TIMER3_BIT
    workspace := { m.workspace with
      timer3_enable := FALSE } }

/-- The routine `fsm_timer3_start`: start without resetting the count. -/
def fsm_timer3_start {ε : Type} (m : FSM_MEM ε) : FSM_MEM ε :=
  { m with
    trans_input := m.trans_input &&& not32 FSM_TIMER3_BIT
    workspace := { m.workspace with
      timer3_enable := TRUE } }

/-- The routine `fsm_timer3_get_elapsed`. -/
def fsm_timer3_get_elapsed {ε : Type} (m : FSM_MEM ε) : Nat :=
  m.workspace.timer3

/-- The routine `fsm_timer3_get_timeout`. -/
def fsm_timer3_get_timeout {ε : Type} (m : FSM_MEM ε) : Nat :=
  m.workspace.timer3_timeout

/-- The routine `fsm_get_current_state`. -/
def fsm_get_current_state {ε : Type} (m : FSM_MEM ε) : Nat :=
  m.workspace.current_state

/-- The routine `fsm_clear_trans_history`. -/
def fsm_clear_trans_history {ε : Type} (m : FSM_MEM ε) : FSM_MEM ε :=
  { m with
    workspace := { m.workspace with
      last_input_word := RESERVED_INPUT_WORD_VALUE
      last_event_trans_cond_mask := RESERVED_INPUT_WORD_VALUE } }

/-! ## Uniform view of the three timers

The source repeats every timer routine three times.  To state a property once for
"timer k", the four fields of a timer, its input-word bit and its routines are
selected by an index `k` (`0`, `1`, `2` for timer 1, 2, 3). -/

/-- The four workspace fields of one timer. -/
structure FSM_TIMER_T where
  elapsed : Nat
  timeout : Nat
  timeout_backup : Nat
  enable : Nat
  deriving DecidableEq, Repr

/-- The fields of timer `k + 1` in a workspace. -/
def fsm_timer (k : Fin 3) (ws : FSM_WORKSPACE_T) : FSM_TIMER_T :=
  match k with
  | 0 => ⟨ws.timer1, ws.timer1_timeout, ws.timer1_timeout_backup, ws.timer1_enable⟩
  | 1 => ⟨ws.timer2, ws.timer2_timeout, ws.timer2_timeout_backup, ws.timer2_enable⟩
  | 2 => ⟨ws.timer3, ws.timer3_timeout, ws.timer3_timeout_backup, ws.timer3_enable⟩

/-- The input-word bit reserved for timer `k + 1`. -/
def fsm_timer_bit (k : Fin 3) : Nat :=
  match k with
  | 0 => FSM_TIMER1_BIT
  | 1 => FSM_TIMER2_BIT
  | 2 => FSM_TIMER3_BIT

/-- Whether the expiry bit of timer `k + 1` is set in an input word. -/
def fsm_timer_expired (k : Fin 3) (input : Nat) : Prop :=
  input &&& fsm_timer_bit k ≠ 0

instance (k : Fin 3) (input : Nat) : Decidable (fsm_timer_expired k input) :=
  inferInstanceAs (Decidable (_ ≠ _))

/-- The routine `fsm_timerK_enable` for `K = k + 1`. -/
def fsm_timer_enable {ε : Type} (k : Fin 3) (timeout : Nat) (m : FSM_MEM ε) : FSM_MEM ε :=
  match k with
  | 0 => fsm_timer1_enable timeout m
  | 1 => fsm_timer2_enable timeout m
  | 2 => fsm_timer3_enable timeout m

/-- The timer control calls that write the workspace, with their arguments. -/
inductive FSM_TIMER_CALL where
  | enable (timeout : Nat)
  | new_timeout (timeout : Nat)
  | restart_with_timeout_and_old_time (restartvalue timeout : Nat)
  | disable
  | stop
  | start
  deriving DecidableEq, Repr

/-- The routine `fsm_timerK_<call>` for `K = k + 1`. -/
def fsm_timer_control {ε : Type} (k : Fin 3) (c : FSM_TIMER_CALL) (m : FSM_MEM ε) : FSM_MEM ε :=
  match k, c with
  | 0, FSM_TIMER_CALL.enable t => fsm_timer1_enable t m
  | 0, FSM_TIMER_CALL.new_timeout t => fsm_timer1_new_timeout t m
  | 0, FSM_TIMER_CALL.restart_with_timeout_and_old_time v t =>
    fsm_timer1_restart_with_timeout_and_old_time v t m
  | 0, FSM_TIMER_CALL.disable => fsm_timer1_disable m
  | 0, FSM_TIMER_CALL.stop => fsm_timer1_stop m
  | 0, FSM_TIMER_CALL.start => fsm_timer1_start m
  | 1, FSM_TIMER_CALL.enable t => fsm_timer2_enable t m
  | 1, FSM_TIMER_CALL.new_timeout t => fsm_timer2_new_timeout t m
  | 1, FSM_TIMER_CALL.restart_with_timeout_and_old_time v t =>
    fsm_timer2_restart_with_timeout_and_old_time v t m
  | 1, FSM_TIMER_CALL.disable => fsm_timer2_disable m
  | 1, FSM_TIMER_CALL.stop => fsm_timer2_stop m
  | 1, FSM_TIMER_CALL.start => fsm_timer2_start m
  | 2, FSM_TIMER_CALL.enable t => fsm_timer3_enable t m
  | 2, FSM_TIMER_CALL.new_timeout t => fsm_timer3_new_timeout t m
  | 2, FSM_TIMER_CALL.restart_with_timeout_and_old_time v t =>
    fsm_timer3_restart_with_timeout_and_old_time v t m
  | 2, FSM_TIMER_CALL.disable => fsm_timer3_disable m
  | 2, FSM_TIMER_CALL.stop => fsm_timer3_stop m
  | 2, FSM_TIMER_CALL.start => fsm_timer3_start m

/-- The routine `fsm_timerK_get_elapsed` for `K = k + 1`. -/
def fsm_timer_get_elapsed {ε : Type} (k : Fin 3) (m : FSM_MEM ε) : Nat :=
  match k with
  | 0 => fsm_timer1_get_elapsed m
  | 1 => fsm_timer2_get_elapsed m
  | 2 => fsm_timer3_get_elapsed m

/-- The routine `fsm_timerK_get_timeout` for `K = k + 1`. -/
def fsm_timer_get_timeout {ε : Type} (k : Fin 3) (m : FSM_MEM ε) : Nat :=
  match k with
  | 0 => fsm_timer1_get_timeout m
  | 1 => fsm_timer2_get_timeout m
  | 2 => fsm_timer3_get_timeout m

/-- The position of the input-word bit reserved for timer `k + 1`. -/
def fsm_timer_bit_index (k : Fin 3) : Nat :=
  match k with
  | 0 => 31
  | 1 => 30
  | 2 => 29

/-- The fields of timer `k + 1` that a control call leaves behind, given the fields
`v` it found, as the specification lists them. -/
def fsm_timer_call_effect (c : FSM_TIMER_CALL) (v : FSM_TIMER_T) : FSM_TIMER_T :=
  match c with
  | FSM_TIMER_CALL.enable t => ⟨0, t, t, TRUE⟩
  | FSM_TIMER_CALL.new_timeout t => ⟨v.elapsed, t, t, TRUE⟩
  | FSM_TIMER_CALL.restart_with_timeout_and_old_time s t => ⟨s, t, t, TRUE⟩
  | FSM_TIMER_CALL.disable => ⟨0, v.timeout, v.timeout_backup, FALSE⟩
  | FSM_TIMER_CALL.stop => ⟨v.elapsed, v.timeout, v.timeout_backup, FALSE⟩
  | FSM_TIMER_CALL.start => ⟨v.elapsed, v.timeout, v.timeout_backup, TRUE⟩

/-! ## Assumptions on callbacks -/

/-- The callback leaves the workspace as it found it. -/
def fsm_keeps_workspace {ε : Type} (f : FSM_FUNCT ε) : Prop :=
  ∀ m, (f m).workspace = m.workspace

/-- The callback, when there is one, leaves the workspace as it found it. -/
def fsm_opt_keeps_workspace {ε : Type} (f : Option (FSM_FUNCT ε)) : Prop :=
  ∀ g, f = some g → fsm_keeps_workspace g

/-- No callback of the state descriptor writes the workspace. -/
def fsm_state_keeps_workspace {ε : Type} (sc : FSM_STATE_CONFIG_T ε) : Prop :=
  fsm_opt_keeps_workspace sc.entry_action_funct_ptr ∧
  fsm_opt_keeps_workspace sc.activity_funct_ptr ∧
  fsm_opt_keeps_workspace sc.exit_action_funct_ptr ∧
  ∀ t ∈ sc.state_trans_config_ptr, fsm_opt_keeps_workspace t.trans_funct_ptr

/-- The callback, when there is one, does not change `current_state`. -/
def fsm_opt_keeps_current_state {ε : Type} (f : Option (FSM_FUNCT ε)) : Prop :=
  ∀ g, f = some g → ∀ m, (g m).workspace.current_state = m.workspace.current_state

/-- What can be observed of timer `k + 1` in a memory: its four fields and its bit
of the input word. -/
def fsm_timer_obs {ε : Type} (k : Fin 3) (m : FSM_MEM ε) : FSM_TIMER_T × Nat :=
  (fsm_timer k m.workspace, m.trans_input &&& fsm_timer_bit k)

/-- The callback touches neither the fields of timer `k + 1` nor its input-word bit
(in particular it makes no control call for that timer). -/
def fsm_keeps_timer {ε : Type} (k : Fin 3) (g : FSM_FUNCT ε) : Prop :=
  ∀ m, fsm_timer_obs k (g m) = fsm_timer_obs k m

/-- The callback, when there is one, leaves timer `k + 1` alone. -/
def fsm_opt_keeps_timer {ε : Type} (k : Fin 3) (f : Option (FSM_FUNCT ε)) : Prop :=
  ∀ g, f = some g → fsm_keeps_timer k g

/-- No callback of the configuration, apart from the power-up callback, touches timer
`k + 1` or its input-word bit. -/
def fsm_config_keeps_timer {ε : Type} (k : Fin 3) (cfg : FSM_CONFIG_T ε) : Prop :=
  fsm_keeps_timer k cfg.process_inputs_funct_ptr ∧
  ∀ sc ∈ cfg.state_config_ptr,
    fsm_opt_keeps_timer k sc.entry_action_funct_ptr ∧
    fsm_opt_keeps_timer k sc.activity_funct_ptr ∧
    fsm_opt_keeps_timer k sc.exit_action_funct_ptr ∧
    ∀ t ∈ sc.state_trans_config_ptr, fsm_opt_keeps_timer k t.trans_funct_ptr

/-- One timer block of `fsm_process` (IF1/IF2, IF3/IF4, ...) seen on the
observation of that timer: `bit` is the timer's input-word bit. -/
def fsm_timer_tick (bit : Nat) (o : FSM_TIMER_T × Nat) : FSM_TIMER_T × Nat :=
  if FALSE ≠ o.1.enable then
    if o.1.elapsed < o.1.timeout ∧ o.1.elapsed < o.1.timeout_backup then
      ({ o.1 with elapsed := (o.1.elapsed + 1) % 2 ^ 32 }, o.2)
    else (o.1, bit)
  else o

/-- The log entries produced by `fsm_call`: one entry when the pointer is not null. -/
def fsm_call_log {ε : Type} (c : FSM_CALL) (f : Option (FSM_FUNCT ε)) : List FSM_CALL :=
  match f with
  | none => []
  | some _ => [c]

/-- The scan passes over rule `t`: it is not the end marker and fails the mask test
or the history test. -/
def fsm_rule_skipped {ε : Type} (input : Nat) (ws : FSM_WORKSPACE_T)
    (t : FSM_TRANS_CONFIG_T ε) : Prop :=
  FSM_TRANS_END ≠ t.next_state ∧ ¬ (fsm_trans_check input t ∧ fsm_race_check ws t)

/-- The scan takes the firing branch at rule `t`: it is not the end marker and
passes the mask test and the history test. -/
def fsm_rule_taken {ε : Type} (input : Nat) (ws : FSM_WORKSPACE_T)
    (t : FSM_TRANS_CONFIG_T ε) : Prop :=
  FSM_TRANS_END ≠ t.next_state ∧ fsm_trans_check input t ∧ fsm_race_check ws t

instance {ε : Type} (input : Nat) (ws : FSM_WORKSPACE_T) (t : FSM_TRANS_CONFIG_T ε) :
    Decidable (fsm_rule_skipped input ws t) :=
  inferInstanceAs (Decidable (_ ∧ _))

instance {ε : Type} (input : Nat) (ws : FSM_WORKSPACE_T) (t : FSM_TRANS_CONFIG_T ε) :
    Decidable (fsm_rule_taken input ws t) :=
  inferInstanceAs (Decidable (_ ∧ _))

/-! ## Sample configurations

Small tables and callbacks on which the engine is evaluated. -/

/-- A workspace with every field zero. -/
def sample_workspace : FSM_WORKSPACE_T :=
  ⟨0, 0, 0, 0, 0, 0, 0, 0, 0, 0, 0, 0, 0, 0, 0, 0⟩

/-- A run that starts from zeroed memory; `env` counts the input refreshes. -/
def sample_start : FSM_RUN Nat := ⟨⟨sample_workspace, 0, 0⟩, []⟩

/-- The end marker as it is written in the tables of `config.c`. -/
def sample_end : FSM_TRANS_CONFIG_T Nat := ⟨FSM_TRANS_END, 0, 0, none⟩

/-- A rule of state 0 that leads back to state 0 when bit 0 is set. -/
def sample_rule_self : FSM_TRANS_CONFIG_T Nat := ⟨0, 1, 1, some id⟩

/-- A rule of state 0 that leads to state 1 on every input word. -/
def sample_rule_other : FSM_TRANS_CONFIG_T Nat := ⟨1, 0, 0, some id⟩

/-- Input refresh that produces the word 1 on the first call and 3 afterwards. -/
def sample_inputs_1_3 : FSM_FUNCT Nat :=
  fun m => { m with trans_input := if m.env = 0 then 1 else 3, env := m.env + 1 }

/-- State 0 of the sample machine. -/
def sample_state0 : FSM_STATE_CONFIG_T Nat :=
  ⟨none, none, none, [sample_rule_self, sample_rule_other, sample_end]⟩

/-- State 1 of the sample machine: no rules. -/
def sample_state1 : FSM_STATE_CONFIG_T Nat := ⟨none, none, none, [sample_end]⟩

/-- Two states; state 0 has a self rule followed by a rule to state 1. -/
def sample_cfg : FSM_CONFIG_T Nat :=
  { initial_state := 0
    state_config_ptr := [sample_state0, sample_state1]
    process_inputs_funct_ptr := sample_inputs_1_3
    power_up_trans_funct_ptr := none }

/-- The sample machine in state 0 just after its self rule fired on the input word 1:
the history holds the word 1 and the condition mask 1. -/
def sample_after_self : FSM_RUN Nat :=
  ⟨⟨{ sample_workspace with last_input_word := 1, last_event_trans_cond_mask := 1 }, 1, 1⟩, []⟩

/-- Input refresh that produces the word 1 on every call. -/
def sample_inputs_1 : FSM_FUNCT Nat :=
  fun m => { m with trans_input := 1 }

/-- The sample machine with a constant input word. -/
def sample_cfg_const : FSM_CONFIG_T Nat :=
  { initial_state := 0
    state_config_ptr := [sample_state0, sample_state1]
    process_inputs_funct_ptr := sample_inputs_1
    power_up_trans_funct_ptr := none }

/-- Input refresh that produces the word 1 on the first call and `0xFFFFFFFF`
afterwards. -/
def sample_inputs_1_ones : FSM_FUNCT Nat :=
  fun m => { m with trans_input := if m.env = 0 then 1 else 0xFFFFFFFF, env := m.env + 1 }

/-- A rule that leads to state 1 when bit 0 is set. -/
def sample_rule_go : FSM_TRANS_CONFIG_T Nat := ⟨1, 1, 1, some id⟩

/-- A rule that leads to state 0 on every input word. -/
def sample_rule_back : FSM_TRANS_CONFIG_T Nat := ⟨0, 0, 0, some id⟩

/-- State 0 of the ping-pong machine, with all three actions present. -/
def sample_ping : FSM_STATE_CONFIG_T Nat :=
  ⟨some id, some id, some id, [sample_rule_go, sample_end]⟩

/-- State 1 of the ping-pong machine. -/
def sample_pong : FSM_STATE_CONFIG_T Nat :=
  ⟨some id, some id, some id, [sample_rule_back, sample_end]⟩

/-- Two states that lead to each other; the input word is 1, then all ones. -/
def sample_cfg_ping_pong : FSM_CONFIG_T Nat :=
  { initial_state := 0
    state_config_ptr := [sample_ping, sample_pong]
    process_inputs_funct_ptr := sample_inputs_1_ones
    power_up_trans_funct_ptr := none }

/-- The ping-pong machine with the input word 1, then 3. -/
def sample_cfg_ping_pong_3 : FSM_CONFIG_T Nat :=
  { initial_state := 0
    state_config_ptr := [sample_ping, sample_pong]
    process_inputs_funct_ptr := sample_inputs_1_3
    power_up_trans_funct_ptr := none }

/-- A machine with a single state that has no rules and an input refresh that leaves
the input word alone. -/
def sample_cfg_idle : FSM_CONFIG_T Nat :=
  { initial_state := 0
    state_config_ptr := [sample_state1]
    process_inputs_funct_ptr := fun m => m
    power_up_trans_funct_ptr := none }

/-- The idle machine with a power-up callback that enables timer 1. -/
def sample_cfg_power_up : FSM_CONFIG_T Nat :=
  { initial_state := 0
    state_config_ptr := [sample_state1]
    process_inputs_funct_ptr := fun m => m
    power_up_trans_funct_ptr := some (fsm_timer1_enable 5) }

/-- A rule of state 0 that leads back to state 0 on every input word and whose action
clears the transition history. -/
def sample_rule_any_self : FSM_TRANS_CONFIG_T Nat := ⟨0, 0, 0, some fsm_clear_trans_history⟩

/-- A machine whose only rule is `sample_rule_any_self`; the input word is 1, then
`0xFFFFFFFF`. -/
def sample_cfg_clear : FSM_CONFIG_T Nat :=
  { initial_state := 0
    state_config_ptr := [⟨none, none, none, [sample_rule_any_self, sample_end]⟩]
    process_inputs_funct_ptr := sample_inputs_1_ones
    power_up_trans_funct_ptr := none }

/-- A rule of state 0 that leads back to state 0 when bit 0 is set and whose condition
mask is `0xFFFFFFFF`. -/
def sample_rule_ones_self : FSM_TRANS_CONFIG_T Nat :=
  ⟨0, 0xFFFFFFFF, 1, some fsm_clear_trans_history⟩

/-- A machine whose only rule is `sample_rule_ones_self`; the input word is always 1. -/
def sample_cfg_ones : FSM_CONFIG_T Nat :=
  { initial_state := 0
    state_config_ptr := [⟨none, none, none, [sample_rule_ones_self, sample_end]⟩]
    process_inputs_funct_ptr := sample_inputs_1
    power_up_trans_funct_ptr := none }

/-- The run `sample_after_self` after a call of `fsm_clear_trans_history`. -/
def sample_after_clear : FSM_RUN Nat :=
  ⟨fsm_clear_trans_history sample_after_self.mem, []⟩

/-! ## Reachable runs and the timeout backups -/

/-- The runs of the engine: what `fsm_init` leaves, and from there every completed
`fsm_process` step and every timer control call. -/
inductive fsm_reachable {ε : Type} (cfg : FSM_CONFIG_T ε) : FSM_RUN ε → Prop where
  | init (r : FSM_RUN ε) : fsm_reachable cfg (fsm_init cfg r)
  | process (r r1 : FSM_RUN ε) :
      fsm_reachable cfg r → fsm_process cfg r = some r1 → fsm_reachable cfg r1
  | control (r : FSM_RUN ε) (k : Fin 3) (c : FSM_TIMER_CALL) :
      fsm_reachable cfg r → fsm_reachable cfg { r with mem := fsm_timer_control k c r.mem }

/-- In the workspace every timer's `timeout` equals its `timeout_backup`. -/
def fsm_timeouts_backed (ws : FSM_WORKSPACE_T) : Prop :=
  ws.timer1_timeout = ws.timer1_timeout_backup ∧
  ws.timer2_timeout = ws.timer2_timeout_backup ∧
  ws.timer3_timeout = ws.timer3_timeout_backup

instance (ws : FSM_WORKSPACE_T) : Decidable (fsm_timeouts_backed ws) :=
  inferInstanceAs (Decidable (_ ∧ _))

/-- The callback, when there is one, hands back a workspace whose timeouts equal their
backups whenever it found one: it leaves the workspace alone or changes it through
timer control calls. -/
def fsm_opt_keeps_backed {ε : Type} (f : Option (FSM_FUNCT ε)) : Prop :=
  ∀ g, f = some g → ∀ m, fsm_timeouts_backed m.workspace → fsm_timeouts_backed (g m).workspace

/-- Every callback of the configuration keeps the timeouts equal to their backups. -/
def fsm_config_keeps_backed {ε : Type} (cfg : FSM_CONFIG_T ε) : Prop :=
  fsm_opt_keeps_backed cfg.power_up_trans_funct_ptr ∧
  fsm_opt_keeps_backed (some cfg.process_inputs_funct_ptr) ∧
  ∀ sc ∈ cfg.state_config_ptr,
    fsm_opt_keeps_backed sc.entry_action_funct_ptr ∧
    fsm_opt_keeps_backed sc.activity_funct_ptr ∧
    fsm_opt_keeps_backed sc.exit_action_funct_ptr ∧
    ∀ t ∈ sc.state_trans_config_ptr, fsm_opt_keeps_backed t.trans_funct_ptr

/-- A callback of the sample machines that restarts timer 2 with a timeout of 7. -/
def sample_restart_timer2 : FSM_FUNCT Nat := fsm_timer2_enable 7

/-- The idle machine with an entry action that restarts timer 2 and a power-up
callback that enables timer 1. -/
def sample_cfg_timers : FSM_CONFIG_T Nat :=
  { initial_state := 0
    state_config_ptr := [⟨some sample_restart_timer2, none, none, [sample_end]⟩]
    process_inputs_funct_ptr := fun m => m
    power_up_trans_funct_ptr := some (fsm_timer1_enable 5) }

end Rhapsody

namespace Webtool
open Rhapsody

/-!
# The application: response parser, session manager and the shipped machine

Conventions:

* A C string is the list of its characters before the terminating NUL.  A function
  that can read behind the end of its string takes the character array the pointer
  leads into (`parse_getStatusCode`).
* `int` values are integers; a `long` converted to `int` is reduced to 32 bits in
  two's complement (the conversion made by the compilers of the Linux targets).
* What the operating system answers during one call of a routine is a parameter of
  that routine; the system calls a routine makes are appended to a log.
-/

/-! ## C library functions used by `parse.c` -/

/-- The C library function `strlen`. -/
def strlen (s : List Char) : Nat := s.length

/-- Whether the string `hay` begins with `needle`. -/
def str_starts : List Char → List Char → Bool
  | [], _ => true
  | _ :: _, [] => false
  | a :: as, b :: bs => a == b && str_starts as bs

/-- The C library function `strstr`: the offset of the first occurrence of `needle`
in `hay`, or `none` for the null pointer. -/
def strstr : List Char → List Char → Option Nat
  | [], needle => if str_starts needle [] then some 0 else none
  | c :: cs, needle =>
    if str_starts needle (c :: cs) then some 0 else (strstr cs needle).map (· + 1)

/-- The C library function `isspace` in the C locale. -/
def isspace (c : Char) : Bool :=
  c.toNat = 32 || (9 ≤ c.toNat && c.toNat ≤ 13)

/-- The C library function `isdigit`. -/
def isdigit (c : Char) : Bool :=
  48 ≤ c.toNat && c.toNat ≤ 57

/-- The digit loop of `strtol` in base 10: the value of the longest run of decimal
digits at the start of the string, on top of the value `acc` read so far. -/
def strtol_digits (acc : Nat) : List Char → Nat
  | [] => acc
  | c :: cs => if isdigit c then strtol_digits (10 * acc + (c.toNat - 48)) cs else acc

/-- The largest `long` (64 bits, the LP64 data model of the Linux targets). -/
def LONG_MAX : Int := 2 ^ 63 - 1

/-- The smallest `long`. -/
def LONG_MIN : Int := -(2 ^ 63)

/-- The C library function `strtol(s, NULL, 10)`: white space is skipped, a sign is
accepted, the decimal digits that follow are converted; a value outside the range
of `long` is replaced by `LONG_MAX` or `LONG_MIN`; without digits the result is 0. -/
def strtol (s : List Char) : Int :=
  match s.dropWhile isspace with
  | [] => 0
  | c :: cs =>
    if c = '-' then max LONG_MIN (-(strtol_digits 0 cs : Int))
    else if c = '+' then min LONG_MAX (strtol_digits 0 cs : Int)
    else min LONG_MAX (strtol_digits 0 (c :: cs) : Int)

/-- Conversion of a `long` to `int` (32 bits, two's complement). -/
def int_of_long (x : Int) : Int :=
  (x + 2 ^ 31) % 2 ^ 32 - 2 ^ 31

/-- Conversion of a `long` to `size_t` (64 bits). -/
def size_t_of_long (x : Int) : Nat :=
  (x % 2 ^ 64).toNat

/-- The C string at the start of a character array: the characters before the first
NUL. -/
def c_str (buf : List Char) : List Char :=
  buf.takeWhile (fun c => c.toNat != 0)

/-! ## The response parser (`parse.c`) -/

/-- The macro `CONTENT_LENGTH_STR`. -/
def CONTENT_LENGTH_STR : List Char := "Content-Length:".toList

/-- The macro `TRANSF_ENC_CHUNKED_STR`. -/
def TRANSF_ENC_CHUNKED_STR : List Char := "Transfer-Encoding: chunked".toList

/-- The macro `HTTP_HEADER_TERMINATION`. -/
def HTTP_HEADER_TERMINATION : List Char := "\r\n\r\n".toList

/-- The macro `MIN_GOOD_HTTP_STATUS`. -/
def MIN_GOOD_HTTP_STATUS : Int := 200

/-- The macro `MAX_GOOD_HTTP_STATUS`. -/
def MAX_GOOD_HTTP_STATUS : Int := 407

/-- The function `parse_fullHeaderFound`. -/
def parse_fullHeaderFound (strPtr : List Char) : Bool :=
  (strstr strPtr HTTP_HEADER_TERMINATION).isSome

/-- The function `parse_getContentStart`: the offset of the HTTP content.  When the
header termination is absent the C code adds 4 to a null pointer; this is `none`. -/
def parse_getContentStart (strPtr : List Char) : Option Nat :=
  (strstr strPtr HTTP_HEADER_TERMINATION).map (· + 4)

/-- The function `parse_getContentLength`. -/
def parse_getContentLength (strPtr : List Char) : Int :=
  if parse_fullHeaderFound strPtr then
    match strstr strPtr CONTENT_LENGTH_STR with
    | some i => int_of_long (strtol (strPtr.drop (i + strlen CONTENT_LENGTH_STR)))
    | none => -1
  else -1

/-- The function `parse_contentLengthFound`. -/
def parse_contentLengthFound (strPtr : List Char) : Bool :=
  (strstr strPtr CONTENT_LENGTH_STR).isSome

/-- The function `parse_entireContentReceived`.  The branch without header termination
is never taken: a content length `≥ 0` is only returned when the termination was
found. -/
def parse_entireContentReceived (strPtr : List Char) (bytesRcvd : Nat) : Bool :=
  let content_length := parse_getContentLength strPtr
  if content_length ≥ 0 then
    match strstr strPtr HTTP_HEADER_TERMINATION with
    | some i => decide (size_t_of_long (((i + 4 : Nat) : Int) + content_length) = bytesRcvd)
    | none => false
  else false

/-- The function `parse_fullDataChunkFound`; `none` when the content start is not a
valid pointer. -/
def parse_fullDataChunkFound (strPtr : List Char) : Option Bool :=
  match parse_getContentStart strPtr with
  | none => none
  | some content => some (strstr (strPtr.drop content) "0\r\n\r\n".toList).isSome

/-- The function `parse_getStatusCode`.  Its argument is the character array the
pointer leads into, not only the C string at its start: `strstr` searches the C string,
and `strtol` is then called on the address 8 characters behind the occurrence of
`HTTP/` without a look at the 3 characters in between.  When the string ends there
(a NUL less than 8 characters behind the start of `HTTP/`), `strtol` reads what the
array holds behind that NUL.  An array that ends before this address is read as
empty. -/
def parse_getStatusCode (strPtr : List Char) : Int :=
  match strstr (c_str strPtr) "HTTP/".toList with
  | some i => int_of_long (strtol (c_str (strPtr.drop (i + 8))))
  | none => -1

/-- The function `parse_goodStatusCode`. -/
def parse_goodStatusCode (code : Int) : Bool :=
  decide (code ≥ MIN_GOOD_HTTP_STATUS ∧ code ≤ MAX_GOOD_HTTP_STATUS)

/-- The function `parse_transferEncodingChunkedFound`. -/
def parse_transferEncodingChunkedFound (strPtr : List Char) : Bool :=
  (strstr strPtr TRANSF_ENC_CHUNKED_STR).isSome

/-- The response of the specification's round-trip scenario. -/
def sample_response : List Char :=
  "HTTP/1.1 200 OK\r\nContent-Length: 5\r\n\r\nhello".toList

/-- The offset `i` is where `needle` occurs first in `hay`. -/
def first_occurrence (needle hay : List Char) (i : Nat) : Prop :=
  i ≤ hay.length ∧ needle <+: hay.drop i ∧ ∀ j, j < i → ¬ needle <+: hay.drop j

/-- The number written by a string of decimal digits. -/
def decimal_value (ds : List Char) : Nat :=
  Nat.ofDigits 10 (ds.reverse.map (fun c => c.toNat - 48))

/-- A response whose declared content length is `4294967295`. -/
def sample_response_huge : List Char :=
  "HTTP/1.1 200 OK\r\nContent-Length: 4294967295\r\n\r\n".toList

/-! ## The session manager (`cloud.h`, `cloud.c`)

The diagnostics structure the session points to (`diags`) is owned by the session and
is a field here.  The receive and send buffers are the arrays the session points to;
the parser sees the C string at the start of the receive buffer, and where it reads
behind the end of that string, the buffer. -/

/-- The macro `CLOUD_SEND_BUF_LEN`. -/
def CLOUD_SEND_BUF_LEN : Nat := 2048

/-- The macro `CLOUD_RECV_BUF_LEN`. -/
def CLOUD_RECV_BUF_LEN : Nat := 1048576

/-- The macro `CLOUD_TCP_PORT_HTTP`. -/
def CLOUD_TCP_PORT_HTTP : Nat := 80

/-- The macro `CLOUD_INVALID_SOCKET`: `(int32_t)(~0)`. -/
def CLOUD_INVALID_SOCKET : Int := -1

/-- The macro `CLOUD_SOCKET_ERROR`. -/
def CLOUD_SOCKET_ERROR : Int := -1

/-- The system constant `INADDR_NONE`. -/
def INADDR_NONE : Nat := 0xFFFFFFFF

/-- The system constant `AF_INET`. -/
def AF_INET : Nat := 2

/-- The system function `htons` on a little-endian host. -/
def htons (x : Nat) : Nat := (x % 256) * 256 + (x / 256) % 256

/-- The socket address `CLOUD_SOCKADDR_T` (without the padding `sin_zero`). -/
structure CLOUD_SOCKADDR_T where
  sin_family : Nat
  sin_len : Nat
  sin_port : Nat
  sin_addr : Nat
  deriving DecidableEq, Repr

/-- The enumeration `CLOUD_SESSION_STATUS_T`. -/
inductive CLOUD_SESSION_STATUS_T where
  | CLOUD_SESSION_IDLE
  | CLOUD_SESSION_CREATE_SUCCESS
  | CLOUD_SESSION_CONNECT_PENDING
  | CLOUD_SESSION_CONNECT_SUCCESS
  | CLOUD_SESSION_SEND_PENDING
  | CLOUD_SESSION_SEND_SUCCESS
  | CLOUD_SESSION_RECV_PENDING
  | CLOUD_SESSION_RECV_SUCCESS
  | CLOUD_SESSION_FAILED
  deriving DecidableEq, Repr

open CLOUD_SESSION_STATUS_T

/-- The diagnostics `CLOUD_DIAGS_T`. -/
structure CLOUD_DIAGS_T where
  attempts : Nat
  sockFailures : Nat
  sendFailures : Nat
  lastHttpStatus : Nat
  deriving DecidableEq, Repr

/-- The session `CLOUD_SESSION_T`. -/
structure CLOUD_SESSION_T where
  name : List Char
  handle : Int
  status : CLOUD_SESSION_STATUS_T
  errorCode : Int
  totalBytesToSend : Int
  totalBytesSent : Int
  totalBytesRcvd : Int
  httpStatus : Int
  errorTime : Nat
  transStart : Nat
  sendBuf : List Char
  recvBuf : List Char
  recvBufLen : Nat
  recvComplete : Bool
  timeout : Bool
  diags : CLOUD_DIAGS_T
  deriving DecidableEq, Repr

/-- A system call made by the session manager, with the arguments that matter. -/
inductive CLOUD_SYSCALL where
  | inet_addr (name : List Char)
  | gethostbyname (name : List Char)
  | socket
  | setsockopt (fd : Int)
  | close (fd : Int)
  | connect (fd : Int)
  | select_write (fd : Int) (seconds : Nat)
  | select_read (fd : Int) (seconds : Nat)
  | getsockopt (fd : Int)
  | send (fd : Int) (start : Int) (len : Int)
  | recv (fd : Int) (offset : Int) (len : Nat)
  deriving DecidableEq, Repr

/-- What the session manager works on: the session, the static `serverIpAddr` of
`cloud.c` and the log of the system calls made so far. -/
structure CLOUD_MEM where
  session : CLOUD_SESSION_T
  serverIpAddr : CLOUD_SOCKADDR_T
  syscalls : List CLOUD_SYSCALL
  deriving DecidableEq, Repr

/-- The function `cloud_setSessionStatus`. -/
def cloud_setSessionStatus (s : CLOUD_SESSION_T) (status : CLOUD_SESSION_STATUS_T) :
    CLOUD_SESSION_T :=
  if s.status ≠ status then { s with status := status } else s

/-- The function `cloud_setSocketError`; `now` is the answer of
`utils_getCurrentTime`. -/
def cloud_setSocketError (now : Nat) (s : CLOUD_SESSION_T) (errCode : Int) : CLOUD_SESSION_T :=
  cloud_setSessionStatus
    { s with
      errorCode := errCode
      diags := { s.diags with sockFailures := (s.diags.sockFailures + 1) % 2 ^ 32 }
      errorTime := now
      totalBytesRcvd := 0
      totalBytesSent := 0 }
    CLOUD_SESSION_FAILED

/-- The function `cloud_handleSocketError`. -/
def cloud_handleSocketError (now : Nat) (c : CLOUD_MEM) (errCode : Int) : CLOUD_MEM :=
  let s1 := cloud_setSocketError now c.session errCode
  { c with
    session := { s1 with handle := CLOUD_INVALID_SOCKET }
    syscalls := c.syscalls ++ [CLOUD_SYSCALL.close s1.handle] }

/-- The function `cloud_packetIsSuccessful`. -/
def cloud_packetIsSuccessful (s : CLOUD_SESSION_T) : Bool :=
  parse_goodStatusCode s.httpStatus

/-- The function `cloud_recvComplete`: the result and the session it leaves.  The
chunk test is only reached when the header termination was found, where it has a
value.  The functions of `parse.c` that stay inside the string get the C string at
the start of `recvBuf`; `parse_getStatusCode`, which can read behind its end, gets the
array. -/
def cloud_recvComplete (s : CLOUD_SESSION_T) : Bool × CLOUD_SESSION_T :=
  if parse_fullHeaderFound (c_str s.recvBuf) then
    let httpStatus := parse_getStatusCode s.recvBuf
    let s1 : CLOUD_SESSION_T :=
      { s with
        httpStatus := httpStatus
        diags := { s.diags with lastHttpStatus := (httpStatus % 2 ^ 32).toNat } }
    if parse_transferEncodingChunkedFound (c_str s.recvBuf) then
      ((parse_fullDataChunkFound (c_str s.recvBuf)).getD false, s1)
    else if parse_contentLengthFound (c_str s.recvBuf) then
      (parse_entireContentReceived (c_str s.recvBuf) (size_t_of_long s.totalBytesRcvd), s1)
    else (true, s1)
  else (false, s)

/-- The function `cloud_resetSessionStatus`. -/
def cloud_resetSessionStatus (s : CLOUD_SESSION_T) : CLOUD_SESSION_T :=
  { cloud_setSessionStatus s CLOUD_SESSION_IDLE with
    errorCode := 0
    totalBytesRcvd := 0
    totalBytesSent := 0
    httpStatus := 0
    recvComplete := false
    timeout := false }

/-- What the system answers during one call of `cloud_initSession`. -/
structure CLOUD_INIT_IO where
  /-- The answer of `utils_getCurrentTime()` at the start of the call. -/
  now : Nat
  /-- The result of `inet_addr(serverName)`. -/
  inet_addr : Nat
  /-- The first address of `gethostbyname(serverName)`, `none` for a null result. -/
  gethostbyname : Option Nat
  /-- Whether `inet_ntoa` returned a string. -/
  inet_ntoa : Bool
  /-- The result of `socket(AF_INET, SOCK_STREAM, IPPROTO_TCP)`. -/
  socket : Int
  /-- The value of `errno` where the failure branch reads it for
  `cloud_handleSocketError`: after `socket`, after `setsockopt` on the handle that
  `socket` returned and after the log call.  On this branch the handle is invalid, so
  `setsockopt` has failed in between and has left its own error (`EBADF`); the error
  of `socket` is not what is read. -/
  errno : Int
  /-- The answer of `utils_getCurrentTime()` when the socket error is recorded. -/
  now_error : Nat

/-- The name resolution inside `cloud_initSession`: the new value of `serverIpAddr`
and the system calls made. -/
def cloud_initSession_resolve (io : CLOUD_INIT_IO) (serverName : List Char) (serverPort : Nat)
    (addr : CLOUD_SOCKADDR_T) : CLOUD_SOCKADDR_T × List CLOUD_SYSCALL :=
  if io.inet_addr = INADDR_NONE then
    let zero : CLOUD_SOCKADDR_T := ⟨0, 0, 0, 0⟩
    let addr1 : CLOUD_SOCKADDR_T :=
      match io.gethostbyname with
      | some a =>
        if io.inet_ntoa then
          { zero with sin_family := AF_INET, sin_addr := a, sin_port := htons serverPort }
        else zero
      | none => zero
    (addr1, [CLOUD_SYSCALL.inet_addr serverName, CLOUD_SYSCALL.gethostbyname serverName])
  else
    ({ addr with sin_family := AF_INET, sin_addr := io.inet_addr, sin_port := htons serverPort },
      [CLOUD_SYSCALL.inet_addr serverName])

/-- The function `cloud_initSession`: its result and the memory it leaves.
`setsockopt` is called on the handle whatever `socket` returned; the branch for an
invalid handle reads `errno` only after that call and the log call (`io.errno`). -/
def cloud_initSession (io : CLOUD_INIT_IO) (c : CLOUD_MEM) (serverName : List Char)
    (serverPort : Nat) : Bool × CLOUD_MEM :=
  let s0 : CLOUD_SESSION_T :=
    { c.session with
      transStart := io.now
      diags := { c.session.diags with attempts := (c.session.diags.attempts + 1) % 2 ^ 32 } }
  if CLOUD_INVALID_SOCKET ≠ s0.handle then
    (true, { c with session := s0 })
  else
    let s1 : CLOUD_SESSION_T := { s0 with handle := CLOUD_INVALID_SOCKET }
    if 0 = strlen serverName then
      (false, { c with session := s1 })
    else
      let res := cloud_initSession_resolve io serverName serverPort c.serverIpAddr
      if 0 ≠ res.1.sin_addr then
        let s2 : CLOUD_SESSION_T := { s1 with handle := io.socket }
        let c2 : CLOUD_MEM :=
          { session := s2
            serverIpAddr := res.1
            syscalls := c.syscalls ++ res.2 ++
              [CLOUD_SYSCALL.socket, CLOUD_SYSCALL.setsockopt io.socket] }
        if CLOUD_INVALID_SOCKET ≠ s2.handle then
          (true, { c2 with session := cloud_setSessionStatus s2 CLOUD_SESSION_CREATE_SUCCESS })
        else
          (false, cloud_handleSocketError io.now_error c2 io.errno)
      else
        (false, { session := s1, serverIpAddr := res.1, syscalls := c.syscalls ++ res.2 })

/-- The function `cloud_closeSession`. -/
def cloud_closeSession (c : CLOUD_MEM) : CLOUD_MEM :=
  let c1 : CLOUD_MEM :=
    if CLOUD_INVALID_SOCKET ≠ c.session.handle then
      { c with
        session := { c.session with handle := CLOUD_INVALID_SOCKET }
        syscalls := c.syscalls ++ [CLOUD_SYSCALL.close c.session.handle] }
    else c
  { c1 with session := cloud_resetSessionStatus c1.session }

/-! ### Connecting, sending and receiving

The answers of the system during one call are a record, one per function; `errno` is
read where the source reads it.  The byte counters are `int`: a sum or a difference is
reduced to the range of `int`.  The results of `connect`, `select`, `send` and `recv`
are compared as the source compares them. -/

/-- The macro `SEND_TIMEOUT_MS`. -/
def SEND_TIMEOUT_MS : Nat := 1000

/-- The macro `RECV_TIMEOUT_MS`. -/
def RECV_TIMEOUT_MS : Nat := 1000

/-- The macro `CONN_TIMEOUT_MS`. -/
def CONN_TIMEOUT_MS : Nat := 5000

/-- The system constant `EINPROGRESS` (Linux). -/
def EINPROGRESS : Int := 115

/-- The system constant `EWOULDBLOCK` (Linux). -/
def EWOULDBLOCK : Int := 11

/-- The function `utils_isTimerExpired` of `utils.c`; `now` is the answer of
`utils_getCurrentTime`, the difference is taken in `uint32_t`. -/
def utils_isTimerExpired (now start_time delta_time : Nat) : Bool :=
  decide ((((now : Int) - (start_time : Int)) % 2 ^ 32).toNat ≥ delta_time)

/-- The library function `memset` on the first `n` characters of an array. -/
def memset (buf : List Char) (c : Char) (n : Nat) : List Char :=
  List.replicate n c ++ buf.drop n

/-- The array after the system stored `data` from index `off` on; an array shown
shorter than `off` continues with NUL characters. -/
def store_at (buf : List Char) (off : Nat) (data : List Char) : List Char :=
  buf.take off ++ List.replicate (off - buf.length) (Char.ofNat 0) ++ data ++
    buf.drop (off + data.length)

/-- What the system answers during one call of `cloud_sessionConnect`. -/
structure CLOUD_CONNECT_IO where
  /-- The result of `connect`. -/
  connect : Int
  /-- The value of `errno` after `connect`. -/
  connect_errno : Int
  /-- The result of `select` in `cloud_finishConnect`. -/
  select : Int
  /-- Whether the handle is in `writefds` after `select`. -/
  writable : Bool
  /-- The value of `errno` after `select`. -/
  select_errno : Int
  /-- The result of `getsockopt`. -/
  getsockopt : Int
  /-- The value of `optVal` after `getsockopt`. -/
  optVal : Int
  /-- The answer of `utils_getCurrentTime()` when a socket error is recorded. -/
  now_error : Nat
  deriving DecidableEq, Repr

/-- What the system answers during one call of `cloud_sessionSend`. -/
structure CLOUD_SEND_IO where
  /-- The result of `select`. -/
  select : Int
  /-- Whether the handle is in `writefds` after `select`. -/
  writable : Bool
  /-- The result of `send`. -/
  send : Int
  /-- The value of `errno` after `send`. -/
  errno : Int
  /-- The answer of `utils_getCurrentTime()` when a socket error is recorded. -/
  now_error : Nat
  deriving DecidableEq, Repr

/-- What the system answers during one call of `cloud_sessionRecv`. -/
structure CLOUD_RECV_IO where
  /-- The result of `select`. -/
  select : Int
  /-- Whether the handle is in `readfds` after `select`. -/
  readable : Bool
  /-- The result of `recv`. -/
  recv : Int
  /-- The characters `recv` stored in the buffer. -/
  recv_data : List Char
  /-- The value of `errno` after `recv`. -/
  errno : Int
  /-- The answer of `utils_getCurrentTime()` when a socket error is recorded. -/
  now_error : Nat
  deriving DecidableEq, Repr

/-- What the system answers during one call of `cloud_sessionSendRecvAll`. -/
structure CLOUD_IO where
  /-- The answers for `cloud_sessionConnect`. -/
  connect : CLOUD_CONNECT_IO
  /-- The answers for `cloud_sessionSend`. -/
  send : CLOUD_SEND_IO
  /-- The answers for `cloud_sessionRecv`. -/
  recv : CLOUD_RECV_IO
  /-- The answer of `utils_getCurrentTime()` inside `utils_isTimerExpired`. -/
  now : Nat
  deriving DecidableEq, Repr

/-- The function `cloud_startConnect`. -/
def cloud_startConnect (io : CLOUD_CONNECT_IO) (c : CLOUD_MEM) : CLOUD_MEM :=
  let c1 : CLOUD_MEM :=
    { c with syscalls := c.syscalls ++ [CLOUD_SYSCALL.connect c.session.handle] }
  if io.connect ≤ 0 then
    if EINPROGRESS = io.connect_errno ∨ EWOULDBLOCK = io.connect_errno then
      { c1 with session := cloud_setSessionStatus c1.session CLOUD_SESSION_CONNECT_PENDING }
    else if io.connect = 0 then
      { c1 with session := cloud_setSessionStatus c1.session CLOUD_SESSION_CONNECT_SUCCESS }
    else
      cloud_handleSocketError io.now_error c1 io.connect_errno
  else c1

/-- The function `cloud_isSocketReady`: its result and the memory it leaves. -/
def cloud_isSocketReady (io : CLOUD_CONNECT_IO) (c : CLOUD_MEM) : Bool × CLOUD_MEM :=
  (decide (io.getsockopt = 0 ∧ io.optVal = 0),
    { c with syscalls := c.syscalls ++ [CLOUD_SYSCALL.getsockopt c.session.handle] })

/-- The function `cloud_finishConnect`. -/
def cloud_finishConnect (io : CLOUD_CONNECT_IO) (c : CLOUD_MEM) : CLOUD_MEM :=
  let c1 : CLOUD_MEM :=
    { c with
      syscalls := c.syscalls ++
        [CLOUD_SYSCALL.select_write c.session.handle (CONN_TIMEOUT_MS / 1000)] }
  if io.select ≥ 0 then
    if io.writable then
      let r := cloud_isSocketReady io c1
      if r.1 then
        { r.2 with session := cloud_setSessionStatus r.2.session CLOUD_SESSION_CONNECT_SUCCESS }
      else
        { r.2 with session := cloud_setSessionStatus r.2.session CLOUD_SESSION_CONNECT_PENDING }
    else
      cloud_handleSocketError io.now_error c1 io.select_errno
  else
    cloud_handleSocketError io.now_error c1 io.select_errno

/-- The function `cloud_sessionConnect`. -/
def cloud_sessionConnect (io : CLOUD_CONNECT_IO) (c : CLOUD_MEM) : CLOUD_MEM :=
  if CLOUD_SESSION_IDLE ≠ c.session.status ∧
      CLOUD_SESSION_CREATE_SUCCESS ≠ c.session.status ∧
      CLOUD_SESSION_CONNECT_PENDING ≠ c.session.status then c
  else
    let c1 : CLOUD_MEM :=
      if CLOUD_SESSION_CONNECT_PENDING ≠ c.session.status then cloud_startConnect io c else c
    if CLOUD_SESSION_CONNECT_PENDING = c1.session.status ∨
        CLOUD_SESSION_CONNECT_SUCCESS = c1.session.status then
      cloud_finishConnect io c1
    else c1

/-- The function `cloud_sessionSend`.  The difference `remain_bytes_to_send` is taken
in `int` (wrapping) and the start index is the counter as a `size_t`. -/
def cloud_sessionSend (io : CLOUD_SEND_IO) (c : CLOUD_MEM) : CLOUD_MEM :=
  if CLOUD_SESSION_IDLE ≠ c.session.status ∧
      CLOUD_SESSION_FAILED ≠ c.session.status ∧
      CLOUD_SESSION_CONNECT_SUCCESS ≠ c.session.status ∧
      CLOUD_SESSION_SEND_PENDING ≠ c.session.status then c
  else
    let s1 : CLOUD_SESSION_T :=
      if CLOUD_SESSION_SEND_PENDING ≠ c.session.status then
        { cloud_setSessionStatus c.session CLOUD_SESSION_SEND_PENDING with totalBytesSent := 0 }
      else c.session
    let c1 : CLOUD_MEM :=
      { c with
        session := s1
        syscalls := c.syscalls ++
          [CLOUD_SYSCALL.select_write s1.handle (SEND_TIMEOUT_MS / 1000)] }
    if io.select ≥ 0 then
      if io.writable then
        let start_index : Nat := size_t_of_long s1.totalBytesSent
        let remain_bytes_to_send : Int := int_of_long (s1.totalBytesToSend - s1.totalBytesSent)
        if remain_bytes_to_send < 0 then c1
        else
          let c2 : CLOUD_MEM :=
            { c1 with
              syscalls := c1.syscalls ++
                [CLOUD_SYSCALL.send s1.handle start_index remain_bytes_to_send] }
          if CLOUD_SOCKET_ERROR = io.send then
            if EINPROGRESS ≠ io.errno ∧ EWOULDBLOCK ≠ io.errno then
              cloud_handleSocketError io.now_error c2 io.errno
            else c2
          else
            let s2 : CLOUD_SESSION_T :=
              { s1 with totalBytesSent := int_of_long (s1.totalBytesSent + io.send) }
            if s2.totalBytesSent = s2.totalBytesToSend then
              { c2 with
                session :=
                  { cloud_setSessionStatus s2 CLOUD_SESSION_SEND_SUCCESS with
                    totalBytesSent := 0 } }
            else { c2 with session := s2 }
      else c1
    else c1

/-- The function `cloud_sessionRecv`.  The index into the receive buffer is the
counter `totalBytesRcvd`, the length offered to `recv` is `recvBufLen`. -/
def cloud_sessionRecv (io : CLOUD_RECV_IO) (c : CLOUD_MEM) : CLOUD_MEM :=
  if CLOUD_SESSION_IDLE ≠ c.session.status ∧
      CLOUD_SESSION_FAILED ≠ c.session.status ∧
      CLOUD_SESSION_SEND_SUCCESS ≠ c.session.status ∧
      CLOUD_SESSION_RECV_PENDING ≠ c.session.status then c
  else
    let s1 : CLOUD_SESSION_T :=
      if CLOUD_SESSION_RECV_PENDING ≠ c.session.status then
        { cloud_setSessionStatus c.session CLOUD_SESSION_RECV_PENDING with
          totalBytesRcvd := 0
          recvBuf := memset c.session.recvBuf (Char.ofNat 0) c.session.recvBufLen }
      else c.session
    let c1 : CLOUD_MEM :=
      { c with
        session := s1
        syscalls := c.syscalls ++
          [CLOUD_SYSCALL.select_read s1.handle (RECV_TIMEOUT_MS / 1000)] }
    if io.select ≥ 0 then
      if io.readable then
        let c2 : CLOUD_MEM :=
          { c1 with
            syscalls := c1.syscalls ++
              [CLOUD_SYSCALL.recv s1.handle s1.totalBytesRcvd s1.recvBufLen] }
        if CLOUD_SOCKET_ERROR = io.recv then
          if EINPROGRESS ≠ io.errno ∧ EWOULDBLOCK ≠ io.errno then
            cloud_handleSocketError io.now_error c2 io.errno
          else c2
        else if 0 = io.recv then
          { c2 with session := { s1 with recvComplete := true } }
        else
          let s2 : CLOUD_SESSION_T :=
            { s1 with
              recvBuf := store_at s1.recvBuf s1.totalBytesRcvd.toNat io.recv_data
              totalBytesRcvd := int_of_long (s1.totalBytesRcvd + io.recv) }
          let r := cloud_recvComplete s2
          if r.1 then
            let s3 : CLOUD_SESSION_T := { r.2 with recvComplete := true }
            if cloud_packetIsSuccessful s3 then
              { c2 with session := cloud_setSessionStatus s3 CLOUD_SESSION_RECV_SUCCESS }
            else { c2 with session := s3 }
          else { c2 with session := r.2 }
      else c1
    else c1

/-- The `switch` of `cloud_sessionSendRecvAll`: the step chosen by the status. -/
def cloud_sessionSendRecvAll_dispatch (io : CLOUD_IO) (c : CLOUD_MEM) : CLOUD_MEM :=
  match c.session.status with
  | CLOUD_SESSION_IDLE => c
  | CLOUD_SESSION_CONNECT_PENDING => cloud_sessionConnect io.connect c
  | CLOUD_SESSION_CONNECT_SUCCESS => cloud_sessionSend io.send c
  | CLOUD_SESSION_SEND_PENDING => cloud_sessionSend io.send c
  | CLOUD_SESSION_SEND_SUCCESS => cloud_sessionRecv io.recv c
  | CLOUD_SESSION_RECV_PENDING => cloud_sessionRecv io.recv c
  | CLOUD_SESSION_FAILED => c
  | CLOUD_SESSION_CREATE_SUCCESS => c
  | CLOUD_SESSION_RECV_SUCCESS => c

/-- The function `cloud_sessionSendRecvAll`: its result and the memory it leaves. -/
def cloud_sessionSendRecvAll (io : CLOUD_IO) (c : CLOUD_MEM) (timeoutSec : Nat) :
    Bool × CLOUD_MEM :=
  let c1 := cloud_sessionSendRecvAll_dispatch io c
  if CLOUD_SESSION_RECV_SUCCESS = c1.session.status then (true, c1)
  else if CLOUD_SESSION_RECV_PENDING = c1.session.status ∧ c1.session.recvComplete then
    (true, c1)
  else if timeoutSec > 0 then
    if utils_isTimerExpired io.now c1.session.transStart timeoutSec then
      (false, { c1 with session := { c1.session with timeout := true } })
    else (false, c1)
  else (false, c1)

/-- The function `cloud_startSessionAttempt`. -/
def cloud_startSessionAttempt (s : CLOUD_SESSION_T) : CLOUD_SESSION_T :=
  { cloud_setSessionStatus s CLOUD_SESSION_IDLE with
    totalBytesRcvd := 0
    totalBytesSent := 0 }

/-- The function `cloud_sessionConnectAndSend`; `io.now` is the answer of
`utils_getCurrentTime`. -/
def cloud_sessionConnectAndSend (io : CLOUD_IO) (c : CLOUD_MEM) : CLOUD_MEM :=
  let c0 : CLOUD_MEM := { c with session := { c.session with transStart := io.now } }
  let c1 : CLOUD_MEM :=
    if CLOUD_SESSION_CREATE_SUCCESS = c0.session.status then
      cloud_sessionConnect io.connect c0
    else c0
  if CLOUD_SESSION_CONNECT_SUCCESS = c1.session.status ∨
      CLOUD_SESSION_IDLE = c1.session.status then
    cloud_sessionSend io.send { c1 with session := cloud_startSessionAttempt c1.session }
  else c1

/-- A call of one of the functions `cloud.h` declares, with its arguments and the
answers of the system during the call. -/
inductive CLOUD_OP where
  | initSession (io : CLOUD_INIT_IO) (serverName : List Char) (serverPort : Nat)
  | sessionConnectAndSend (io : CLOUD_IO)
  | sessionSendRecvAll (io : CLOUD_IO) (timeoutSec : Nat)
  | closeSession
  | resetSessionStatus

/-- The memory of the session manager after the call `op`. -/
def cloud_op (op : CLOUD_OP) (c : CLOUD_MEM) : CLOUD_MEM :=
  match op with
  | CLOUD_OP.initSession io serverName serverPort =>
    (cloud_initSession io c serverName serverPort).2
  | CLOUD_OP.sessionConnectAndSend io => cloud_sessionConnectAndSend io c
  | CLOUD_OP.sessionSendRecvAll io timeoutSec => (cloud_sessionSendRecvAll io c timeoutSec).2
  | CLOUD_OP.closeSession => cloud_closeSession c
  | CLOUD_OP.resetSessionStatus => { c with session := cloud_resetSessionStatus c.session }

/-- The memory of the session manager after the calls `ops`, made in this order. -/
def cloud_run (ops : List CLOUD_OP) (c : CLOUD_MEM) : CLOUD_MEM :=
  ops.foldl (fun c1 op => cloud_op op c1) c

/-- A session as `task.c` declares it, with empty buffers. -/
def sample_session : CLOUD_SESSION_T :=
  { name := []
    handle := CLOUD_INVALID_SOCKET
    status := CLOUD_SESSION_IDLE
    errorCode := 0
    totalBytesToSend := 0
    totalBytesSent := 0
    totalBytesRcvd := 0
    httpStatus := 0
    errorTime := 0
    transStart := 0
    sendBuf := []
    recvBuf := []
    recvBufLen := CLOUD_RECV_BUF_LEN
    recvComplete := false
    timeout := false
    diags := ⟨0, 0, 0, 0⟩ }

/-- The memory of the session manager at program start. -/
def sample_cloud : CLOUD_MEM :=
  { session := sample_session, serverIpAddr := ⟨0, 0, 0, 0⟩, syscalls := [] }

/-- Answers of the system for a literal address and a socket with descriptor 3. -/
def sample_init_io : CLOUD_INIT_IO :=
  { now := 100, inet_addr := 0x0170A8C0, gethostbyname := none, inet_ntoa := true,
    socket := 3, errno := 0, now_error := 100 }

/-! ## The application task (`task.h`, `task.c`) -/

/-- The enumeration `SEND_STATUS_T`. -/
inductive SEND_STATUS_T where
  | SEND_NOT_READY
  | SEND_STARTING
  | SEND_STARTED
  | SEND_CONTINUE
  | SEND_COMPLETED
  deriving DecidableEq, Repr

open SEND_STATUS_T

/-- The macro `FSM_INIT_STATE` of `public.h`. -/
def FSM_INIT_STATE : Nat := 0

/-- The macro `FSM_IDLE_STATE` of `public.h`. -/
def FSM_IDLE_STATE : Nat := 1

/-- The macro `FSM_SEND_STATE` of `public.h`. -/
def FSM_SEND_STATE : Nat := 2

/-- The variables of `task.c`, with the memory of the session manager: `cloud.session`
is `sendSession` (its buffers are `cloudSendBuf` and `cloudRecvBuf`, its diagnostics
`sendDiags`). -/
structure TASK_ENV where
  task_completed : Bool
  send_errors : Int
  send_len : Int
  timer_start : Nat
  timer_count : Nat
  device_name : List Char
  device_addr : List Char
  target_file : List Char
  server_name : List Char
  server_port : Int
  cloud : CLOUD_MEM
  fsm_state : Int
  send_status : SEND_STATUS_T
  initialized : Bool
  data_sending : Bool
  deriving DecidableEq, Repr

/-- The function `setSendStatus`. -/
def setSendStatus (e : TASK_ENV) (status : SEND_STATUS_T) : TASK_ENV :=
  if e.send_status ≠ status then { e with send_status := status } else e

/-- The function `setState`. -/
def setState (e : TASK_ENV) (state : Int) : TASK_ENV :=
  if e.fsm_state ≠ state then { e with fsm_state := state } else e

/-- The function `initEntry`. -/
def initEntry (e : TASK_ENV) : TASK_ENV :=
  let e1 := setState e FSM_INIT_STATE
  if e1.initialized then { e1 with initialized := false } else e1

/-- The function `idleEntry`. -/
def idleEntry (e : TASK_ENV) : TASK_ENV :=
  let e1 := setState e FSM_IDLE_STATE
  if e1.data_sending then { e1 with data_sending := false } else e1

/-- The function `sendEntry`. -/
def sendEntry (e : TASK_ENV) : TASK_ENV :=
  setSendStatus (setState e FSM_SEND_STATE) SEND_NOT_READY

/-- The function `resetSessionStatus`. -/
def resetSessionStatus (e : TASK_ENV) : TASK_ENV :=
  { e with cloud := { e.cloud with session := cloud_resetSessionStatus e.cloud.session } }

/-- The function `checkSessionError`. -/
def checkSessionError (e : TASK_ENV) : Bool :=
  e.cloud.session.timeout || e.cloud.session.recvComplete ||
    decide (0 ≠ e.cloud.session.errorCode)

/-- The task functions that talk to the system (clock, network, files, console):
`initActivity`, `idleActivity`, `sendActivity` and `sendExit`.  They work on the
variables of the task and of the session manager, not on the engine's workspace or
input word. -/
structure TASK_ACTIVITY_T where
  initActivity : TASK_ENV → TASK_ENV
  idleActivity : TASK_ENV → TASK_ENV
  sendActivity : TASK_ENV → TASK_ENV
  sendExit : TASK_ENV → TASK_ENV

/-- The macro `SERVER_NAME_LEN`. -/
def SERVER_NAME_LEN : Nat := 128

/-- The macro `TARGET_FILE_LEN`. -/
def TARGET_FILE_LEN : Nat := 64

/-- The macro `DEVICE_NAME_LEN`. -/
def DEVICE_NAME_LEN : Nat := 32

/-- The macro `DEVICE_ADDR_LEN`. -/
def DEVICE_ADDR_LEN : Nat := 18

/-- The macro `TASK_SEND_LIMIT`. -/
def TASK_SEND_LIMIT : Int := 3

/-- The macro `TASK_SEND_TIMER`. -/
def TASK_SEND_TIMER : Nat := 5

/-- The macro `HTTP_BAD_REQUEST` of `parse.h`. -/
def HTTP_BAD_REQUEST : Int := 400

/-- The function `set_server_name`; the stored value is the string in the array. -/
def set_server_name (e : TASK_ENV) (name : List Char) : TASK_ENV :=
  if strlen name < SERVER_NAME_LEN then { e with server_name := name } else e

/-- The function `set_target_file`. -/
def set_target_file (e : TASK_ENV) (file : List Char) : TASK_ENV :=
  if strlen file < TARGET_FILE_LEN then { e with target_file := file } else e

/-- The function `set_device_addr`. -/
def set_device_addr (e : TASK_ENV) (addr : List Char) : TASK_ENV :=
  if strlen addr < DEVICE_ADDR_LEN then { e with device_addr := addr } else e

/-- The function `set_device_name`. -/
def set_device_name (e : TASK_ENV) (name : List Char) : TASK_ENV :=
  if strlen name < DEVICE_NAME_LEN then { e with device_name := name } else e

/-- The function `assambleSendBuffer`: the string it writes to the buffer. -/
def assambleSendBuffer (e : TASK_ENV) : List Char :=
  "GET /".toList ++ e.target_file ++ " HTTP/1.1\r\n".toList ++
  "Host: ".toList ++ e.server_name ++ "\r\n".toList ++
  "Device-Name: \"".toList ++ e.device_name ++ "\"\r\n".toList ++
  "Device-MAC: \"".toList ++ e.device_addr ++ "\"\r\n".toList ++
  "Connection: keep-alive\r\n".toList ++
  "Pragma: no-cache\r\n".toList ++
  "Cache-Control: no-cache\r\n".toList ++
  "Content-Type: application/x-www-form-urlencoded\r\n".toList ++
  "Content-Length: 0\r\n".toList ++
  "\r\n\r\n".toList

/-- What the system answers during one call of `sendActivity`: the answers for
`cloud_initSession` and those for the other functions of the session manager. -/
structure TASK_SEND_IO where
  /-- The answers for `cloud_initSession`. -/
  init : CLOUD_INIT_IO
  /-- The answers for `cloud_sessionConnectAndSend` and `cloud_sessionSendRecvAll`. -/
  cloud : CLOUD_IO

/-- The function `sendActivity` (console and log output left out). -/
def sendActivity (io : TASK_SEND_IO) (e : TASK_ENV) : TASK_ENV :=
  match e.send_status with
  | SEND_NOT_READY =>
    let r := cloud_initSession io.init e.cloud e.server_name (e.server_port % 2 ^ 16).toNat
    if r.1 then setSendStatus { e with cloud := r.2 } SEND_STARTING
    else { e with cloud := r.2, data_sending := false }
  | SEND_STARTING =>
    let msgBuf := assambleSendBuffer e
    let send_len : Int := int_of_long (strlen msgBuf)
    setSendStatus
      { e with
        send_len := send_len
        cloud := { e.cloud with
          session := { e.cloud.session with sendBuf := msgBuf, totalBytesToSend := send_len } } }
      SEND_STARTED
  | SEND_STARTED =>
    let c1 := cloud_sessionConnectAndSend io.cloud e.cloud
    if 0 = c1.session.errorCode then setSendStatus { e with cloud := c1 } SEND_CONTINUE
    else { e with cloud := c1, data_sending := false }
  | SEND_CONTINUE =>
    let r := cloud_sessionSendRecvAll io.cloud e.cloud TASK_SEND_TIMER
    if r.1 then
      let e1 : TASK_ENV := { e with cloud := r.2, data_sending := false }
      if HTTP_BAD_REQUEST > e1.cloud.session.httpStatus then setSendStatus e1 SEND_COMPLETED
      else e1
    else { e with cloud := r.2 }
  | SEND_COMPLETED => e

/-- The function `sendExit` (console, log and file output left out); `WEBGET` tells
whether the program is built with the macro of that name. -/
def sendExit (WEBGET : Bool) (e : TASK_ENV) : TASK_ENV :=
  let e1 : TASK_ENV :=
    if SEND_COMPLETED = e.send_status then
      let e2 : TASK_ENV := { e with send_errors := 0 }
      if WEBGET then { e2 with task_completed := true } else e2
    else
      let e2 : TASK_ENV := { e with send_errors := int_of_long (e.send_errors + 1) }
      if WEBGET then
        if e2.send_errors ≥ TASK_SEND_LIMIT ∨ SEND_CONTINUE ≠ e2.send_status then
          { e2 with task_completed := true }
        else e2
      else if e2.send_errors ≥ TASK_SEND_LIMIT then
        { e2 with send_errors := 0, initialized := false }
      else e2
  { e1 with cloud := cloud_closeSession e1.cloud }

/-! ## Input word (`input.c`) -/

/-- The macro `CLR_NON_TIMER_BITS`. -/
def CLR_NON_TIMER_BITS : Nat := 0xE0000000

/-- The table `bitmasks_32` of `input.c`, entry for entry the table of `rhapsody.c`. -/
def bitmasks_32 : List Nat := bitmasks_32bit

/-- The macro `INITIALIZED`. -/
def INITIALIZED : Nat := bitmasks_32.getD 0 0

/-- The macro `DATA_SENDING`. -/
def DATA_SENDING : Nat := bitmasks_32.getD 1 0

/-- The macro `SEND_RECOVER`. -/
def SEND_RECOVER : Nat := bitmasks_32.getD 2 0

/-- The macro `RUN_CONDITION`. -/
def RUN_CONDITION : Nat := bitmasks_32.getD 3 0

/-- The macro `SET_INP_BIT` of `rhapsody.h`. -/
def SET_INP_BIT (input_word bit_mask : Nat) : Nat := input_word ||| bit_mask

/-- The macro `CLR_INP_BIT` of `rhapsody.h`. -/
def CLR_INP_BIT (input_word bit_mask : Nat) : Nat := input_word &&& not32 bit_mask

/-- The function `write_bit`, on the input word `fsm_trans_input`. -/
def write_bit (mask : Nat) (condition : Bool) (fsm_trans_input : Nat) : Nat :=
  if condition then SET_INP_BIT fsm_trans_input mask else CLR_INP_BIT fsm_trans_input mask

/-- The function `fsm_process_inputs`. -/
def fsm_process_inputs (m : FSM_MEM TASK_ENV) : FSM_MEM TASK_ENV :=
  let w0 := m.trans_input &&& CLR_NON_TIMER_BITS
  let w1 := write_bit INITIALIZED m.env.initialized w0
  let w2 := write_bit DATA_SENDING m.env.data_sending w1
  let w3 :=
    if (FSM_SEND_STATE : Int) = m.env.fsm_state then
      write_bit SEND_RECOVER (checkSessionError m.env) w2
    else w2
  let w4 := write_bit RUN_CONDITION true w3
  { m with trans_input := w4 }

/-! ## Callbacks and tables of the shipped machine (`functs.c`, `config.c`) -/

/-- A function of `functs.c` that only calls a function of the task. -/
def task_call (g : TASK_ENV → TASK_ENV) : FSM_FUNCT TASK_ENV :=
  fun m => { m with env := g m.env }

/-- The functions that `config.c` refers to by name. -/
structure FSM_FUNCTS_T (ε : Type) where
  init_state_entry : FSM_FUNCT ε
  idle_state_entry : FSM_FUNCT ε
  send_state_entry : FSM_FUNCT ε
  init_state_act : FSM_FUNCT ε
  idle_state_act : FSM_FUNCT ε
  send_state_act : FSM_FUNCT ε
  send_state_exit : FSM_FUNCT ε
  idle_state_to_send_state1 : FSM_FUNCT ε
  fsm_process_inputs : FSM_FUNCT ε

/-- The functions of `functs.c` and `input.c`, over the task functions `a`. -/
def functs (a : TASK_ACTIVITY_T) : FSM_FUNCTS_T TASK_ENV :=
  { init_state_entry := task_call initEntry
    idle_state_entry := task_call idleEntry
    send_state_entry := task_call sendEntry
    init_state_act := task_call a.initActivity
    idle_state_act := task_call a.idleActivity
    send_state_act := task_call a.sendActivity
    send_state_exit := task_call a.sendExit
    idle_state_to_send_state1 := task_call resetSessionStatus
    fsm_process_inputs := fsm_process_inputs }

/-- The function `send_state_to_send_state2` of `functs.c` (no table refers to it). -/
def send_state_to_send_state2 : FSM_FUNCT TASK_ENV := fsm_clear_trans_history

/-- The table `init_state_trans_config`. -/
def init_state_trans_config {ε : Type} : List (FSM_TRANS_CONFIG_T ε) :=
  [ ⟨FSM_IDLE_STATE, 0x00000009, 0x00000009, none⟩,
    ⟨FSM_TRANS_END, 0, 0, none⟩ ]

/-- The table `idle_state_trans_config`. -/
def idle_state_trans_config {ε : Type} (f : FSM_FUNCTS_T ε) : List (FSM_TRANS_CONFIG_T ε) :=
  [ ⟨FSM_SEND_STATE, 0x0000000B, 0x0000000B, some f.idle_state_to_send_state1⟩,
    ⟨FSM_INIT_STATE, 0x00000001, 0x00000009, none⟩,
    ⟨FSM_INIT_STATE, 0x00000000, 0x00000001, none⟩,
    ⟨FSM_TRANS_END, 0, 0, none⟩ ]

/-- The table `send_state_trans_config`. -/
def send_state_trans_config {ε : Type} : List (FSM_TRANS_CONFIG_T ε) :=
  [ ⟨FSM_INIT_STATE, 0x00000001, 0x00000009, none⟩,
    ⟨FSM_INIT_STATE, 0x00000000, 0x00000001, none⟩,
    ⟨FSM_IDLE_STATE, 0x00000000, 0x00000002, none⟩,
    ⟨FSM_IDLE_STATE, 0x00000004, 0x00000004, none⟩,
    ⟨FSM_TRANS_END, 0, 0, none⟩ ]

/-- The entry of `fsm_state_config` for the init state. -/
def init_state_config {ε : Type} (f : FSM_FUNCTS_T ε) : FSM_STATE_CONFIG_T ε :=
  ⟨some f.init_state_entry, some f.init_state_act, none, init_state_trans_config⟩

/-- The entry of `fsm_state_config` for the idle state. -/
def idle_state_config {ε : Type} (f : FSM_FUNCTS_T ε) : FSM_STATE_CONFIG_T ε :=
  ⟨some f.idle_state_entry, some f.idle_state_act, none, idle_state_trans_config f⟩

/-- The entry of `fsm_state_config` for the send state. -/
def send_state_config {ε : Type} (f : FSM_FUNCTS_T ε) : FSM_STATE_CONFIG_T ε :=
  ⟨some f.send_state_entry, some f.send_state_act, some f.send_state_exit,
    send_state_trans_config⟩

/-- The table `fsm_state_config`. -/
def fsm_state_config {ε : Type} (f : FSM_FUNCTS_T ε) : List (FSM_STATE_CONFIG_T ε) :=
  [init_state_config f, idle_state_config f, send_state_config f]

/-- The configuration `fsm_config`. -/
def fsm_config {ε : Type} (f : FSM_FUNCTS_T ε) : FSM_CONFIG_T ε :=
  { initial_state := FSM_INIT_STATE
    state_config_ptr := fsm_state_config f
    process_inputs_funct_ptr := f.fsm_process_inputs
    power_up_trans_funct_ptr := none }

/-- Task variables of an initialised device that waits in the idle state. -/
def sample_task_env : TASK_ENV :=
  { task_completed := false
    send_errors := 0
    send_len := 0
    timer_start := 0
    timer_count := 0
    device_name := "anonymous".toList
    device_addr := "00:00:00:00:00:00".toList
    target_file := "alive".toList
    server_name := "192.168.112.1".toList
    server_port := 80
    cloud := sample_cloud
    fsm_state := 1
    send_status := SEND_NOT_READY
    initialized := true
    data_sending := false }

/-- Task functions for the samples: the idle activity asks for a transmission, the
others do nothing. -/
def sample_activity : TASK_ACTIVITY_T :=
  { initActivity := fun e => e
    idleActivity := fun e => { e with data_sending := true, timer_count := e.timer_count + 1 }
    sendActivity := fun e => e
    sendExit := fun e => e }

/-- The shipped machine in the idle state, the last input word seen being 9. -/
def sample_idle_run : FSM_RUN TASK_ENV :=
  ⟨⟨{ sample_workspace with current_state := 1, last_input_word := 9 }, 9, sample_task_env⟩, []⟩

/-- Answers of the system for a name that is no address and cannot be resolved. -/
def sample_init_io_unresolved : CLOUD_INIT_IO :=
  { now := 100, inet_addr := INADDR_NONE, gethostbyname := none, inet_ntoa := false,
    socket := 3, errno := 0, now_error := 100 }

/-- Answers of the system for a literal address when no socket can be created: where
`errno` is read it is `EBADF` (9), left by `setsockopt` on the invalid handle. -/
def sample_init_io_nosocket : CLOUD_INIT_IO :=
  { now := 100, inet_addr := 0x0170A8C0, gethostbyname := none, inet_ntoa := true,
    socket := -1, errno := 9, now_error := 101 }

/-- The memory of the session manager with an open socket (descriptor 3), the given
status and a request of ten characters to send. -/
def sample_cloud_open (status : CLOUD_SESSION_STATUS_T) : CLOUD_MEM :=
  { sample_cloud with
    session :=
      { sample_session with
        handle := 3
        status := status
        totalBytesToSend := 10
        sendBuf := "GET / HTTP".toList } }

/-- Answers of the system for a connect in progress whose wait ends with the socket
not writable. -/
def sample_connect_io_not_writable : CLOUD_CONNECT_IO :=
  { connect := -1, connect_errno := EINPROGRESS, select := 0, writable := false,
    select_errno := EINPROGRESS, getsockopt := 0, optVal := 0, now_error := 200 }

/-- Answers of the system for a connect in progress whose wait ends with the socket
writable and the pending error `ECONNREFUSED`. -/
def sample_connect_io_refused : CLOUD_CONNECT_IO :=
  { connect := -1, connect_errno := EINPROGRESS, select := 1, writable := true,
    select_errno := EINPROGRESS, getsockopt := 0, optVal := 111, now_error := 200 }

/-- Answers of the system for a connect in progress whose wait ends with the socket
writable and no pending error. -/
def sample_connect_io_ready : CLOUD_CONNECT_IO :=
  { connect := -1, connect_errno := EINPROGRESS, select := 1, writable := true,
    select_errno := EINPROGRESS, getsockopt := 0, optVal := 0, now_error := 200 }

/-- Answers of the system for a send step: the socket is writable and `send` returns
`ret` with `errno` equal to `err`. -/
def sample_send_io (ret err : Int) : CLOUD_SEND_IO :=
  { select := 1, writable := true, send := ret, errno := err, now_error := 300 }

/-- The idle session manager with an open socket when the caller asks for `-1`
characters to be sent. -/
def sample_cloud_negative_length : CLOUD_MEM :=
  { sample_cloud with
    session := { (sample_cloud_open CLOUD_SESSION_IDLE).session with totalBytesToSend := -1 } }

/-- Answers of the system for a receive step: the socket is readable and `recv` returns
`ret`, having stored `data`, with `errno` equal to `err`. -/
def sample_recv_io (ret : Int) (data : List Char) (err : Int) : CLOUD_RECV_IO :=
  { select := 1, readable := true, recv := ret, recv_data := data, errno := err,
    now_error := 400 }

/-- Answers of the system for one call of `cloud_sessionSendRecvAll` at time `now` in
which a receive step would get the answers `rcv`. -/
def sample_io (rcv : CLOUD_RECV_IO) (now : Nat) : CLOUD_IO :=
  { connect := sample_connect_io_ready, send := sample_send_io 10 0, recv := rcv, now := now }

/-- What a socket-level failure with error code `err` leaves of the session `s`: the
session `s1` has no handle, is failed, holds the error code, counts one socket failure
more (a 32-bit counter) and has both byte counters at 0. -/
def socket_failure_recorded (s s1 : CLOUD_SESSION_T) (err : Int) : Prop :=
  s1.handle = CLOUD_INVALID_SOCKET ∧ s1.status = CLOUD_SESSION_FAILED ∧
  s1.errorCode = err ∧
  s1.diags.sockFailures = (s.diags.sockFailures + 1) % 2 ^ 32 ∧
  s1.totalBytesSent = 0 ∧ s1.totalBytesRcvd = 0

instance (s s1 : CLOUD_SESSION_T) (err : Int) : Decidable (socket_failure_recorded s s1 err) := by
  unfold socket_failure_recorded
  infer_instance

/-- The session manager in the middle of a receive: five characters of the response
have arrived in the receive buffer of `CLOUD_RECV_BUF_LEN` characters (shown up to
them). -/
def sample_cloud_receiving : CLOUD_MEM :=
  { sample_cloud with
    session :=
      { (sample_cloud_open CLOUD_SESSION_RECV_PENDING).session with
        totalBytesRcvd := 5
        recvBuf := "HTTP/".toList } }

/-- A session manager whose receive buffer has 16 characters, the request sent. -/
def sample_cloud_small : CLOUD_MEM :=
  { sample_cloud with
    session :=
      { (sample_cloud_open CLOUD_SESSION_SEND_SUCCESS).session with
        recvBuf := List.replicate 16 'x'
        recvBufLen := 16 } }

/-- A chunked response of which the beginning has arrived: the first chunk has 16
characters (size line `10`) and its data begin with a line break. -/
def sample_response_chunk_begun : List Char :=
  "HTTP/1.1 200 OK\r\nTransfer-Encoding: chunked\r\n\r\n10\r\n\r\nabc".toList

/-- A chunked response of which the beginning has arrived: the data of its first chunk
contain the characters `0`, CR, LF, CR, LF. -/
def sample_response_chunk_data : List Char :=
  "HTTP/1.1 200 OK\r\nTransfer-Encoding: chunked\r\n\r\n20\r\nx0\r\n\r\ny".toList

/-- Whether the body contains a zero-length chunk as the specification describes it:
a chunk-size line that is exactly `0`, at the very start of the body or directly after
a CRLF, followed by CRLF CRLF. -/
def zero_chunk_line (body : List Char) : Bool :=
  (List.range (body.length + 1)).any (fun i =>
    str_starts "0\r\n\r\n".toList (body.drop i) &&
      (i == 0 || (decide (2 ≤ i) && str_starts "\r\n".toList (body.drop (i - 2)))))

/-- A failed session has no open socket. -/
def cloud_failed_closed (s : CLOUD_SESSION_T) : Prop :=
  s.status = CLOUD_SESSION_FAILED → s.handle = CLOUD_INVALID_SOCKET

/-- A session with status `CLOUD_SESSION_RECV_SUCCESS` has `recvComplete` set and an
HTTP status that `parse_goodStatusCode` accepts. -/
def cloud_success_complete (s : CLOUD_SESSION_T) : Prop :=
  s.status = CLOUD_SESSION_RECV_SUCCESS →
    s.recvComplete = true ∧ parse_goodStatusCode s.httpStatus = true

/-- The counters of the diagnostics after a step of the session manager that is not
`cloud_initSession`: `attempts` and `sendFailures` are as before and `sockFailures` is
as before or, in a session that is now failed, incremented by one (a 32-bit counter). -/
def cloud_counters_step (s s1 : CLOUD_SESSION_T) : Prop :=
  s1.diags.attempts = s.diags.attempts ∧
  s1.diags.sendFailures = s.diags.sendFailures ∧
  (s1.diags.sockFailures = s.diags.sockFailures ∨
    (s1.status = CLOUD_SESSION_FAILED ∧
      s1.diags.sockFailures = (s.diags.sockFailures + 1) % 2 ^ 32))

/-- What every step of the session manager keeps: a failed session has no open
socket, a successful one is complete, and the counters move as
`cloud_counters_step` says. -/
def cloud_step_ok (s s1 : CLOUD_SESSION_T) : Prop :=
  (cloud_failed_closed s → cloud_failed_closed s1) ∧
  (cloud_success_complete s → cloud_success_complete s1) ∧
  cloud_counters_step s s1

/-- Whether the call is a call of `cloud_initSession`. -/
def cloud_op_is_init : CLOUD_OP → Bool
  | CLOUD_OP.initSession _ _ _ => true
  | _ => false

/-- Answers of the system for one call in which the connection is refused at once. -/
def sample_io_refused : CLOUD_IO :=
  { connect :=
      { connect := -1, connect_errno := 111, select := 0, writable := false,
        select_errno := 111, getsockopt := 0, optVal := 0, now_error := 200 }
    send := sample_send_io 10 0
    recv := sample_recv_io 0 [] 0
    now := 101 }

/-- A run of the session manager: the session is opened, the connection is refused,
and the session is opened again. -/
def sample_ops_refused : List CLOUD_OP :=
  [CLOUD_OP.initSession sample_init_io "192.168.112.1".toList 80,
    CLOUD_OP.sessionConnectAndSend sample_io_refused,
    CLOUD_OP.sessionSendRecvAll sample_io_refused 5,
    CLOUD_OP.initSession sample_init_io "192.168.112.1".toList 80]

/-- The session manager before a first exchange: no socket, a request of ten
characters to send and a receive buffer of 32 characters. -/
def sample_cloud_ready : CLOUD_MEM :=
  { sample_cloud with
    session :=
      { sample_session with
        totalBytesToSend := 10
        sendBuf := "GET / HTTP".toList
        recvBuf := List.replicate 32 'x'
        recvBufLen := 32 } }

/-- Answers of the system for calls in which everything succeeds at once: the
connection is made, the ten characters are sent and the response `rsp` arrives in one
piece. -/
def sample_io_ok (rsp : List Char) : CLOUD_IO :=
  { connect :=
      { connect := 0, connect_errno := 0, select := 1, writable := true,
        select_errno := 0, getsockopt := 0, optVal := 0, now_error := 200 }
    send := sample_send_io 10 0
    recv := sample_recv_io rsp.length rsp 0
    now := 101 }

/-- A complete exchange: the session is opened, connected, the request sent and the
response `rsp` received. -/
def sample_ops_exchange (rsp : List Char) : List CLOUD_OP :=
  [CLOUD_OP.initSession sample_init_io "192.168.112.1".toList 80,
    CLOUD_OP.sessionConnectAndSend (sample_io_ok rsp),
    CLOUD_OP.sessionSendRecvAll (sample_io_ok rsp) 5]

/-- The task in the send state, waiting for the response to its request, after two
failed exchanges. -/
def sample_task_env_waiting : TASK_ENV :=
  { sample_task_env with
    fsm_state := 2
    send_status := SEND_CONTINUE
    send_errors := 2
    data_sending := true
    cloud := sample_cloud_open CLOUD_SESSION_RECV_PENDING }

/-- Answers of the system for a call of `sendActivity` in which the server closes the
connection: the socket is readable and `recv` returns 0. -/
def sample_task_io_closed : TASK_SEND_IO :=
  { init := sample_init_io, cloud := sample_io (sample_recv_io 0 [] 0) 101 }

/-- No callback of the shipped machine writes the workspace of the engine. -/
def fsm_functs_keep_workspace {ε : Type} (f : FSM_FUNCTS_T ε) : Prop :=
  fsm_keeps_workspace f.init_state_entry ∧ fsm_keeps_workspace f.idle_state_entry ∧
  fsm_keeps_workspace f.send_state_entry ∧ fsm_keeps_workspace f.init_state_act ∧
  fsm_keeps_workspace f.idle_state_act ∧ fsm_keeps_workspace f.send_state_act ∧
  fsm_keeps_workspace f.send_state_exit ∧ fsm_keeps_workspace f.idle_state_to_send_state1 ∧
  fsm_keeps_workspace f.fsm_process_inputs

/-- The state numbers of `public.h`: `current_state` is one of the three states. -/
def fsm_state_in_range (s : Nat) : Prop :=
  s = FSM_INIT_STATE ∨ s = FSM_IDLE_STATE ∨ s = FSM_SEND_STATE

instance (s : Nat) : Decidable (fsm_state_in_range s) :=
  inferInstanceAs (Decidable (_ ∨ _ ∨ _))

/-- Zeroed memory of the engine around the task variables of the samples. -/
def sample_task_start : FSM_RUN TASK_ENV := ⟨⟨sample_workspace, 0, sample_task_env⟩, []⟩

/-- Received characters in which the string ends right behind `HTTP/`: CR LF CR LF,
`HTTP/`, a NUL, and `xx404`. -/
def sample_response_nul : List Char :=
  "\r\n\r\nHTTP/".toList ++ [Char.ofNat 0] ++ "xx404".toList

end Webtool

namespace Rhapsody

/-! ## Basic facts about the scan -/

theorem fsm_scan_eq_find {ε : Type} (sc : FSM_STATE_CONFIG_T ε) (s : Nat)
    (tbl : List (FSM_TRANS_CONFIG_T ε)) (r : FSM_RUN ε) :
    fsm_scan sc s tbl r =
      (fsm_find_trans r.mem.trans_input r.mem.workspace tbl).map
        (fun o => match o with
          | none => r
          | some t => fsm_fire sc s t r) := by
  induction tbl with
  | nil => rfl
  | cons t rest ih =>
    by_cases h1 : FSM_TRANS_END ≠ t.next_state
    · by_cases h2 : fsm_trans_check r.mem.trans_input t
      · by_cases h3 : fsm_race_check r.mem.workspace t
        · simp [fsm_scan, fsm_find_trans, h1, h2, h3]
        · simp [fsm_scan, fsm_find_trans, h1, h2, h3, ih]
      · simp [fsm_scan, fsm_find_trans, h1, h2, ih]
    · simp [fsm_scan, fsm_find_trans, h1]

theorem testBit_eq_false_of_lt_32 (x i : Nat) (hx : x < 2 ^ 32) (hi : 32 ≤ i) :
    x.testBit i = false :=
  Nat.testBit_lt_two_pow (lt_of_lt_of_le hx (Nat.pow_le_pow_right (by decide) hi))

/-! ## The mask test (claim C1) -/

/-- C1: for 32-bit words the engine treats a rule as matching (test of IF10) exactly
when `(w XOR cond) AND care` is zero, which is exactly when `w` and the condition
mask agree on every bit set in the care mask; a rule with care mask `0` matches
every word; in the scan a rule that does not match is passed over and a matching
rule that passes the history test is fired. -/
theorem C1_mask_test {ε : Type} (w : Nat) (t : FSM_TRANS_CONFIG_T ε)
    (hd : t.trans_dont_care_mask < 2 ^ 32) :
    (fsm_trans_check w t ↔ (w ^^^ t.trans_cond_mask) &&& t.trans_dont_care_mask = 0) ∧
    (fsm_trans_check w t ↔
      ∀ i, i < 32 → t.trans_dont_care_mask.testBit i = true →
        w.testBit i = t.trans_cond_mask.testBit i) ∧
    (t.trans_dont_care_mask = 0 → fsm_trans_check w t) ∧
    (∀ (sc : FSM_STATE_CONFIG_T ε) (s : Nat) (rest : List (FSM_TRANS_CONFIG_T ε)) (r : FSM_RUN ε),
      r.mem.trans_input = w → FSM_TRANS_END ≠ t.next_state →
        (¬ fsm_trans_check w t → fsm_scan sc s (t :: rest) r = fsm_scan sc s rest r) ∧
        (fsm_trans_check w t → fsm_race_check r.mem.workspace t →
          fsm_scan sc s (t :: rest) r = some (fsm_fire sc s t r))) := by
  have hbits : fsm_trans_check w t ↔
      ∀ i, i < 32 → t.trans_dont_care_mask.testBit i = true →
        w.testBit i = t.trans_cond_mask.testBit i := by
    unfold fsm_trans_check
    constructor
    · intro h i _ hbit
      have hz : ((w ^^^ t.trans_cond_mask) &&& t.trans_dont_care_mask).testBit i = false := by
        rw [← h]; exact Nat.zero_testBit i
      rw [Nat.testBit_and, Nat.testBit_xor, hbit] at hz
      cases hwb : w.testBit i <;> cases hcb : t.trans_cond_mask.testBit i <;> simp_all
    · intro h
      symm
      apply Nat.eq_of_testBit_eq
      intro i
      rw [Nat.testBit_and, Nat.testBit_xor, Nat.zero_testBit]
      by_cases hi : i < 32
      · cases hbit : t.trans_dont_care_mask.testBit i
        · simp
        · simp [h i hi hbit]
      · simp [testBit_eq_false_of_lt_32 _ i hd (Nat.le_of_not_lt hi)]
  refine ⟨?_, hbits, ?_, ?_⟩
  · unfold fsm_trans_check
    exact eq_comm
  · intro h0
    unfold fsm_trans_check
    rw [h0]
    simp
  · intro sc s rest r hr hend
    subst hr
    constructor
    · intro hn
      simp [fsm_scan, hend, hn]
    · intro hm hrace
      simp [fsm_scan, hend, hm, hrace]

/-- Instance of `C1_mask_test`: the rule `{0, 1, 1}` matches the word 3, whose bit 0
agrees with the condition mask. -/
theorem C1_mask_test_witness :
    fsm_trans_check 3 sample_rule_self ↔
      ∀ i, i < 32 → sample_rule_self.trans_dont_care_mask.testBit i = true →
        Nat.testBit 3 i = sample_rule_self.trans_cond_mask.testBit i :=
  (C1_mask_test 3 sample_rule_self (by decide)).2.1

/-! ## First admissible rule (claim C2) -/

theorem fsm_find_trans_skip {ε : Type} (input : Nat) (ws : FSM_WORKSPACE_T)
    (pre l : List (FSM_TRANS_CONFIG_T ε))
    (hpre : ∀ u ∈ pre, fsm_rule_skipped input ws u) :
    fsm_find_trans input ws (pre ++ l) = fsm_find_trans input ws l := by
  induction pre with
  | nil => rfl
  | cons u pre ih =>
    have hu := hpre u (List.mem_cons_self u pre)
    have ih2 := ih (fun v hv => hpre v (List.mem_cons_of_mem u hv))
    rw [List.cons_append, fsm_find_trans, if_pos hu.1, if_neg hu.2, ih2]

theorem fsm_scan_skip {ε : Type} (sc : FSM_STATE_CONFIG_T ε) (s : Nat)
    (pre l : List (FSM_TRANS_CONFIG_T ε)) (r : FSM_RUN ε)
    (hpre : ∀ u ∈ pre, fsm_rule_skipped r.mem.trans_input r.mem.workspace u) :
    fsm_scan sc s (pre ++ l) r = fsm_scan sc s l r := by
  rw [fsm_scan_eq_find, fsm_scan_eq_find, fsm_find_trans_skip _ _ _ _ hpre]

theorem fsm_scan_taken {ε : Type} (sc : FSM_STATE_CONFIG_T ε) (s : Nat)
    (t : FSM_TRANS_CONFIG_T ε) (rest : List (FSM_TRANS_CONFIG_T ε)) (r : FSM_RUN ε)
    (ht : fsm_rule_taken r.mem.trans_input r.mem.workspace t) :
    fsm_scan sc s (t :: rest) r = some (fsm_fire sc s t r) := by
  simp [fsm_scan, ht.1, ht.2.1, ht.2.2]

theorem fsm_scan_end {ε : Type} (sc : FSM_STATE_CONFIG_T ε) (s : Nat)
    (t : FSM_TRANS_CONFIG_T ε) (rest : List (FSM_TRANS_CONFIG_T ε)) (r : FSM_RUN ε)
    (ht : t.next_state = FSM_TRANS_END) :
    fsm_scan sc s (t :: rest) r = some r := by
  simp [fsm_scan, ht]

theorem fsm_process_timers_current_state {ε : Type} (m : FSM_MEM ε) :
    (fsm_process_timers m).workspace.current_state = m.workspace.current_state := by
  simp only [fsm_process_timers, fsm_process_timer1, fsm_process_timer2, fsm_process_timer3]
  split_ifs <;> rfl

theorem fsm_process_timers_transition {ε : Type} (m : FSM_MEM ε) :
    (fsm_process_timers m).workspace.transition = m.workspace.transition := by
  simp only [fsm_process_timers, fsm_process_timer1, fsm_process_timer2, fsm_process_timer3]
  split_ifs <;> rfl

theorem fsm_process_eq {ε : Type} (cfg : FSM_CONFIG_T ε) (r : FSM_RUN ε)
    (sc : FSM_STATE_CONFIG_T ε)
    (hsc : cfg.state_config_ptr.get? r.mem.workspace.current_state = some sc) :
    fsm_process cfg r =
      fsm_process_transitions sc r.mem.workspace.current_state
        (fsm_process_front cfg sc r.mem.workspace.current_state r) := by
  simp only [fsm_process, fsm_process_timers_current_state, hsc]

theorem fsm_process_fires {ε : Type} (cfg : FSM_CONFIG_T ε) (r f : FSM_RUN ε)
    (sc : FSM_STATE_CONFIG_T ε) (pre rest : List (FSM_TRANS_CONFIG_T ε))
    (t : FSM_TRANS_CONFIG_T ε)
    (hsc : cfg.state_config_ptr.get? r.mem.workspace.current_state = some sc)
    (hf : f = fsm_process_front cfg sc r.mem.workspace.current_state r)
    (hchg : f.mem.trans_input ≠ f.mem.workspace.last_input_word)
    (htbl : sc.state_trans_config_ptr = pre ++ t :: rest)
    (hpre : ∀ u ∈ pre, fsm_rule_skipped f.mem.trans_input (fsm_store_input f).mem.workspace u)
    (ht : fsm_rule_taken f.mem.trans_input (fsm_store_input f).mem.workspace t) :
    fsm_process cfg r =
      some (fsm_fire sc r.mem.workspace.current_state t (fsm_store_input f)) := by
  rw [fsm_process_eq cfg r sc hsc, ← hf, fsm_process_transitions, if_pos hchg, htbl,
    fsm_scan_skip sc _ pre (t :: rest) (fsm_store_input f) hpre,
    fsm_scan_taken sc _ t rest (fsm_store_input f) ht]

theorem fsm_process_timers_last_input_word {ε : Type} (m : FSM_MEM ε) :
    (fsm_process_timers m).workspace.last_input_word = m.workspace.last_input_word := by
  simp only [fsm_process_timers, fsm_process_timer1, fsm_process_timer2, fsm_process_timer3]
  split_ifs <;> rfl

theorem fsm_process_timers_last_mask {ε : Type} (m : FSM_MEM ε) :
    (fsm_process_timers m).workspace.last_event_trans_cond_mask =
      m.workspace.last_event_trans_cond_mask := by
  simp only [fsm_process_timers, fsm_process_timer1, fsm_process_timer2, fsm_process_timer3]
  split_ifs <;> rfl

theorem fsm_call_workspace {ε : Type} (c : FSM_CALL) (f : Option (FSM_FUNCT ε)) (r : FSM_RUN ε)
    (h : fsm_opt_keeps_workspace f) : (fsm_call c f r).mem.workspace = r.mem.workspace := by
  cases f with
  | none => rfl
  | some g => exact h g rfl r.mem

theorem fsm_call_calls {ε : Type} (c : FSM_CALL) (f : Option (FSM_FUNCT ε)) (r : FSM_RUN ε) :
    (fsm_call c f r).calls = r.calls ++ fsm_call_log c f := by
  cases f with
  | none => simp [fsm_call, fsm_call_log]
  | some g => rfl

theorem fsm_process_entry_transition {ε : Type} (sc : FSM_STATE_CONFIG_T ε) (s : Nat)
    (r : FSM_RUN ε) : (fsm_process_entry sc s r).mem.workspace.transition = FALSE := by
  unfold fsm_process_entry
  split_ifs with h
  · rfl
  · exact (not_not.mp h).symm

theorem fsm_process_entry_calls {ε : Type} (sc : FSM_STATE_CONFIG_T ε) (s : Nat)
    (r : FSM_RUN ε) :
    (fsm_process_entry sc s r).calls =
      r.calls ++ (if FALSE ≠ r.mem.workspace.transition then
        fsm_call_log (FSM_CALL.entry s) sc.entry_action_funct_ptr else []) := by
  unfold fsm_process_entry
  split_ifs with h
  · exact fsm_call_calls _ _ _
  · simp

theorem fsm_process_entry_workspace {ε : Type} (sc : FSM_STATE_CONFIG_T ε) (s : Nat)
    (r : FSM_RUN ε) (h : fsm_opt_keeps_workspace sc.entry_action_funct_ptr) :
    (fsm_process_entry sc s r).mem.workspace = { r.mem.workspace with transition := FALSE } := by
  unfold fsm_process_entry
  split_ifs with h1
  · simp only [fsm_call_workspace _ _ _ h]
  · have h2 : r.mem.workspace.transition = FALSE := (not_not.mp h1).symm
    cases hw : r.mem.workspace
    rw [hw] at h2
    simp only at h2
    simp [h2]

theorem fsm_process_front_calls {ε : Type} (cfg : FSM_CONFIG_T ε) (sc : FSM_STATE_CONFIG_T ε)
    (s : Nat) (r : FSM_RUN ε) :
    (fsm_process_front cfg sc s r).calls =
      r.calls ++ (if FALSE ≠ r.mem.workspace.transition then
          fsm_call_log (FSM_CALL.entry s) sc.entry_action_funct_ptr else []) ++
        fsm_call_log (FSM_CALL.activity s) sc.activity_funct_ptr ++ [FSM_CALL.process_inputs] := by
  simp only [fsm_process_front, fsm_process_activity, fsm_call_calls, fsm_process_entry_calls,
    fsm_process_timers_transition]

theorem fsm_process_front_workspace {ε : Type} (cfg : FSM_CONFIG_T ε)
    (sc : FSM_STATE_CONFIG_T ε) (s : Nat) (r : FSM_RUN ε)
    (hin : fsm_keeps_workspace cfg.process_inputs_funct_ptr)
    (hentry : fsm_opt_keeps_workspace sc.entry_action_funct_ptr)
    (hact : fsm_opt_keeps_workspace sc.activity_funct_ptr) :
    (fsm_process_front cfg sc s r).mem.workspace =
      { (fsm_process_timers r.mem).workspace with transition := FALSE } := by
  simp only [fsm_process_front, fsm_process_activity]
  rw [hin, fsm_call_workspace _ _ _ hact, fsm_process_entry_workspace _ _ _ hentry]

theorem fsm_fire_transition {ε : Type} (sc : FSM_STATE_CONFIG_T ε) (s : Nat)
    (t : FSM_TRANS_CONFIG_T ε) (r : FSM_RUN ε) :
    (fsm_fire sc s t r).mem.workspace.transition = TRUE := rfl

theorem fsm_fire_calls {ε : Type} (sc : FSM_STATE_CONFIG_T ε) (s : Nat)
    (t : FSM_TRANS_CONFIG_T ε) (r : FSM_RUN ε) :
    (fsm_fire sc s t r).calls =
      r.calls ++ fsm_call_log (FSM_CALL.exit s) sc.exit_action_funct_ptr ++
        fsm_call_log (FSM_CALL.trans s t.next_state t.trans_cond_mask) t.trans_funct_ptr := by
  simp only [fsm_fire, fsm_call_calls, fsm_fire_update]

theorem fsm_fire_workspace {ε : Type} (sc : FSM_STATE_CONFIG_T ε) (s : Nat)
    (t : FSM_TRANS_CONFIG_T ε) (r : FSM_RUN ε)
    (hexit : fsm_opt_keeps_workspace sc.exit_action_funct_ptr)
    (htrans : fsm_opt_keeps_workspace t.trans_funct_ptr) :
    (fsm_fire sc s t r).mem.workspace =
      if r.mem.workspace.current_state ≠ t.next_state then
        { r.mem.workspace with
          last_input_word := RESERVED_INPUT_WORD_VALUE
          last_event_trans_cond_mask := RESERVED_INPUT_WORD_VALUE
          current_state := t.next_state
          transition := TRUE }
      else
        { r.mem.workspace with
          last_event_trans_cond_mask := t.trans_cond_mask
          transition := TRUE } := by
  simp only [fsm_fire, fsm_call_workspace _ _ _ htrans, fsm_call_workspace _ _ _ hexit,
    fsm_fire_update]
  split_ifs <;> rfl

/-- C2 as stated fails: started by `fsm_init`, the sample machine takes its self rule
in step one (input word 1); in step two the input word has changed to 3, the self
rule is still the first rule whose mask test succeeds, and yet the engine fires the
later rule to state 1. -/
theorem C2_counterexample :
    ∃ r1 r2, fsm_process sample_cfg (fsm_init sample_cfg sample_start) = some r1 ∧
      fsm_process sample_cfg r1 = some r2 ∧
      r1.mem.workspace.last_input_word = 1 ∧
      (fsm_process_front sample_cfg sample_state0 0 r1).mem.trans_input = 3 ∧
      sample_state0.state_trans_config_ptr = [sample_rule_self, sample_rule_other, sample_end] ∧
      FSM_TRANS_END ≠ sample_rule_self.next_state ∧
      fsm_trans_check 3 sample_rule_self ∧
      r1.mem.workspace.current_state = 0 ∧
      r2.mem.workspace.current_state = 1 ∧
      r2.calls = [FSM_CALL.process_inputs, FSM_CALL.trans 0 0 1,
                  FSM_CALL.process_inputs, FSM_CALL.trans 0 1 0] := by
  refine ⟨_, _, rfl, rfl, ?_, ?_, rfl, ?_, ?_, ?_, ?_, ?_⟩ <;> decide

/-- C2, amended: in a step whose refreshed input word differs from `last_input_word`,
the rule that fires is the first rule in declaration order, before the end marker,
that passes the mask test and the history test together: when every rule in front of
`t` fails one of the two tests and `t` passes both, the step fires `t` and no other
rule. -/
theorem C2_first_admissible_rule_fires {ε : Type} (cfg : FSM_CONFIG_T ε) (r f : FSM_RUN ε)
    (sc : FSM_STATE_CONFIG_T ε) (pre rest : List (FSM_TRANS_CONFIG_T ε))
    (t : FSM_TRANS_CONFIG_T ε)
    (hsc : cfg.state_config_ptr.get? r.mem.workspace.current_state = some sc)
    (hf : f = fsm_process_front cfg sc r.mem.workspace.current_state r)
    (hchg : f.mem.trans_input ≠ f.mem.workspace.last_input_word)
    (htbl : sc.state_trans_config_ptr = pre ++ t :: rest)
    (hpre : ∀ u ∈ pre, FSM_TRANS_END ≠ u.next_state ∧
      ¬ (fsm_trans_check f.mem.trans_input u ∧
          fsm_race_check (fsm_store_input f).mem.workspace u))
    (ht : FSM_TRANS_END ≠ t.next_state ∧ fsm_trans_check f.mem.trans_input t ∧
      fsm_race_check (fsm_store_input f).mem.workspace t) :
    fsm_process cfg r =
      some (fsm_fire sc r.mem.workspace.current_state t (fsm_store_input f)) := by
  have hstep : fsm_process cfg r = fsm_process_transitions sc r.mem.workspace.current_state f := by
    rw [hf]; exact fsm_process_eq cfg r sc hsc
  have hskip : fsm_scan sc r.mem.workspace.current_state (pre ++ t :: rest) (fsm_store_input f) =
      fsm_scan sc r.mem.workspace.current_state (t :: rest) (fsm_store_input f) :=
    fsm_scan_skip sc _ pre (t :: rest) (fsm_store_input f) hpre
  rw [hstep, fsm_process_transitions, if_pos hchg, htbl, hskip]
  exact fsm_scan_taken sc _ t rest (fsm_store_input f) ht

/-- Instance of `C2_first_admissible_rule_fires`: with the history left by its self
rule and the new input word 3, the sample machine passes over the self rule and
fires the rule to state 1. -/
theorem C2_first_admissible_rule_fires_witness :
    fsm_process sample_cfg sample_after_self =
      some (fsm_fire sample_state0 0 sample_rule_other
        (fsm_store_input (fsm_process_front sample_cfg sample_state0 0 sample_after_self))) :=
  C2_first_admissible_rule_fires sample_cfg sample_after_self _ sample_state0
    [sample_rule_self] [sample_end] sample_rule_other rfl rfl (by decide) rfl
    (by intro u hu; rw [List.mem_singleton] at hu; subst hu; decide) (by decide)

/-! ## Firing and its effects (claims C3, C4, C5) -/

theorem fsm_call_current_state {ε : Type} (c : FSM_CALL) (f : Option (FSM_FUNCT ε))
    (r : FSM_RUN ε) (h : fsm_opt_keeps_current_state f) :
    (fsm_call c f r).mem.workspace.current_state = r.mem.workspace.current_state := by
  cases f with
  | none => rfl
  | some g => exact h g rfl r.mem

/-- C4: whatever `last_event_trans_cond_mask` holds, in a step whose refreshed input
word differs from `last_input_word`, a rule that the scan reaches, that passes the
mask test and that leads to a state other than the current one fires: the engine
takes the firing branch for it, writes the rule's `next_state` to `current_state`
before it runs the exit and transition actions, and sets the transition flag; when
these two actions do not write `current_state`, the step ends in `next_state`. -/
theorem C4_rule_to_other_state_fires {ε : Type} (cfg : FSM_CONFIG_T ε) (r f : FSM_RUN ε)
    (sc : FSM_STATE_CONFIG_T ε) (pre rest : List (FSM_TRANS_CONFIG_T ε))
    (t : FSM_TRANS_CONFIG_T ε)
    (hsc : cfg.state_config_ptr.get? r.mem.workspace.current_state = some sc)
    (hf : f = fsm_process_front cfg sc r.mem.workspace.current_state r)
    (hchg : f.mem.trans_input ≠ f.mem.workspace.last_input_word)
    (htbl : sc.state_trans_config_ptr = pre ++ t :: rest)
    (hreach : ∀ u ∈ pre, fsm_rule_skipped f.mem.trans_input (fsm_store_input f).mem.workspace u)
    (hrule : FSM_TRANS_END ≠ t.next_state)
    (hmatch : fsm_trans_check f.mem.trans_input t)
    (hother : f.mem.workspace.current_state ≠ t.next_state) :
    ∃ r1, fsm_process cfg r = some r1 ∧
      r1 = fsm_fire sc r.mem.workspace.current_state t (fsm_store_input f) ∧
      r1.mem.workspace.transition = TRUE ∧
      (fsm_fire_update t (fsm_store_input f)).mem.workspace.current_state = t.next_state ∧
      (fsm_opt_keeps_current_state sc.exit_action_funct_ptr →
        fsm_opt_keeps_current_state t.trans_funct_ptr →
        r1.mem.workspace.current_state = t.next_state) := by
  have hfire := fsm_process_fires cfg r f sc pre rest t hsc hf hchg htbl hreach
    ⟨hrule, hmatch, Or.inr hother⟩
  have h1 : (fsm_store_input f).mem.workspace.current_state ≠ t.next_state := hother
  have hupd : (fsm_fire_update t (fsm_store_input f)).mem.workspace.current_state =
      t.next_state := by
    simp only [fsm_fire_update, h1, ne_eq, not_false_eq_true, if_true]
  refine ⟨_, hfire, rfl, rfl, hupd, ?_⟩
  intro hexit htrans
  simp only [fsm_fire, fsm_call_current_state _ _ _ htrans, fsm_call_current_state _ _ _ hexit,
    hupd]

/-- Instance of `C4_rule_to_other_state_fires`: the sample machine, whose history
holds the condition mask 1, reaches the rule to state 1 and fires it. -/
theorem C4_rule_to_other_state_fires_witness :
    ∃ r1, fsm_process sample_cfg sample_after_self = some r1 ∧
      r1.mem.workspace.transition = TRUE ∧
      r1.mem.workspace.current_state = 1 := by
  obtain ⟨r1, h1, _, h3, _, h5⟩ :=
    C4_rule_to_other_state_fires sample_cfg sample_after_self _ sample_state0
      [sample_rule_self] [sample_end] sample_rule_other rfl rfl (by decide) rfl
      (by intro u hu; rw [List.mem_singleton] at hu; subst hu; decide) (by decide) (by decide)
      (by decide)
  exact ⟨r1, h1, h3, h5 (by intro g hg; cases hg)
    (by intro g hg; cases hg; intro m; rfl)⟩

/-- C5: with callbacks that do not write the workspace, a step that fires rule `t`
from state `s` sets the transition flag and, when `t` leads to another state, ends
with `current_state = t.next_state` and both history words `0xFFFFFFFF`; when `t`
leads to `s` itself it keeps the state, stores the condition mask of `t` as
`last_event_trans_cond_mask` and the refreshed input word as `last_input_word`.  A
step that fires no rule (input word unchanged, or the scan stops at the end marker)
leaves `current_state` and `last_event_trans_cond_mask` as they were. -/
theorem C5_fire_effects {ε : Type} (cfg : FSM_CONFIG_T ε) (r f : FSM_RUN ε)
    (sc : FSM_STATE_CONFIG_T ε)
    (hsc : cfg.state_config_ptr.get? r.mem.workspace.current_state = some sc)
    (hf : f = fsm_process_front cfg sc r.mem.workspace.current_state r)
    (hin : fsm_keeps_workspace cfg.process_inputs_funct_ptr)
    (hkeep : fsm_state_keeps_workspace sc) :
    (∀ (pre rest : List (FSM_TRANS_CONFIG_T ε)) (t : FSM_TRANS_CONFIG_T ε),
      f.mem.trans_input ≠ f.mem.workspace.last_input_word →
      sc.state_trans_config_ptr = pre ++ t :: rest →
      (∀ u ∈ pre, fsm_rule_skipped f.mem.trans_input (fsm_store_input f).mem.workspace u) →
      fsm_rule_taken f.mem.trans_input (fsm_store_input f).mem.workspace t →
      ∃ r1, fsm_process cfg r = some r1 ∧
        r1.mem.workspace.transition = TRUE ∧
        (t.next_state ≠ r.mem.workspace.current_state →
          r1.mem.workspace.current_state = t.next_state ∧
          r1.mem.workspace.last_input_word = 0xFFFFFFFF ∧
          r1.mem.workspace.last_event_trans_cond_mask = 0xFFFFFFFF) ∧
        (t.next_state = r.mem.workspace.current_state →
          r1.mem.workspace.current_state = r.mem.workspace.current_state ∧
          r1.mem.workspace.last_event_trans_cond_mask = t.trans_cond_mask ∧
          r1.mem.workspace.last_input_word = f.mem.trans_input)) ∧
    ((f.mem.trans_input = f.mem.workspace.last_input_word ∨
      ∃ (pre rest : List (FSM_TRANS_CONFIG_T ε)) (e : FSM_TRANS_CONFIG_T ε),
        sc.state_trans_config_ptr = pre ++ e :: rest ∧
        (∀ u ∈ pre, fsm_rule_skipped f.mem.trans_input (fsm_store_input f).mem.workspace u) ∧
        e.next_state = FSM_TRANS_END) →
      ∃ r1, fsm_process cfg r = some r1 ∧
        r1.mem.workspace.current_state = r.mem.workspace.current_state ∧
        r1.mem.workspace.last_event_trans_cond_mask =
          r.mem.workspace.last_event_trans_cond_mask) := by
  have hfw := fsm_process_front_workspace cfg sc r.mem.workspace.current_state r hin
    hkeep.1 hkeep.2.1
  rw [← hf] at hfw
  have hcs : f.mem.workspace.current_state = r.mem.workspace.current_state := by
    rw [hfw]; exact fsm_process_timers_current_state r.mem
  have hlm : f.mem.workspace.last_event_trans_cond_mask =
      r.mem.workspace.last_event_trans_cond_mask := by
    rw [hfw]; exact fsm_process_timers_last_mask r.mem
  constructor
  · intro pre rest t hchg htbl hpre ht
    have hfire := fsm_process_fires cfg r f sc pre rest t hsc hf hchg htbl hpre ht
    have htm : t ∈ sc.state_trans_config_ptr := by rw [htbl]; simp
    have hw := fsm_fire_workspace sc r.mem.workspace.current_state t (fsm_store_input f)
      hkeep.2.2.1 (hkeep.2.2.2 t htm)
    have hcs2 : (fsm_store_input f).mem.workspace.current_state =
        r.mem.workspace.current_state := hcs
    refine ⟨_, hfire, rfl, ?_, ?_⟩
    · intro hne
      have hne2 : (fsm_store_input f).mem.workspace.current_state ≠ t.next_state := by
        rw [hcs2]; exact fun h => hne h.symm
      rw [hw, if_pos hne2]
      exact ⟨rfl, rfl, rfl⟩
    · intro heq
      have heq2 : ¬ (fsm_store_input f).mem.workspace.current_state ≠ t.next_state := by
        rw [hcs2]; exact fun h => h heq.symm
      rw [hw, if_neg heq2]
      exact ⟨hcs, rfl, rfl⟩
  · intro hno
    rw [fsm_process_eq cfg r sc hsc, ← hf, fsm_process_transitions]
    by_cases hchg : f.mem.trans_input ≠ f.mem.workspace.last_input_word
    · rcases hno with hsame | ⟨pre, rest, e, htbl, hpre, hend⟩
      · exact absurd hsame hchg
      · rw [if_pos hchg, htbl, fsm_scan_skip sc _ pre (e :: rest) (fsm_store_input f) hpre,
          fsm_scan_end sc _ e rest (fsm_store_input f) hend]
        exact ⟨_, rfl, hcs, hlm⟩
    · rw [if_neg hchg]
      exact ⟨_, rfl, hcs, hlm⟩

theorem sample_inputs_keep_workspace : fsm_keeps_workspace sample_inputs_1_3 :=
  fun _ => rfl

theorem sample_state0_keeps_workspace : fsm_state_keeps_workspace sample_state0 := by
  refine ⟨?_, ?_, ?_, ?_⟩
  · intro g hg; cases hg
  · intro g hg; cases hg
  · intro g hg; cases hg
  intro t ht
  simp only [sample_state0, List.mem_cons, List.mem_singleton, List.not_mem_nil, or_false] at ht
  rcases ht with rfl | rfl | rfl <;> (intro g hg; cases hg <;> (intro m; rfl))

/-- Instance of `C5_fire_effects`: the sample machine fires its rule to state 1 and
ends in state 1 with the flag set and both history words reset. -/
theorem C5_fire_effects_witness :
    ∃ r1, fsm_process sample_cfg sample_after_self = some r1 ∧
      r1.mem.workspace.transition = TRUE ∧
      r1.mem.workspace.current_state = 1 ∧
      r1.mem.workspace.last_input_word = 0xFFFFFFFF ∧
      r1.mem.workspace.last_event_trans_cond_mask = 0xFFFFFFFF := by
  obtain ⟨r1, h1, h2, h3, _⟩ :=
    (C5_fire_effects sample_cfg sample_after_self _ sample_state0 rfl rfl
      sample_inputs_keep_workspace sample_state0_keeps_workspace).1
      [sample_rule_self] [sample_end] sample_rule_other (by decide) rfl
      (by intro u hu; rw [List.mem_singleton] at hu; subst hu; decide) (by decide)
  exact ⟨r1, h1, h2, h3 (by decide)⟩

/-- C3: with callbacks that do not write the workspace, when a step fires a rule that
leads back to the current state and the next step refreshes the input word to the
same value, that next step fires nothing: it equals its own front part (entry action,
activity, input refresh), logs no exit and no transition action, keeps
`current_state`, and ends with the transition flag cleared, so that the entry part
of the step after it does nothing. -/
theorem C3_unchanged_input_does_not_refire {ε : Type} (cfg : FSM_CONFIG_T ε)
    (r f r1 f2 : FSM_RUN ε) (sc : FSM_STATE_CONFIG_T ε)
    (pre rest : List (FSM_TRANS_CONFIG_T ε)) (t : FSM_TRANS_CONFIG_T ε)
    (hsc : cfg.state_config_ptr.get? r.mem.workspace.current_state = some sc)
    (hf : f = fsm_process_front cfg sc r.mem.workspace.current_state r)
    (hin : fsm_keeps_workspace cfg.process_inputs_funct_ptr)
    (hkeep : fsm_state_keeps_workspace sc)
    (hchg : f.mem.trans_input ≠ f.mem.workspace.last_input_word)
    (htbl : sc.state_trans_config_ptr = pre ++ t :: rest)
    (hpre : ∀ u ∈ pre, fsm_rule_skipped f.mem.trans_input (fsm_store_input f).mem.workspace u)
    (ht : fsm_rule_taken f.mem.trans_input (fsm_store_input f).mem.workspace t)
    (hself : t.next_state = r.mem.workspace.current_state)
    (hr1 : fsm_process cfg r = some r1)
    (hf2 : f2 = fsm_process_front cfg sc r.mem.workspace.current_state r1)
    (hsame : f2.mem.trans_input = f.mem.trans_input) :
    fsm_process cfg r1 = some f2 ∧
    f2.calls = r1.calls ++
      fsm_call_log (FSM_CALL.entry r.mem.workspace.current_state) sc.entry_action_funct_ptr ++
      fsm_call_log (FSM_CALL.activity r.mem.workspace.current_state) sc.activity_funct_ptr ++
      [FSM_CALL.process_inputs] ∧
    f2.mem.workspace.current_state = r.mem.workspace.current_state ∧
    r1.mem.workspace.current_state = r.mem.workspace.current_state ∧
    f2.mem.workspace.transition = FALSE ∧
    fsm_process_entry sc r.mem.workspace.current_state ⟨fsm_process_timers f2.mem, f2.calls⟩ =
      ⟨fsm_process_timers f2.mem, f2.calls⟩ := by
  have hfw := fsm_process_front_workspace cfg sc r.mem.workspace.current_state r hin
    hkeep.1 hkeep.2.1
  rw [← hf] at hfw
  have hcs : (fsm_store_input f).mem.workspace.current_state =
      r.mem.workspace.current_state := by
    show f.mem.workspace.current_state = _
    rw [hfw]; exact fsm_process_timers_current_state r.mem
  have hfire := fsm_process_fires cfg r f sc pre rest t hsc hf hchg htbl hpre ht
  have hr1eq : r1 = fsm_fire sc r.mem.workspace.current_state t (fsm_store_input f) :=
    Option.some.inj (hr1.symm.trans hfire)
  have htm : t ∈ sc.state_trans_config_ptr := by rw [htbl]; simp
  have hw := fsm_fire_workspace sc r.mem.workspace.current_state t (fsm_store_input f)
    hkeep.2.2.1 (hkeep.2.2.2 t htm)
  have hnot : ¬ (fsm_store_input f).mem.workspace.current_state ≠ t.next_state := by
    rw [hcs]; exact fun h => h hself.symm
  rw [if_neg hnot, ← hr1eq] at hw
  have h1cs : r1.mem.workspace.current_state = r.mem.workspace.current_state := by
    rw [hw]; exact hcs
  have h1liw : r1.mem.workspace.last_input_word = f.mem.trans_input := by
    rw [hw]; rfl
  have h1tr : r1.mem.workspace.transition = TRUE := by
    rw [hw]
  have hf2w := fsm_process_front_workspace cfg sc r.mem.workspace.current_state r1 hin
    hkeep.1 hkeep.2.1
  rw [← hf2] at hf2w
  have h2cs : f2.mem.workspace.current_state = r.mem.workspace.current_state := by
    rw [hf2w]
    exact (fsm_process_timers_current_state r1.mem).trans h1cs
  have h2liw : f2.mem.workspace.last_input_word = f2.mem.trans_input := by
    rw [hf2w, hsame]
    exact (fsm_process_timers_last_input_word r1.mem).trans h1liw
  have h2tr : f2.mem.workspace.transition = FALSE := by
    rw [hf2w]
  have hsc1 : cfg.state_config_ptr.get? r1.mem.workspace.current_state = some sc := by
    rw [h1cs]; exact hsc
  refine ⟨?_, ?_, h2cs, h1cs, h2tr, ?_⟩
  · rw [fsm_process_eq cfg r1 sc hsc1, h1cs, ← hf2, fsm_process_transitions]
    rw [if_neg (fun h => h h2liw.symm)]
  · rw [hf2, fsm_process_front_calls, h1tr]
    simp [TRUE, FALSE]
  · have h3 : (fsm_process_timers f2.mem).workspace.transition = FALSE :=
      (fsm_process_timers_transition f2.mem).trans h2tr
    unfold fsm_process_entry
    rw [if_neg (fun h => h h3.symm)]

/-- Instance of `C3_unchanged_input_does_not_refire`: fed the constant word 1, the
sample machine fires its self rule in the first step after `fsm_init` and nothing in
the second. -/
theorem C3_unchanged_input_does_not_refire_witness :
    ∃ r1 f2, fsm_process sample_cfg_const (fsm_init sample_cfg_const sample_start) = some r1 ∧
      fsm_process sample_cfg_const r1 = some f2 ∧
      f2.mem.workspace.current_state = 0 ∧
      f2.mem.workspace.transition = FALSE :=
  have h := C3_unchanged_input_does_not_refire sample_cfg_const
    (fsm_init sample_cfg_const sample_start) _ _ _ sample_state0
    [] [sample_rule_other, sample_end] sample_rule_self rfl rfl (fun _ => rfl)
    sample_state0_keeps_workspace (by decide) rfl (by intro u hu; cases hu) (by decide)
    rfl rfl rfl rfl
  ⟨_, _, rfl, h.1, h.2.2.1, h.2.2.2.2.1⟩

/-! ## The step after a change of state (claim C6) -/

/-- C6 as stated fails: the ping-pong machine moves from state 0 to state 1 in its
first step; in the second step the refreshed input word is `0xFFFFFFFF`, the value
the history was reset to, so the input-changed test suppresses the scan: the step
ends after the input refresh in state 1, although scanning the table of state 1
would have fired its rule and led to state 0. -/
theorem C6_counterexample :
    ∃ r1 r2, fsm_process sample_cfg_ping_pong (fsm_init sample_cfg_ping_pong sample_start) =
        some r1 ∧
      fsm_process sample_cfg_ping_pong r1 = some r2 ∧
      (fsm_init sample_cfg_ping_pong sample_start).mem.workspace.current_state = 0 ∧
      r1.mem.workspace.current_state = 1 ∧
      r1.calls = [FSM_CALL.entry 0, FSM_CALL.activity 0, FSM_CALL.process_inputs,
                  FSM_CALL.exit 0, FSM_CALL.trans 0 1 1] ∧
      (fsm_process_front sample_cfg_ping_pong sample_pong 1 r1).mem.trans_input = 0xFFFFFFFF ∧
      r2 = fsm_process_front sample_cfg_ping_pong sample_pong 1 r1 ∧
      r2.mem.workspace.current_state = 1 ∧
      r2.calls = r1.calls ++
        [FSM_CALL.entry 1, FSM_CALL.activity 1, FSM_CALL.process_inputs] ∧
      (fsm_scan sample_pong 1 sample_pong.state_trans_config_ptr (fsm_store_input r2)).map
        (fun x => x.mem.workspace.current_state) = some 0 := by
  refine ⟨_, _, rfl, rfl, ?_, ?_, ?_, ?_, ?_, ?_, ?_, ?_⟩ <;> decide

/-- C6, amended: with callbacks that do not write the workspace, after a step that
fires a rule to a different state the history word is `0xFFFFFFFF`, and the next step
scans the rules of the new state against the refreshed input word whenever that word
is not `0xFFFFFFFF`; when it is `0xFFFFFFFF` the step ends after the input refresh
without scanning. -/
theorem C6_next_step_scans_unless_reserved {ε : Type} (cfg : FSM_CONFIG_T ε)
    (r f r1 f2 : FSM_RUN ε) (sc sc1 : FSM_STATE_CONFIG_T ε)
    (pre rest : List (FSM_TRANS_CONFIG_T ε)) (t : FSM_TRANS_CONFIG_T ε)
    (hsc : cfg.state_config_ptr.get? r.mem.workspace.current_state = some sc)
    (hf : f = fsm_process_front cfg sc r.mem.workspace.current_state r)
    (hin : fsm_keeps_workspace cfg.process_inputs_funct_ptr)
    (hkeep : fsm_state_keeps_workspace sc)
    (hchg : f.mem.trans_input ≠ f.mem.workspace.last_input_word)
    (htbl : sc.state_trans_config_ptr = pre ++ t :: rest)
    (hpre : ∀ u ∈ pre, fsm_rule_skipped f.mem.trans_input (fsm_store_input f).mem.workspace u)
    (ht : fsm_rule_taken f.mem.trans_input (fsm_store_input f).mem.workspace t)
    (hother : t.next_state ≠ r.mem.workspace.current_state)
    (hr1 : fsm_process cfg r = some r1)
    (hsc1 : cfg.state_config_ptr.get? t.next_state = some sc1)
    (hkeep1 : fsm_state_keeps_workspace sc1)
    (hf2 : f2 = fsm_process_front cfg sc1 t.next_state r1) :
    r1.mem.workspace.current_state = t.next_state ∧
    r1.mem.workspace.last_input_word = RESERVED_INPUT_WORD_VALUE ∧
    (f2.mem.trans_input ≠ RESERVED_INPUT_WORD_VALUE →
      fsm_process cfg r1 =
        fsm_scan sc1 t.next_state sc1.state_trans_config_ptr (fsm_store_input f2)) ∧
    (f2.mem.trans_input = RESERVED_INPUT_WORD_VALUE → fsm_process cfg r1 = some f2) := by
  have hfw := fsm_process_front_workspace cfg sc r.mem.workspace.current_state r hin
    hkeep.1 hkeep.2.1
  rw [← hf] at hfw
  have hcs : (fsm_store_input f).mem.workspace.current_state =
      r.mem.workspace.current_state := by
    show f.mem.workspace.current_state = _
    rw [hfw]; exact fsm_process_timers_current_state r.mem
  have hfire := fsm_process_fires cfg r f sc pre rest t hsc hf hchg htbl hpre ht
  have hr1eq : r1 = fsm_fire sc r.mem.workspace.current_state t (fsm_store_input f) :=
    Option.some.inj (hr1.symm.trans hfire)
  have htm : t ∈ sc.state_trans_config_ptr := by rw [htbl]; simp
  have hw := fsm_fire_workspace sc r.mem.workspace.current_state t (fsm_store_input f)
    hkeep.2.2.1 (hkeep.2.2.2 t htm)
  have hne : (fsm_store_input f).mem.workspace.current_state ≠ t.next_state := by
    rw [hcs]; exact fun h => hother h.symm
  rw [if_pos hne, ← hr1eq] at hw
  have h1cs : r1.mem.workspace.current_state = t.next_state := by rw [hw]
  have h1liw : r1.mem.workspace.last_input_word = RESERVED_INPUT_WORD_VALUE := by rw [hw]
  have hf2w := fsm_process_front_workspace cfg sc1 t.next_state r1 hin hkeep1.1 hkeep1.2.1
  rw [← hf2] at hf2w
  have h2liw : f2.mem.workspace.last_input_word = RESERVED_INPUT_WORD_VALUE := by
    rw [hf2w]
    exact (fsm_process_timers_last_input_word r1.mem).trans h1liw
  have hsc1b : cfg.state_config_ptr.get? r1.mem.workspace.current_state = some sc1 := by
    rw [h1cs]; exact hsc1
  have hstep : fsm_process cfg r1 = fsm_process_transitions sc1 t.next_state f2 := by
    rw [fsm_process_eq cfg r1 sc1 hsc1b, h1cs, ← hf2]
  refine ⟨h1cs, h1liw, ?_, ?_⟩
  · intro hw2
    rw [hstep, fsm_process_transitions, h2liw, if_pos hw2]
  · intro hw2
    rw [hstep, fsm_process_transitions, h2liw, if_neg (fun h => h hw2)]

theorem sample_ping_keeps_workspace : fsm_state_keeps_workspace sample_ping := by
  refine ⟨?_, ?_, ?_, ?_⟩
  · intro g hg; cases hg; intro m; rfl
  · intro g hg; cases hg; intro m; rfl
  · intro g hg; cases hg; intro m; rfl
  intro t ht
  simp only [sample_ping, List.mem_cons, List.mem_singleton, List.not_mem_nil, or_false] at ht
  rcases ht with rfl | rfl <;> (intro g hg; cases hg <;> (intro m; rfl))

theorem sample_pong_keeps_workspace : fsm_state_keeps_workspace sample_pong := by
  refine ⟨?_, ?_, ?_, ?_⟩
  · intro g hg; cases hg; intro m; rfl
  · intro g hg; cases hg; intro m; rfl
  · intro g hg; cases hg; intro m; rfl
  intro t ht
  simp only [sample_pong, List.mem_cons, List.mem_singleton, List.not_mem_nil, or_false] at ht
  rcases ht with rfl | rfl <;> (intro g hg; cases hg <;> (intro m; rfl))

/-- Instance of `C6_next_step_scans_unless_reserved`: the ping-pong machine moves to
state 1 on the word 1; the next word is 3, and the second step scans the table of
state 1. -/
theorem C6_next_step_scans_unless_reserved_witness :
    ∃ r1, fsm_process sample_cfg_ping_pong_3 (fsm_init sample_cfg_ping_pong_3 sample_start) =
        some r1 ∧
      fsm_process sample_cfg_ping_pong_3 r1 =
        fsm_scan sample_pong 1 sample_pong.state_trans_config_ptr
          (fsm_store_input (fsm_process_front sample_cfg_ping_pong_3 sample_pong 1 r1)) :=
  have h := C6_next_step_scans_unless_reserved sample_cfg_ping_pong_3
    (fsm_init sample_cfg_ping_pong_3 sample_start) _ _ _ sample_ping sample_pong
    [] [sample_end] sample_rule_go rfl rfl (fun _ => rfl) sample_ping_keeps_workspace
    (by decide) rfl (by intro u hu; cases hu) (by decide) (by decide) rfl rfl
    sample_pong_keeps_workspace rfl
  ⟨_, rfl, h.2.2.1 (by decide)⟩

/-! ## Order of the callbacks (claim C7) -/

/-- C7: a step that starts in state `s` with descriptor `sc` and completes with scan
outcome `o` invokes, in this order and skipping null pointers: the entry action of
`s` when the transition flag was set at the start of the step (the flag is cleared
before the activity runs), the activity of `s`, the input refresh and, when the scan
fires a rule `t`, the exit action of `s` followed by the transition action of `t`;
nothing else is invoked. -/
theorem C7_callback_order {ε : Type} (cfg : FSM_CONFIG_T ε) (r f : FSM_RUN ε)
    (sc : FSM_STATE_CONFIG_T ε) (o : Option (FSM_TRANS_CONFIG_T ε))
    (hsc : cfg.state_config_ptr.get? r.mem.workspace.current_state = some sc)
    (hf : f = fsm_process_front cfg sc r.mem.workspace.current_state r)
    (ho : (if f.mem.trans_input ≠ f.mem.workspace.last_input_word then
        fsm_find_trans f.mem.trans_input (fsm_store_input f).mem.workspace
          sc.state_trans_config_ptr
      else some none) = some o) :
    (fsm_process_entry sc r.mem.workspace.current_state
      ⟨fsm_process_timers r.mem, r.calls⟩).mem.workspace.transition = FALSE ∧
    ∃ r1, fsm_process cfg r = some r1 ∧
      r1.calls = r.calls ++
        (if FALSE ≠ r.mem.workspace.transition then
          fsm_call_log (FSM_CALL.entry r.mem.workspace.current_state)
            sc.entry_action_funct_ptr
         else []) ++
        fsm_call_log (FSM_CALL.activity r.mem.workspace.current_state) sc.activity_funct_ptr ++
        [FSM_CALL.process_inputs] ++
        (match o with
         | none => []
         | some t =>
           fsm_call_log (FSM_CALL.exit r.mem.workspace.current_state)
             sc.exit_action_funct_ptr ++
           fsm_call_log (FSM_CALL.trans r.mem.workspace.current_state t.next_state
             t.trans_cond_mask) t.trans_funct_ptr) := by
  refine ⟨fsm_process_entry_transition _ _ _, ?_⟩
  have hcalls := fsm_process_front_calls cfg sc r.mem.workspace.current_state r
  rw [← hf] at hcalls
  rw [fsm_process_eq cfg r sc hsc, ← hf, fsm_process_transitions]
  by_cases hchg : f.mem.trans_input ≠ f.mem.workspace.last_input_word
  · rw [if_pos hchg] at ho
    rw [if_pos hchg, fsm_scan_eq_find]
    have ho2 : fsm_find_trans (fsm_store_input f).mem.trans_input
        (fsm_store_input f).mem.workspace sc.state_trans_config_ptr = some o := ho
    rw [ho2]
    cases o with
    | none =>
      refine ⟨_, rfl, ?_⟩
      show f.calls = _
      rw [hcalls]; simp
    | some t =>
      refine ⟨_, rfl, ?_⟩
      rw [fsm_fire_calls]
      show f.calls ++ _ ++ _ = _
      rw [hcalls]; simp
  · rw [if_neg hchg] at ho
    rw [if_neg hchg]
    have ho3 : o = none := (Option.some.inj ho).symm
    subst ho3
    refine ⟨_, rfl, ?_⟩
    rw [hcalls]; simp

/-- Instance of `C7_callback_order`: the first step of the ping-pong machine runs
entry, activity, input refresh, exit and transition action, in this order. -/
theorem C7_callback_order_witness :
    ∃ r1, fsm_process sample_cfg_ping_pong (fsm_init sample_cfg_ping_pong sample_start) =
        some r1 ∧
      r1.calls = [FSM_CALL.entry 0, FSM_CALL.activity 0, FSM_CALL.process_inputs,
                  FSM_CALL.exit 0, FSM_CALL.trans 0 1 1] := by
  obtain ⟨r1, h1, h2⟩ := (C7_callback_order sample_cfg_ping_pong
    (fsm_init sample_cfg_ping_pong sample_start) _ sample_ping (some sample_rule_go)
    rfl rfl rfl).2
  exact ⟨r1, h1, h2.trans (by decide)⟩

/-! ## Timers (claims C8, C9) -/

theorem or_and_self_bit (x b : Nat) : (x ||| b) &&& b = b := by
  apply Nat.eq_of_testBit_eq
  intro i
  rw [Nat.testBit_and, Nat.testBit_or]
  cases x.testBit i <;> cases b.testBit i <;> rfl

theorem or_and_other_bit (x c b : Nat) (h : c &&& b = 0) : (x ||| c) &&& b = x &&& b := by
  apply Nat.eq_of_testBit_eq
  intro i
  have hi : (c &&& b).testBit i = false := by rw [h]; exact Nat.zero_testBit i
  rw [Nat.testBit_and] at hi
  rw [Nat.testBit_and, Nat.testBit_or, Nat.testBit_and]
  cases hx : x.testBit i <;> cases hc : c.testBit i <;> cases hb : b.testBit i <;> simp_all

theorem and_not32_and_bit (x b : Nat) (h : not32 b &&& b = 0) : (x &&& not32 b) &&& b = 0 := by
  rw [Nat.and_assoc, h, Nat.and_zero]

theorem fsm_process_timer1_obs_self {ε : Type} (m : FSM_MEM ε) :
    fsm_timer_obs 0 (fsm_process_timer1 m) = fsm_timer_tick FSM_TIMER1_BIT (fsm_timer_obs 0 m) := by
  simp only [fsm_timer_obs, fsm_timer, fsm_timer_bit, fsm_timer_tick, fsm_process_timer1]
  split_ifs <;> simp only [or_and_self_bit]

theorem fsm_process_timer2_obs_self {ε : Type} (m : FSM_MEM ε) :
    fsm_timer_obs 1 (fsm_process_timer2 m) = fsm_timer_tick FSM_TIMER2_BIT (fsm_timer_obs 1 m) := by
  simp only [fsm_timer_obs, fsm_timer, fsm_timer_bit, fsm_timer_tick, fsm_process_timer2]
  split_ifs <;> simp only [or_and_self_bit]

theorem fsm_process_timer3_obs_self {ε : Type} (m : FSM_MEM ε) :
    fsm_timer_obs 2 (fsm_process_timer3 m) = fsm_timer_tick FSM_TIMER3_BIT (fsm_timer_obs 2 m) := by
  simp only [fsm_timer_obs, fsm_timer, fsm_timer_bit, fsm_timer_tick, fsm_process_timer3]
  split_ifs <;> simp only [or_and_self_bit]

theorem fsm_process_timer1_obs_other {ε : Type} (k : Fin 3) (hk : k ≠ 0) (m : FSM_MEM ε) :
    fsm_timer_obs k (fsm_process_timer1 m) = fsm_timer_obs k m := by
  have h12 : FSM_TIMER1_BIT &&& FSM_TIMER2_BIT = 0 := by decide
  have h13 : FSM_TIMER1_BIT &&& FSM_TIMER3_BIT = 0 := by decide
  fin_cases k
  · exact absurd rfl hk
  all_goals
    simp only [fsm_timer_obs, fsm_timer, fsm_timer_bit, fsm_process_timer1]
    split_ifs <;> simp only [or_and_other_bit _ _ _ h12, or_and_other_bit _ _ _ h13]

theorem fsm_process_timer2_obs_other {ε : Type} (k : Fin 3) (hk : k ≠ 1) (m : FSM_MEM ε) :
    fsm_timer_obs k (fsm_process_timer2 m) = fsm_timer_obs k m := by
  have h21 : FSM_TIMER2_BIT &&& FSM_TIMER1_BIT = 0 := by decide
  have h23 : FSM_TIMER2_BIT &&& FSM_TIMER3_BIT = 0 := by decide
  fin_cases k
  · simp only [fsm_timer_obs, fsm_timer, fsm_timer_bit, fsm_process_timer2]
    split_ifs <;> simp only [or_and_other_bit _ _ _ h21]
  · exact absurd rfl hk
  · simp only [fsm_timer_obs, fsm_timer, fsm_timer_bit, fsm_process_timer2]
    split_ifs <;> simp only [or_and_other_bit _ _ _ h23]

theorem fsm_process_timer3_obs_other {ε : Type} (k : Fin 3) (hk : k ≠ 2) (m : FSM_MEM ε) :
    fsm_timer_obs k (fsm_process_timer3 m) = fsm_timer_obs k m := by
  have h31 : FSM_TIMER3_BIT &&& FSM_TIMER1_BIT = 0 := by decide
  have h32 : FSM_TIMER3_BIT &&& FSM_TIMER2_BIT = 0 := by decide
  fin_cases k
  · simp only [fsm_timer_obs, fsm_timer, fsm_timer_bit, fsm_process_timer3]
    split_ifs <;> simp only [or_and_other_bit _ _ _ h31]
  · simp only [fsm_timer_obs, fsm_timer, fsm_timer_bit, fsm_process_timer3]
    split_ifs <;> simp only [or_and_other_bit _ _ _ h32]
  · exact absurd rfl hk

theorem fsm_process_timers_obs {ε : Type} (k : Fin 3) (m : FSM_MEM ε) :
    fsm_timer_obs k (fsm_process_timers m) =
      fsm_timer_tick (fsm_timer_bit k) (fsm_timer_obs k m) := by
  unfold fsm_process_timers
  fin_cases k
  · rw [fsm_process_timer3_obs_other _ (by decide), fsm_process_timer2_obs_other _ (by decide)]
    exact fsm_process_timer1_obs_self m
  · rw [fsm_process_timer3_obs_other _ (by decide)]
    have h := fsm_process_timer2_obs_self (fsm_process_timer1 m)
    rw [fsm_process_timer1_obs_other _ (by decide)] at h
    exact h
  · have h := fsm_process_timer3_obs_self (fsm_process_timer2 (fsm_process_timer1 m))
    rw [fsm_process_timer2_obs_other _ (by decide), fsm_process_timer1_obs_other _ (by decide)] at h
    exact h

theorem fsm_call_obs {ε : Type} (k : Fin 3) (c : FSM_CALL) (f : Option (FSM_FUNCT ε))
    (r : FSM_RUN ε) (h : fsm_opt_keeps_timer k f) :
    fsm_timer_obs k (fsm_call c f r).mem = fsm_timer_obs k r.mem := by
  cases f with
  | none => rfl
  | some g => exact h g rfl r.mem

theorem fsm_timer_obs_congr {ε : Type} (k : Fin 3) (m1 m2 : FSM_MEM ε)
    (h1 : m1.workspace.timer1 = m2.workspace.timer1)
    (h2 : m1.workspace.timer1_timeout = m2.workspace.timer1_timeout)
    (h3 : m1.workspace.timer1_timeout_backup = m2.workspace.timer1_timeout_backup)
    (h4 : m1.workspace.timer1_enable = m2.workspace.timer1_enable)
    (h5 : m1.workspace.timer2 = m2.workspace.timer2)
    (h6 : m1.workspace.timer2_timeout = m2.workspace.timer2_timeout)
    (h7 : m1.workspace.timer2_timeout_backup = m2.workspace.timer2_timeout_backup)
    (h8 : m1.workspace.timer2_enable = m2.workspace.timer2_enable)
    (h9 : m1.workspace.timer3 = m2.workspace.timer3)
    (h10 : m1.workspace.timer3_timeout = m2.workspace.timer3_timeout)
    (h11 : m1.workspace.timer3_timeout_backup = m2.workspace.timer3_timeout_backup)
    (h12 : m1.workspace.timer3_enable = m2.workspace.timer3_enable)
    (h13 : m1.trans_input = m2.trans_input) :
    fsm_timer_obs k m1 = fsm_timer_obs k m2 := by
  fin_cases k <;> simp only [fsm_timer_obs, fsm_timer, fsm_timer_bit] <;> simp [*]

theorem fsm_process_entry_obs {ε : Type} (k : Fin 3) (sc : FSM_STATE_CONFIG_T ε) (s : Nat)
    (r : FSM_RUN ε) (h : fsm_opt_keeps_timer k sc.entry_action_funct_ptr) :
    fsm_timer_obs k (fsm_process_entry sc s r).mem = fsm_timer_obs k r.mem := by
  unfold fsm_process_entry
  split_ifs
  · rw [← fsm_call_obs k (FSM_CALL.entry s) sc.entry_action_funct_ptr r h]
    exact fsm_timer_obs_congr k _ _ rfl rfl rfl rfl rfl rfl rfl rfl rfl rfl rfl rfl rfl
  · rfl

theorem fsm_process_front_obs {ε : Type} (k : Fin 3) (cfg : FSM_CONFIG_T ε)
    (sc : FSM_STATE_CONFIG_T ε) (s : Nat) (r : FSM_RUN ε)
    (hin : fsm_keeps_timer k cfg.process_inputs_funct_ptr)
    (hentry : fsm_opt_keeps_timer k sc.entry_action_funct_ptr)
    (hact : fsm_opt_keeps_timer k sc.activity_funct_ptr) :
    fsm_timer_obs k (fsm_process_front cfg sc s r).mem =
      fsm_timer_tick (fsm_timer_bit k) (fsm_timer_obs k r.mem) := by
  simp only [fsm_process_front, fsm_process_activity]
  rw [hin, fsm_call_obs k _ _ _ hact, fsm_process_entry_obs k _ _ _ hentry]
  exact fsm_process_timers_obs k r.mem

theorem fsm_fire_update_obs {ε : Type} (k : Fin 3) (t : FSM_TRANS_CONFIG_T ε) (r : FSM_RUN ε) :
    fsm_timer_obs k (fsm_fire_update t r).mem = fsm_timer_obs k r.mem := by
  apply fsm_timer_obs_congr k <;> (simp only [fsm_fire_update]; try (split_ifs <;> rfl))

theorem fsm_fire_obs {ε : Type} (k : Fin 3) (sc : FSM_STATE_CONFIG_T ε) (s : Nat)
    (t : FSM_TRANS_CONFIG_T ε) (r : FSM_RUN ε)
    (hexit : fsm_opt_keeps_timer k sc.exit_action_funct_ptr)
    (htrans : fsm_opt_keeps_timer k t.trans_funct_ptr) :
    fsm_timer_obs k (fsm_fire sc s t r).mem = fsm_timer_obs k r.mem := by
  have h1 : fsm_timer_obs k (fsm_fire sc s t r).mem =
      fsm_timer_obs k (fsm_call (FSM_CALL.trans s t.next_state t.trans_cond_mask)
        t.trans_funct_ptr (fsm_call (FSM_CALL.exit s) sc.exit_action_funct_ptr
          (fsm_fire_update t r))).mem :=
    fsm_timer_obs_congr k _ _ rfl rfl rfl rfl rfl rfl rfl rfl rfl rfl rfl rfl rfl
  rw [h1, fsm_call_obs k _ _ _ htrans, fsm_call_obs k _ _ _ hexit, fsm_fire_update_obs]

theorem fsm_scan_obs {ε : Type} (k : Fin 3) (sc : FSM_STATE_CONFIG_T ε) (s : Nat)
    (hexit : fsm_opt_keeps_timer k sc.exit_action_funct_ptr)
    (tbl : List (FSM_TRANS_CONFIG_T ε))
    (htbl : ∀ t ∈ tbl, fsm_opt_keeps_timer k t.trans_funct_ptr)
    (r r1 : FSM_RUN ε) (h : fsm_scan sc s tbl r = some r1) :
    fsm_timer_obs k r1.mem = fsm_timer_obs k r.mem := by
  induction tbl with
  | nil => cases h
  | cons t rest ih =>
    have ih2 := ih (fun u hu => htbl u (List.mem_cons_of_mem t hu))
    unfold fsm_scan at h
    split_ifs at h
    · cases h
      exact fsm_fire_obs k sc s t r hexit (htbl t (List.mem_cons_self t rest))
    · exact ih2 h
    · exact ih2 h
    · cases h; rfl

theorem fsm_process_obs {ε : Type} (k : Fin 3) (cfg : FSM_CONFIG_T ε) (r r1 : FSM_RUN ε)
    (hkeep : fsm_config_keeps_timer k cfg) (h : fsm_process cfg r = some r1) :
    fsm_timer_obs k r1.mem = fsm_timer_tick (fsm_timer_bit k) (fsm_timer_obs k r.mem) := by
  cases hsc : cfg.state_config_ptr.get? r.mem.workspace.current_state with
  | none =>
    simp only [fsm_process, fsm_process_timers_current_state, hsc] at h
    cases h
  | some sc =>
    have hmem : sc ∈ cfg.state_config_ptr := List.get?_mem hsc
    obtain ⟨hentry, hact, hexit, htr⟩ := hkeep.2 sc hmem
    rw [fsm_process_eq cfg r sc hsc, fsm_process_transitions] at h
    rw [← fsm_process_front_obs k cfg sc r.mem.workspace.current_state r hkeep.1 hentry hact]
    split_ifs at h
    · rw [fsm_scan_obs k sc _ hexit _ htr _ _ h]
      exact fsm_timer_obs_congr k _ _ rfl rfl rfl rfl rfl rfl rfl rfl rfl rfl rfl rfl rfl
    · cases h; rfl


theorem fsm_timer_enable_obs {ε : Type} (k : Fin 3) (T : Nat) (m : FSM_MEM ε) :
    fsm_timer_obs k (fsm_timer_enable k T m) = (⟨0, T, T, TRUE⟩, 0) := by
  have h1 : not32 FSM_TIMER1_BIT &&& FSM_TIMER1_BIT = 0 := by decide
  have h2 : not32 FSM_TIMER2_BIT &&& FSM_TIMER2_BIT = 0 := by decide
  have h3 : not32 FSM_TIMER3_BIT &&& FSM_TIMER3_BIT = 0 := by decide
  fin_cases k
  · simp only [fsm_timer_obs, fsm_timer, fsm_timer_bit, fsm_timer_enable, fsm_timer1_enable,
      and_not32_and_bit _ _ h1]
  · simp only [fsm_timer_obs, fsm_timer, fsm_timer_bit, fsm_timer_enable, fsm_timer2_enable,
      and_not32_and_bit _ _ h2]
  · simp only [fsm_timer_obs, fsm_timer, fsm_timer_bit, fsm_timer_enable, fsm_timer3_enable,
      and_not32_and_bit _ _ h3]

theorem fsm_timer_tick_running (b x n T : Nat) (hn : n < T) (hT : T < 2 ^ 32) :
    fsm_timer_tick b (⟨n, T, T, TRUE⟩, x) = (⟨n + 1, T, T, TRUE⟩, x) := by
  have h1 : (n + 1) % 2 ^ 32 = n + 1 := Nat.mod_eq_of_lt (by omega)
  unfold fsm_timer_tick
  have he : FALSE ≠ TRUE := by decide
  rw [if_pos he, if_pos ⟨hn, hn⟩]
  simp only [h1]

theorem fsm_timer_tick_expired (b x T : Nat) :
    fsm_timer_tick b (⟨T, T, T, TRUE⟩, x) = (⟨T, T, T, TRUE⟩, b) := by
  simp [fsm_timer_tick, TRUE, FALSE]

theorem fsm_timer_bit_ne_zero (k : Fin 3) : fsm_timer_bit k ≠ 0 := by
  fin_cases k <;> decide

theorem fsm_process_n_obs {ε : Type} (k : Fin 3) (cfg : FSM_CONFIG_T ε) (T : Nat)
    (hT : T < 2 ^ 32) (hkeep : fsm_config_keeps_timer k cfg) (r0 : FSM_RUN ε)
    (h0 : fsm_timer_obs k r0.mem = (⟨0, T, T, TRUE⟩, 0)) :
    ∀ (n : Nat) (rn : FSM_RUN ε), fsm_process_n cfg n r0 = some rn →
      fsm_timer_obs k rn.mem =
        (⟨min n T, T, T, TRUE⟩, if T < n then fsm_timer_bit k else 0) := by
  intro n
  induction n with
  | zero =>
    intro rn h
    cases h
    simpa using h0
  | succ n ih =>
    intro rn h
    simp only [fsm_process_n] at h
    cases hp : fsm_process_n cfg n r0 with
    | none => rw [hp] at h; cases h
    | some rp =>
      rw [hp] at h
      have hstep := fsm_process_obs k cfg rp rn hkeep h
      rw [ih rp hp] at hstep
      rw [hstep]
      by_cases hlt : n < T
      · have hmin : min n T = n := Nat.min_eq_left (Nat.le_of_lt hlt)
        have hmin2 : min (n + 1) T = n + 1 := Nat.min_eq_left hlt
        rw [hmin, hmin2, fsm_timer_tick_running _ _ n T hlt hT]
        simp [Nat.not_lt.mpr (Nat.le_of_lt hlt), Nat.not_lt.mpr hlt]
      · have hle : T ≤ n := Nat.le_of_not_lt hlt
        have hmin : min n T = T := Nat.min_eq_right hle
        have hmin2 : min (n + 1) T = T := Nat.min_eq_right (Nat.le_succ_of_le hle)
        rw [hmin, hmin2, fsm_timer_tick_expired]
        simp [Nat.lt_succ_of_le hle]

/-- C8: let timer `k + 1` be enabled with timeout `T` by `fsm_timerK_enable` and let no
callback touch that timer or its input-word bit afterwards.  After `n` further steps
of `fsm_process`: if `n ≤ T` the elapsed count is `n` and the expiry bit is clear; if
`n > T` the elapsed count is `T` and the expiry bit is set.  Moreover the timer part
of the following step leaves the bit clear when `n < T` and sets it when `n ≥ T`:
steps `1 .. T` do not set the bit, step `T + 1` and every later step does. -/
theorem C8_timer_expiry {ε : Type} (cfg : FSM_CONFIG_T ε) (k : Fin 3) (T : Nat)
    (m0 : FSM_MEM ε) (calls : List FSM_CALL) (n : Nat) (rn : FSM_RUN ε)
    (hT : T < 2 ^ 32) (hkeep : fsm_config_keeps_timer k cfg)
    (hrun : fsm_process_n cfg n ⟨fsm_timer_enable k T m0, calls⟩ = some rn) :
    (n ≤ T → (fsm_timer k rn.mem.workspace).elapsed = n ∧
      ¬ fsm_timer_expired k rn.mem.trans_input) ∧
    (T < n → (fsm_timer k rn.mem.workspace).elapsed = T ∧
      fsm_timer_expired k rn.mem.trans_input) ∧
    (n < T → ¬ fsm_timer_expired k (fsm_process_timers rn.mem).trans_input) ∧
    (T ≤ n → fsm_timer_expired k (fsm_process_timers rn.mem).trans_input) := by
  have hobs := fsm_process_n_obs k cfg T hT hkeep ⟨fsm_timer_enable k T m0, calls⟩
    (fsm_timer_enable_obs k T m0) n rn hrun
  have hnext := fsm_process_timers_obs k rn.mem
  rw [hobs] at hnext
  have hv : fsm_timer k rn.mem.workspace = ⟨min n T, T, T, TRUE⟩ := congrArg Prod.fst hobs
  have hb : rn.mem.trans_input &&& fsm_timer_bit k = if T < n then fsm_timer_bit k else 0 :=
    congrArg Prod.snd hobs
  have hnz := fsm_timer_bit_ne_zero k
  refine ⟨?_, ?_, ?_, ?_⟩
  · intro hle
    rw [hv]
    refine ⟨Nat.min_eq_left hle, ?_⟩
    unfold fsm_timer_expired
    rw [hb, if_neg (Nat.not_lt.mpr hle)]
    exact fun h => h rfl
  · intro hlt
    rw [hv]
    refine ⟨Nat.min_eq_right (Nat.le_of_lt hlt), ?_⟩
    unfold fsm_timer_expired
    rw [hb, if_pos hlt]
    exact hnz
  · intro hlt
    rw [Nat.min_eq_left (Nat.le_of_lt hlt), fsm_timer_tick_running _ _ n T hlt hT,
      if_neg (Nat.not_lt.mpr (Nat.le_of_lt hlt))] at hnext
    have hb2 : (fsm_process_timers rn.mem).trans_input &&& fsm_timer_bit k = 0 :=
      congrArg Prod.snd hnext
    unfold fsm_timer_expired
    rw [hb2]
    exact fun h => h rfl
  · intro hle
    rw [Nat.min_eq_right hle, fsm_timer_tick_expired] at hnext
    have hb2 : (fsm_process_timers rn.mem).trans_input &&& fsm_timer_bit k = fsm_timer_bit k :=
      congrArg Prod.snd hnext
    unfold fsm_timer_expired
    rw [hb2]
    exact hnz

theorem sample_cfg_idle_keeps_timer (k : Fin 3) : fsm_config_keeps_timer k sample_cfg_idle := by
  refine ⟨fun _ => rfl, ?_⟩
  intro sc hsc
  simp only [sample_cfg_idle, List.mem_singleton] at hsc
  subst hsc
  refine ⟨?_, ?_, ?_, ?_⟩
  · intro g hg; cases hg
  · intro g hg; cases hg
  · intro g hg; cases hg
  intro t ht
  simp only [sample_state1, List.mem_singleton] at ht
  subst ht
  intro g hg; cases hg

/-- Instance of `C8_timer_expiry`: timer 1 enabled with timeout 2 on the idle sample
machine; after three steps the elapsed count is 2 and the expiry bit is set. -/
theorem C8_timer_expiry_witness :
    ∃ rn, fsm_process_n sample_cfg_idle 3 ⟨fsm_timer_enable 0 2 sample_start.mem, []⟩ =
        some rn ∧
      (fsm_timer 0 rn.mem.workspace).elapsed = 2 ∧
      fsm_timer_expired 0 rn.mem.trans_input :=
  ⟨_, rfl, (C8_timer_expiry sample_cfg_idle 0 2 sample_start.mem [] 3 _ (by decide)
    (sample_cfg_idle_keeps_timer 0) rfl).2.1 (by decide)⟩

/-- C9 as stated fails: just after `fsm_init` timer 1 is disabled, so the step is not
in the increment case; the timer part of `fsm_process` leaves the elapsed count
unchanged but does not set the reserved bit of timer 1. -/
theorem C9_counterexample :
    (fsm_timer 0 (fsm_init sample_cfg sample_start).mem.workspace).enable = FALSE ∧
    ¬ (FALSE ≠ (fsm_timer 0 (fsm_init sample_cfg sample_start).mem.workspace).enable ∧
        (fsm_timer 0 (fsm_init sample_cfg sample_start).mem.workspace).elapsed <
          (fsm_timer 0 (fsm_init sample_cfg sample_start).mem.workspace).timeout ∧
        (fsm_timer 0 (fsm_init sample_cfg sample_start).mem.workspace).elapsed <
          (fsm_timer 0 (fsm_init sample_cfg sample_start).mem.workspace).timeout_backup) ∧
    (fsm_timer 0 (fsm_process_timers (fsm_init sample_cfg sample_start).mem).workspace).elapsed =
      (fsm_timer 0 (fsm_init sample_cfg sample_start).mem.workspace).elapsed ∧
    ¬ fsm_timer_expired 0 (fsm_process_timers (fsm_init sample_cfg sample_start).mem).trans_input ∧
    (fsm_process_timers (fsm_init sample_cfg sample_start).mem).trans_input = 0 := by
  decide

/-- C9, amended: for each of the three timers the timer part of one `fsm_process`
step increments the elapsed count by exactly one when the timer is enabled and
`elapsed < timeout` and `elapsed < timeout_backup`; when the timer is enabled and that
test fails it leaves the elapsed count unchanged and sets the timer's reserved bit;
when the timer is disabled it leaves the elapsed count unchanged and the reserved bit
as it was.  The other fields of the timer never change. -/
theorem C9_timer_phase {ε : Type} (k : Fin 3) (m : FSM_MEM ε)
    (hrange : (fsm_timer k m.workspace).timeout < 2 ^ 32) :
    (FALSE ≠ (fsm_timer k m.workspace).enable →
      (fsm_timer k m.workspace).elapsed < (fsm_timer k m.workspace).timeout →
      (fsm_timer k m.workspace).elapsed < (fsm_timer k m.workspace).timeout_backup →
        fsm_timer k (fsm_process_timers m).workspace =
          { fsm_timer k m.workspace with elapsed := (fsm_timer k m.workspace).elapsed + 1 } ∧
        (fsm_timer_expired k (fsm_process_timers m).trans_input ↔
          fsm_timer_expired k m.trans_input)) ∧
    (FALSE ≠ (fsm_timer k m.workspace).enable →
      ¬ ((fsm_timer k m.workspace).elapsed < (fsm_timer k m.workspace).timeout ∧
        (fsm_timer k m.workspace).elapsed < (fsm_timer k m.workspace).timeout_backup) →
        fsm_timer k (fsm_process_timers m).workspace = fsm_timer k m.workspace ∧
        fsm_timer_expired k (fsm_process_timers m).trans_input) ∧
    (FALSE = (fsm_timer k m.workspace).enable →
        fsm_timer k (fsm_process_timers m).workspace = fsm_timer k m.workspace ∧
        (fsm_timer_expired k (fsm_process_timers m).trans_input ↔
          fsm_timer_expired k m.trans_input)) := by
  have hobs := fsm_process_timers_obs k m
  unfold fsm_timer_tick at hobs
  refine ⟨?_, ?_, ?_⟩
  · intro hen h1 h2
    have hmod : ((fsm_timer k m.workspace).elapsed + 1) % 2 ^ 32 =
        (fsm_timer k m.workspace).elapsed + 1 := Nat.mod_eq_of_lt (by omega)
    have hen2 : FALSE ≠ (fsm_timer_obs k m).1.enable := hen
    have h12 : (fsm_timer_obs k m).1.elapsed < (fsm_timer_obs k m).1.timeout ∧
        (fsm_timer_obs k m).1.elapsed < (fsm_timer_obs k m).1.timeout_backup := ⟨h1, h2⟩
    rw [if_pos hen2, if_pos h12] at hobs
    have hv : fsm_timer k (fsm_process_timers m).workspace = _ := congrArg Prod.fst hobs
    have hb : (fsm_process_timers m).trans_input &&& fsm_timer_bit k = _ :=
      congrArg Prod.snd hobs
    refine ⟨?_, ?_⟩
    · rw [hv]
      show ({ fsm_timer k m.workspace with
        elapsed := ((fsm_timer k m.workspace).elapsed + 1) % 2 ^ 32 } : FSM_TIMER_T) = _
      rw [hmod]
    · unfold fsm_timer_expired
      rw [hb]
      exact Iff.rfl
  · intro hen h12
    have hen2 : FALSE ≠ (fsm_timer_obs k m).1.enable := hen
    have h12b : ¬ ((fsm_timer_obs k m).1.elapsed < (fsm_timer_obs k m).1.timeout ∧
        (fsm_timer_obs k m).1.elapsed < (fsm_timer_obs k m).1.timeout_backup) := h12
    rw [if_pos hen2, if_neg h12b] at hobs
    have hv : fsm_timer k (fsm_process_timers m).workspace = _ := congrArg Prod.fst hobs
    have hb : (fsm_process_timers m).trans_input &&& fsm_timer_bit k = _ :=
      congrArg Prod.snd hobs
    refine ⟨hv, ?_⟩
    unfold fsm_timer_expired
    rw [hb]
    exact fsm_timer_bit_ne_zero k
  · intro hdis
    have hen2 : ¬ FALSE ≠ (fsm_timer_obs k m).1.enable := fun h => h hdis
    rw [if_neg hen2] at hobs
    have hv : fsm_timer k (fsm_process_timers m).workspace = _ := congrArg Prod.fst hobs
    have hb : (fsm_process_timers m).trans_input &&& fsm_timer_bit k = _ :=
      congrArg Prod.snd hobs
    refine ⟨hv, ?_⟩
    unfold fsm_timer_expired
    rw [hb]
    exact Iff.rfl

/-- Instance of `C9_timer_phase`: timer 1 just enabled with timeout 2 counts from 0
to 1 in the timer part of the next step. -/
theorem C9_timer_phase_witness :
    fsm_timer 0 (fsm_process_timers (fsm_timer_enable 0 2 sample_start.mem)).workspace =
      { fsm_timer 0 (fsm_timer_enable 0 2 sample_start.mem).workspace with
        elapsed := (fsm_timer 0 (fsm_timer_enable 0 2 sample_start.mem).workspace).elapsed + 1 } :=
  ((C9_timer_phase 0 (fsm_timer_enable 0 2 sample_start.mem) (by decide)).1
    (by decide) (by decide) (by decide)).1

/-! ## Initialisation (claim C10) -/

/-- C10 as stated fails: with a power-up callback that enables timer 1 (a call of
`fsm_timer1_enable`), timer 1 is enabled with timeout 5 after `fsm_init`. -/
theorem C10_counterexample :
    (fsm_init sample_cfg_power_up sample_start).calls = [FSM_CALL.power_up] ∧
    (fsm_init sample_cfg_power_up sample_start).mem.workspace.timer1_enable = TRUE ∧
    (fsm_init sample_cfg_power_up sample_start).mem.workspace.timer1_timeout = 5 ∧
    (fsm_init sample_cfg_power_up sample_start).mem.workspace.timer1_timeout_backup = 5 := by
  decide

/-- C10, amended: for every configuration `fsm_init` builds the memory `m0` with
`current_state = initial_state`, the transition flag set, the three timers disabled
with elapsed, timeout and backup zero, both history words `0xFFFFFFFF` and the input
word zero.  Without a power-up callback this is the result and no callback is run;
with one, the callback is run exactly once, on `m0`, and its result is the result of
`fsm_init`.  When the power-up callback does not write the workspace (or is absent)
the workspace after `fsm_init` is that of `m0`, and the first `fsm_process` step runs
the entry action of the initial state before the activity and the input refresh. -/
theorem C10_init {ε : Type} (cfg : FSM_CONFIG_T ε) (r : FSM_RUN ε) :
    ∃ m0 : FSM_MEM ε,
      m0.workspace =
        { timer1 := 0, timer1_timeout := 0, timer1_timeout_backup := 0,
          timer2 := 0, timer2_timeout := 0, timer2_timeout_backup := 0,
          timer3 := 0, timer3_timeout := 0, timer3_timeout_backup := 0,
          last_input_word := 0xFFFFFFFF, last_event_trans_cond_mask := 0xFFFFFFFF,
          timer1_enable := FALSE, timer2_enable := FALSE, timer3_enable := FALSE,
          current_state := cfg.initial_state, transition := TRUE } ∧
      m0.trans_input = 0 ∧
      m0.env = r.mem.env ∧
      (cfg.power_up_trans_funct_ptr = none → fsm_init cfg r = ⟨m0, r.calls⟩) ∧
      (∀ g, cfg.power_up_trans_funct_ptr = some g →
        fsm_init cfg r = ⟨g m0, r.calls ++ [FSM_CALL.power_up]⟩) ∧
      (fsm_opt_keeps_workspace cfg.power_up_trans_funct_ptr →
        (fsm_init cfg r).mem.workspace = m0.workspace ∧
        ∀ sc, cfg.state_config_ptr.get? cfg.initial_state = some sc →
          fsm_process cfg (fsm_init cfg r) =
            fsm_process_transitions sc cfg.initial_state
              (fsm_process_front cfg sc cfg.initial_state (fsm_init cfg r)) ∧
          (fsm_process_front cfg sc cfg.initial_state (fsm_init cfg r)).calls =
            (fsm_init cfg r).calls ++
              fsm_call_log (FSM_CALL.entry cfg.initial_state) sc.entry_action_funct_ptr ++
              fsm_call_log (FSM_CALL.activity cfg.initial_state) sc.activity_funct_ptr ++
              [FSM_CALL.process_inputs]) := by
  refine ⟨FSM_MEM.mk (FSM_WORKSPACE_T.mk 0 0 0 0 0 0 0 0 0 0xFFFFFFFF 0xFFFFFFFF FALSE FALSE
    FALSE cfg.initial_state TRUE) 0 r.mem.env, rfl, rfl, rfl, ?_, ?_, ?_⟩
  · intro hnone
    simp only [fsm_init, hnone, fsm_call]
    rfl
  · intro g hg
    simp only [fsm_init, hg, fsm_call]
    rfl
  · intro hkeep
    have hw : (fsm_init cfg r).mem.workspace = _ := fsm_call_workspace FSM_CALL.power_up
      cfg.power_up_trans_funct_ptr _ hkeep
    refine ⟨hw, ?_⟩
    intro sc hsc
    have hcs : (fsm_init cfg r).mem.workspace.current_state = cfg.initial_state := by
      rw [hw]
    have htr : (fsm_init cfg r).mem.workspace.transition = TRUE := by
      rw [hw]
    have hsc2 : cfg.state_config_ptr.get? (fsm_init cfg r).mem.workspace.current_state =
        some sc := by rw [hcs]; exact hsc
    refine ⟨?_, ?_⟩
    · rw [fsm_process_eq cfg (fsm_init cfg r) sc hsc2, hcs]
    · rw [fsm_process_front_calls, htr, if_pos (by decide)]

/-- Instance of `C10_init`: the ping-pong machine has no power-up callback; the first
step after `fsm_init` logs its entry action first. -/
theorem C10_init_witness :
    (fsm_process_front sample_cfg_ping_pong sample_ping 0
        (fsm_init sample_cfg_ping_pong sample_start)).calls =
      [FSM_CALL.entry 0, FSM_CALL.activity 0, FSM_CALL.process_inputs] := by
  obtain ⟨m0, _, _, _, _, _, h⟩ := C10_init sample_cfg_ping_pong sample_start
  exact ((h (fun g hg => by cases hg)).2 sample_ping rfl).2.trans (by decide)

/-! ## Timer control calls (claim C11) -/

theorem and_not32_testBit (x idx i : Nat) (hx : x < 2 ^ 32) :
    (x &&& not32 (2 ^ idx)).testBit i = (decide (i ≠ idx) && x.testBit i) := by
  have hones : (0xFFFFFFFF : Nat) = 2 ^ 32 - 1 := by norm_num
  rw [Nat.testBit_and, not32, Nat.testBit_xor, hones, Nat.testBit_two_pow_sub_one,
    Nat.testBit_two_pow]
  by_cases hi : i < 32
  · by_cases he : idx = i
    · subst he
      simp [hi]
    · have he2 : i ≠ idx := fun h => he h.symm
      simp [hi, he, he2]
  · have hxi : x.testBit i = false := testBit_eq_false_of_lt_32 x i hx (Nat.le_of_not_lt hi)
    simp [hxi]

theorem fsm_timer_bit_eq (k : Fin 3) : fsm_timer_bit k = 2 ^ fsm_timer_bit_index k := by
  fin_cases k <;> decide

theorem fsm_timer_control_input {ε : Type} (k : Fin 3) (c : FSM_TIMER_CALL) (m : FSM_MEM ε) :
    (fsm_timer_control k c m).trans_input = m.trans_input &&& not32 (fsm_timer_bit k) := by
  fin_cases k <;> cases c <;> rfl

theorem fsm_timer_control_self {ε : Type} (k : Fin 3) (c : FSM_TIMER_CALL) (m : FSM_MEM ε) :
    fsm_timer k (fsm_timer_control k c m).workspace =
      fsm_timer_call_effect c (fsm_timer k m.workspace) := by
  fin_cases k <;> cases c <;> rfl

theorem fsm_timer_control_other {ε : Type} (k j : Fin 3) (hj : j ≠ k) (c : FSM_TIMER_CALL)
    (m : FSM_MEM ε) :
    fsm_timer j (fsm_timer_control k c m).workspace = fsm_timer j m.workspace := by
  fin_cases k <;> fin_cases j <;> first | exact absurd rfl hj | (cases c <;> rfl)

theorem fsm_timer_control_frame {ε : Type} (k : Fin 3) (c : FSM_TIMER_CALL) (m : FSM_MEM ε) :
    (fsm_timer_control k c m).workspace.current_state = m.workspace.current_state ∧
    (fsm_timer_control k c m).workspace.transition = m.workspace.transition ∧
    (fsm_timer_control k c m).workspace.last_input_word = m.workspace.last_input_word ∧
    (fsm_timer_control k c m).workspace.last_event_trans_cond_mask =
      m.workspace.last_event_trans_cond_mask ∧
    (fsm_timer_control k c m).env = m.env := by
  fin_cases k <;> cases c <;> exact ⟨rfl, rfl, rfl, rfl, rfl⟩

/-- C11: for timer `k + 1` (reserved bit `0x80000000`, `0x40000000`, `0x20000000`), every
control call clears exactly that bit of a 32-bit input word; it leaves in the fields
of the timer what the specification lists for the call (enable: elapsed 0, timeout and
backup `t`, enabled; new timeout: timeout and backup `t`, enabled, elapsed kept;
restart: elapsed `s`, timeout and backup `t`, enabled; disable: elapsed 0, disabled;
stop: disabled, elapsed kept; start: enabled, elapsed kept); it changes no field of
another timer, nor the current state, the transition flag, the transition history or
the rest of the memory; the two read calls return elapsed and timeout. -/
theorem C11_timer_control {ε : Type} (k : Fin 3) (c : FSM_TIMER_CALL) (m : FSM_MEM ε)
    (hin : m.trans_input < 2 ^ 32) :
    (fsm_timer_bit 0 = 0x80000000 ∧ fsm_timer_bit 1 = 0x40000000 ∧
      fsm_timer_bit 2 = 0x20000000) ∧
    fsm_timer_bit k = 2 ^ fsm_timer_bit_index k ∧
    (∀ i, (fsm_timer_control k c m).trans_input.testBit i =
      (decide (i ≠ fsm_timer_bit_index k) && m.trans_input.testBit i)) ∧
    fsm_timer k (fsm_timer_control k c m).workspace =
      fsm_timer_call_effect c (fsm_timer k m.workspace) ∧
    (∀ j, j ≠ k → fsm_timer j (fsm_timer_control k c m).workspace = fsm_timer j m.workspace) ∧
    (fsm_timer_control k c m).workspace.current_state = m.workspace.current_state ∧
    (fsm_timer_control k c m).workspace.transition = m.workspace.transition ∧
    (fsm_timer_control k c m).workspace.last_input_word = m.workspace.last_input_word ∧
    (fsm_timer_control k c m).workspace.last_event_trans_cond_mask =
      m.workspace.last_event_trans_cond_mask ∧
    (fsm_timer_control k c m).env = m.env ∧
    fsm_timer_get_elapsed k m = (fsm_timer k m.workspace).elapsed ∧
    fsm_timer_get_timeout k m = (fsm_timer k m.workspace).timeout := by
  refine ⟨⟨by decide, by decide, by decide⟩, fsm_timer_bit_eq k, ?_,
    fsm_timer_control_self k c m, fun j hj => fsm_timer_control_other k j hj c m, ?_⟩
  · intro i
    rw [fsm_timer_control_input, fsm_timer_bit_eq]
    exact and_not32_testBit m.trans_input (fsm_timer_bit_index k) i hin
  · obtain ⟨h1, h2, h3, h4, h5⟩ := fsm_timer_control_frame k c m
    refine ⟨h1, h2, h3, h4, h5, ?_, ?_⟩ <;> (fin_cases k <;> rfl)

/-- Instance of `C11_timer_control`: restarting timer 2 at 3 with timeout 7 on the
memory left by `fsm_init`. -/
theorem C11_timer_control_witness :
    fsm_timer 1 (fsm_timer_control 1 (FSM_TIMER_CALL.restart_with_timeout_and_old_time 3 7)
      (fsm_init sample_cfg sample_start).mem).workspace = ⟨3, 7, 7, TRUE⟩ :=
  (C11_timer_control 1 (FSM_TIMER_CALL.restart_with_timeout_and_old_time 3 7)
    (fsm_init sample_cfg sample_start).mem (by decide)).2.2.2.1

/-! ## Clearing the transition history (claim C12) -/

/-- C12 as stated fails in two ways.  First run: the rule of `sample_cfg_clear` leads
back to state 0, matches every word, and its action calls `fsm_clear_trans_history`;
it fires in step one; in step two the refreshed word is `0xFFFFFFFF`, which the rule
matches, but the step ends after the input refresh and fires nothing.  Second run:
right after `fsm_clear_trans_history`, the refreshed word 1 matches the rule of
`sample_cfg_ones`, whose condition mask is `0xFFFFFFFF`, and the rule does not fire. -/
theorem C12_counterexample :
    (∃ r1 r2, fsm_process sample_cfg_clear (fsm_init sample_cfg_clear sample_start) = some r1 ∧
      fsm_process sample_cfg_clear r1 = some r2 ∧
      r1.calls = [FSM_CALL.process_inputs, FSM_CALL.trans 0 0 0] ∧
      r1.mem.workspace.last_input_word = 0xFFFFFFFF ∧
      r1.mem.workspace.last_event_trans_cond_mask = 0xFFFFFFFF ∧
      r2.mem.trans_input = 0xFFFFFFFF ∧
      fsm_trans_check r2.mem.trans_input sample_rule_any_self ∧
      sample_rule_any_self.next_state = r1.mem.workspace.current_state ∧
      r2.calls = r1.calls ++ [FSM_CALL.process_inputs]) ∧
    (∃ r2, fsm_process sample_cfg_ones
        ⟨fsm_clear_trans_history (fsm_init sample_cfg_ones sample_start).mem, []⟩ = some r2 ∧
      r2.mem.trans_input = 1 ∧
      fsm_trans_check r2.mem.trans_input sample_rule_ones_self ∧
      sample_rule_ones_self.next_state =
        (fsm_init sample_cfg_ones sample_start).mem.workspace.current_state ∧
      r2.calls = [FSM_CALL.process_inputs]) := by
  refine ⟨⟨_, _, rfl, rfl, ?_, ?_, ?_, ?_, ?_, ?_, ?_⟩, ⟨_, rfl, ?_, ?_, ?_, ?_⟩⟩ <;> decide

/-- C12, amended: `fsm_clear_trans_history` sets `last_input_word` and
`last_event_trans_cond_mask` to `0xFFFFFFFF` and changes nothing else.  In the step
that follows it (entry action, activity and input refresh not writing the workspace),
a rule that the scan reaches and that the refreshed input word matches fires, also
when it leads back to the current state, provided the refreshed word is not
`0xFFFFFFFF` and the condition mask of the rule is not `0xFFFFFFFF`. -/
theorem C12_clear_trans_history {ε : Type} (cfg : FSM_CONFIG_T ε) (m : FSM_MEM ε)
    (r f : FSM_RUN ε) (sc : FSM_STATE_CONFIG_T ε)
    (pre rest : List (FSM_TRANS_CONFIG_T ε)) (t : FSM_TRANS_CONFIG_T ε)
    (hr : r.mem = fsm_clear_trans_history m)
    (hsc : cfg.state_config_ptr.get? r.mem.workspace.current_state = some sc)
    (hf : f = fsm_process_front cfg sc r.mem.workspace.current_state r)
    (hin : fsm_keeps_workspace cfg.process_inputs_funct_ptr)
    (hentry : fsm_opt_keeps_workspace sc.entry_action_funct_ptr)
    (hact : fsm_opt_keeps_workspace sc.activity_funct_ptr)
    (hword : f.mem.trans_input ≠ 0xFFFFFFFF)
    (htbl : sc.state_trans_config_ptr = pre ++ t :: rest)
    (hreach : ∀ u ∈ pre, fsm_rule_skipped f.mem.trans_input (fsm_store_input f).mem.workspace u)
    (hrule : FSM_TRANS_END ≠ t.next_state)
    (hmatch : fsm_trans_check f.mem.trans_input t)
    (hmask : t.trans_cond_mask ≠ 0xFFFFFFFF) :
    (fsm_clear_trans_history m).workspace =
      { m.workspace with last_input_word := 0xFFFFFFFF,
                         last_event_trans_cond_mask := 0xFFFFFFFF } ∧
    (fsm_clear_trans_history m).trans_input = m.trans_input ∧
    (fsm_clear_trans_history m).env = m.env ∧
    fsm_process cfg r =
      some (fsm_fire sc r.mem.workspace.current_state t (fsm_store_input f)) := by
  refine ⟨rfl, rfl, rfl, ?_⟩
  have hfw := fsm_process_front_workspace cfg sc r.mem.workspace.current_state r hin
    hentry hact
  rw [← hf] at hfw
  have hliw : f.mem.workspace.last_input_word = RESERVED_INPUT_WORD_VALUE := by
    rw [hfw]
    show (fsm_process_timers r.mem).workspace.last_input_word = _
    rw [fsm_process_timers_last_input_word, hr]
    rfl
  have hlm : (fsm_store_input f).mem.workspace.last_event_trans_cond_mask =
      RESERVED_INPUT_WORD_VALUE := by
    show f.mem.workspace.last_event_trans_cond_mask = _
    rw [hfw]
    show (fsm_process_timers r.mem).workspace.last_event_trans_cond_mask = _
    rw [fsm_process_timers_last_mask, hr]
    rfl
  have hchg : f.mem.trans_input ≠ f.mem.workspace.last_input_word := by
    rw [hliw]; exact hword
  have hrace : fsm_race_check (fsm_store_input f).mem.workspace t := by
    left
    rw [hlm]
    exact fun h => hmask h.symm
  exact fsm_process_fires cfg r f sc pre rest t hsc hf hchg htbl hreach ⟨hrule, hmatch, hrace⟩

/-- Instance of `C12_clear_trans_history`: after its self rule fired on the word 1 the
sample machine, fed the word 1 again, would fire nothing; after a call of
`fsm_clear_trans_history` it fires the self rule again. -/
theorem C12_clear_trans_history_witness :
    fsm_process sample_cfg_const sample_after_self =
      some (fsm_process_front sample_cfg_const sample_state0 0 sample_after_self) ∧
    fsm_process sample_cfg_const sample_after_clear =
      some (fsm_fire sample_state0 0 sample_rule_self
        (fsm_store_input (fsm_process_front sample_cfg_const sample_state0 0
          sample_after_clear))) :=
  ⟨rfl, (C12_clear_trans_history sample_cfg_const sample_after_self.mem sample_after_clear _
    sample_state0 [] [sample_rule_other, sample_end] sample_rule_self rfl rfl rfl
    (fun _ => rfl) sample_state0_keeps_workspace.1 sample_state0_keeps_workspace.2.1
    (by decide) rfl (by intro u hu; cases hu) (by decide) (by decide) (by decide)).2.2.2⟩

/-! ## Saturation of the timers (claim C36) -/

/-- One timer block on a timer whose timeout is a 32-bit value: what can happen to
the counter. -/
theorem fsm_timer_tick_cases (b : Nat) (o : FSM_TIMER_T × Nat) (hT : o.1.timeout < 2 ^ 32) :
    (fsm_timer_tick b o).1.timeout = o.1.timeout ∧
    (fsm_timer_tick b o).1.timeout_backup = o.1.timeout_backup ∧
    (fsm_timer_tick b o).1.enable = o.1.enable ∧
    ((FALSE ≠ o.1.enable ∧ o.1.elapsed < o.1.timeout ∧ o.1.elapsed < o.1.timeout_backup) →
      (fsm_timer_tick b o).1.elapsed = o.1.elapsed + 1) ∧
    (¬ (FALSE ≠ o.1.enable ∧ o.1.elapsed < o.1.timeout ∧ o.1.elapsed < o.1.timeout_backup) →
      (fsm_timer_tick b o).1 = o.1) := by
  unfold fsm_timer_tick
  split_ifs with h1 h2
  · refine ⟨rfl, rfl, rfl, fun _ => ?_, fun h => absurd ⟨h1, h2⟩ h⟩
    exact Nat.mod_eq_of_lt (by omega)
  · exact ⟨rfl, rfl, rfl, fun h => absurd h.2 h2, fun _ => rfl⟩
  · exact ⟨rfl, rfl, rfl, fun h => absurd h.1 h1, fun _ => rfl⟩

/-- C36: in a step of `fsm_process` whose callbacks make no control call for the timer
(its timeout being a 32-bit value), the timer's timeout, backup and enable flag stay
as they are and its counter is incremented, by exactly one, when and only when the
timer is enabled and the counter is strictly below both the timeout and the backup;
after a step that incremented it the counter is at most the timeout, so it never wraps
around; and once the counter has reached the timeout it stays as it is, in this step
and in any number of further steps. -/
theorem C36_timer_saturates {ε : Type} (k : Fin 3) (cfg : FSM_CONFIG_T ε) (r r1 : FSM_RUN ε)
    (hkeep : fsm_config_keeps_timer k cfg) (h : fsm_process cfg r = some r1)
    (hT : (fsm_timer k r.mem.workspace).timeout < 2 ^ 32) :
    ((fsm_timer k r1.mem.workspace).timeout = (fsm_timer k r.mem.workspace).timeout ∧
      (fsm_timer k r1.mem.workspace).timeout_backup =
        (fsm_timer k r.mem.workspace).timeout_backup ∧
      (fsm_timer k r1.mem.workspace).enable = (fsm_timer k r.mem.workspace).enable) ∧
    ((FALSE ≠ (fsm_timer k r.mem.workspace).enable ∧
        (fsm_timer k r.mem.workspace).elapsed < (fsm_timer k r.mem.workspace).timeout ∧
        (fsm_timer k r.mem.workspace).elapsed <
          (fsm_timer k r.mem.workspace).timeout_backup) →
      (fsm_timer k r1.mem.workspace).elapsed = (fsm_timer k r.mem.workspace).elapsed + 1 ∧
      (fsm_timer k r1.mem.workspace).elapsed ≤ (fsm_timer k r1.mem.workspace).timeout ∧
      (fsm_timer k r1.mem.workspace).elapsed < 2 ^ 32) ∧
    ((fsm_timer k r1.mem.workspace).elapsed ≠ (fsm_timer k r.mem.workspace).elapsed →
      FALSE ≠ (fsm_timer k r.mem.workspace).enable ∧
      (fsm_timer k r.mem.workspace).elapsed < (fsm_timer k r.mem.workspace).timeout ∧
      (fsm_timer k r.mem.workspace).elapsed <
        (fsm_timer k r.mem.workspace).timeout_backup) ∧
    ((fsm_timer k r.mem.workspace).timeout ≤ (fsm_timer k r.mem.workspace).elapsed →
      ∀ (n : Nat) (rn : FSM_RUN ε), fsm_process_n cfg n r = some rn →
        fsm_timer k rn.mem.workspace = fsm_timer k r.mem.workspace) := by
  have hobs := fsm_process_obs k cfg r r1 hkeep h
  have h1 : fsm_timer k r1.mem.workspace =
      (fsm_timer_tick (fsm_timer_bit k) (fsm_timer_obs k r.mem)).1 :=
    (congrArg Prod.fst hobs)
  obtain ⟨c1, c2, c3, c4, c5⟩ :=
    fsm_timer_tick_cases (fsm_timer_bit k) (fsm_timer_obs k r.mem) hT
  rw [← h1] at c1 c2 c3 c4 c5
  have hfst : (fsm_timer_obs k r.mem).1 = fsm_timer k r.mem.workspace := rfl
  rw [hfst] at c1 c2 c3 c4 c5
  refine ⟨⟨c1, c2, c3⟩, ?_, ?_, ?_⟩
  · intro hc
    have he := c4 hc
    rw [he, c1]
    exact ⟨rfl, by omega, by omega⟩
  · intro hne
    by_contra hc
    exact hne (congrArg FSM_TIMER_T.elapsed (c5 hc))
  · intro hsat n
    induction n with
    | zero =>
      intro rn hn
      cases hn
      rfl
    | succ m ih =>
      intro rn hn
      rw [fsm_process_n] at hn
      cases hm : fsm_process_n cfg m r with
      | none =>
        rw [hm] at hn
        cases hn
      | some rm =>
        rw [hm] at hn
        have ihm := ih rm hm
        have hobs2 := fsm_process_obs k cfg rm rn hkeep hn
        have h2 : fsm_timer k rn.mem.workspace =
            (fsm_timer_tick (fsm_timer_bit k) (fsm_timer_obs k rm.mem)).1 :=
          (congrArg Prod.fst hobs2)
        have hfst2 : (fsm_timer_obs k rm.mem).1 = fsm_timer k rm.mem.workspace := rfl
        have hT2 : (fsm_timer_obs k rm.mem).1.timeout < 2 ^ 32 := by
          rw [hfst2, ihm]
          exact hT
        obtain ⟨_, _, _, _, d5⟩ :=
          fsm_timer_tick_cases (fsm_timer_bit k) (fsm_timer_obs k rm.mem) hT2
        rw [h2, d5, hfst2, ihm]
        rw [hfst2, ihm]
        intro hc
        omega

/-- Instance of `C36_timer_saturates`: timer 1 of the idle machine, enabled with a
timeout of 5 by the power-up callback, is at 1 after the first step. -/
theorem C36_timer_saturates_witness :
    ∃ r1, fsm_process sample_cfg_power_up (fsm_init sample_cfg_power_up sample_start) = some r1 ∧
      (fsm_timer 0 r1.mem.workspace).elapsed = 1 ∧
      (fsm_timer 0 r1.mem.workspace).timeout = 5 := by
  have hkeep : fsm_config_keeps_timer 0 sample_cfg_power_up := by
    refine ⟨fun m => rfl, ?_⟩
    intro sc hsc
    simp only [sample_cfg_power_up, List.mem_singleton] at hsc
    subst hsc
    refine ⟨?_, ?_, ?_, ?_⟩
    · intro g hg
      cases hg
    · intro g hg
      cases hg
    · intro g hg
      cases hg
    · intro t ht
      simp only [sample_state1, List.mem_singleton] at ht
      subst ht
      intro g hg
      cases hg
  obtain ⟨r1, hr1⟩ : ∃ r1,
      fsm_process sample_cfg_power_up (fsm_init sample_cfg_power_up sample_start) = some r1 :=
    ⟨_, rfl⟩
  have h := C36_timer_saturates 0 sample_cfg_power_up _ r1 hkeep hr1 (by decide)
  exact ⟨r1, hr1, (h.2.1 (by decide)).1, h.1.1⟩

/-! ## The timeout backups (claim C38) -/

theorem fsm_process_timer1_backed {ε : Type} (m : FSM_MEM ε)
    (h : fsm_timeouts_backed m.workspace) :
    fsm_timeouts_backed (fsm_process_timer1 m).workspace := by
  unfold fsm_process_timer1
  split_ifs <;> exact h

theorem fsm_process_timer2_backed {ε : Type} (m : FSM_MEM ε)
    (h : fsm_timeouts_backed m.workspace) :
    fsm_timeouts_backed (fsm_process_timer2 m).workspace := by
  unfold fsm_process_timer2
  split_ifs <;> exact h

theorem fsm_process_timer3_backed {ε : Type} (m : FSM_MEM ε)
    (h : fsm_timeouts_backed m.workspace) :
    fsm_timeouts_backed (fsm_process_timer3 m).workspace := by
  unfold fsm_process_timer3
  split_ifs <;> exact h

theorem fsm_process_timers_backed {ε : Type} (m : FSM_MEM ε)
    (h : fsm_timeouts_backed m.workspace) :
    fsm_timeouts_backed (fsm_process_timers m).workspace :=
  fsm_process_timer3_backed _ (fsm_process_timer2_backed _ (fsm_process_timer1_backed _ h))

theorem fsm_call_backed {ε : Type} (c : FSM_CALL) (f : Option (FSM_FUNCT ε)) (r : FSM_RUN ε)
    (hf : fsm_opt_keeps_backed f) (h : fsm_timeouts_backed r.mem.workspace) :
    fsm_timeouts_backed (fsm_call c f r).mem.workspace := by
  cases f with
  | none => exact h
  | some g => exact hf g rfl r.mem h

theorem fsm_process_entry_backed {ε : Type} (sc : FSM_STATE_CONFIG_T ε) (s : Nat)
    (r : FSM_RUN ε) (hf : fsm_opt_keeps_backed sc.entry_action_funct_ptr)
    (h : fsm_timeouts_backed r.mem.workspace) :
    fsm_timeouts_backed (fsm_process_entry sc s r).mem.workspace := by
  unfold fsm_process_entry
  split_ifs
  · exact fsm_call_backed (FSM_CALL.entry s) sc.entry_action_funct_ptr r hf h
  · exact h

theorem fsm_process_front_backed {ε : Type} (cfg : FSM_CONFIG_T ε)
    (sc : FSM_STATE_CONFIG_T ε) (s : Nat) (r : FSM_RUN ε)
    (hin : fsm_opt_keeps_backed (some cfg.process_inputs_funct_ptr))
    (hentry : fsm_opt_keeps_backed sc.entry_action_funct_ptr)
    (hact : fsm_opt_keeps_backed sc.activity_funct_ptr)
    (h : fsm_timeouts_backed r.mem.workspace) :
    fsm_timeouts_backed (fsm_process_front cfg sc s r).mem.workspace := by
  simp only [fsm_process_front, fsm_process_activity]
  apply hin _ rfl
  apply fsm_call_backed _ _ _ hact
  apply fsm_process_entry_backed _ _ _ hentry
  exact fsm_process_timers_backed r.mem h

theorem fsm_fire_update_backed {ε : Type} (t : FSM_TRANS_CONFIG_T ε) (r : FSM_RUN ε)
    (h : fsm_timeouts_backed r.mem.workspace) :
    fsm_timeouts_backed (fsm_fire_update t r).mem.workspace := by
  simp only [fsm_fire_update]
  split_ifs <;> exact h

theorem fsm_fire_backed {ε : Type} (sc : FSM_STATE_CONFIG_T ε) (s : Nat)
    (t : FSM_TRANS_CONFIG_T ε) (r : FSM_RUN ε)
    (hexit : fsm_opt_keeps_backed sc.exit_action_funct_ptr)
    (htrans : fsm_opt_keeps_backed t.trans_funct_ptr)
    (h : fsm_timeouts_backed r.mem.workspace) :
    fsm_timeouts_backed (fsm_fire sc s t r).mem.workspace := by
  have h1 := fsm_call_backed (FSM_CALL.trans s t.next_state t.trans_cond_mask)
    t.trans_funct_ptr _ htrans
    (fsm_call_backed (FSM_CALL.exit s) sc.exit_action_funct_ptr _ hexit
      (fsm_fire_update_backed t r h))
  exact h1

theorem fsm_scan_backed {ε : Type} (sc : FSM_STATE_CONFIG_T ε) (s : Nat)
    (hexit : fsm_opt_keeps_backed sc.exit_action_funct_ptr)
    (tbl : List (FSM_TRANS_CONFIG_T ε))
    (htbl : ∀ t ∈ tbl, fsm_opt_keeps_backed t.trans_funct_ptr)
    (r r1 : FSM_RUN ε) (h : fsm_scan sc s tbl r = some r1)
    (hb : fsm_timeouts_backed r.mem.workspace) :
    fsm_timeouts_backed r1.mem.workspace := by
  induction tbl with
  | nil => cases h
  | cons t rest ih =>
    have ih2 := ih (fun u hu => htbl u (List.mem_cons_of_mem t hu))
    unfold fsm_scan at h
    split_ifs at h
    · cases h
      exact fsm_fire_backed sc s t r hexit (htbl t (List.mem_cons_self t rest)) hb
    · exact ih2 h
    · exact ih2 h
    · cases h
      exact hb

theorem fsm_process_backed {ε : Type} (cfg : FSM_CONFIG_T ε) (r r1 : FSM_RUN ε)
    (hcb : fsm_config_keeps_backed cfg) (h : fsm_process cfg r = some r1)
    (hb : fsm_timeouts_backed r.mem.workspace) :
    fsm_timeouts_backed r1.mem.workspace := by
  cases hsc : cfg.state_config_ptr.get? r.mem.workspace.current_state with
  | none =>
    simp only [fsm_process, fsm_process_timers_current_state, hsc] at h
    cases h
  | some sc =>
    have hmem : sc ∈ cfg.state_config_ptr := List.get?_mem hsc
    obtain ⟨hentry, hact, hexit, htr⟩ := hcb.2.2 sc hmem
    rw [fsm_process_eq cfg r sc hsc, fsm_process_transitions] at h
    have hfront := fsm_process_front_backed cfg sc r.mem.workspace.current_state r
      hcb.2.1 hentry hact hb
    split_ifs at h
    · exact fsm_scan_backed sc _ hexit _ htr _ _ h hfront
    · cases h
      exact hfront

theorem fsm_init_backed {ε : Type} (cfg : FSM_CONFIG_T ε) (r : FSM_RUN ε)
    (hp : fsm_opt_keeps_backed cfg.power_up_trans_funct_ptr) :
    fsm_timeouts_backed (fsm_init cfg r).mem.workspace := by
  unfold fsm_init
  exact fsm_call_backed _ _ _ hp ⟨rfl, rfl, rfl⟩

/-- Every timer control call leaves each timeout equal to its backup. -/
theorem fsm_timer_control_backed {ε : Type} (k : Fin 3) (c : FSM_TIMER_CALL) (m : FSM_MEM ε)
    (h : fsm_timeouts_backed m.workspace) :
    fsm_timeouts_backed (fsm_timer_control k c m).workspace := by
  obtain ⟨h1, h2, h3⟩ := h
  fin_cases k <;> cases c <;>
    first
    | exact ⟨h1, h2, h3⟩
    | exact ⟨rfl, h2, h3⟩
    | exact ⟨h1, rfl, h3⟩
    | exact ⟨h1, h2, rfl⟩

/-- A callback that leaves the workspace as it is keeps the timeouts backed. -/
theorem fsm_keeps_workspace_backed {ε : Type} (g : FSM_FUNCT ε)
    (hg : ∀ m, (g m).workspace = m.workspace) : fsm_opt_keeps_backed (some g) := by
  intro g1 hg1 m hm
  cases hg1
  rw [hg m]
  exact hm

/-- C38: with callbacks that touch the timeouts only in ways that keep each timeout
equal to its backup (as every timer control call does), in every run reachable from
`fsm_init` through steps of `fsm_process` and timer control calls each timer's
timeout equals its backup, and the two-sided test of `fsm_process` (counter below the
timeout and below the backup) holds exactly when the counter is below the timeout. -/
theorem C38_timeout_equals_backup {ε : Type} (cfg : FSM_CONFIG_T ε)
    (hcb : fsm_config_keeps_backed cfg) (r : FSM_RUN ε) (hr : fsm_reachable cfg r) :
    fsm_timeouts_backed r.mem.workspace ∧
    ∀ k : Fin 3,
      (fsm_timer k r.mem.workspace).timeout = (fsm_timer k r.mem.workspace).timeout_backup ∧
      (((fsm_timer k r.mem.workspace).elapsed < (fsm_timer k r.mem.workspace).timeout ∧
          (fsm_timer k r.mem.workspace).elapsed <
            (fsm_timer k r.mem.workspace).timeout_backup) ↔
        (fsm_timer k r.mem.workspace).elapsed < (fsm_timer k r.mem.workspace).timeout) := by
  have hb : fsm_timeouts_backed r.mem.workspace := by
    induction hr with
    | init r0 => exact fsm_init_backed cfg r0 hcb.1
    | process r0 r1 _ hstep ih => exact fsm_process_backed cfg r0 r1 hcb hstep ih
    | control r0 k c _ ih => exact fsm_timer_control_backed k c r0.mem ih
  refine ⟨hb, fun k => ?_⟩
  have hk : (fsm_timer k r.mem.workspace).timeout =
      (fsm_timer k r.mem.workspace).timeout_backup := by
    obtain ⟨h1, h2, h3⟩ := hb
    fin_cases k
    · exact h1
    · exact h2
    · exact h3
  refine ⟨hk, ?_⟩
  rw [← hk]
  exact and_self_iff

/-- Instance of `C38_timeout_equals_backup`: the sample machine whose power-up callback
enables timer 1 with 5 and whose entry action enables timer 2 with 7, after the first
step and a restart of timer 3 with timeout 9. -/
theorem C38_timeout_equals_backup_witness :
    ∃ r1, fsm_process sample_cfg_timers (fsm_init sample_cfg_timers sample_start) = some r1 ∧
      fsm_timeouts_backed
        (fsm_timer_control 2 (FSM_TIMER_CALL.restart_with_timeout_and_old_time 4 9)
          r1.mem).workspace ∧
      (fsm_timer 1 r1.mem.workspace).timeout = 7 := by
  have hcb : fsm_config_keeps_backed sample_cfg_timers := by
    refine ⟨?_, ?_, ?_⟩
    · intro g hg m hm
      cases hg
      exact fsm_timer_control_backed 0 (FSM_TIMER_CALL.enable 5) m hm
    · exact fsm_keeps_workspace_backed _ (fun m => rfl)
    · intro sc hsc
      simp only [sample_cfg_timers, List.mem_singleton] at hsc
      subst hsc
      refine ⟨?_, ?_, ?_, ?_⟩
      · intro g hg m hm
        cases hg
        exact fsm_timer_control_backed 1 (FSM_TIMER_CALL.enable 7) m hm
      · intro g hg
        cases hg
      · intro g hg
        cases hg
      · intro t ht
        simp only [List.mem_singleton] at ht
        subst ht
        intro g hg
        cases hg
  obtain ⟨r1, hr1⟩ : ∃ r1,
      fsm_process sample_cfg_timers (fsm_init sample_cfg_timers sample_start) = some r1 :=
    ⟨_, rfl⟩
  have hreach := fsm_reachable.control r1 2
    (FSM_TIMER_CALL.restart_with_timeout_and_old_time 4 9)
    (fsm_reachable.process _ r1 (fsm_reachable.init sample_start) hr1)
  refine ⟨r1, hr1, (C38_timeout_equals_backup sample_cfg_timers hcb _ hreach).1, ?_⟩
  have h2 : some r1 = fsm_process sample_cfg_timers (fsm_init sample_cfg_timers sample_start) :=
    hr1.symm
  have h3 : (fsm_process sample_cfg_timers (fsm_init sample_cfg_timers sample_start)).map
      (fun x => (fsm_timer 1 x.mem.workspace).timeout) = some 7 := by decide
  rw [← h2] at h3
  exact Option.some.inj h3

end Rhapsody

namespace Webtool
open Rhapsody CLOUD_SESSION_STATUS_T SEND_STATUS_T

/-! ## Facts about the string functions -/

theorem str_starts_iff (n h : List Char) : str_starts n h = true ↔ n <+: h := by
  induction n generalizing h with
  | nil => simp [str_starts]
  | cons a as ih =>
    cases h with
    | nil => simp [str_starts]
    | cons b bs =>
      simp only [str_starts, Bool.and_eq_true, beq_iff_eq, ih, List.cons_prefix_cons]

theorem strstr_isSome_iff (h n : List Char) : (strstr h n).isSome = true ↔ n <:+: h := by
  induction h with
  | nil =>
    unfold strstr
    split_ifs with hs
    · simp only [Option.isSome_some, true_iff]
      exact ((str_starts_iff n []).mp hs).isInfix
    · simp only [Option.isSome_none, Bool.false_eq_true, false_iff]
      intro hinf
      have hnil : n = [] := List.eq_nil_of_infix_nil hinf
      exact hs (by rw [hnil]; rfl)
  | cons c cs ih =>
    unfold strstr
    rw [List.infix_cons_iff]
    split_ifs with hs
    · simp only [Option.isSome_some, true_iff]
      exact Or.inl ((str_starts_iff n (c :: cs)).mp hs)
    · have hmap : (Option.map (· + 1) (strstr cs n)).isSome = (strstr cs n).isSome := by
        cases strstr cs n <;> rfl
      rw [hmap, ih]
      constructor
      · exact Or.inr
      · rintro (hp | hi)
        · exact absurd ((str_starts_iff n (c :: cs)).mpr hp) hs
        · exact hi

theorem strstr_eq_some_iff (h n : List Char) (i : Nat) :
    strstr h n = some i ↔
      i ≤ h.length ∧ n <+: h.drop i ∧ ∀ j, j < i → ¬ n <+: h.drop j := by
  induction h generalizing i with
  | nil =>
    unfold strstr
    split_ifs with hs
    · have hp := (str_starts_iff n []).mp hs
      constructor
      · intro he
        have hi : i = 0 := (Option.some.inj he).symm
        subst hi
        exact ⟨Nat.le_refl _, hp, fun j hj => absurd hj (Nat.not_lt_zero j)⟩
      · rintro ⟨hle, _, _⟩
        have hi : i = 0 := Nat.le_zero.mp hle
        rw [hi]
    · constructor
      · intro he; cases he
      · rintro ⟨_, hp, _⟩
        rw [List.drop_nil] at hp
        exact absurd ((str_starts_iff n []).mpr hp) hs
  | cons c cs ih =>
    unfold strstr
    split_ifs with hs
    · have hp := (str_starts_iff n (c :: cs)).mp hs
      constructor
      · intro he
        have hi : i = 0 := (Option.some.inj he).symm
        subst hi
        exact ⟨Nat.zero_le _, hp, fun j hj => absurd hj (Nat.not_lt_zero j)⟩
      · rintro ⟨_, _, hmin⟩
        cases i with
        | zero => rfl
        | succ i => exact absurd hp (hmin 0 (Nat.succ_pos i))
    · have hnp : ¬ n <+: c :: cs := fun hp => hs ((str_starts_iff n (c :: cs)).mpr hp)
      cases i with
      | zero =>
        constructor
        · intro he
          cases hst : strstr cs n with
          | none => rw [hst] at he; cases he
          | some k => rw [hst] at he; cases he
        · rintro ⟨_, hp, _⟩
          exact absurd hp hnp
      | succ i =>
        have hmap : Option.map (· + 1) (strstr cs n) = some (i + 1) ↔ strstr cs n = some i := by
          cases hst : strstr cs n with
          | none => simp
          | some k => simp
        rw [hmap, ih i]
        constructor
        · rintro ⟨hle, hp, hmin⟩
          refine ⟨Nat.succ_le_succ hle, hp, ?_⟩
          intro j hj
          cases j with
          | zero => exact hnp
          | succ j => exact hmin j (Nat.lt_of_succ_lt_succ hj)
        · rintro ⟨hle, hp, hmin⟩
          exact ⟨Nat.le_of_succ_le_succ hle, hp,
            fun j hj => hmin (j + 1) (Nat.succ_lt_succ hj)⟩

theorem strstr_bound (h n : List Char) (i : Nat) (hs : strstr h n = some i) :
    i + n.length ≤ h.length := by
  obtain ⟨hle, hp, _⟩ := (strstr_eq_some_iff h n i).mp hs
  have h1 := hp.length_le
  rw [List.length_drop] at h1
  omega
theorem strstr_eq_some_iff_first (h n : List Char) (i : Nat) :
    strstr h n = some i ↔ first_occurrence n h i :=
  strstr_eq_some_iff h n i

theorem int_of_long_range (x : Int) : -(2 ^ 31) ≤ int_of_long x ∧ int_of_long x < 2 ^ 31 := by
  unfold int_of_long
  have h1 : 0 ≤ (x + 2 ^ 31) % 2 ^ 32 := Int.emod_nonneg _ (by norm_num)
  have h2 : (x + 2 ^ 31) % 2 ^ 32 < 2 ^ 32 := Int.emod_lt_of_pos _ (by norm_num)
  constructor <;> omega

theorem int_of_long_small (x : Int) (h0 : 0 ≤ x) (h1 : x < 2 ^ 31) : int_of_long x = x := by
  unfold int_of_long
  rw [Int.emod_eq_of_lt (by omega) (by omega)]
  omega

theorem parse_getContentLength_lt (buf : List Char) : parse_getContentLength buf < 2 ^ 31 := by
  unfold parse_getContentLength
  split_ifs
  · split
    · exact (int_of_long_range _).2
    · norm_num
  · norm_num

/-! ## Status range (claim C18) -/

/-- C18: for every integer `code`, `parse_goodStatusCode code` is true exactly when
`200 ≤ code ≤ 407`; it is true for 200 and 407 and false for 199 and 408. -/
theorem C18_good_status_code (code : Int) :
    (parse_goodStatusCode code = true ↔ 200 ≤ code ∧ code ≤ 407) ∧
    parse_goodStatusCode 200 = true ∧ parse_goodStatusCode 407 = true ∧
    parse_goodStatusCode 199 = false ∧ parse_goodStatusCode 408 = false := by
  refine ⟨?_, by decide, by decide, by decide, by decide⟩
  unfold parse_goodStatusCode MIN_GOOD_HTTP_STATUS MAX_GOOD_HTTP_STATUS
  rw [decide_eq_true_iff]

/-! ## Chunk end (claim C17) -/

/-- C17: let the first header termination of the string be at offset `i`, so that the
body region starts at `i + 4`.  If the body region contains `CRLF 0 CRLF CRLF` then
`parse_fullDataChunkFound` returns true; if the body region does not contain
`0 CRLF CRLF` it returns false. -/
theorem C17_full_data_chunk (buf : List Char) (i : Nat)
    (hfirst : first_occurrence HTTP_HEADER_TERMINATION buf i) :
    ("\r\n0\r\n\r\n".toList <:+: buf.drop (i + 4) → parse_fullDataChunkFound buf = some true) ∧
    (¬ "0\r\n\r\n".toList <:+: buf.drop (i + 4) →
      parse_fullDataChunkFound buf = some false) := by
  have hs : strstr buf HTTP_HEADER_TERMINATION = some i :=
    (strstr_eq_some_iff_first buf _ i).mpr hfirst
  have hval : parse_fullDataChunkFound buf =
      some (strstr (buf.drop (i + 4)) "0\r\n\r\n".toList).isSome := by
    simp only [parse_fullDataChunkFound, parse_getContentStart, hs, Option.map_some']
  constructor
  · intro hchunk
    have hinf : "0\r\n\r\n".toList <:+: buf.drop (i + 4) :=
      List.IsInfix.trans ⟨"\r\n".toList, [], by decide⟩ hchunk
    rw [hval, (strstr_isSome_iff _ _).mpr hinf]
  · intro hno
    have hfalse : (strstr (buf.drop (i + 4)) "0\r\n\r\n".toList).isSome = false := by
      cases hb : (strstr (buf.drop (i + 4)) "0\r\n\r\n".toList).isSome with
      | false => rfl
      | true => exact absurd ((strstr_isSome_iff _ _).mp hb) hno
    rw [hval, hfalse]

/-- Instance of `C17_full_data_chunk`: a chunked response that ends with the terminal
chunk. -/
theorem C17_full_data_chunk_witness :
    parse_fullDataChunkFound
      "HTTP/1.1 200 OK\r\nTransfer-Encoding: chunked\r\n\r\n5\r\nhello\r\n0\r\n\r\n".toList =
        some true :=
  (C17_full_data_chunk _ 43 ((strstr_eq_some_iff_first _ _ 43).mp (by decide))).1
    ⟨"5\r\nhello".toList, [], by decide⟩

/-! ## Content length (claims C15, C16) -/

/-- C15: let the first header termination be at offset `i` (the content starts at
`h = i + 4`) and let the parsed content length `n` be `≥ 0` (a `Content-Length:`
field is then present).  For a string shorter than `2^63`,
`parse_entireContentReceived buf r` is true exactly when `r = h + n`; it is false for
`r = h + n - 1` and for every `r > h + n`. -/
theorem C15_entire_content_received (buf : List Char) (i r : Nat)
    (hfirst : first_occurrence HTTP_HEADER_TERMINATION buf i)
    (hn : 0 ≤ parse_getContentLength buf)
    (hlen : buf.length < 2 ^ 63) :
    CONTENT_LENGTH_STR <:+: buf ∧
    (parse_entireContentReceived buf r = true ↔
      (r : Int) = ((i + 4 : Nat) : Int) + parse_getContentLength buf) ∧
    ((r : Int) = ((i + 4 : Nat) : Int) + parse_getContentLength buf - 1 →
      parse_entireContentReceived buf r = false) ∧
    ((r : Int) > ((i + 4 : Nat) : Int) + parse_getContentLength buf →
      parse_entireContentReceived buf r = false) := by
  have hs : strstr buf HTTP_HEADER_TERMINATION = some i :=
    (strstr_eq_some_iff_first buf _ i).mpr hfirst
  have hb := strstr_bound buf HTTP_HEADER_TERMINATION i hs
  have hb4 : i + 4 ≤ buf.length := hb
  have hlt := parse_getContentLength_lt buf
  have hfield : CONTENT_LENGTH_STR <:+: buf := by
    rw [← strstr_isSome_iff]
    unfold parse_getContentLength at hn
    split_ifs at hn
    · cases hc : strstr buf CONTENT_LENGTH_STR with
      | some k => rfl
      | none => rw [hc] at hn; exact absurd hn (by norm_num)
    · exact absurd hn (by norm_num)
  have hsz : size_t_of_long (((i + 4 : Nat) : Int) + parse_getContentLength buf) =
      (((i + 4 : Nat) : Int) + parse_getContentLength buf).toNat := by
    unfold size_t_of_long
    rw [Int.emod_eq_of_lt (by omega) (by omega)]
  have hiff : parse_entireContentReceived buf r = true ↔
      (r : Int) = ((i + 4 : Nat) : Int) + parse_getContentLength buf := by
    simp only [parse_entireContentReceived, hs, ge_iff_le, hn, if_true, decide_eq_true_iff, hsz]
    omega
  refine ⟨hfield, hiff, ?_, ?_⟩
  · intro h1
    cases hb : parse_entireContentReceived buf r with
    | false => rfl
    | true => have := hiff.mp hb; omega
  · intro h1
    cases hb : parse_entireContentReceived buf r with
    | false => rfl
    | true => have := hiff.mp hb; omega

/-- Instance of `C15_entire_content_received`, the scenario of the specification: the
response `HTTP/1.1 200 OK CRLF Content-Length: 5 CRLF CRLF hello` is complete at its
exact length 43 and incomplete at 42. -/
theorem C15_entire_content_received_witness :
    sample_response.length = 43 ∧
    parse_entireContentReceived sample_response 43 = true ∧
    parse_entireContentReceived sample_response 42 = false :=
  ⟨by decide,
   (C15_entire_content_received sample_response 34 43
      ((strstr_eq_some_iff_first _ _ 34).mp (by decide)) (by decide) (by decide)).2.1.mpr
      (by decide),
   (C15_entire_content_received sample_response 34 42
      ((strstr_eq_some_iff_first _ _ 34).mp (by decide)) (by decide) (by decide)).2.2.1
      (by decide)⟩

theorem isdigit_not_isspace (c : Char) (h : isdigit c = true) : isspace c = false := by
  unfold isdigit at h
  unfold isspace
  simp only [Bool.and_eq_true, decide_eq_true_iff] at h
  simp only [Bool.or_eq_false_iff, Bool.and_eq_false_iff, decide_eq_false_iff_not]
  omega

theorem dropWhile_isspace_append (blanks : List Char) (d : Char) (l : List Char)
    (hb : ∀ c ∈ blanks, isspace c = true) (hd : isdigit d = true) :
    (blanks ++ d :: l).dropWhile isspace = d :: l := by
  induction blanks with
  | nil =>
    rw [List.nil_append, List.dropWhile_cons_of_neg]
    rw [isdigit_not_isspace d hd]
    exact Bool.false_ne_true
  | cons b bs ih =>
    rw [List.cons_append, List.dropWhile_cons_of_pos (hb b (List.mem_cons_self b bs))]
    exact ih (fun c hc => hb c (List.mem_cons_of_mem b hc))

theorem strtol_digits_append (ds rest : List Char) (acc : Nat)
    (hds : ∀ c ∈ ds, isdigit c = true)
    (hrest : ∀ c, rest.head? = some c → isdigit c = false) :
    strtol_digits acc (ds ++ rest) = acc * 10 ^ ds.length + decimal_value ds := by
  induction ds generalizing acc with
  | nil =>
    have h0 : strtol_digits acc rest = acc := by
      cases rest with
      | nil => rfl
      | cons c cs =>
        unfold strtol_digits
        rw [hrest c rfl]
        rfl
    simpa [decimal_value] using h0
  | cons d ds ih =>
    have hd := hds d (List.mem_cons_self d ds)
    have ih2 := ih (10 * acc + (d.toNat - 48)) (fun c hc => hds c (List.mem_cons_of_mem d hc))
    rw [List.cons_append, strtol_digits, if_pos hd, ih2]
    simp only [decimal_value, List.reverse_cons, List.map_append, List.map_cons, List.map_nil,
      Nat.ofDigits_append, Nat.ofDigits_singleton, List.length_map, List.length_reverse,
      List.length_cons]
    ring

theorem strtol_decimal (blanks ds rest : List Char)
    (hb : ∀ c ∈ blanks, isspace c = true)
    (hne : ds ≠ [])
    (hds : ∀ c ∈ ds, isdigit c = true)
    (hrest : ∀ c, rest.head? = some c → isdigit c = false)
    (hmax : (decimal_value ds : Int) ≤ LONG_MAX) :
    strtol (blanks ++ ds ++ rest) = decimal_value ds := by
  cases ds with
  | nil => exact absurd rfl hne
  | cons d ds =>
    have hd := hds d (List.mem_cons_self d ds)
    have hdn : 48 ≤ d.toNat ∧ d.toNat ≤ 57 := by
      unfold isdigit at hd
      simpa only [Bool.and_eq_true, decide_eq_true_iff] using hd
    have hminus : d ≠ '-' := by
      intro h; rw [h] at hdn; revert hdn; decide
    have hplus : d ≠ '+' := by
      intro h; rw [h] at hdn; revert hdn; decide
    have hdrop : (blanks ++ (d :: ds) ++ rest).dropWhile isspace = d :: (ds ++ rest) := by
      rw [List.append_assoc, List.cons_append]
      exact dropWhile_isspace_append blanks d (ds ++ rest) hb hd
    have hval := strtol_digits_append (d :: ds) rest 0 hds hrest
    rw [Nat.zero_mul, Nat.zero_add, List.cons_append] at hval
    unfold strtol
    rw [hdrop]
    simp only [hminus, hplus, if_false, hval]
    exact min_eq_right hmax

/-- C16 as stated fails: in this response the header termination is present and the
first `Content-Length:` is followed by a blank and the well-formed non-negative length
`4294967295`, yet `parse_getContentLength` returns `-1`, the value that stands for "not
found": the `long` delivered by `strtol` does not fit the `int` that is returned. -/
theorem C16_counterexample :
    HTTP_HEADER_TERMINATION <:+: sample_response_huge ∧
    strstr sample_response_huge CONTENT_LENGTH_STR = some 17 ∧
    sample_response_huge.drop (17 + strlen CONTENT_LENGTH_STR) =
      " ".toList ++ "4294967295".toList ++ "\r\n\r\n".toList ∧
    decimal_value "4294967295".toList = 4294967295 ∧
    strtol (sample_response_huge.drop (17 + strlen CONTENT_LENGTH_STR)) = 4294967295 ∧
    parse_getContentLength sample_response_huge = -1 := by
  refine ⟨(strstr_isSome_iff _ _).mp (by decide), ?_, ?_, ?_, ?_, ?_⟩ <;> decide

/-- C16, amended: `parse_getContentLength` returns `-1` when the string has no header
termination or no `Content-Length:`; otherwise, when the first `Content-Length:` is
followed by optional white space and a decimal number `n < 2^31` (digits `ds`, then
the end of the string or a character that is not a digit), it returns `n`, which is
not `-1`. -/
theorem C16_content_length (buf : List Char) :
    (¬ HTTP_HEADER_TERMINATION <:+: buf → parse_getContentLength buf = -1) ∧
    (¬ CONTENT_LENGTH_STR <:+: buf → parse_getContentLength buf = -1) ∧
    (∀ (i : Nat) (blanks ds rest : List Char),
      HTTP_HEADER_TERMINATION <:+: buf →
      first_occurrence CONTENT_LENGTH_STR buf i →
      buf.drop (i + 15) = blanks ++ ds ++ rest →
      (∀ c ∈ blanks, isspace c = true) →
      ds ≠ [] →
      (∀ c ∈ ds, isdigit c = true) →
      (∀ c, rest.head? = some c → isdigit c = false) →
      decimal_value ds < 2 ^ 31 →
        parse_getContentLength buf = decimal_value ds ∧ parse_getContentLength buf ≠ -1) := by
  refine ⟨?_, ?_, ?_⟩
  · intro hno
    have hf : parse_fullHeaderFound buf = false := by
      unfold parse_fullHeaderFound
      cases hb : (strstr buf HTTP_HEADER_TERMINATION).isSome with
      | false => rfl
      | true => exact absurd ((strstr_isSome_iff _ _).mp hb) hno
    simp only [parse_getContentLength, hf, Bool.false_eq_true, if_false]
  · intro hno
    have hf : strstr buf CONTENT_LENGTH_STR = none := by
      cases hb : strstr buf CONTENT_LENGTH_STR with
      | none => rfl
      | some k =>
        have hsome : (strstr buf CONTENT_LENGTH_STR).isSome = true := by rw [hb]; rfl
        exact absurd ((strstr_isSome_iff _ _).mp hsome) hno
    unfold parse_getContentLength
    rw [hf]
    split_ifs <;> rfl
  · intro i blanks ds rest hterm hfirst hdrop hb hne hds hrest hsmall
    have hf : parse_fullHeaderFound buf = true := (strstr_isSome_iff _ _).mpr hterm
    have hs : strstr buf CONTENT_LENGTH_STR = some i :=
      (strstr_eq_some_iff_first buf _ i).mpr hfirst
    have h15 : strlen CONTENT_LENGTH_STR = 15 := by decide
    have hsmallI : (decimal_value ds : Int) < 2 ^ 31 := by exact_mod_cast hsmall
    have hmax : (decimal_value ds : Int) ≤ LONG_MAX := by
      unfold LONG_MAX; omega
    have hval : parse_getContentLength buf = decimal_value ds := by
      simp only [parse_getContentLength, hf, if_true, hs, h15, hdrop,
        strtol_decimal blanks ds rest hb hne hds hrest hmax]
      exact int_of_long_small _ (Int.natCast_nonneg _) hsmallI
    refine ⟨hval, ?_⟩
    rw [hval]
    have h0 : (0 : Int) ≤ decimal_value ds := Int.natCast_nonneg _
    omega

/-- Instance of `C16_content_length`: the response of the round-trip scenario declares
the length 5. -/
theorem C16_content_length_witness :
    parse_getContentLength sample_response = decimal_value "5".toList :=
  ((C16_content_length sample_response).2.2 17 " ".toList "5".toList
    "\r\n\r\nhello".toList ((strstr_isSome_iff _ _).mp (by decide))
    ((strstr_eq_some_iff_first _ _ 17).mp (by decide)) (by decide) (by decide) (by decide)
    (by decide) (by decide) (by decide)).1

/-! ## Completion of a response (claim C19) -/

/-- C19: when the string in the receive buffer contains the header termination but
neither `Transfer-Encoding: chunked` nor `Content-Length:`, `cloud_recvComplete`
returns true whatever `totalBytesRcvd` is; when it does not contain the header
termination, `cloud_recvComplete` returns false and leaves the session, `httpStatus`
included, unchanged. -/
theorem C19_recv_complete (s : CLOUD_SESSION_T) :
    (HTTP_HEADER_TERMINATION <:+: c_str s.recvBuf →
      ¬ TRANSF_ENC_CHUNKED_STR <:+: c_str s.recvBuf →
      ¬ CONTENT_LENGTH_STR <:+: c_str s.recvBuf →
      ∀ n : Int, (cloud_recvComplete { s with totalBytesRcvd := n }).1 = true) ∧
    (¬ HTTP_HEADER_TERMINATION <:+: c_str s.recvBuf →
      cloud_recvComplete s = (false, s) ∧
      (cloud_recvComplete s).2.httpStatus = s.httpStatus) := by
  constructor
  · intro hterm hchunk hlen n
    have h1 : parse_fullHeaderFound (c_str s.recvBuf) = true :=
      (strstr_isSome_iff _ _).mpr hterm
    have h2 : parse_transferEncodingChunkedFound (c_str s.recvBuf) = false := by
      unfold parse_transferEncodingChunkedFound
      cases hb : (strstr (c_str s.recvBuf) TRANSF_ENC_CHUNKED_STR).isSome with
      | false => rfl
      | true => exact absurd ((strstr_isSome_iff _ _).mp hb) hchunk
    have h3 : parse_contentLengthFound (c_str s.recvBuf) = false := by
      unfold parse_contentLengthFound
      cases hb : (strstr (c_str s.recvBuf) CONTENT_LENGTH_STR).isSome with
      | false => rfl
      | true => exact absurd ((strstr_isSome_iff _ _).mp hb) hlen
    simp only [cloud_recvComplete, h1, h2, h3, if_true, Bool.false_eq_true, if_false]
  · intro hno
    have h1 : parse_fullHeaderFound (c_str s.recvBuf) = false := by
      unfold parse_fullHeaderFound
      cases hb : (strstr (c_str s.recvBuf) HTTP_HEADER_TERMINATION).isSome with
      | false => rfl
      | true => exact absurd ((strstr_isSome_iff _ _).mp hb) hno
    have h2 : cloud_recvComplete s = (false, s) := by
      simp only [cloud_recvComplete, h1, Bool.false_eq_true, if_false]
    exact ⟨h2, by rw [h2]⟩

/-- Instance of `C19_recv_complete`: a response with a complete header and no framing
information is complete with no byte counted. -/
theorem C19_recv_complete_witness :
    (cloud_recvComplete
      { sample_session with recvBuf := "HTTP/1.1 204 No Content\r\n\r\n".toList,
                            totalBytesRcvd := 0 }).1 = true :=
  (C19_recv_complete
    { sample_session with recvBuf := "HTTP/1.1 204 No Content\r\n\r\n".toList }).1
    ((strstr_isSome_iff _ _).mp (by decide))
    (fun h => absurd ((strstr_isSome_iff _ _).mpr h) (by decide))
    (fun h => absurd ((strstr_isSome_iff _ _).mpr h) (by decide)) 0

/-! ## Opening a session twice (claim C20) -/

theorem cloud_setSessionStatus_handle (s : CLOUD_SESSION_T) (st : CLOUD_SESSION_STATUS_T) :
    (cloud_setSessionStatus s st).handle = s.handle := by
  unfold cloud_setSessionStatus
  split_ifs <;> rfl

theorem cloud_initSession_open (io : CLOUD_INIT_IO) (c : CLOUD_MEM) (serverName : List Char)
    (serverPort : Nat) (hopen : c.session.handle ≠ CLOUD_INVALID_SOCKET) :
    cloud_initSession io c serverName serverPort =
      (true, { c with session := { c.session with
        transStart := io.now
        diags := { c.session.diags with
          attempts := (c.session.diags.attempts + 1) % 2 ^ 32 } } }) := by
  unfold cloud_initSession
  simp only []
  rw [if_pos (fun h => hopen h.symm)]

theorem cloud_initSession_success_open (io : CLOUD_INIT_IO) (c : CLOUD_MEM)
    (serverName : List Char) (serverPort : Nat)
    (hok : (cloud_initSession io c serverName serverPort).1 = true) :
    (cloud_initSession io c serverName serverPort).2.session.handle ≠ CLOUD_INVALID_SOCKET := by
  by_cases hopen : c.session.handle ≠ CLOUD_INVALID_SOCKET
  · rw [cloud_initSession_open io c serverName serverPort hopen]
    exact hopen
  · have hclosed : ¬ CLOUD_INVALID_SOCKET ≠ c.session.handle := fun h => hopen (fun e => h e.symm)
    unfold cloud_initSession at hok ⊢
    simp only [] at hok ⊢
    rw [if_neg hclosed] at hok ⊢
    split_ifs at hok ⊢ with h1 h2 h3
    all_goals first
      | exact absurd hok Bool.false_ne_true
      | exact (cloud_setSessionStatus_handle _ _).trans_ne (fun h => h3 h.symm)

/-- C20: when `cloud_initSession` is called while the handle is open it returns true,
makes no system call (no socket is opened) and leaves the session as it was except
for `transStart` and the attempt counter, so handle and status are unchanged.  Hence
after a call that returned true a second call, whatever the system would answer,
returns true, keeps handle and status and makes no system call. -/
theorem C20_init_session_idempotent (io io2 : CLOUD_INIT_IO) (c : CLOUD_MEM)
    (serverName serverName2 : List Char) (serverPort serverPort2 : Nat) :
    (c.session.handle ≠ CLOUD_INVALID_SOCKET →
      (cloud_initSession io c serverName serverPort).1 = true ∧
      (cloud_initSession io c serverName serverPort).2.session.handle = c.session.handle ∧
      (cloud_initSession io c serverName serverPort).2.session.status = c.session.status ∧
      (cloud_initSession io c serverName serverPort).2.syscalls = c.syscalls ∧
      (cloud_initSession io c serverName serverPort).2.session =
        { c.session with
          transStart := io.now
          diags := { c.session.diags with
            attempts := (c.session.diags.attempts + 1) % 2 ^ 32 } }) ∧
    ((cloud_initSession io c serverName serverPort).1 = true →
      (cloud_initSession io2 (cloud_initSession io c serverName serverPort).2
        serverName2 serverPort2).1 = true ∧
      (cloud_initSession io2 (cloud_initSession io c serverName serverPort).2
        serverName2 serverPort2).2.session.handle =
          (cloud_initSession io c serverName serverPort).2.session.handle ∧
      (cloud_initSession io2 (cloud_initSession io c serverName serverPort).2
        serverName2 serverPort2).2.session.status =
          (cloud_initSession io c serverName serverPort).2.session.status ∧
      (cloud_initSession io2 (cloud_initSession io c serverName serverPort).2
        serverName2 serverPort2).2.syscalls =
          (cloud_initSession io c serverName serverPort).2.syscalls) := by
  constructor
  · intro hopen
    rw [cloud_initSession_open io c serverName serverPort hopen]
    exact ⟨rfl, rfl, rfl, rfl, rfl⟩
  · intro hok
    have hopen := cloud_initSession_success_open io c serverName serverPort hok
    rw [cloud_initSession_open io2 _ serverName2 serverPort2 hopen]
    exact ⟨rfl, rfl, rfl, rfl⟩

/-- Instance of `C20_init_session_idempotent`: the first call opens socket 3 for a
literal address; the second call returns true with the same handle and the same three
system calls on record. -/
theorem C20_init_session_idempotent_witness :
    (cloud_initSession sample_init_io sample_cloud "192.168.112.1".toList 80).1 = true ∧
    (cloud_initSession sample_init_io sample_cloud "192.168.112.1".toList 80).2.syscalls =
      [CLOUD_SYSCALL.inet_addr "192.168.112.1".toList, CLOUD_SYSCALL.socket,
       CLOUD_SYSCALL.setsockopt 3] ∧
    (cloud_initSession sample_init_io
      (cloud_initSession sample_init_io sample_cloud "192.168.112.1".toList 80).2
      "192.168.112.1".toList 80).1 = true ∧
    (cloud_initSession sample_init_io
      (cloud_initSession sample_init_io sample_cloud "192.168.112.1".toList 80).2
      "192.168.112.1".toList 80).2.session.handle = 3 :=
  have h := (C20_init_session_idempotent sample_init_io sample_init_io sample_cloud
    "192.168.112.1".toList "192.168.112.1".toList 80 80).2 (by decide)
  ⟨by decide, by decide, h.1, h.2.1.trans (by decide)⟩

/-! ## The end marker of the tables (claim C14) -/

theorem fsm_scan_stops_at_end {ε : Type} (sc : FSM_STATE_CONFIG_T ε) (s : Nat)
    (pre : List (FSM_TRANS_CONFIG_T ε)) (e : FSM_TRANS_CONFIG_T ε)
    (rest : List (FSM_TRANS_CONFIG_T ε)) (r : FSM_RUN ε)
    (he : e.next_state = FSM_TRANS_END) :
    (fsm_scan sc s (pre ++ e :: rest) r).isSome = true ∧
    fsm_scan sc s (pre ++ e :: rest) r = fsm_scan sc s (pre ++ [e]) r := by
  induction pre with
  | nil =>
    rw [List.nil_append, List.nil_append, fsm_scan_end sc s e rest r he,
      fsm_scan_end sc s e [] r he]
    exact ⟨rfl, rfl⟩
  | cons u pre ih =>
    rw [List.cons_append, List.cons_append]
    unfold fsm_scan
    split_ifs
    · exact ⟨rfl, rfl⟩
    · exact ih
    · exact ih
    · exact ⟨rfl, rfl⟩

/-- C14: each of the three transition tables of the shipped configuration consists of
rules that are not the end marker followed by one last entry whose `next_state` is
`FSM_TRANS_END`.  For every table with an end marker `e`, whatever stands in front of
it and behind it, the scan of `fsm_process` returns a result, and the result is the
same as for the table cut right after `e`: no entry behind the marker is read. -/
theorem C14_tables_end_with_marker {ε : Type} (f : FSM_FUNCTS_T ε) :
    (∀ sc ∈ fsm_state_config f, ∃ pre e,
      sc.state_trans_config_ptr = pre ++ [e] ∧ e.next_state = FSM_TRANS_END ∧
      ∀ u ∈ pre, u.next_state ≠ FSM_TRANS_END) ∧
    (∀ (sc : FSM_STATE_CONFIG_T ε) (s : Nat) (pre rest : List (FSM_TRANS_CONFIG_T ε))
      (e : FSM_TRANS_CONFIG_T ε) (r : FSM_RUN ε),
      e.next_state = FSM_TRANS_END →
        (fsm_scan sc s (pre ++ e :: rest) r).isSome = true ∧
        fsm_scan sc s (pre ++ e :: rest) r = fsm_scan sc s (pre ++ [e]) r) ∧
    (∀ (sc : FSM_STATE_CONFIG_T ε) (r : FSM_RUN ε), sc ∈ fsm_state_config f →
      (fsm_scan sc r.mem.workspace.current_state sc.state_trans_config_ptr r).isSome = true) := by
  have htables : ∀ sc ∈ fsm_state_config f, ∃ pre e,
      sc.state_trans_config_ptr = pre ++ [e] ∧ e.next_state = FSM_TRANS_END ∧
      ∀ u ∈ pre, u.next_state ≠ FSM_TRANS_END := by
    intro sc hsc
    simp only [fsm_state_config, List.mem_cons, List.mem_singleton, List.not_mem_nil,
      or_false] at hsc
    rcases hsc with rfl | rfl | rfl
    · refine ⟨[⟨FSM_IDLE_STATE, 0x00000009, 0x00000009, none⟩], ⟨FSM_TRANS_END, 0, 0, none⟩,
        rfl, rfl, ?_⟩
      intro u hu
      simp only [List.mem_singleton] at hu
      subst hu
      simp [FSM_TRANS_END, FSM_IDLE_STATE]
    · refine ⟨[⟨FSM_SEND_STATE, 0x0000000B, 0x0000000B, some f.idle_state_to_send_state1⟩,
          ⟨FSM_INIT_STATE, 0x00000001, 0x00000009, none⟩,
          ⟨FSM_INIT_STATE, 0x00000000, 0x00000001, none⟩], ⟨FSM_TRANS_END, 0, 0, none⟩,
        rfl, rfl, ?_⟩
      intro u hu
      simp only [List.mem_cons, List.mem_singleton, List.not_mem_nil, or_false] at hu
      rcases hu with rfl | rfl | rfl <;>
        simp [FSM_TRANS_END, FSM_INIT_STATE, FSM_SEND_STATE]
    · refine ⟨[⟨FSM_INIT_STATE, 0x00000001, 0x00000009, none⟩,
          ⟨FSM_INIT_STATE, 0x00000000, 0x00000001, none⟩,
          ⟨FSM_IDLE_STATE, 0x00000000, 0x00000002, none⟩,
          ⟨FSM_IDLE_STATE, 0x00000004, 0x00000004, none⟩], ⟨FSM_TRANS_END, 0, 0, none⟩,
        rfl, rfl, ?_⟩
      intro u hu
      simp only [List.mem_cons, List.mem_singleton, List.not_mem_nil, or_false] at hu
      rcases hu with rfl | rfl | rfl | rfl <;>
        simp [FSM_TRANS_END, FSM_INIT_STATE, FSM_IDLE_STATE]
  refine ⟨htables, ?_, ?_⟩
  · intro sc s pre rest e r he
    exact fsm_scan_stops_at_end sc s pre e rest r he
  · intro sc r hsc
    obtain ⟨pre, e, htbl, he, _⟩ := htables sc hsc
    rw [htbl]
    exact (fsm_scan_stops_at_end sc _ pre e [] r he).1

/-- Instance of `C14_tables_end_with_marker`: the scan of the idle table on the sample
run returns a result. -/
theorem C14_tables_end_with_marker_witness :
    (fsm_scan (idle_state_config (functs sample_activity)) 1
      (idle_state_config (functs sample_activity)).state_trans_config_ptr
      sample_idle_run).isSome = true :=
  (C14_tables_end_with_marker (functs sample_activity)).2.2
    (idle_state_config (functs sample_activity)) sample_idle_run
    (by simp [fsm_state_config])

/-! ## From idle to send (claim C13) -/

theorem task_call_keeps_workspace (g : TASK_ENV → TASK_ENV) :
    fsm_keeps_workspace (task_call g) :=
  fun _ => rfl

theorem fsm_process_inputs_keeps_workspace : fsm_keeps_workspace fsm_process_inputs :=
  fun _ => rfl

theorem fsm_process_timers_env {ε : Type} (m : FSM_MEM ε) :
    (fsm_process_timers m).env = m.env := by
  simp only [fsm_process_timers, fsm_process_timer1, fsm_process_timer2, fsm_process_timer3]
  split_ifs <;> rfl

theorem fsm_process_entry_env {ε : Type} (sc : FSM_STATE_CONFIG_T ε) (s : Nat)
    (x : FSM_RUN ε) (g : FSM_FUNCT ε) (he : sc.entry_action_funct_ptr = some g)
    (ht : FALSE ≠ x.mem.workspace.transition) :
    (fsm_process_entry sc s x).mem.env = (g x.mem).env := by
  unfold fsm_process_entry
  rw [if_pos ht]
  simp only [fsm_call, he]

/-- C13: for the shipped configuration (whatever the system-facing task functions
do), when the engine is in `FSM_IDLE_STATE`, `last_input_word` is not `0x0000000B`
and the refreshed input word is exactly `0x0000000B`, the step ends in
`FSM_SEND_STATE` with the transition flag set; after the input refresh it invokes one
callback only, the transition action of the rule (no exit action), and this action is
`resetSessionStatus`, which leaves the session idle with its counters and flags
cleared; the next step is a step of the send state and runs `send_state_entry`, that
is `sendEntry`, first. -/
theorem C13_idle_to_send (a : TASK_ACTIVITY_T) (r f : FSM_RUN TASK_ENV)
    (hstate : r.mem.workspace.current_state = FSM_IDLE_STATE)
    (hlast : r.mem.workspace.last_input_word ≠ 0x0000000B)
    (hf : f = fsm_process_front (fsm_config (functs a)) (idle_state_config (functs a))
      FSM_IDLE_STATE r)
    (hword : f.mem.trans_input = 0x0000000B) :
    ∃ r1, fsm_process (fsm_config (functs a)) r = some r1 ∧
      r1.mem.workspace.current_state = FSM_SEND_STATE ∧
      r1.mem.workspace.transition = TRUE ∧
      r1.calls = f.calls ++ [FSM_CALL.trans FSM_IDLE_STATE FSM_SEND_STATE 0x0000000B] ∧
      r1.mem.env = resetSessionStatus f.mem.env ∧
      r1.mem.env.cloud.session.status = CLOUD_SESSION_IDLE ∧
      r1.mem.env.cloud.session.errorCode = 0 ∧
      r1.mem.env.cloud.session.recvComplete = false ∧
      r1.mem.env.cloud.session.timeout = false ∧
      fsm_process (fsm_config (functs a)) r1 =
        fsm_process_transitions (send_state_config (functs a)) FSM_SEND_STATE
          (fsm_process_front (fsm_config (functs a)) (send_state_config (functs a))
            FSM_SEND_STATE r1) ∧
      (fsm_process_front (fsm_config (functs a)) (send_state_config (functs a))
          FSM_SEND_STATE r1).calls =
        r1.calls ++ [FSM_CALL.entry FSM_SEND_STATE, FSM_CALL.activity FSM_SEND_STATE,
          FSM_CALL.process_inputs] ∧
      (fsm_process_entry (send_state_config (functs a)) FSM_SEND_STATE
          ⟨fsm_process_timers r1.mem, r1.calls⟩).mem.env = sendEntry r1.mem.env := by
  have hsc : (fsm_config (functs a)).state_config_ptr.get? r.mem.workspace.current_state =
      some (idle_state_config (functs a)) := by rw [hstate]; rfl
  have hf2 : f = fsm_process_front (fsm_config (functs a)) (idle_state_config (functs a))
      r.mem.workspace.current_state r := by rw [hstate]; exact hf
  have hfw := fsm_process_front_workspace (fsm_config (functs a))
    (idle_state_config (functs a)) r.mem.workspace.current_state r
    fsm_process_inputs_keeps_workspace
    (fun g hg => by cases hg; exact task_call_keeps_workspace _)
    (fun g hg => by cases hg; exact task_call_keeps_workspace _)
  rw [← hf2] at hfw
  have hfcs : f.mem.workspace.current_state = FSM_IDLE_STATE := by
    rw [hfw]
    exact (fsm_process_timers_current_state r.mem).trans hstate
  have hfliw : f.mem.workspace.last_input_word = r.mem.workspace.last_input_word := by
    rw [hfw]
    exact fsm_process_timers_last_input_word r.mem
  have hchg : f.mem.trans_input ≠ f.mem.workspace.last_input_word := by
    rw [hfliw, hword]
    exact fun h => hlast h.symm
  have htaken : fsm_rule_taken f.mem.trans_input (fsm_store_input f).mem.workspace
      (⟨FSM_SEND_STATE, 0x0000000B, 0x0000000B,
        some (functs a).idle_state_to_send_state1⟩ : FSM_TRANS_CONFIG_T TASK_ENV) := by
    refine ⟨?_, ?_, Or.inr ?_⟩
    · show FSM_TRANS_END ≠ FSM_SEND_STATE
      decide
    · rw [hword]
      show 0 = (0x0000000B ^^^ 0x0000000B) &&& 0x0000000B
      decide
    · show f.mem.workspace.current_state ≠ FSM_SEND_STATE
      rw [hfcs]
      decide
  have hfire := fsm_process_fires (fsm_config (functs a)) r f (idle_state_config (functs a))
    [] _ _ hsc hf2 hchg rfl (fun u hu => by cases hu) htaken
  rw [hstate] at hfire
  have hw := fsm_fire_workspace (idle_state_config (functs a)) FSM_IDLE_STATE
    (⟨FSM_SEND_STATE, 0x0000000B, 0x0000000B,
      some (functs a).idle_state_to_send_state1⟩ : FSM_TRANS_CONFIG_T TASK_ENV)
    (fsm_store_input f)
    (fun g hg => by cases hg)
    (fun g hg => by cases hg; exact task_call_keeps_workspace _)
  have hne : (fsm_store_input f).mem.workspace.current_state ≠ FSM_SEND_STATE := by
    show f.mem.workspace.current_state ≠ FSM_SEND_STATE
    rw [hfcs]
    decide
  rw [if_pos hne] at hw
  refine ⟨_, hfire, ?_, rfl, ?_, rfl, ?_, rfl, rfl, rfl, ?_, ?_, ?_⟩
  · rw [hw]
  · rw [fsm_fire_calls]
    simp [fsm_call_log, idle_state_config, fsm_store_input]
  · show (cloud_resetSessionStatus f.mem.env.cloud.session).status = CLOUD_SESSION_IDLE
    unfold cloud_resetSessionStatus cloud_setSessionStatus
    split_ifs with h
    · rfl
    · exact not_not.mp h
  · have hsc2 : (fsm_config (functs a)).state_config_ptr.get?
        (fsm_fire (idle_state_config (functs a)) FSM_IDLE_STATE
          (⟨FSM_SEND_STATE, 0x0000000B, 0x0000000B,
            some (functs a).idle_state_to_send_state1⟩ : FSM_TRANS_CONFIG_T TASK_ENV)
          (fsm_store_input f)).mem.workspace.current_state =
        some (send_state_config (functs a)) := by
      rw [hw]; rfl
    rw [fsm_process_eq _ _ _ hsc2, hw]
  · rw [fsm_process_front_calls, fsm_fire_transition, if_pos (by decide)]
    simp [fsm_call_log, send_state_config]
  · have htr : FALSE ≠ (⟨fsm_process_timers (fsm_fire (idle_state_config (functs a))
          FSM_IDLE_STATE (⟨FSM_SEND_STATE, 0x0000000B, 0x0000000B,
            some (functs a).idle_state_to_send_state1⟩ : FSM_TRANS_CONFIG_T TASK_ENV)
          (fsm_store_input f)).mem, (fsm_fire (idle_state_config (functs a))
          FSM_IDLE_STATE (⟨FSM_SEND_STATE, 0x0000000B, 0x0000000B,
            some (functs a).idle_state_to_send_state1⟩ : FSM_TRANS_CONFIG_T TASK_ENV)
          (fsm_store_input f)).calls⟩ : FSM_RUN TASK_ENV).mem.workspace.transition := by
      show FALSE ≠ (fsm_process_timers _).workspace.transition
      rw [fsm_process_timers_transition, fsm_fire_transition]
      decide
    rw [fsm_process_entry_env _ _ _ _ rfl htr]
    exact congrArg sendEntry (fsm_process_timers_env _)

/-- Instance of `C13_idle_to_send`: an initialised device in the idle state whose idle
activity asks for a transmission; the refreshed input word is `0x0B`. -/
theorem C13_idle_to_send_witness :
    ∃ r1, fsm_process (fsm_config (functs sample_activity)) sample_idle_run = some r1 ∧
      r1.mem.workspace.current_state = FSM_SEND_STATE ∧
      r1.calls = [FSM_CALL.activity 1, FSM_CALL.process_inputs, FSM_CALL.trans 1 2 11] := by
  obtain ⟨r1, h1, h2, _, h4, _⟩ := C13_idle_to_send sample_activity sample_idle_run _
    (by decide) (by decide) rfl (by decide)
  exact ⟨r1, h1, h2, h4.trans (by decide)⟩

/-! ## The session manager: outcomes of the system calls (claims C21 to C30) -/

/-- Setting the status changes the status field only. -/
theorem cloud_setSessionStatus_eq (s : CLOUD_SESSION_T) (st : CLOUD_SESSION_STATUS_T) :
    cloud_setSessionStatus s st = { s with status := st } := by
  unfold cloud_setSessionStatus
  split_ifs with h
  · rfl
  · have h2 : s.status = st := not_not.mp h
    cases s
    simp only at h2
    subst h2
    rfl

/-- The session and the system calls after `cloud_handleSocketError`. -/
theorem cloud_handleSocketError_eq (now : Nat) (c : CLOUD_MEM) (errCode : Int) :
    cloud_handleSocketError now c errCode =
      { c with
        session :=
          { c.session with
            handle := CLOUD_INVALID_SOCKET
            status := CLOUD_SESSION_FAILED
            errorCode := errCode
            totalBytesSent := 0
            totalBytesRcvd := 0
            errorTime := now
            diags := { c.session.diags with
              sockFailures := (c.session.diags.sockFailures + 1) % 2 ^ 32 } }
        syscalls := c.syscalls ++ [CLOUD_SYSCALL.close c.session.handle] } := by
  unfold cloud_handleSocketError cloud_setSocketError
  simp only [cloud_setSessionStatus_eq]

/-- C21 as stated fails: entered with no open handle, `cloud_initSession` returns false
for an empty server name and for a name that cannot be resolved, and in both cases the
status is still `CLOUD_SESSION_IDLE`, not `CLOUD_SESSION_FAILED`, and `sockFailures` is
unchanged. -/
theorem C21_counterexample :
    sample_cloud.session.handle = CLOUD_INVALID_SOCKET ∧
    (cloud_initSession sample_init_io sample_cloud [] 80).1 = false ∧
    (cloud_initSession sample_init_io sample_cloud [] 80).2.session.status ≠
      CLOUD_SESSION_FAILED ∧
    (cloud_initSession sample_init_io sample_cloud [] 80).2.session.diags.sockFailures ≠
      sample_cloud.session.diags.sockFailures + 1 ∧
    (cloud_initSession sample_init_io_unresolved sample_cloud "nohost".toList 80).1 = false ∧
    (cloud_initSession sample_init_io_unresolved sample_cloud "nohost".toList
      80).2.session.status ≠ CLOUD_SESSION_FAILED ∧
    (cloud_initSession sample_init_io_unresolved sample_cloud "nohost".toList
      80).2.session.diags.sockFailures ≠ sample_cloud.session.diags.sockFailures + 1 := by
  decide

/-- C21, amended: entered with no open handle, `cloud_initSession` attempts to create a
socket only when the server name is not empty and resolves to a non-zero address.  If
the socket is created it returns true with status `CLOUD_SESSION_CREATE_SUCCESS` and the
new handle; if the creation fails it returns false with status `CLOUD_SESSION_FAILED`,
the handle invalid and the 32-bit counter `sockFailures` incremented by one.  For an
empty name or a failed resolution it returns false and leaves status and
`sockFailures` as they were.  So a true result always comes with status
`CLOUD_SESSION_CREATE_SUCCESS`. -/
theorem C21_init_session_outcome (io : CLOUD_INIT_IO) (c : CLOUD_MEM)
    (serverName : List Char) (serverPort : Nat) (r : Bool × CLOUD_MEM) (addr : Nat)
    (hclosed : c.session.handle = CLOUD_INVALID_SOCKET)
    (hr : r = cloud_initSession io c serverName serverPort)
    (haddr : addr = (cloud_initSession_resolve io serverName serverPort
      c.serverIpAddr).1.sin_addr) :
    (serverName ≠ [] → addr ≠ 0 → io.socket ≠ CLOUD_INVALID_SOCKET →
      r.1 = true ∧ r.2.session.status = CLOUD_SESSION_CREATE_SUCCESS ∧
      r.2.session.handle = io.socket ∧
      r.2.session.diags.sockFailures = c.session.diags.sockFailures) ∧
    (serverName ≠ [] → addr ≠ 0 → io.socket = CLOUD_INVALID_SOCKET →
      r.1 = false ∧ r.2.session.status = CLOUD_SESSION_FAILED ∧
      r.2.session.handle = CLOUD_INVALID_SOCKET ∧
      r.2.session.diags.sockFailures = (c.session.diags.sockFailures + 1) % 2 ^ 32 ∧
      (c.session.diags.sockFailures < 2 ^ 32 - 1 →
        r.2.session.diags.sockFailures = c.session.diags.sockFailures + 1)) ∧
    ((serverName = [] ∨ addr = 0) →
      r.1 = false ∧ r.2.session.status = c.session.status ∧
      r.2.session.handle = CLOUD_INVALID_SOCKET ∧
      r.2.session.diags.sockFailures = c.session.diags.sockFailures ∧
      CLOUD_SYSCALL.socket ∉ r.2.syscalls.drop c.syscalls.length) ∧
    (r.1 = true → r.2.session.status = CLOUD_SESSION_CREATE_SUCCESS) := by
  have hname : ∀ h : serverName ≠ [], ¬ (0 = strlen serverName) := by
    intro h h0
    exact h (List.length_eq_zero.mp h0.symm)
  have hA : serverName ≠ [] → addr ≠ 0 → io.socket ≠ CLOUD_INVALID_SOCKET →
      r.1 = true ∧ r.2.session.status = CLOUD_SESSION_CREATE_SUCCESS ∧
      r.2.session.handle = io.socket ∧
      r.2.session.diags.sockFailures = c.session.diags.sockFailures := by
    intro h1 h2 h3
    subst hr haddr
    unfold cloud_initSession
    simp only [hclosed, ne_eq, not_true_eq_false, if_false, hname h1]
    rw [if_pos (fun h => h2 h.symm), if_pos (fun h => h3 h.symm)]
    simp [cloud_setSessionStatus_eq]
  have hB : serverName ≠ [] → addr ≠ 0 → io.socket = CLOUD_INVALID_SOCKET →
      r.1 = false ∧ r.2.session.status = CLOUD_SESSION_FAILED ∧
      r.2.session.handle = CLOUD_INVALID_SOCKET ∧
      r.2.session.diags.sockFailures = (c.session.diags.sockFailures + 1) % 2 ^ 32 ∧
      (c.session.diags.sockFailures < 2 ^ 32 - 1 →
        r.2.session.diags.sockFailures = c.session.diags.sockFailures + 1) := by
    intro h1 h2 h3
    subst hr haddr
    unfold cloud_initSession
    simp only [hclosed, ne_eq, not_true_eq_false, if_false, hname h1]
    rw [if_pos (fun h => h2 h.symm), if_neg (fun h => h (h3.symm))]
    simp only [cloud_handleSocketError_eq, true_and]
    intro hlt
    exact Nat.mod_eq_of_lt (by omega)
  have hC : (serverName = [] ∨ addr = 0) →
      r.1 = false ∧ r.2.session.status = c.session.status ∧
      r.2.session.handle = CLOUD_INVALID_SOCKET ∧
      r.2.session.diags.sockFailures = c.session.diags.sockFailures ∧
      CLOUD_SYSCALL.socket ∉ r.2.syscalls.drop c.syscalls.length := by
    intro h
    subst hr haddr
    unfold cloud_initSession
    simp only [hclosed, ne_eq, not_true_eq_false, if_false]
    by_cases h1 : serverName = []
    · subst h1
      simp [strlen]
    · rw [if_neg (hname h1)]
      have h2 := h.resolve_left h1
      rw [if_neg (fun h => h h2.symm)]
      simp only [List.drop_left, true_and]
      unfold cloud_initSession_resolve
      split_ifs <;> simp
  refine ⟨hA, hB, hC, ?_⟩
  intro htrue
  by_cases h1 : serverName = []
  · exact absurd ((hC (Or.inl h1)).1 ▸ htrue) Bool.false_ne_true
  · by_cases h2 : addr = 0
    · exact absurd ((hC (Or.inr h2)).1 ▸ htrue) Bool.false_ne_true
    · by_cases h3 : io.socket = CLOUD_INVALID_SOCKET
      · exact absurd ((hB h1 h2 h3).1 ▸ htrue) Bool.false_ne_true
      · exact (hA h1 h2 h3).2.1

/-- Instance of `C21_init_session_outcome`: a literal address with a socket created,
a literal address when no socket can be created, and an empty server name. -/
theorem C21_init_session_outcome_witness :
    (cloud_initSession sample_init_io sample_cloud "192.168.112.1".toList
      80).2.session.status = CLOUD_SESSION_CREATE_SUCCESS ∧
    (cloud_initSession sample_init_io_nosocket sample_cloud "192.168.112.1".toList
      80).2.session.status = CLOUD_SESSION_FAILED ∧
    (cloud_initSession sample_init_io_nosocket sample_cloud "192.168.112.1".toList
      80).2.session.diags.sockFailures = 1 ∧
    (cloud_initSession sample_init_io sample_cloud [] 80).2.session.status =
      CLOUD_SESSION_IDLE :=
  ⟨((C21_init_session_outcome sample_init_io sample_cloud "192.168.112.1".toList 80 _ _
      rfl rfl rfl).1 (by decide) (by decide) (by decide)).2.1,
    ((C21_init_session_outcome sample_init_io_nosocket sample_cloud
      "192.168.112.1".toList 80 _ _ rfl rfl rfl).2.1 (by decide) (by decide)
      (by decide)).2.1,
    ((C21_init_session_outcome sample_init_io_nosocket sample_cloud
      "192.168.112.1".toList 80 _ _ rfl rfl rfl).2.1 (by decide) (by decide)
      (by decide)).2.2.2.2 (by decide),
    ((C21_init_session_outcome sample_init_io sample_cloud [] 80 _ _ rfl rfl rfl).2.2.1
      (Or.inl rfl)).2.1⟩

/-! ### The connect step (claims C22 and C23) -/

/-- With the socket not writable after the wait, `cloud_finishConnect` handles a socket
error with the current `errno`, whatever `select` returned. -/
theorem cloud_finishConnect_not_writable (io : CLOUD_CONNECT_IO) (c : CLOUD_MEM)
    (hnw : io.writable = false) :
    cloud_finishConnect io c =
      cloud_handleSocketError io.now_error
        { c with
          syscalls := c.syscalls ++
            [CLOUD_SYSCALL.select_write c.session.handle (CONN_TIMEOUT_MS / 1000)] }
        io.select_errno := by
  unfold cloud_finishConnect
  simp only [hnw, Bool.false_eq_true, if_false, ite_self]

/-- A connect that reports would-block or in-progress leaves the session pending. -/
theorem cloud_startConnect_pending (io : CLOUD_CONNECT_IO) (c : CLOUD_MEM)
    (hret : io.connect ≤ 0)
    (herr : io.connect_errno = EINPROGRESS ∨ io.connect_errno = EWOULDBLOCK) :
    cloud_startConnect io c =
      { c with
        session := { c.session with status := CLOUD_SESSION_CONNECT_PENDING }
        syscalls := c.syscalls ++ [CLOUD_SYSCALL.connect c.session.handle] } := by
  unfold cloud_startConnect
  have herr2 : EINPROGRESS = io.connect_errno ∨ EWOULDBLOCK = io.connect_errno :=
    herr.imp Eq.symm Eq.symm
  simp only [hret, herr2, if_true, cloud_setSessionStatus_eq]

/-- C22 as stated fails: a session with an open socket and status
`CLOUD_SESSION_CONNECT_PENDING` runs `cloud_sessionConnect`, the wait returns 0 with the
socket not writable, and afterwards the status is `CLOUD_SESSION_FAILED`, the handle is
closed and a socket failure is recorded; the same happens just after a connect that
reported in-progress. -/
theorem C22_counterexample :
    (sample_cloud_open CLOUD_SESSION_CONNECT_PENDING).session.handle = 3 ∧
    (sample_cloud_open CLOUD_SESSION_CONNECT_PENDING).session.diags.sockFailures = 0 ∧
    sample_connect_io_not_writable.select = 0 ∧
    sample_connect_io_not_writable.writable = false ∧
    (cloud_sessionConnect sample_connect_io_not_writable
      (sample_cloud_open CLOUD_SESSION_CONNECT_PENDING)).session.status =
        CLOUD_SESSION_FAILED ∧
    (cloud_sessionConnect sample_connect_io_not_writable
      (sample_cloud_open CLOUD_SESSION_CONNECT_PENDING)).session.handle =
        CLOUD_INVALID_SOCKET ∧
    (cloud_sessionConnect sample_connect_io_not_writable
      (sample_cloud_open CLOUD_SESSION_CONNECT_PENDING)).session.diags.sockFailures = 1 ∧
    (cloud_sessionConnect sample_connect_io_not_writable
      (sample_cloud_open CLOUD_SESSION_CONNECT_PENDING)).syscalls =
        [CLOUD_SYSCALL.select_write 3 5, CLOUD_SYSCALL.close 3] ∧
    (cloud_sessionConnect sample_connect_io_not_writable
      (sample_cloud_open CLOUD_SESSION_CREATE_SUCCESS)).session.status =
        CLOUD_SESSION_FAILED ∧
    (cloud_sessionConnect sample_connect_io_not_writable
      (sample_cloud_open CLOUD_SESSION_CREATE_SUCCESS)).syscalls =
        [CLOUD_SYSCALL.connect 3, CLOUD_SYSCALL.select_write 3 5, CLOUD_SYSCALL.close 3] := by
  decide

/-- C22, amended: when `cloud_sessionConnect` runs with status
`CLOUD_SESSION_CONNECT_PENDING`, or from `CLOUD_SESSION_IDLE` or
`CLOUD_SESSION_CREATE_SUCCESS` with a connect that reports would-block or in-progress,
and the handle is not writable after the wait, the session is treated as failed: the
status is `CLOUD_SESSION_FAILED`, the handle is closed and invalid, `errorCode` is the
current `errno`, the 32-bit counter `sockFailures` is incremented by one and both byte
counters are 0. -/
theorem C22_connect_wait_not_writable (io : CLOUD_CONNECT_IO) (c : CLOUD_MEM)
    (hst : c.session.status = CLOUD_SESSION_CONNECT_PENDING ∨
      ((c.session.status = CLOUD_SESSION_IDLE ∨
          c.session.status = CLOUD_SESSION_CREATE_SUCCESS) ∧
        io.connect ≤ 0 ∧
        (io.connect_errno = EINPROGRESS ∨ io.connect_errno = EWOULDBLOCK)))
    (hnw : io.writable = false) :
    (cloud_sessionConnect io c).session.status = CLOUD_SESSION_FAILED ∧
    (cloud_sessionConnect io c).session.handle = CLOUD_INVALID_SOCKET ∧
    (cloud_sessionConnect io c).session.errorCode = io.select_errno ∧
    (cloud_sessionConnect io c).session.diags.sockFailures =
      (c.session.diags.sockFailures + 1) % 2 ^ 32 ∧
    (cloud_sessionConnect io c).session.totalBytesSent = 0 ∧
    (cloud_sessionConnect io c).session.totalBytesRcvd = 0 ∧
    (cloud_sessionConnect io c).syscalls =
      c.syscalls ++
        (if c.session.status = CLOUD_SESSION_CONNECT_PENDING then []
          else [CLOUD_SYSCALL.connect c.session.handle]) ++
        [CLOUD_SYSCALL.select_write c.session.handle (CONN_TIMEOUT_MS / 1000),
          CLOUD_SYSCALL.close c.session.handle] := by
  rcases hst with hp | ⟨hs, hret, herr⟩
  · unfold cloud_sessionConnect
    simp only [hp, ne_eq, not_true_eq_false, and_false, if_false, true_or, if_true,
      cloud_finishConnect_not_writable io c hnw, cloud_handleSocketError_eq]
    simp
  · have hnp : c.session.status ≠ CLOUD_SESSION_CONNECT_PENDING := by
      rcases hs with h | h <;> rw [h] <;> decide
    have hguard : ¬ (CLOUD_SESSION_IDLE ≠ c.session.status ∧
        CLOUD_SESSION_CREATE_SUCCESS ≠ c.session.status ∧
        CLOUD_SESSION_CONNECT_PENDING ≠ c.session.status) := by
      rcases hs with h | h <;> rw [h] <;> decide
    have h1 : (if CLOUD_SESSION_CONNECT_PENDING ≠ c.session.status then
        cloud_startConnect io c else c) =
        { c with
          session := { c.session with status := CLOUD_SESSION_CONNECT_PENDING }
          syscalls := c.syscalls ++ [CLOUD_SYSCALL.connect c.session.handle] } := by
      rw [if_pos (Ne.symm hnp)]
      exact cloud_startConnect_pending io c hret herr
    unfold cloud_sessionConnect
    rw [if_neg hguard]
    simp only [h1, true_or, if_true, cloud_finishConnect_not_writable _ _ hnw,
      cloud_handleSocketError_eq, hnp, if_false]
    simp

/-- Instance of `C22_connect_wait_not_writable`: a pending connect on descriptor 3
whose wait times out. -/
theorem C22_connect_wait_not_writable_witness :
    (cloud_sessionConnect sample_connect_io_not_writable
      (sample_cloud_open CLOUD_SESSION_CONNECT_PENDING)).session.status =
        CLOUD_SESSION_FAILED ∧
    (cloud_sessionConnect sample_connect_io_not_writable
      (sample_cloud_open CLOUD_SESSION_CONNECT_PENDING)).session.handle =
        CLOUD_INVALID_SOCKET :=
  ⟨(C22_connect_wait_not_writable sample_connect_io_not_writable
      (sample_cloud_open CLOUD_SESSION_CONNECT_PENDING) (Or.inl rfl) rfl).1,
    (C22_connect_wait_not_writable sample_connect_io_not_writable
      (sample_cloud_open CLOUD_SESSION_CONNECT_PENDING) (Or.inl rfl) rfl).2.1⟩

/-- C23 as stated fails in its second half: with the socket writable after the wait
and the pending error `ECONNREFUSED` reported by `getsockopt`, the status is
`CLOUD_SESSION_CONNECT_PENDING` and not `CLOUD_SESSION_FAILED`, the handle is still
open, nothing is closed and `sockFailures` is unchanged. -/
theorem C23_counterexample :
    sample_connect_io_refused.select = 1 ∧
    sample_connect_io_refused.writable = true ∧
    sample_connect_io_refused.getsockopt = 0 ∧
    sample_connect_io_refused.optVal = 111 ∧
    (cloud_finishConnect sample_connect_io_refused
      (sample_cloud_open CLOUD_SESSION_CONNECT_PENDING)).session.status =
        CLOUD_SESSION_CONNECT_PENDING ∧
    (cloud_finishConnect sample_connect_io_refused
      (sample_cloud_open CLOUD_SESSION_CONNECT_PENDING)).session.handle = 3 ∧
    (cloud_finishConnect sample_connect_io_refused
      (sample_cloud_open CLOUD_SESSION_CONNECT_PENDING)).session.diags.sockFailures = 0 ∧
    (cloud_finishConnect sample_connect_io_refused
      (sample_cloud_open CLOUD_SESSION_CONNECT_PENDING)).syscalls =
        [CLOUD_SYSCALL.select_write 3 5, CLOUD_SYSCALL.getsockopt 3] ∧
    (cloud_sessionConnect sample_connect_io_refused
      (sample_cloud_open CLOUD_SESSION_CONNECT_PENDING)).session.status =
        CLOUD_SESSION_CONNECT_PENDING := by
  decide

/-- C23, amended: when the wait of `cloud_finishConnect` succeeds and reports the
socket writable, the socket error is queried and nothing else is called; if the query
succeeds with no pending error the status becomes `CLOUD_SESSION_CONNECT_SUCCESS`, and
if the socket has a pending error or the query fails the status becomes
`CLOUD_SESSION_CONNECT_PENDING`; in both cases the rest of the session (handle,
`errorCode`, diagnostics) is unchanged and the handle is not closed.  A call of
`cloud_sessionConnect` with status `CLOUD_SESSION_CONNECT_PENDING` is this step. -/
theorem C23_connect_wait_writable (io : CLOUD_CONNECT_IO) (c : CLOUD_MEM)
    (hsel : io.select ≥ 0) (hw : io.writable = true) :
    ((io.getsockopt = 0 ∧ io.optVal = 0) →
      (cloud_finishConnect io c).session =
        { c.session with status := CLOUD_SESSION_CONNECT_SUCCESS }) ∧
    (¬ (io.getsockopt = 0 ∧ io.optVal = 0) →
      (cloud_finishConnect io c).session =
        { c.session with status := CLOUD_SESSION_CONNECT_PENDING } ∧
      (cloud_finishConnect io c).session.handle = c.session.handle ∧
      (cloud_finishConnect io c).session.diags = c.session.diags) ∧
    (cloud_finishConnect io c).syscalls =
      c.syscalls ++ [CLOUD_SYSCALL.select_write c.session.handle (CONN_TIMEOUT_MS / 1000),
        CLOUD_SYSCALL.getsockopt c.session.handle] ∧
    (c.session.status = CLOUD_SESSION_CONNECT_PENDING →
      cloud_sessionConnect io c = cloud_finishConnect io c) := by
  refine ⟨?_, ?_, ?_, ?_⟩
  · intro h
    unfold cloud_finishConnect cloud_isSocketReady
    simp [hsel, hw, h, cloud_setSessionStatus_eq]
  · intro h
    unfold cloud_finishConnect cloud_isSocketReady
    simp [hsel, hw, h, cloud_setSessionStatus_eq]
  · unfold cloud_finishConnect cloud_isSocketReady
    simp only [hsel, hw, if_true]
    split_ifs <;> simp
  · intro hp
    unfold cloud_sessionConnect
    simp [hp]

/-- Instance of `C23_connect_wait_writable`: a pending connect on descriptor 3 that
becomes writable, once without and once with a pending socket error. -/
theorem C23_connect_wait_writable_witness :
    (cloud_finishConnect sample_connect_io_ready
      (sample_cloud_open CLOUD_SESSION_CONNECT_PENDING)).session.status =
        CLOUD_SESSION_CONNECT_SUCCESS ∧
    (cloud_finishConnect sample_connect_io_refused
      (sample_cloud_open CLOUD_SESSION_CONNECT_PENDING)).session.handle = 3 :=
  ⟨congrArg CLOUD_SESSION_T.status
      ((C23_connect_wait_writable sample_connect_io_ready
        (sample_cloud_open CLOUD_SESSION_CONNECT_PENDING) (by decide) rfl).1
        (by decide)),
    ((C23_connect_wait_writable sample_connect_io_refused
      (sample_cloud_open CLOUD_SESSION_CONNECT_PENDING) (by decide) rfl).2.1
      (by decide)).2.1⟩

/-! ### The send step (claim C24) -/

/-- Conversion to `int` leaves a value of the `int` range as it is. -/
theorem int_of_long_int (x : Int) (h0 : -(2 ^ 31) ≤ x) (h1 : x < 2 ^ 31) :
    int_of_long x = x := by
  unfold int_of_long
  rw [Int.emod_eq_of_lt (by omega) (by omega)]
  omega

/-- Conversion to `size_t` leaves a non-negative `int` as it is. -/
theorem size_t_of_long_nonneg (x : Int) (h0 : 0 ≤ x) (h1 : x < 2 ^ 31) :
    ((size_t_of_long x : Nat) : Int) = x := by
  unfold size_t_of_long
  rw [Int.emod_eq_of_lt h0 (by omega)]
  exact Int.toNat_of_nonneg h0

/-- The session after the first-entry part of `cloud_sessionSend`. -/
theorem cloud_sessionSend_enter (s s1 : CLOUD_SESSION_T)
    (hs1 : s1 = if s.status = CLOUD_SESSION_SEND_PENDING then s
      else { s with status := CLOUD_SESSION_SEND_PENDING, totalBytesSent := 0 }) :
    (if CLOUD_SESSION_SEND_PENDING ≠ s.status then
        { cloud_setSessionStatus s CLOUD_SESSION_SEND_PENDING with totalBytesSent := 0 }
      else s) = s1 ∧ s1.handle = s.handle ∧ s1.totalBytesToSend = s.totalBytesToSend := by
  subst hs1
  by_cases h : s.status = CLOUD_SESSION_SEND_PENDING
  · rw [if_neg (fun hn => hn h.symm)]
    simp [h]
  · rw [if_pos (Ne.symm h)]
    simp [h, cloud_setSessionStatus_eq]

/-- C24 as stated fails: an idle session with an open socket and
`totalBytesToSend = -1` enters the send step, the socket is writable, and yet nothing
is offered to `send`: the only system call is the wait. -/
theorem C24_counterexample :
    sample_cloud_negative_length.session.status = CLOUD_SESSION_IDLE ∧
    sample_cloud_negative_length.session.totalBytesToSend = -1 ∧
    (sample_send_io 0 0).select = 1 ∧
    (sample_send_io 0 0).writable = true ∧
    (cloud_sessionSend (sample_send_io 0 0) sample_cloud_negative_length).session.status =
      CLOUD_SESSION_SEND_PENDING ∧
    (cloud_sessionSend (sample_send_io 0 0) sample_cloud_negative_length).syscalls =
      [CLOUD_SYSCALL.select_write 3 1] := by
  decide

/-- C24, amended: `cloud_sessionSend` changes nothing when the status is not
`CLOUD_SESSION_IDLE`, `CLOUD_SESSION_FAILED`, `CLOUD_SESSION_CONNECT_SUCCESS` or
`CLOUD_SESSION_SEND_PENDING`.  Otherwise on first entry it sets the status to
`CLOUD_SESSION_SEND_PENDING` and `totalBytesSent` to 0 (session `s1`) and waits for the
socket.  If the wait fails or the socket is not writable, or if
`totalBytesToSend - totalBytesSent` is negative, nothing is offered and the session is
`s1`.  If the socket is writable and `0 ≤ totalBytesSent ≤ totalBytesToSend`, exactly
`totalBytesToSend - totalBytesSent` characters from index `totalBytesSent` on are
offered; when `send` accepts `n` of them and `totalBytesSent + n = totalBytesToSend` the
status becomes `CLOUD_SESSION_SEND_SUCCESS` with `totalBytesSent` back at 0, otherwise
the status stays `CLOUD_SESSION_SEND_PENDING` and `totalBytesSent` has grown by `n`; a
would-block or in-progress result leaves the session `s1`. -/
theorem C24_send_step (io : CLOUD_SEND_IO) (c : CLOUD_MEM) (s1 : CLOUD_SESSION_T)
    (hs1 : s1 = if c.session.status = CLOUD_SESSION_SEND_PENDING then c.session
      else { c.session with status := CLOUD_SESSION_SEND_PENDING, totalBytesSent := 0 }) :
    (c.session.status ≠ CLOUD_SESSION_IDLE → c.session.status ≠ CLOUD_SESSION_FAILED →
      c.session.status ≠ CLOUD_SESSION_CONNECT_SUCCESS →
      c.session.status ≠ CLOUD_SESSION_SEND_PENDING → cloud_sessionSend io c = c) ∧
    ((c.session.status = CLOUD_SESSION_IDLE ∨ c.session.status = CLOUD_SESSION_FAILED ∨
        c.session.status = CLOUD_SESSION_CONNECT_SUCCESS ∨
        c.session.status = CLOUD_SESSION_SEND_PENDING) →
      ((io.select < 0 ∨ io.writable = false ∨
          (-(2 ^ 31) ≤ s1.totalBytesToSend - s1.totalBytesSent ∧
            s1.totalBytesToSend - s1.totalBytesSent < 0)) →
        cloud_sessionSend io c =
          { c with
            session := s1
            syscalls := c.syscalls ++
              [CLOUD_SYSCALL.select_write c.session.handle (SEND_TIMEOUT_MS / 1000)] }) ∧
      (io.select ≥ 0 → io.writable = true → 0 ≤ s1.totalBytesSent →
        s1.totalBytesSent ≤ s1.totalBytesToSend → s1.totalBytesToSend < 2 ^ 31 →
        c.syscalls ++
            [CLOUD_SYSCALL.select_write c.session.handle (SEND_TIMEOUT_MS / 1000),
              CLOUD_SYSCALL.send c.session.handle s1.totalBytesSent
                (s1.totalBytesToSend - s1.totalBytesSent)] <+:
          (cloud_sessionSend io c).syscalls ∧
        (∀ n : Int, io.send = n → 0 ≤ n → n ≤ s1.totalBytesToSend - s1.totalBytesSent →
          (s1.totalBytesSent + n = s1.totalBytesToSend →
            (cloud_sessionSend io c).session =
              { s1 with status := CLOUD_SESSION_SEND_SUCCESS, totalBytesSent := 0 }) ∧
          (s1.totalBytesSent + n ≠ s1.totalBytesToSend →
            (cloud_sessionSend io c).session =
              { s1 with totalBytesSent := s1.totalBytesSent + n } ∧
            (cloud_sessionSend io c).session.status = CLOUD_SESSION_SEND_PENDING)) ∧
        (io.send = CLOUD_SOCKET_ERROR →
          (io.errno = EINPROGRESS ∨ io.errno = EWOULDBLOCK) →
          (cloud_sessionSend io c).session = s1))) := by
  obtain ⟨henter, hhandle, htosend⟩ := cloud_sessionSend_enter c.session s1 hs1
  have hpend : s1.status = CLOUD_SESSION_SEND_PENDING := by
    subst hs1
    split_ifs with h
    · exact h
    · rfl
  refine ⟨?_, ?_⟩
  · intro h1 h2 h3 h4
    unfold cloud_sessionSend
    rw [if_pos ⟨Ne.symm h1, Ne.symm h2, Ne.symm h3, Ne.symm h4⟩]
  · intro hst
    have hguard : ¬ (CLOUD_SESSION_IDLE ≠ c.session.status ∧
        CLOUD_SESSION_FAILED ≠ c.session.status ∧
        CLOUD_SESSION_CONNECT_SUCCESS ≠ c.session.status ∧
        CLOUD_SESSION_SEND_PENDING ≠ c.session.status) := by
      rcases hst with h | h | h | h <;> rw [h] <;> decide
    refine ⟨?_, ?_⟩
    · intro hno
      unfold cloud_sessionSend
      rw [if_neg hguard]
      simp only [henter, hhandle]
      rcases hno with h | h | ⟨h, h'⟩
      · rw [if_neg (by omega)]
      · simp only [h, Bool.false_eq_true, if_false, ite_self]
      · have hneg : int_of_long (s1.totalBytesToSend - s1.totalBytesSent) < 0 := by
          rw [int_of_long_int _ h (by omega)]
          exact h'
        simp only [hneg, if_true, ite_self]
    · intro hsel hw h0 hle hmax
      have hrem : int_of_long (s1.totalBytesToSend - s1.totalBytesSent) =
          s1.totalBytesToSend - s1.totalBytesSent :=
        int_of_long_small _ (by omega) (by omega)
      have hnneg : ¬ (s1.totalBytesToSend - s1.totalBytesSent < 0) := by omega
      have hidx : ((size_t_of_long s1.totalBytesSent : Nat) : Int) = s1.totalBytesSent :=
        size_t_of_long_nonneg _ h0 (by omega)
      refine ⟨?_, ?_, ?_⟩
      · unfold cloud_sessionSend
        rw [if_neg hguard]
        simp only [henter, hhandle, hsel, hw, if_true, hrem, hnneg, if_false, hidx]
        split_ifs <;> simp [cloud_handleSocketError_eq]
      · intro n hn hn0 hnle
        have hnerr : ¬ (CLOUD_SOCKET_ERROR = io.send) := by
          rw [hn]
          unfold CLOUD_SOCKET_ERROR
          omega
        have hadd : int_of_long (s1.totalBytesSent + n) = s1.totalBytesSent + n :=
          int_of_long_small _ (by omega) (by omega)
        constructor
        · intro heq
          unfold cloud_sessionSend
          rw [if_neg hguard]
          simp only [henter, hhandle, hsel, hw, if_true, hrem, hnneg, if_false, hnerr]
          rw [hn, hadd] at *
          simp [heq, cloud_setSessionStatus_eq]
        · intro hne
          have hres : (cloud_sessionSend io c).session =
              { s1 with totalBytesSent := s1.totalBytesSent + n } := by
            unfold cloud_sessionSend
            rw [if_neg hguard]
            simp only [henter, hhandle, hsel, hw, if_true, hrem, hnneg, if_false, hnerr]
            rw [hn, hadd] at *
            simp [hne]
          exact ⟨hres, by rw [hres]; exact hpend⟩
      · intro herr hwb
        have hwb2 : ¬ (EINPROGRESS ≠ io.errno ∧ EWOULDBLOCK ≠ io.errno) := by
          rintro ⟨a, b⟩
          rcases hwb with h | h
          · exact a h.symm
          · exact b h.symm
        unfold cloud_sessionSend
        rw [if_neg hguard]
        simp only [henter, hhandle, hsel, hw, if_true, hrem, hnneg, if_false, herr, hwb2]

/-- Instance of `C24_send_step`: ten characters are waiting on a connected session; a
first call in which `send` accepts four of them leaves the send pending at 4, and a
call in which it accepts all ten ends in `CLOUD_SESSION_SEND_SUCCESS`. -/
theorem C24_send_step_witness :
    (cloud_sessionSend (sample_send_io 4 0)
      (sample_cloud_open CLOUD_SESSION_CONNECT_SUCCESS)).session.totalBytesSent = 4 ∧
    (cloud_sessionSend (sample_send_io 4 0)
      (sample_cloud_open CLOUD_SESSION_CONNECT_SUCCESS)).session.status =
        CLOUD_SESSION_SEND_PENDING ∧
    (cloud_sessionSend (sample_send_io 10 0)
      (sample_cloud_open CLOUD_SESSION_CONNECT_SUCCESS)).session.status =
        CLOUD_SESSION_SEND_SUCCESS ∧
    [CLOUD_SYSCALL.select_write 3 1, CLOUD_SYSCALL.send 3 0 10] <+:
      (cloud_sessionSend (sample_send_io 4 0)
        (sample_cloud_open CLOUD_SESSION_CONNECT_SUCCESS)).syscalls := by
  have h4 := ((C24_send_step (sample_send_io 4 0)
    (sample_cloud_open CLOUD_SESSION_CONNECT_SUCCESS) _ rfl).2 (by decide)).2
    (by decide) rfl (by decide) (by decide) (by decide)
  have h10 := ((C24_send_step (sample_send_io 10 0)
    (sample_cloud_open CLOUD_SESSION_CONNECT_SUCCESS) _ rfl).2 (by decide)).2
    (by decide) rfl (by decide) (by decide) (by decide)
  have h4n := (h4.2.1 4 rfl (by decide) (by decide)).2 (by decide)
  have h10n := (h10.2.1 10 rfl (by decide) (by decide)).1 (by decide)
  exact ⟨congrArg CLOUD_SESSION_T.totalBytesSent h4n.1, h4n.2,
    congrArg CLOUD_SESSION_T.status h10n, h4.1⟩

/-! ### The receive step and the driver (claims C25 to C27) -/

/-- The session after the first-entry part of `cloud_sessionRecv`. -/
theorem cloud_sessionRecv_enter (s : CLOUD_SESSION_T) :
    (if CLOUD_SESSION_RECV_PENDING ≠ s.status then
        { cloud_setSessionStatus s CLOUD_SESSION_RECV_PENDING with
          totalBytesRcvd := 0
          recvBuf := memset s.recvBuf (Char.ofNat 0) s.recvBufLen }
      else s) =
      { s with
        status := CLOUD_SESSION_RECV_PENDING
        totalBytesRcvd := if s.status = CLOUD_SESSION_RECV_PENDING then s.totalBytesRcvd else 0
        recvBuf := if s.status = CLOUD_SESSION_RECV_PENDING then s.recvBuf
          else memset s.recvBuf (Char.ofNat 0) s.recvBufLen } := by
  by_cases h : s.status = CLOUD_SESSION_RECV_PENDING
  · rw [if_neg (fun hn => hn h.symm)]
    simp only [h, if_true]
    cases s
    simp only at h
    subst h
    rfl
  · rw [if_pos (Ne.symm h)]
    simp [h, cloud_setSessionStatus_eq]

/-- C25: in a receive step in which the wait succeeds, the socket is readable and the
read returns 0, `recvComplete` becomes true, the status is
`CLOUD_SESSION_RECV_PENDING` and not `CLOUD_SESSION_RECV_SUCCESS`, and `httpStatus`,
`errorCode`, the diagnostics and the handle are unchanged; `totalBytesRcvd` is what
the entry of the step left (unchanged for a receive that was pending, 0 for one that
starts), so for a pending receive nothing but `recvComplete` changes.  When the step is
made by `cloud_sessionSendRecvAll` (status `CLOUD_SESSION_SEND_SUCCESS` or
`CLOUD_SESSION_RECV_PENDING`), the call returns true and leaves what the step left. -/
theorem C25_zero_byte_read (io : CLOUD_IO) (c : CLOUD_MEM) (timeoutSec : Nat)
    (hsel : io.recv.select ≥ 0) (hrd : io.recv.readable = true) (h0 : io.recv.recv = 0) :
    ((c.session.status = CLOUD_SESSION_IDLE ∨ c.session.status = CLOUD_SESSION_FAILED ∨
        c.session.status = CLOUD_SESSION_SEND_SUCCESS ∨
        c.session.status = CLOUD_SESSION_RECV_PENDING) →
      (cloud_sessionRecv io.recv c).session.recvComplete = true ∧
      (cloud_sessionRecv io.recv c).session.status = CLOUD_SESSION_RECV_PENDING ∧
      (cloud_sessionRecv io.recv c).session.status ≠ CLOUD_SESSION_RECV_SUCCESS ∧
      (cloud_sessionRecv io.recv c).session.httpStatus = c.session.httpStatus ∧
      (cloud_sessionRecv io.recv c).session.errorCode = c.session.errorCode ∧
      (cloud_sessionRecv io.recv c).session.diags = c.session.diags ∧
      (cloud_sessionRecv io.recv c).session.handle = c.session.handle ∧
      (cloud_sessionRecv io.recv c).session.totalBytesRcvd =
        (if c.session.status = CLOUD_SESSION_RECV_PENDING then c.session.totalBytesRcvd
          else 0)) ∧
    (c.session.status = CLOUD_SESSION_RECV_PENDING →
      (cloud_sessionRecv io.recv c).session = { c.session with recvComplete := true }) ∧
    ((c.session.status = CLOUD_SESSION_SEND_SUCCESS ∨
        c.session.status = CLOUD_SESSION_RECV_PENDING) →
      cloud_sessionSendRecvAll io c timeoutSec = (true, cloud_sessionRecv io.recv c)) := by
  have hne : ¬ (CLOUD_SOCKET_ERROR = (0 : Int)) := by decide
  have hstep : (c.session.status = CLOUD_SESSION_IDLE ∨
      c.session.status = CLOUD_SESSION_FAILED ∨
      c.session.status = CLOUD_SESSION_SEND_SUCCESS ∨
      c.session.status = CLOUD_SESSION_RECV_PENDING) →
      (cloud_sessionRecv io.recv c).session =
        { c.session with
          status := CLOUD_SESSION_RECV_PENDING
          totalBytesRcvd :=
            if c.session.status = CLOUD_SESSION_RECV_PENDING then c.session.totalBytesRcvd
            else 0
          recvBuf := if c.session.status = CLOUD_SESSION_RECV_PENDING then c.session.recvBuf
            else memset c.session.recvBuf (Char.ofNat 0) c.session.recvBufLen
          recvComplete := true } := by
    intro hst
    have hguard : ¬ (CLOUD_SESSION_IDLE ≠ c.session.status ∧
        CLOUD_SESSION_FAILED ≠ c.session.status ∧
        CLOUD_SESSION_SEND_SUCCESS ≠ c.session.status ∧
        CLOUD_SESSION_RECV_PENDING ≠ c.session.status) := by
      rcases hst with h | h | h | h <;> rw [h] <;> decide
    unfold cloud_sessionRecv
    rw [if_neg hguard]
    simp only [cloud_sessionRecv_enter, hsel, hrd, if_true, h0, hne, if_false]
  refine ⟨?_, ?_, ?_⟩
  · intro hst
    rw [hstep hst]
    simp
  · intro hp
    rw [hstep (Or.inr (Or.inr (Or.inr hp)))]
    simp only [hp, if_true]
  · intro hst
    have hst4 : c.session.status = CLOUD_SESSION_IDLE ∨
        c.session.status = CLOUD_SESSION_FAILED ∨
        c.session.status = CLOUD_SESSION_SEND_SUCCESS ∨
        c.session.status = CLOUD_SESSION_RECV_PENDING :=
      hst.elim (fun h => Or.inr (Or.inr (Or.inl h))) (fun h => Or.inr (Or.inr (Or.inr h)))
    have hd : cloud_sessionSendRecvAll_dispatch io c = cloud_sessionRecv io.recv c := by
      unfold cloud_sessionSendRecvAll_dispatch
      rcases hst with h | h <;> rw [h]
    have hs := hstep hst4
    unfold cloud_sessionSendRecvAll
    simp only [hd]
    have h1 : (cloud_sessionRecv io.recv c).session.status = CLOUD_SESSION_RECV_PENDING := by
      rw [hs]
    have h2 : (cloud_sessionRecv io.recv c).session.recvComplete = true := by
      rw [hs]
    rw [if_neg (by rw [h1]; decide), if_pos ⟨h1.symm, h2⟩]

/-- Instance of `C25_zero_byte_read`: the server closes the connection while the
response is awaited. -/
theorem C25_zero_byte_read_witness :
    cloud_sessionSendRecvAll (sample_io (sample_recv_io 0 [] 0) 101)
        (sample_cloud_open CLOUD_SESSION_RECV_PENDING) 5 =
      (true, cloud_sessionRecv (sample_recv_io 0 [] 0)
        (sample_cloud_open CLOUD_SESSION_RECV_PENDING)) ∧
    (cloud_sessionRecv (sample_recv_io 0 [] 0)
      (sample_cloud_open CLOUD_SESSION_RECV_PENDING)).session =
        { (sample_cloud_open CLOUD_SESSION_RECV_PENDING).session with
          recvComplete := true } := by
  have h := C25_zero_byte_read (sample_io (sample_recv_io 0 [] 0) 101)
    (sample_cloud_open CLOUD_SESSION_RECV_PENDING) 5 (by decide) rfl rfl
  exact ⟨h.2.2 (Or.inr rfl), h.2.1 rfl⟩

/-- The response test `cloud_recvComplete` changes `httpStatus` and `lastHttpStatus`
at most. -/
theorem cloud_recvComplete_session (s : CLOUD_SESSION_T) :
    (cloud_recvComplete s).2 =
      { s with
        httpStatus := (cloud_recvComplete s).2.httpStatus
        diags := { s.diags with
          lastHttpStatus := (cloud_recvComplete s).2.diags.lastHttpStatus } } := by
  unfold cloud_recvComplete
  split_ifs <;> rfl

/-- The call of `connect` leaves the transaction start and the timeout flag alone. -/
theorem cloud_startConnect_frame (io : CLOUD_CONNECT_IO) (c : CLOUD_MEM) :
    (cloud_startConnect io c).session.transStart = c.session.transStart ∧
    (cloud_startConnect io c).session.timeout = c.session.timeout := by
  unfold cloud_startConnect
  simp only [cloud_handleSocketError_eq, cloud_setSessionStatus_eq]
  split_ifs <;> exact ⟨rfl, rfl⟩

/-- The wait after `connect` leaves the transaction start and the timeout flag alone. -/
theorem cloud_finishConnect_frame (io : CLOUD_CONNECT_IO) (c : CLOUD_MEM) :
    (cloud_finishConnect io c).session.transStart = c.session.transStart ∧
    (cloud_finishConnect io c).session.timeout = c.session.timeout := by
  unfold cloud_finishConnect cloud_isSocketReady
  simp only [cloud_handleSocketError_eq, cloud_setSessionStatus_eq]
  split_ifs <;> exact ⟨rfl, rfl⟩

/-- The connect step leaves the transaction start and the timeout flag alone. -/
theorem cloud_sessionConnect_frame (io : CLOUD_CONNECT_IO) (c : CLOUD_MEM) :
    (cloud_sessionConnect io c).session.transStart = c.session.transStart ∧
    (cloud_sessionConnect io c).session.timeout = c.session.timeout := by
  have h1 : (if CLOUD_SESSION_CONNECT_PENDING ≠ c.session.status then
      cloud_startConnect io c else c).session.transStart = c.session.transStart ∧
      (if CLOUD_SESSION_CONNECT_PENDING ≠ c.session.status then
      cloud_startConnect io c else c).session.timeout = c.session.timeout := by
    split_ifs
    · exact cloud_startConnect_frame io c
    · exact ⟨rfl, rfl⟩
  unfold cloud_sessionConnect
  simp only []
  generalize (if CLOUD_SESSION_CONNECT_PENDING ≠ c.session.status then
      cloud_startConnect io c else c) = c1 at h1 ⊢
  split_ifs
  · exact ⟨rfl, rfl⟩
  · exact ⟨(cloud_finishConnect_frame io c1).1.trans h1.1,
      (cloud_finishConnect_frame io c1).2.trans h1.2⟩
  · exact h1

/-- The send step leaves the transaction start and the timeout flag alone. -/
theorem cloud_sessionSend_frame (io : CLOUD_SEND_IO) (c : CLOUD_MEM) :
    (cloud_sessionSend io c).session.transStart = c.session.transStart ∧
    (cloud_sessionSend io c).session.timeout = c.session.timeout := by
  unfold cloud_sessionSend
  simp only [cloud_handleSocketError_eq, cloud_setSessionStatus_eq]
  split_ifs <;> exact ⟨rfl, rfl⟩

/-- The response test leaves the transaction start and the timeout flag alone. -/
theorem cloud_recvComplete_frame (s : CLOUD_SESSION_T) :
    (cloud_recvComplete s).2.transStart = s.transStart ∧
    (cloud_recvComplete s).2.timeout = s.timeout := by
  unfold cloud_recvComplete
  split_ifs <;> exact ⟨rfl, rfl⟩

/-- The receive step leaves the transaction start and the timeout flag alone. -/
theorem cloud_sessionRecv_frame (io : CLOUD_RECV_IO) (c : CLOUD_MEM) :
    (cloud_sessionRecv io c).session.transStart = c.session.transStart ∧
    (cloud_sessionRecv io c).session.timeout = c.session.timeout := by
  unfold cloud_sessionRecv
  simp only [cloud_handleSocketError_eq, cloud_setSessionStatus_eq, cloud_sessionRecv_enter]
  split_ifs
  all_goals simp only [(cloud_recvComplete_frame _).1, (cloud_recvComplete_frame _).2,
    and_self]

/-- The step chosen by `cloud_sessionSendRecvAll` leaves the transaction start and the
timeout flag alone. -/
theorem cloud_sessionSendRecvAll_dispatch_frame (io : CLOUD_IO) (c : CLOUD_MEM) :
    (cloud_sessionSendRecvAll_dispatch io c).session.transStart = c.session.transStart ∧
    (cloud_sessionSendRecvAll_dispatch io c).session.timeout = c.session.timeout := by
  unfold cloud_sessionSendRecvAll_dispatch
  split
  all_goals first
    | exact ⟨rfl, rfl⟩
    | exact cloud_sessionConnect_frame _ _
    | exact cloud_sessionSend_frame _ _
    | exact cloud_sessionRecv_frame _ _

/-- After its step `cloud_sessionSendRecvAll` changes the timeout flag at most. -/
theorem cloud_sessionSendRecvAll_session (io : CLOUD_IO) (c : CLOUD_MEM) (timeoutSec : Nat) :
    (cloud_sessionSendRecvAll io c timeoutSec).2 =
      { cloud_sessionSendRecvAll_dispatch io c with
        session :=
          { (cloud_sessionSendRecvAll_dispatch io c).session with
            timeout := (cloud_sessionSendRecvAll io c timeoutSec).2.session.timeout } } := by
  unfold cloud_sessionSendRecvAll
  simp only []
  split_ifs <;> rfl

/-- C26: `cloud_sessionSendRecvAll` returns true if and only if, after the step chosen
by the status on entry, the status is `CLOUD_SESSION_RECV_SUCCESS`, or it is
`CLOUD_SESSION_RECV_PENDING` and `recvComplete` is set; what the call leaves differs
from what the step left in the timeout flag at most.  For a session whose status on
entry is `CLOUD_SESSION_FAILED`, `CLOUD_SESSION_IDLE` or `CLOUD_SESSION_CREATE_SUCCESS`
the step does nothing: no system call is made, the call returns false, and the session
(status, counters and buffers included) is unchanged but for the timeout flag. -/
theorem C26_send_recv_all_result (io : CLOUD_IO) (c : CLOUD_MEM) (timeoutSec : Nat) :
    ((cloud_sessionSendRecvAll io c timeoutSec).1 = true ↔
      ((cloud_sessionSendRecvAll_dispatch io c).session.status = CLOUD_SESSION_RECV_SUCCESS ∨
        ((cloud_sessionSendRecvAll_dispatch io c).session.status =
            CLOUD_SESSION_RECV_PENDING ∧
          (cloud_sessionSendRecvAll_dispatch io c).session.recvComplete = true))) ∧
    (cloud_sessionSendRecvAll io c timeoutSec).2.session.status =
      (cloud_sessionSendRecvAll_dispatch io c).session.status ∧
    (cloud_sessionSendRecvAll io c timeoutSec).2.session.recvComplete =
      (cloud_sessionSendRecvAll_dispatch io c).session.recvComplete ∧
    (cloud_sessionSendRecvAll io c timeoutSec).2.syscalls =
      (cloud_sessionSendRecvAll_dispatch io c).syscalls ∧
    ((c.session.status = CLOUD_SESSION_FAILED ∨ c.session.status = CLOUD_SESSION_IDLE ∨
        c.session.status = CLOUD_SESSION_CREATE_SUCCESS) →
      cloud_sessionSendRecvAll_dispatch io c = c ∧
      (cloud_sessionSendRecvAll io c timeoutSec).1 = false ∧
      (cloud_sessionSendRecvAll io c timeoutSec).2.syscalls = c.syscalls ∧
      (cloud_sessionSendRecvAll io c timeoutSec).2.session =
        { c.session with
          timeout := (cloud_sessionSendRecvAll io c timeoutSec).2.session.timeout } ∧
      (cloud_sessionSendRecvAll io c timeoutSec).2.session.status = c.session.status ∧
      (cloud_sessionSendRecvAll io c timeoutSec).2.session.totalBytesSent =
        c.session.totalBytesSent ∧
      (cloud_sessionSendRecvAll io c timeoutSec).2.session.totalBytesRcvd =
        c.session.totalBytesRcvd ∧
      (cloud_sessionSendRecvAll io c timeoutSec).2.session.sendBuf = c.session.sendBuf ∧
      (cloud_sessionSendRecvAll io c timeoutSec).2.session.recvBuf = c.session.recvBuf) := by
  have hiff : (cloud_sessionSendRecvAll io c timeoutSec).1 = true ↔
      ((cloud_sessionSendRecvAll_dispatch io c).session.status = CLOUD_SESSION_RECV_SUCCESS ∨
        ((cloud_sessionSendRecvAll_dispatch io c).session.status =
            CLOUD_SESSION_RECV_PENDING ∧
          (cloud_sessionSendRecvAll_dispatch io c).session.recvComplete = true)) := by
    unfold cloud_sessionSendRecvAll
    simp only []
    split_ifs with h1 h2 h3 h4
    · simp [h1.symm]
    · simp [h2.1.symm, h2.2]
    all_goals
      simp only [Bool.false_eq_true, false_iff, not_or, not_and]
      exact ⟨fun h => h1 h.symm, fun h h' => h2 ⟨h.symm, h'⟩⟩
  have hses := cloud_sessionSendRecvAll_session io c timeoutSec
  refine ⟨hiff, by rw [hses], by rw [hses], by rw [hses], ?_⟩
  intro hst
  have hd : cloud_sessionSendRecvAll_dispatch io c = c := by
    unfold cloud_sessionSendRecvAll_dispatch
    rcases hst with h | h | h <;> rw [h]
  have hfalse : (cloud_sessionSendRecvAll io c timeoutSec).1 = false := by
    rw [← Bool.not_eq_true, hiff, hd]
    rcases hst with h | h | h <;> rw [h] <;> simp
  rw [hd] at hses
  refine ⟨hd, hfalse, by rw [hses], ?_, by rw [hses], by rw [hses], by rw [hses],
    by rw [hses], by rw [hses]⟩
  exact congrArg CLOUD_MEM.session hses

/-- Instance of `C26_send_recv_all_result`: a call on a failed session. -/
theorem C26_send_recv_all_result_witness :
    (cloud_sessionSendRecvAll (sample_io (sample_recv_io 0 [] 0) 101)
      (sample_cloud_open CLOUD_SESSION_FAILED) 5).1 = false ∧
    (cloud_sessionSendRecvAll (sample_io (sample_recv_io 0 [] 0) 101)
      (sample_cloud_open CLOUD_SESSION_FAILED) 5).2.syscalls = [] := by
  have h := (C26_send_recv_all_result (sample_io (sample_recv_io 0 [] 0) 101)
    (sample_cloud_open CLOUD_SESSION_FAILED) 5).2.2.2.2 (Or.inl rfl)
  exact ⟨h.2.1, h.2.2.1⟩

/-- C27: after `cloud_sessionSendRecvAll` the timeout flag is set if and only if it was
set before or the call returns false, `timeoutSec` is positive and the 32-bit
difference between the current time and `transStart` is at least `timeoutSec`.  So the
call never clears the flag, and with `timeoutSec = 0` it leaves the flag as it was. -/
theorem C27_timeout_flag (io : CLOUD_IO) (c : CLOUD_MEM) (timeoutSec : Nat) :
    ((cloud_sessionSendRecvAll io c timeoutSec).2.session.timeout = true ↔
      (c.session.timeout = true ∨
        ((cloud_sessionSendRecvAll io c timeoutSec).1 = false ∧ timeoutSec > 0 ∧
          (((io.now : Int) - (c.session.transStart : Int)) % 2 ^ 32).toNat ≥ timeoutSec))) ∧
    (c.session.timeout = true →
      (cloud_sessionSendRecvAll io c timeoutSec).2.session.timeout = true) ∧
    (timeoutSec = 0 →
      (cloud_sessionSendRecvAll io c timeoutSec).2.session.timeout = c.session.timeout) := by
  obtain ⟨hstart, hflag⟩ := cloud_sessionSendRecvAll_dispatch_frame io c
  have hiff : (cloud_sessionSendRecvAll io c timeoutSec).2.session.timeout = true ↔
      (c.session.timeout = true ∨
        ((cloud_sessionSendRecvAll io c timeoutSec).1 = false ∧ timeoutSec > 0 ∧
          (((io.now : Int) - (c.session.transStart : Int)) % 2 ^ 32).toNat ≥ timeoutSec)) := by
    unfold cloud_sessionSendRecvAll utils_isTimerExpired
    simp only [hstart]
    split_ifs with h1 h2 h3 h4
    · simp [hflag]
    · simp [hflag]
    · have h4' := of_decide_eq_true h4
      simp only [Bool.false_eq_true, false_and, h3, true_and, or_false, true_iff]
      exact Or.inr h4'
    · have h4' : ¬ _ := fun h => h4 (decide_eq_true h)
      simp only [hflag, h3, true_and]
      exact ⟨Or.inl, fun h => h.elim id (fun h' => absurd h' h4')⟩
    · simp [hflag, h3]
  refine ⟨hiff, fun h => hiff.mpr (Or.inl h), ?_⟩
  intro h0
  have h := hiff
  rw [h0] at h
  simp only [gt_iff_lt, lt_self_iff_false, false_and, and_false, or_false] at h
  cases ht : c.session.timeout
  · rw [ht] at h
    rw [h0]
    exact Bool.eq_false_iff.mpr (fun hc => Bool.false_ne_true (h.mp hc))
  · rw [h0]
    exact h.mpr ht

/-- Instance of `C27_timeout_flag`: a call on a session that waits for its response,
six seconds after the start of the transaction, with a timeout of five seconds. -/
theorem C27_timeout_flag_witness :
    (cloud_sessionSendRecvAll (sample_io (sample_recv_io (-1) [] EWOULDBLOCK) 6)
      (sample_cloud_open CLOUD_SESSION_RECV_PENDING) 5).2.session.timeout = true :=
  (C27_timeout_flag (sample_io (sample_recv_io (-1) [] EWOULDBLOCK) 6)
    (sample_cloud_open CLOUD_SESSION_RECV_PENDING) 5).1.mpr (Or.inr (by decide))

/-! ### Reset and close (claim C28) -/

/-- C28: `cloud_resetSessionStatus` and `cloud_closeSession` set the status to
`CLOUD_SESSION_IDLE`, `errorCode`, `totalBytesSent`, `totalBytesRcvd` and `httpStatus`
to 0, and `recvComplete` and `timeout` to false; after `cloud_closeSession` the handle
is `CLOUD_INVALID_SOCKET`; neither changes the diagnostics nor `totalBytesToSend` (nor
any field not named here), and `cloud_resetSessionStatus` keeps the handle; closing
twice leaves the same memory as closing once. -/
theorem C28_reset_and_close (c : CLOUD_MEM) :
    cloud_resetSessionStatus c.session =
      { c.session with
        status := CLOUD_SESSION_IDLE
        errorCode := 0
        totalBytesSent := 0
        totalBytesRcvd := 0
        httpStatus := 0
        recvComplete := false
        timeout := false } ∧
    (cloud_closeSession c).session =
      { c.session with
        handle := CLOUD_INVALID_SOCKET
        status := CLOUD_SESSION_IDLE
        errorCode := 0
        totalBytesSent := 0
        totalBytesRcvd := 0
        httpStatus := 0
        recvComplete := false
        timeout := false } ∧
    (cloud_resetSessionStatus c.session).diags = c.session.diags ∧
    (cloud_resetSessionStatus c.session).totalBytesToSend = c.session.totalBytesToSend ∧
    (cloud_resetSessionStatus c.session).handle = c.session.handle ∧
    (cloud_closeSession c).session.handle = CLOUD_INVALID_SOCKET ∧
    (cloud_closeSession c).session.diags = c.session.diags ∧
    (cloud_closeSession c).session.totalBytesToSend = c.session.totalBytesToSend ∧
    cloud_closeSession (cloud_closeSession c) = cloud_closeSession c := by
  have hreset : ∀ s : CLOUD_SESSION_T, cloud_resetSessionStatus s =
      { s with
        status := CLOUD_SESSION_IDLE
        errorCode := 0
        totalBytesSent := 0
        totalBytesRcvd := 0
        httpStatus := 0
        recvComplete := false
        timeout := false } := by
    intro s
    unfold cloud_resetSessionStatus
    rw [cloud_setSessionStatus_eq]
  have hclose : (cloud_closeSession c).session =
      { c.session with
        handle := CLOUD_INVALID_SOCKET
        status := CLOUD_SESSION_IDLE
        errorCode := 0
        totalBytesSent := 0
        totalBytesRcvd := 0
        httpStatus := 0
        recvComplete := false
        timeout := false } := by
    unfold cloud_closeSession
    simp only [hreset]
    split_ifs with h
    · rfl
    · have h2 : c.session.handle = CLOUD_INVALID_SOCKET := (not_not.mp h).symm
      simp only [h2]
  refine ⟨hreset _, hclose, by rw [hreset], by rw [hreset], by rw [hreset], by rw [hclose],
    by rw [hclose], by rw [hclose], ?_⟩
  have hh : (cloud_closeSession c).session.handle = CLOUD_INVALID_SOCKET := by rw [hclose]
  have h2 : ∀ d : CLOUD_MEM, d.session.handle = CLOUD_INVALID_SOCKET →
      cloud_closeSession d = { d with session := cloud_resetSessionStatus d.session } := by
    intro d hd
    unfold cloud_closeSession
    simp only [hd, ne_eq, not_true_eq_false, if_false]
  have h3 : cloud_resetSessionStatus (cloud_closeSession c).session =
      (cloud_closeSession c).session := by
    rw [hreset, hclose]
  rw [h2 _ hh, h3]

/-! ### Socket failures (claim C29) -/

/-- C29: when `connect` fails (negative result) for a reason other than in-progress or
would-block, and when `send` or `recv` is called and returns `CLOUD_SOCKET_ERROR` for
such a reason, the session afterwards has the handle `CLOUD_INVALID_SOCKET`, status
`CLOUD_SESSION_FAILED`, `errorCode` equal to `errno`, the 32-bit counter `sockFailures`
incremented by one and both byte counters at 0.  When `send` or `recv` reports
would-block or in-progress, handle, `errorCode` and diagnostics are unchanged, the
status is the pending status of the step and not `CLOUD_SESSION_FAILED`, and for a step
that was already pending the whole session is unchanged.  As long as the counter is
below `2^32 - 1` the increment is an increase by exactly one. -/
theorem C29_socket_failure (c : CLOUD_MEM) :
    (∀ io : CLOUD_CONNECT_IO,
      (c.session.status = CLOUD_SESSION_IDLE ∨
        c.session.status = CLOUD_SESSION_CREATE_SUCCESS) →
      io.connect < 0 → io.connect_errno ≠ EINPROGRESS → io.connect_errno ≠ EWOULDBLOCK →
      socket_failure_recorded c.session (cloud_sessionConnect io c).session
        io.connect_errno) ∧
    (∀ io : CLOUD_SEND_IO,
      (c.session.status = CLOUD_SESSION_IDLE ∨ c.session.status = CLOUD_SESSION_FAILED ∨
        c.session.status = CLOUD_SESSION_CONNECT_SUCCESS ∨
        c.session.status = CLOUD_SESSION_SEND_PENDING) →
      io.select ≥ 0 → io.writable = true →
      0 ≤ int_of_long (c.session.totalBytesToSend -
        (if c.session.status = CLOUD_SESSION_SEND_PENDING then c.session.totalBytesSent
          else 0)) →
      io.send = CLOUD_SOCKET_ERROR →
      (io.errno ≠ EINPROGRESS → io.errno ≠ EWOULDBLOCK →
        socket_failure_recorded c.session (cloud_sessionSend io c).session io.errno) ∧
      ((io.errno = EINPROGRESS ∨ io.errno = EWOULDBLOCK) →
        (cloud_sessionSend io c).session =
          { c.session with
            status := CLOUD_SESSION_SEND_PENDING
            totalBytesSent :=
              if c.session.status = CLOUD_SESSION_SEND_PENDING then c.session.totalBytesSent
              else 0 } ∧
        (c.session.status = CLOUD_SESSION_SEND_PENDING →
          (cloud_sessionSend io c).session = c.session))) ∧
    (∀ io : CLOUD_RECV_IO,
      (c.session.status = CLOUD_SESSION_IDLE ∨ c.session.status = CLOUD_SESSION_FAILED ∨
        c.session.status = CLOUD_SESSION_SEND_SUCCESS ∨
        c.session.status = CLOUD_SESSION_RECV_PENDING) →
      io.select ≥ 0 → io.readable = true → io.recv = CLOUD_SOCKET_ERROR →
      (io.errno ≠ EINPROGRESS → io.errno ≠ EWOULDBLOCK →
        socket_failure_recorded c.session (cloud_sessionRecv io c).session io.errno) ∧
      ((io.errno = EINPROGRESS ∨ io.errno = EWOULDBLOCK) →
        (cloud_sessionRecv io c).session.handle = c.session.handle ∧
        (cloud_sessionRecv io c).session.errorCode = c.session.errorCode ∧
        (cloud_sessionRecv io c).session.diags = c.session.diags ∧
        (cloud_sessionRecv io c).session.status = CLOUD_SESSION_RECV_PENDING ∧
        (cloud_sessionRecv io c).session.totalBytesSent = c.session.totalBytesSent ∧
        (cloud_sessionRecv io c).session.totalBytesRcvd =
          (if c.session.status = CLOUD_SESSION_RECV_PENDING then c.session.totalBytesRcvd
            else 0) ∧
        (c.session.status = CLOUD_SESSION_RECV_PENDING →
          (cloud_sessionRecv io c).session = c.session))) ∧
    (∀ (s1 : CLOUD_SESSION_T) (err : Int), socket_failure_recorded c.session s1 err →
      c.session.diags.sockFailures < 2 ^ 32 - 1 →
      s1.diags.sockFailures = c.session.diags.sockFailures + 1) := by
  refine ⟨?_, ?_, ?_, ?_⟩
  · intro io hst hneg h1 h2
    have hnp : CLOUD_SESSION_CONNECT_PENDING ≠ c.session.status := by
      rcases hst with h | h <;> rw [h] <;> decide
    have hguard : ¬ (CLOUD_SESSION_IDLE ≠ c.session.status ∧
        CLOUD_SESSION_CREATE_SUCCESS ≠ c.session.status ∧
        CLOUD_SESSION_CONNECT_PENDING ≠ c.session.status) := by
      rcases hst with h | h <;> rw [h] <;> decide
    have hstart : cloud_startConnect io c =
        cloud_handleSocketError io.now_error
          { c with syscalls := c.syscalls ++ [CLOUD_SYSCALL.connect c.session.handle] }
          io.connect_errno := by
      unfold cloud_startConnect
      have hwb : ¬ (EINPROGRESS = io.connect_errno ∨ EWOULDBLOCK = io.connect_errno) := by
        rintro (h | h)
        · exact h1 h.symm
        · exact h2 h.symm
      simp only [le_of_lt hneg, if_true, hwb, if_false, ne_of_lt hneg]
    unfold cloud_sessionConnect
    rw [if_neg hguard]
    simp only [if_pos hnp, hstart, cloud_handleSocketError_eq]
    rw [if_neg (by decide)]
    unfold socket_failure_recorded
    exact ⟨rfl, rfl, rfl, rfl, rfl, rfl⟩
  · intro io hst hsel hw hrem herr
    have hguard : ¬ (CLOUD_SESSION_IDLE ≠ c.session.status ∧
        CLOUD_SESSION_FAILED ≠ c.session.status ∧
        CLOUD_SESSION_CONNECT_SUCCESS ≠ c.session.status ∧
        CLOUD_SESSION_SEND_PENDING ≠ c.session.status) := by
      rcases hst with h | h | h | h <;> rw [h] <;> decide
    obtain ⟨henter, hhandle, htosend⟩ := cloud_sessionSend_enter c.session _ rfl
    have hs1 : (if c.session.status = CLOUD_SESSION_SEND_PENDING then c.session
        else { c.session with status := CLOUD_SESSION_SEND_PENDING, totalBytesSent := 0 }) =
        { c.session with
          status := CLOUD_SESSION_SEND_PENDING
          totalBytesSent :=
            if c.session.status = CLOUD_SESSION_SEND_PENDING then c.session.totalBytesSent
            else 0 } := by
      split_ifs with h
      · rw [← h]
      · rfl
    rw [hs1] at henter
    have hnneg : ¬ (int_of_long (c.session.totalBytesToSend -
        (if c.session.status = CLOUD_SESSION_SEND_PENDING then c.session.totalBytesSent
          else 0)) < 0) := not_lt.mpr hrem
    refine ⟨?_, ?_⟩
    · intro h1 h2
      unfold cloud_sessionSend
      rw [if_neg hguard]
      have hcond : EINPROGRESS ≠ io.errno ∧ EWOULDBLOCK ≠ io.errno := ⟨Ne.symm h1, Ne.symm h2⟩
      simp only [henter, hsel, hw, if_true, hnneg, if_false, herr]
      rw [if_pos hcond, cloud_handleSocketError_eq]
      unfold socket_failure_recorded
      exact ⟨rfl, rfl, rfl, rfl, rfl, rfl⟩
    · intro hwb
      have hwb2 : ¬ (EINPROGRESS ≠ io.errno ∧ EWOULDBLOCK ≠ io.errno) := by
        rintro ⟨a, b⟩
        rcases hwb with h | h
        · exact a h.symm
        · exact b h.symm
      have hres : (cloud_sessionSend io c).session =
          { c.session with
            status := CLOUD_SESSION_SEND_PENDING
            totalBytesSent :=
              if c.session.status = CLOUD_SESSION_SEND_PENDING then c.session.totalBytesSent
              else 0 } := by
        unfold cloud_sessionSend
        rw [if_neg hguard]
        simp only [henter, hsel, hw, if_true, hnneg, if_false, herr, hwb2]
      refine ⟨hres, fun hp => ?_⟩
      rw [hres]
      simp only [hp, if_true]
      rw [← hp]
  · intro io hst hsel hrd herr
    have hguard : ¬ (CLOUD_SESSION_IDLE ≠ c.session.status ∧
        CLOUD_SESSION_FAILED ≠ c.session.status ∧
        CLOUD_SESSION_SEND_SUCCESS ≠ c.session.status ∧
        CLOUD_SESSION_RECV_PENDING ≠ c.session.status) := by
      rcases hst with h | h | h | h <;> rw [h] <;> decide
    refine ⟨?_, ?_⟩
    · intro h1 h2
      unfold cloud_sessionRecv
      rw [if_neg hguard]
      have hcond : EINPROGRESS ≠ io.errno ∧ EWOULDBLOCK ≠ io.errno := ⟨Ne.symm h1, Ne.symm h2⟩
      simp only [cloud_sessionRecv_enter, hsel, hrd, if_true, herr]
      rw [if_pos hcond, cloud_handleSocketError_eq]
      unfold socket_failure_recorded
      exact ⟨rfl, rfl, rfl, rfl, rfl, rfl⟩
    · intro hwb
      have hwb2 : ¬ (EINPROGRESS ≠ io.errno ∧ EWOULDBLOCK ≠ io.errno) := by
        rintro ⟨a, b⟩
        rcases hwb with h | h
        · exact a h.symm
        · exact b h.symm
      have hres : (cloud_sessionRecv io c).session =
          { c.session with
            status := CLOUD_SESSION_RECV_PENDING
            totalBytesRcvd :=
              if c.session.status = CLOUD_SESSION_RECV_PENDING then c.session.totalBytesRcvd
              else 0
            recvBuf := if c.session.status = CLOUD_SESSION_RECV_PENDING then c.session.recvBuf
              else memset c.session.recvBuf (Char.ofNat 0) c.session.recvBufLen } := by
        unfold cloud_sessionRecv
        rw [if_neg hguard]
        simp only [cloud_sessionRecv_enter, hsel, hrd, if_true, herr, hwb2, if_false]
      refine ⟨by rw [hres], by rw [hres], by rw [hres], by rw [hres], by rw [hres],
        by rw [hres], fun hp => ?_⟩
      rw [hres]
      simp only [hp, if_true]
      rw [← hp]
  · intro s1 err h hlt
    rw [h.2.2.2.1]
    exact Nat.mod_eq_of_lt (by omega)

/-- Instance of `C29_socket_failure`: `send` fails with `ECONNRESET` on a connected
session, and `recv` reports would-block on a session that waits for its response. -/
theorem C29_socket_failure_witness :
    socket_failure_recorded (sample_cloud_open CLOUD_SESSION_CONNECT_SUCCESS).session
      (cloud_sessionSend (sample_send_io (-1) 104)
        (sample_cloud_open CLOUD_SESSION_CONNECT_SUCCESS)).session 104 ∧
    (cloud_sessionRecv (sample_recv_io (-1) [] EWOULDBLOCK)
      (sample_cloud_open CLOUD_SESSION_RECV_PENDING)).session =
        (sample_cloud_open CLOUD_SESSION_RECV_PENDING).session := by
  have hs := (C29_socket_failure (sample_cloud_open CLOUD_SESSION_CONNECT_SUCCESS)).2.1
    (sample_send_io (-1) 104) (by decide) (by decide) rfl (by decide) rfl
  have hr := (C29_socket_failure (sample_cloud_open CLOUD_SESSION_RECV_PENDING)).2.2.1
    (sample_recv_io (-1) [] EWOULDBLOCK) (by decide) (by decide) rfl rfl
  exact ⟨hs.1 (by decide) (by decide), (hr.2 (Or.inr rfl)).2.2.2.2.2.2 rfl⟩

/-! ### The range offered to `recv` (claim C30) -/

/-- C30, a defect of the code: in a receive step whose wait succeeds with the socket
readable, `recv` is offered `recvBufLen` characters from index `totalBytesRcvd` on (index
0 for a receive that starts), however many characters have been received.  So in a
pending receive that has stored characters already, the range offered ends beyond the
receive buffer: `totalBytesRcvd + recvBufLen` is more than `recvBufLen`. -/
theorem C30_recv_range_beyond_buffer (io : CLOUD_RECV_IO) (c : CLOUD_MEM)
    (hst : c.session.status = CLOUD_SESSION_IDLE ∨ c.session.status = CLOUD_SESSION_FAILED ∨
      c.session.status = CLOUD_SESSION_SEND_SUCCESS ∨
      c.session.status = CLOUD_SESSION_RECV_PENDING)
    (hsel : io.select ≥ 0) (hrd : io.readable = true) :
    c.syscalls ++
        [CLOUD_SYSCALL.select_read c.session.handle (RECV_TIMEOUT_MS / 1000),
          CLOUD_SYSCALL.recv c.session.handle
            (if c.session.status = CLOUD_SESSION_RECV_PENDING then c.session.totalBytesRcvd
              else 0)
            c.session.recvBufLen] <+:
      (cloud_sessionRecv io c).syscalls ∧
    (c.session.status = CLOUD_SESSION_RECV_PENDING → 0 < c.session.totalBytesRcvd →
      ¬ (c.session.totalBytesRcvd + (c.session.recvBufLen : Int) ≤ c.session.recvBufLen)) := by
  have hguard : ¬ (CLOUD_SESSION_IDLE ≠ c.session.status ∧
      CLOUD_SESSION_FAILED ≠ c.session.status ∧
      CLOUD_SESSION_SEND_SUCCESS ≠ c.session.status ∧
      CLOUD_SESSION_RECV_PENDING ≠ c.session.status) := by
    rcases hst with h | h | h | h <;> rw [h] <;> decide
  refine ⟨?_, fun _ h => by omega⟩
  unfold cloud_sessionRecv
  rw [if_neg hguard]
  simp only [cloud_sessionRecv_enter, hsel, hrd, if_true, cloud_handleSocketError_eq]
  split_ifs <;> simp

/-- Instance of `C30_recv_range_beyond_buffer`: with five characters of the response in
the receive buffer of `CLOUD_RECV_BUF_LEN` characters, the next receive step offers
1048576 characters from index 5 on.  On a buffer of 16 characters the same is seen in
full: a first read stores 5 characters, the second is offered 16 characters from index
5 on, and when the system delivers 16 the last of them is stored at index 20. -/
theorem C30_recv_range_beyond_buffer_witness :
    sample_cloud_receiving.session.recvBufLen = CLOUD_RECV_BUF_LEN ∧
    [CLOUD_SYSCALL.select_read 3 1, CLOUD_SYSCALL.recv 3 5 1048576] <+:
      (cloud_sessionRecv (sample_recv_io 16 (List.replicate 16 'y') 0)
        sample_cloud_receiving).syscalls ∧
    ¬ ((5 : Int) + (1048576 : Nat) ≤ (CLOUD_RECV_BUF_LEN : Nat)) ∧
    (cloud_sessionRecv (sample_recv_io 5 "HTTP/".toList 0)
      sample_cloud_small).session.status = CLOUD_SESSION_RECV_PENDING ∧
    (cloud_sessionRecv (sample_recv_io 5 "HTTP/".toList 0)
      sample_cloud_small).session.totalBytesRcvd = 5 ∧
    (cloud_sessionRecv (sample_recv_io 16 (List.replicate 16 'y') 0)
      (cloud_sessionRecv (sample_recv_io 5 "HTTP/".toList 0) sample_cloud_small)).syscalls =
        [CLOUD_SYSCALL.select_read 3 1, CLOUD_SYSCALL.recv 3 0 16,
          CLOUD_SYSCALL.select_read 3 1, CLOUD_SYSCALL.recv 3 5 16] ∧
    (cloud_sessionRecv (sample_recv_io 16 (List.replicate 16 'y') 0)
      (cloud_sessionRecv (sample_recv_io 5 "HTTP/".toList 0)
        sample_cloud_small)).session.recvBuf =
        "HTTP/".toList ++ List.replicate 16 'y' := by
  refine ⟨rfl, (C30_recv_range_beyond_buffer (sample_recv_io 16 (List.replicate 16 'y') 0)
    sample_cloud_receiving (by decide) (by decide) rfl).1, ?_, ?_, ?_, ?_, ?_⟩ <;> decide

/-! ## The setters of the task (claim C31) -/

/-- C31: the setters `set_server_name`, `set_target_file`, `set_device_name` and
`set_device_addr` have the length bounds 128, 64, 32 and 18; each leaves all variables
of the task as they are when the length of its argument is at or beyond its bound, and
otherwise stores the argument in its own variable and changes nothing else. -/
theorem C31_setters (e : TASK_ENV) (s : List Char) :
    (SERVER_NAME_LEN = 128 ∧ TARGET_FILE_LEN = 64 ∧ DEVICE_NAME_LEN = 32 ∧
      DEVICE_ADDR_LEN = 18) ∧
    (128 ≤ strlen s → set_server_name e s = e) ∧
    (strlen s < 128 → set_server_name e s = { e with server_name := s }) ∧
    (64 ≤ strlen s → set_target_file e s = e) ∧
    (strlen s < 64 → set_target_file e s = { e with target_file := s }) ∧
    (32 ≤ strlen s → set_device_name e s = e) ∧
    (strlen s < 32 → set_device_name e s = { e with device_name := s }) ∧
    (18 ≤ strlen s → set_device_addr e s = e) ∧
    (strlen s < 18 → set_device_addr e s = { e with device_addr := s }) := by
  refine ⟨⟨rfl, rfl, rfl, rfl⟩, ?_, ?_, ?_, ?_, ?_, ?_, ?_, ?_⟩
  · intro h
    unfold set_server_name SERVER_NAME_LEN
    rw [if_neg (by omega)]
  · intro h
    unfold set_server_name SERVER_NAME_LEN
    rw [if_pos h]
  · intro h
    unfold set_target_file TARGET_FILE_LEN
    rw [if_neg (by omega)]
  · intro h
    unfold set_target_file TARGET_FILE_LEN
    rw [if_pos h]
  · intro h
    unfold set_device_name DEVICE_NAME_LEN
    rw [if_neg (by omega)]
  · intro h
    unfold set_device_name DEVICE_NAME_LEN
    rw [if_pos h]
  · intro h
    unfold set_device_addr DEVICE_ADDR_LEN
    rw [if_neg (by omega)]
  · intro h
    unfold set_device_addr DEVICE_ADDR_LEN
    rw [if_pos h]

/-- Instance of `C31_setters`: a MAC address of 17 characters is stored, one of 18
characters is not. -/
theorem C31_setters_witness :
    set_device_addr sample_task_env "0a:1b:2c:3d:4e:5f".toList =
      { sample_task_env with device_addr := "0a:1b:2c:3d:4e:5f".toList } ∧
    set_device_addr sample_task_env "0a:1b:2c:3d:4e:5f:".toList = sample_task_env :=
  ⟨(C31_setters sample_task_env "0a:1b:2c:3d:4e:5f".toList).2.2.2.2.2.2.2.2 (by decide),
    (C31_setters sample_task_env "0a:1b:2c:3d:4e:5f:".toList).2.2.2.2.2.2.2.1 (by decide)⟩

/-! ## The end of a chunked body (claim C35) -/

/-- C35, a defect of the code: `parse_fullDataChunkFound` reports the end of a chunked
body as soon as the characters `0`, CR, LF, CR, LF occur anywhere after the header.
For the beginning of a response whose first chunk has the size line `10` and data that
begin with a line break, and for one whose chunk data contain these characters, it
returns true although the body holds no chunk-size line that is exactly `0`; the
receive step then takes the response for complete. -/
theorem C35_chunk_end_misdetected :
    parse_transferEncodingChunkedFound sample_response_chunk_begun = true ∧
    parse_getContentStart sample_response_chunk_begun = some 47 ∧
    sample_response_chunk_begun.drop 47 = "10\r\n\r\nabc".toList ∧
    zero_chunk_line (sample_response_chunk_begun.drop 47) = false ∧
    parse_fullDataChunkFound sample_response_chunk_begun = some true ∧
    (cloud_recvComplete
      { sample_session with recvBuf := sample_response_chunk_begun }).1 = true ∧
    parse_getContentStart sample_response_chunk_data = some 47 ∧
    sample_response_chunk_data.drop 47 = "20\r\nx0\r\n\r\ny".toList ∧
    zero_chunk_line (sample_response_chunk_data.drop 47) = false ∧
    parse_fullDataChunkFound sample_response_chunk_data = some true ∧
    zero_chunk_line "5\r\nhello\r\n0\r\n\r\n".toList = true := by
  decide

/-! ## The input word of the task (claim C37) -/

/-- The bits of the mask `CLR_NON_TIMER_BITS` are the bits 29, 30 and 31. -/
theorem CLR_NON_TIMER_BITS_testBit (i : Nat) :
    CLR_NON_TIMER_BITS.testBit i = (decide (29 ≤ i) && decide (i < 32)) := by
  by_cases hi : i < 32
  · interval_cases i <;> decide
  · have h : CLR_NON_TIMER_BITS < 2 ^ 32 := by decide
    rw [testBit_eq_false_of_lt_32 _ i h (Nat.le_of_not_lt hi)]
    simp [hi]

/-- Writing bit `idx` of a 32-bit word sets that bit to the condition and keeps the
others. -/
theorem write_bit_testBit (idx : Nat) (condition : Bool) (x i : Nat) (hx : x < 2 ^ 32) :
    (write_bit (2 ^ idx) condition x).testBit i =
      (if i = idx then condition else x.testBit i) := by
  unfold write_bit SET_INP_BIT CLR_INP_BIT
  cases condition
  · rw [if_neg (by decide), and_not32_testBit x idx i hx]
    by_cases h : i = idx <;> simp [h]
  · rw [if_pos rfl, Nat.testBit_or, Nat.testBit_two_pow]
    by_cases h : i = idx
    · simp [h]
    · have h2 : ¬ idx = i := fun e => h e.symm
      simp [h, h2]

/-- Writing one of the bits 0 to 31 of a 32-bit word gives a 32-bit word. -/
theorem write_bit_lt (idx : Nat) (condition : Bool) (x : Nat) (hidx : idx < 32)
    (hx : x < 2 ^ 32) : write_bit (2 ^ idx) condition x < 2 ^ 32 := by
  apply Nat.lt_of_testBit 32
  · rw [write_bit_testBit idx condition x 32 hx, if_neg (by omega)]
    exact testBit_eq_false_of_lt_32 x 32 hx (le_refl 32)
  · exact Nat.testBit_two_pow_self
  · intro j hj
    rw [write_bit_testBit idx condition x j hx, if_neg (by omega),
      testBit_eq_false_of_lt_32 x j hx (by omega), Nat.testBit_two_pow]
    simp
    omega

/-- Bit by bit, the input word that `fsm_process_inputs` leaves. -/
theorem fsm_process_inputs_testBit (m : FSM_MEM TASK_ENV) (i : Nat) :
    (fsm_process_inputs m).trans_input.testBit i =
      (if i = 3 then true
        else if i = 2 then
          (decide ((FSM_SEND_STATE : Int) = m.env.fsm_state) && checkSessionError m.env)
        else if i = 1 then m.env.data_sending
        else if i = 0 then m.env.initialized
        else (m.trans_input.testBit i && (decide (29 ≤ i) && decide (i < 32)))) := by
  have h0 : m.trans_input &&& CLR_NON_TIMER_BITS < 2 ^ 32 :=
    Nat.and_lt_two_pow _ (by decide)
  have h1 := write_bit_lt 0 m.env.initialized _ (by decide) h0
  have h2 := write_bit_lt 1 m.env.data_sending _ (by decide) h1
  have e0 : INITIALIZED = 2 ^ 0 := by decide
  have e1 : DATA_SENDING = 2 ^ 1 := by decide
  have e2 : SEND_RECOVER = 2 ^ 2 := by decide
  have e3 : RUN_CONDITION = 2 ^ 3 := by decide
  unfold fsm_process_inputs
  simp only [e0, e1, e2, e3]
  by_cases hs : (FSM_SEND_STATE : Int) = m.env.fsm_state
  · have h3 := write_bit_lt 2 (checkSessionError m.env) _ (by decide) h2
    simp only [hs, if_true, decide_True, Bool.true_and]
    rw [write_bit_testBit 3 true _ i h3, write_bit_testBit 2 _ _ i h2,
      write_bit_testBit 1 _ _ i h1, write_bit_testBit 0 _ _ i h0, Nat.testBit_and,
      CLR_NON_TIMER_BITS_testBit]
  · simp only [hs, if_false, decide_False, Bool.false_and]
    rw [write_bit_testBit 3 true _ i h2, write_bit_testBit 1 _ _ i h1,
      write_bit_testBit 0 _ _ i h0, Nat.testBit_and, CLR_NON_TIMER_BITS_testBit]
    by_cases hi2 : i = 2
    · subst hi2
      simp
    · simp [hi2]

/-- C37: `fsm_process_inputs` leaves the bits 29, 30 and 31 of the input word (the
timer bits, mask `0xE0000000`) as they are, sets the bits 4 to 28 to 0, bit 3 to 1, bit
0 to `initialized`, bit 1 to `data_sending`, and bit 2 to `checkSessionError()` when
`fsm_state` is `FSM_SEND_STATE` and to 0 otherwise; the word it leaves is a 32-bit
word, and nothing but the input word is written. -/
theorem C37_process_inputs (m : FSM_MEM TASK_ENV) :
    (∀ i, 29 ≤ i → i ≤ 31 →
      (fsm_process_inputs m).trans_input.testBit i = m.trans_input.testBit i) ∧
    (∀ i, 4 ≤ i → i ≤ 28 → (fsm_process_inputs m).trans_input.testBit i = false) ∧
    (fsm_process_inputs m).trans_input.testBit 3 = true ∧
    (fsm_process_inputs m).trans_input.testBit 0 = m.env.initialized ∧
    (fsm_process_inputs m).trans_input.testBit 1 = m.env.data_sending ∧
    (m.env.fsm_state = FSM_SEND_STATE →
      (fsm_process_inputs m).trans_input.testBit 2 = checkSessionError m.env) ∧
    (m.env.fsm_state ≠ FSM_SEND_STATE →
      (fsm_process_inputs m).trans_input.testBit 2 = false) ∧
    (∀ i, 32 ≤ i → (fsm_process_inputs m).trans_input.testBit i = false) ∧
    (fsm_process_inputs m).workspace = m.workspace ∧
    (fsm_process_inputs m).env = m.env := by
  refine ⟨?_, ?_, ?_, ?_, ?_, ?_, ?_, ?_, rfl, rfl⟩
  · intro i h1 h2
    rw [fsm_process_inputs_testBit, if_neg (by omega), if_neg (by omega), if_neg (by omega),
      if_neg (by omega)]
    simp [h1, Nat.lt_succ_of_le h2]
  · intro i h1 h2
    rw [fsm_process_inputs_testBit, if_neg (by omega), if_neg (by omega), if_neg (by omega),
      if_neg (by omega)]
    have h3 : ¬ 29 ≤ i := by omega
    simp [h3]
  · rw [fsm_process_inputs_testBit, if_pos rfl]
  · rw [fsm_process_inputs_testBit]
    simp
  · rw [fsm_process_inputs_testBit]
    simp
  · intro hs
    rw [fsm_process_inputs_testBit]
    simp [hs]
  · intro hs
    have hs2 : ¬ ((FSM_SEND_STATE : Int) = m.env.fsm_state) := fun h => hs h.symm
    rw [fsm_process_inputs_testBit]
    simp [hs2]
  · intro i h1
    rw [fsm_process_inputs_testBit, if_neg (by omega), if_neg (by omega), if_neg (by omega),
      if_neg (by omega)]
    have h3 : ¬ i < 32 := by omega
    simp [h3]

/-- Instance of `C37_process_inputs`: the idle device with timer 1 expired; the word
left is `0x80000009`. -/
theorem C37_process_inputs_witness :
    (fsm_process_inputs ⟨sample_workspace, 0x800000F6, sample_task_env⟩).trans_input.testBit
      31 = true ∧
    (fsm_process_inputs ⟨sample_workspace, 0x800000F6, sample_task_env⟩).trans_input.testBit
      4 = false ∧
    (fsm_process_inputs ⟨sample_workspace, 0x800000F6, sample_task_env⟩).trans_input.testBit
      2 = false ∧
    (fsm_process_inputs ⟨sample_workspace, 0x800000F6, sample_task_env⟩).trans_input =
      0x80000009 :=
  ⟨((C37_process_inputs ⟨sample_workspace, 0x800000F6, sample_task_env⟩).1 31 (by decide)
      (by decide)).trans (by decide),
    (C37_process_inputs ⟨sample_workspace, 0x800000F6, sample_task_env⟩).2.1 4 (by decide)
      (by decide),
    (C37_process_inputs ⟨sample_workspace, 0x800000F6, sample_task_env⟩).2.2.2.2.2.2.1
      (by decide),
    by decide⟩

/-! ## Invariants of the session manager (claims C32, C33, C40) -/

/-- The session after the first-entry part of `cloud_sessionSend`, in one form. -/
theorem cloud_sessionSend_enter_eq (s : CLOUD_SESSION_T) :
    (if CLOUD_SESSION_SEND_PENDING ≠ s.status then
        { cloud_setSessionStatus s CLOUD_SESSION_SEND_PENDING with totalBytesSent := 0 }
      else s) =
      { s with
        status := CLOUD_SESSION_SEND_PENDING
        totalBytesSent :=
          if s.status = CLOUD_SESSION_SEND_PENDING then s.totalBytesSent else 0 } := by
  by_cases h : s.status = CLOUD_SESSION_SEND_PENDING
  · rw [if_neg (fun hn => hn h.symm)]
    simp only [h, if_true]
    cases s
    simp only at h
    subst h
    rfl
  · rw [if_pos (Ne.symm h)]
    simp [h, cloud_setSessionStatus_eq]

/-- The response test keeps status, handle, `recvComplete` and the counters. -/
theorem cloud_recvComplete_fields (s : CLOUD_SESSION_T) :
    (cloud_recvComplete s).2.status = s.status ∧
    (cloud_recvComplete s).2.handle = s.handle ∧
    (cloud_recvComplete s).2.recvComplete = s.recvComplete ∧
    (cloud_recvComplete s).2.diags.attempts = s.diags.attempts ∧
    (cloud_recvComplete s).2.diags.sockFailures = s.diags.sockFailures ∧
    (cloud_recvComplete s).2.diags.sendFailures = s.diags.sendFailures := by
  unfold cloud_recvComplete
  split_ifs <;> exact ⟨rfl, rfl, rfl, rfl, rfl, rfl⟩

theorem cloud_step_ok_refl (s : CLOUD_SESSION_T) : cloud_step_ok s s :=
  ⟨id, id, rfl, rfl, Or.inl rfl⟩

/-- Two steps in a row, the session between them not being failed. -/
theorem cloud_step_ok_trans (s s1 s2 : CLOUD_SESSION_T) (h1 : cloud_step_ok s s1)
    (h2 : cloud_step_ok s1 s2) (hnf : s1.status ≠ CLOUD_SESSION_FAILED) :
    cloud_step_ok s s2 := by
  obtain ⟨a1, b1, c1, d1, e1⟩ := h1
  obtain ⟨a2, b2, c2, d2, e2⟩ := h2
  refine ⟨fun h => a2 (a1 h), fun h => b2 (b1 h), c2.trans c1, d2.trans d1, ?_⟩
  have e1' : s1.diags.sockFailures = s.diags.sockFailures :=
    e1.elim id (fun h => absurd h.1 hnf)
  rw [← e1']
  exact e2

theorem cloud_startConnect_step (io : CLOUD_CONNECT_IO) (c : CLOUD_MEM) :
    cloud_step_ok c.session (cloud_startConnect io c).session := by
  unfold cloud_startConnect
  simp only [cloud_handleSocketError_eq, cloud_setSessionStatus_eq]
  split_ifs <;>
    simp [cloud_step_ok, cloud_failed_closed, cloud_success_complete, cloud_counters_step]

theorem cloud_finishConnect_step (io : CLOUD_CONNECT_IO) (c : CLOUD_MEM) :
    cloud_step_ok c.session (cloud_finishConnect io c).session := by
  unfold cloud_finishConnect cloud_isSocketReady
  simp only [cloud_handleSocketError_eq, cloud_setSessionStatus_eq]
  split_ifs <;>
    simp [cloud_step_ok, cloud_failed_closed, cloud_success_complete, cloud_counters_step]

theorem cloud_sessionConnect_step (io : CLOUD_CONNECT_IO) (c : CLOUD_MEM) :
    cloud_step_ok c.session (cloud_sessionConnect io c).session := by
  have h1 : cloud_step_ok c.session
      (if CLOUD_SESSION_CONNECT_PENDING ≠ c.session.status then
        cloud_startConnect io c else c).session := by
    split_ifs
    · exact cloud_startConnect_step io c
    · exact cloud_step_ok_refl _
  unfold cloud_sessionConnect
  simp only []
  generalize (if CLOUD_SESSION_CONNECT_PENDING ≠ c.session.status then
      cloud_startConnect io c else c) = c1 at h1 ⊢
  split_ifs with hg hc
  · exact cloud_step_ok_refl _
  · refine cloud_step_ok_trans _ _ _ h1 (cloud_finishConnect_step io c1) ?_
    rcases hc with h | h <;> rw [← h] <;> decide
  · exact h1

theorem cloud_sessionSend_step (io : CLOUD_SEND_IO) (c : CLOUD_MEM) :
    cloud_step_ok c.session (cloud_sessionSend io c).session := by
  unfold cloud_sessionSend
  simp only [cloud_sessionSend_enter_eq]
  simp only [cloud_handleSocketError_eq, cloud_setSessionStatus_eq]
  split_ifs <;>
    simp [cloud_step_ok, cloud_failed_closed, cloud_success_complete, cloud_counters_step]

/-- The session after a receive step in which `recv` delivers characters: `s2` is the
session with the characters stored and counted. -/
theorem cloud_sessionRecv_read (io : CLOUD_RECV_IO) (c : CLOUD_MEM) (s2 : CLOUD_SESSION_T)
    (hst : c.session.status = CLOUD_SESSION_IDLE ∨ c.session.status = CLOUD_SESSION_FAILED ∨
      c.session.status = CLOUD_SESSION_SEND_SUCCESS ∨
      c.session.status = CLOUD_SESSION_RECV_PENDING)
    (hsel : io.select ≥ 0) (hrd : io.readable = true)
    (hne : ¬ CLOUD_SOCKET_ERROR = io.recv) (hn0 : ¬ 0 = io.recv)
    (hs2 : s2 =
      { c.session with
        status := CLOUD_SESSION_RECV_PENDING
        recvBuf := store_at
          (if c.session.status = CLOUD_SESSION_RECV_PENDING then c.session.recvBuf
            else memset c.session.recvBuf (Char.ofNat 0) c.session.recvBufLen)
          (if c.session.status = CLOUD_SESSION_RECV_PENDING then c.session.totalBytesRcvd
            else 0).toNat io.recv_data
        totalBytesRcvd := int_of_long
          ((if c.session.status = CLOUD_SESSION_RECV_PENDING then c.session.totalBytesRcvd
            else 0) + io.recv) }) :
    (cloud_sessionRecv io c).session =
      if (cloud_recvComplete s2).1 then
        if parse_goodStatusCode (cloud_recvComplete s2).2.httpStatus then
          { (cloud_recvComplete s2).2 with
            recvComplete := true
            status := CLOUD_SESSION_RECV_SUCCESS }
        else { (cloud_recvComplete s2).2 with recvComplete := true }
      else (cloud_recvComplete s2).2 := by
  have hguard : ¬ (CLOUD_SESSION_IDLE ≠ c.session.status ∧
      CLOUD_SESSION_FAILED ≠ c.session.status ∧
      CLOUD_SESSION_SEND_SUCCESS ≠ c.session.status ∧
      CLOUD_SESSION_RECV_PENDING ≠ c.session.status) := by
    rcases hst with h | h | h | h <;> rw [h] <;> decide
  subst hs2
  unfold cloud_sessionRecv
  rw [if_neg hguard]
  simp only [cloud_sessionRecv_enter]
  simp only [hsel, hrd, if_true, hne, hn0, if_false, cloud_packetIsSuccessful,
    cloud_setSessionStatus_eq]
  split_ifs <;> rfl

theorem cloud_sessionRecv_step (io : CLOUD_RECV_IO) (c : CLOUD_MEM) :
    cloud_step_ok c.session (cloud_sessionRecv io c).session := by
  by_cases hg : CLOUD_SESSION_IDLE ≠ c.session.status ∧
      CLOUD_SESSION_FAILED ≠ c.session.status ∧
      CLOUD_SESSION_SEND_SUCCESS ≠ c.session.status ∧
      CLOUD_SESSION_RECV_PENDING ≠ c.session.status
  · unfold cloud_sessionRecv
    rw [if_pos hg]
    exact cloud_step_ok_refl _
  · by_cases hread : io.select ≥ 0 ∧ io.readable = true ∧ ¬ CLOUD_SOCKET_ERROR = io.recv ∧
        ¬ 0 = io.recv
    · have hst : c.session.status = CLOUD_SESSION_IDLE ∨
          c.session.status = CLOUD_SESSION_FAILED ∨
          c.session.status = CLOUD_SESSION_SEND_SUCCESS ∨
          c.session.status = CLOUD_SESSION_RECV_PENDING := by
        by_contra hn
        simp only [not_or] at hn
        exact hg ⟨Ne.symm hn.1, Ne.symm hn.2.1, Ne.symm hn.2.2.1, Ne.symm hn.2.2.2⟩
      rw [cloud_sessionRecv_read io c _ hst hread.1 hread.2.1 hread.2.2.1 hread.2.2.2 rfl]
      obtain ⟨f1, f2, f3, f4, f5, f6⟩ := cloud_recvComplete_fields
        { c.session with
          status := CLOUD_SESSION_RECV_PENDING
          recvBuf := store_at
            (if c.session.status = CLOUD_SESSION_RECV_PENDING then c.session.recvBuf
              else memset c.session.recvBuf (Char.ofNat 0) c.session.recvBufLen)
            (if c.session.status = CLOUD_SESSION_RECV_PENDING then c.session.totalBytesRcvd
              else 0).toNat io.recv_data
          totalBytesRcvd := int_of_long
            ((if c.session.status = CLOUD_SESSION_RECV_PENDING then c.session.totalBytesRcvd
              else 0) + io.recv) }
      generalize cloud_recvComplete
        { c.session with
          status := CLOUD_SESSION_RECV_PENDING
          recvBuf := store_at
            (if c.session.status = CLOUD_SESSION_RECV_PENDING then c.session.recvBuf
              else memset c.session.recvBuf (Char.ofNat 0) c.session.recvBufLen)
            (if c.session.status = CLOUD_SESSION_RECV_PENDING then c.session.totalBytesRcvd
              else 0).toNat io.recv_data
          totalBytesRcvd := int_of_long
            ((if c.session.status = CLOUD_SESSION_RECV_PENDING then c.session.totalBytesRcvd
              else 0) + io.recv) } = r at f1 f2 f3 f4 f5 f6 ⊢
      simp only at f1 f2 f3 f4 f5 f6
      unfold cloud_step_ok cloud_failed_closed cloud_success_complete cloud_counters_step
      split_ifs with ha hb
      · simp [f4, f5, f6, hb]
      · simp [f1, f4, f5, f6]
      · simp [f1, f4, f5, f6]
    · unfold cloud_sessionRecv
      rw [if_neg hg]
      simp only [cloud_sessionRecv_enter]
      simp only [cloud_handleSocketError_eq]
      split_ifs with h2 h3 h4 h5 h6
      all_goals first
        | (exfalso; exact hread ⟨by assumption, by assumption, by assumption, by assumption⟩)
        | simp [cloud_step_ok, cloud_failed_closed, cloud_success_complete,
            cloud_counters_step]

theorem cloud_sessionSendRecvAll_dispatch_step (io : CLOUD_IO) (c : CLOUD_MEM) :
    cloud_step_ok c.session (cloud_sessionSendRecvAll_dispatch io c).session := by
  unfold cloud_sessionSendRecvAll_dispatch
  split
  all_goals first
    | exact cloud_step_ok_refl _
    | exact cloud_sessionConnect_step _ _
    | exact cloud_sessionSend_step _ _
    | exact cloud_sessionRecv_step _ _

/-- A change of the timeout flag or of the transaction start is no step. -/
theorem cloud_step_ok_congr (s s1 s2 : CLOUD_SESSION_T) (h : cloud_step_ok s s1)
    (hst : s2.status = s1.status) (hh : s2.handle = s1.handle)
    (hc : s2.recvComplete = s1.recvComplete) (hs : s2.httpStatus = s1.httpStatus)
    (hd : s2.diags = s1.diags) : cloud_step_ok s s2 := by
  unfold cloud_step_ok cloud_failed_closed cloud_success_complete cloud_counters_step at h ⊢
  rw [hst, hh, hc, hs, hd]
  exact h

theorem cloud_sessionSendRecvAll_step (io : CLOUD_IO) (c : CLOUD_MEM) (timeoutSec : Nat) :
    cloud_step_ok c.session (cloud_sessionSendRecvAll io c timeoutSec).2.session := by
  have h := cloud_sessionSendRecvAll_session io c timeoutSec
  refine cloud_step_ok_congr _ _ _ (cloud_sessionSendRecvAll_dispatch_step io c) ?_ ?_ ?_ ?_ ?_
  all_goals rw [h]

theorem cloud_sessionConnectAndSend_step (io : CLOUD_IO) (c : CLOUD_MEM) :
    cloud_step_ok c.session (cloud_sessionConnectAndSend io c).session := by
  have h0 : cloud_step_ok c.session
      ({ c with session := { c.session with transStart := io.now } } : CLOUD_MEM).session :=
    cloud_step_ok_congr _ _ _ (cloud_step_ok_refl _) rfl rfl rfl rfl rfl
  have h1 : cloud_step_ok c.session
      (if CLOUD_SESSION_CREATE_SUCCESS =
          ({ c with session := { c.session with transStart := io.now } } :
            CLOUD_MEM).session.status then
        cloud_sessionConnect io.connect
          { c with session := { c.session with transStart := io.now } }
      else { c with session := { c.session with transStart := io.now } }).session := by
    split_ifs with hc
    · refine cloud_step_ok_trans _ _ _ h0 (cloud_sessionConnect_step _ _) ?_
      rw [← hc]
      decide
    · exact h0
  unfold cloud_sessionConnectAndSend
  simp only []
  generalize (if CLOUD_SESSION_CREATE_SUCCESS =
          ({ c with session := { c.session with transStart := io.now } } :
            CLOUD_MEM).session.status then
        cloud_sessionConnect io.connect
          { c with session := { c.session with transStart := io.now } }
      else { c with session := { c.session with transStart := io.now } }) = c1 at h1 ⊢
  split_ifs with hc
  · have hnf : c1.session.status ≠ CLOUD_SESSION_FAILED := by
      rcases hc with h | h <;> rw [← h] <;> decide
    have h2 : cloud_step_ok c1.session (cloud_startSessionAttempt c1.session) := by
      unfold cloud_startSessionAttempt
      simp [cloud_setSessionStatus_eq, cloud_step_ok, cloud_failed_closed,
        cloud_success_complete, cloud_counters_step]
    have hnf2 : (cloud_startSessionAttempt c1.session).status ≠ CLOUD_SESSION_FAILED := by
      unfold cloud_startSessionAttempt
      simp [cloud_setSessionStatus_eq]
    exact cloud_step_ok_trans _ _ _ (cloud_step_ok_trans _ _ _ h1 h2 hnf)
      (cloud_sessionSend_step io.send
        { c1 with session := cloud_startSessionAttempt c1.session }) hnf2
  · exact h1

/-- What `cloud_initSession` keeps, and its count of the attempt. -/
theorem cloud_initSession_step (io : CLOUD_INIT_IO) (c : CLOUD_MEM) (serverName : List Char)
    (serverPort : Nat) :
    (cloud_failed_closed c.session →
      cloud_failed_closed (cloud_initSession io c serverName serverPort).2.session) ∧
    (cloud_success_complete c.session →
      cloud_success_complete (cloud_initSession io c serverName serverPort).2.session) ∧
    (cloud_initSession io c serverName serverPort).2.session.diags.attempts =
      (c.session.diags.attempts + 1) % 2 ^ 32 ∧
    (cloud_initSession io c serverName serverPort).2.session.diags.sendFailures =
      c.session.diags.sendFailures ∧
    ((cloud_initSession io c serverName serverPort).2.session.diags.sockFailures =
        c.session.diags.sockFailures ∨
      (cloud_initSession io c serverName serverPort).2.session.diags.sockFailures =
        (c.session.diags.sockFailures + 1) % 2 ^ 32) := by
  unfold cloud_initSession
  simp only [cloud_handleSocketError_eq, cloud_setSessionStatus_eq]
  split_ifs with h1 h2 h3 h4
  all_goals simp [cloud_failed_closed, cloud_success_complete]

theorem cloud_closeSession_step (c : CLOUD_MEM) :
    cloud_step_ok c.session (cloud_closeSession c).session := by
  unfold cloud_closeSession cloud_resetSessionStatus
  simp only [cloud_setSessionStatus_eq]
  split_ifs <;>
    simp [cloud_step_ok, cloud_failed_closed, cloud_success_complete, cloud_counters_step]

theorem cloud_resetSessionStatus_step (s : CLOUD_SESSION_T) :
    cloud_step_ok s (cloud_resetSessionStatus s) := by
  unfold cloud_resetSessionStatus
  simp [cloud_setSessionStatus_eq, cloud_step_ok, cloud_failed_closed,
    cloud_success_complete, cloud_counters_step]

/-- Every call of the session manager keeps the two invariants; it leaves
`sendFailures` alone, moves `sockFailures` by at most one and counts an attempt exactly
when it is a call of `cloud_initSession`. -/
theorem cloud_op_step (op : CLOUD_OP) (c : CLOUD_MEM) :
    (cloud_failed_closed c.session → cloud_failed_closed (cloud_op op c).session) ∧
    (cloud_success_complete c.session → cloud_success_complete (cloud_op op c).session) ∧
    (cloud_op op c).session.diags.attempts =
      (if cloud_op_is_init op then (c.session.diags.attempts + 1) % 2 ^ 32
        else c.session.diags.attempts) ∧
    (cloud_op op c).session.diags.sendFailures = c.session.diags.sendFailures ∧
    ((cloud_op op c).session.diags.sockFailures = c.session.diags.sockFailures ∨
      (cloud_op op c).session.diags.sockFailures =
        (c.session.diags.sockFailures + 1) % 2 ^ 32) := by
  have key : ∀ s1 : CLOUD_SESSION_T, cloud_step_ok c.session s1 →
      (cloud_failed_closed c.session → cloud_failed_closed s1) ∧
      (cloud_success_complete c.session → cloud_success_complete s1) ∧
      s1.diags.attempts = c.session.diags.attempts ∧
      s1.diags.sendFailures = c.session.diags.sendFailures ∧
      (s1.diags.sockFailures = c.session.diags.sockFailures ∨
        s1.diags.sockFailures = (c.session.diags.sockFailures + 1) % 2 ^ 32) :=
    fun s1 h => ⟨h.1, h.2.1, h.2.2.1, h.2.2.2.1, h.2.2.2.2.imp id And.right⟩
  cases op with
  | initSession io serverName serverPort =>
    exact cloud_initSession_step io c serverName serverPort
  | sessionConnectAndSend io => exact key _ (cloud_sessionConnectAndSend_step io c)
  | sessionSendRecvAll io timeoutSec =>
    exact key _ (cloud_sessionSendRecvAll_step io c timeoutSec)
  | closeSession => exact key _ (cloud_closeSession_step c)
  | resetSessionStatus => exact key _ (cloud_resetSessionStatus_step c.session)

/-- The two invariants hold along every run that starts where they hold. -/
theorem cloud_run_invariant (ops : List CLOUD_OP) :
    ∀ c : CLOUD_MEM, cloud_failed_closed c.session → cloud_success_complete c.session →
      cloud_failed_closed (cloud_run ops c).session ∧
      cloud_success_complete (cloud_run ops c).session := by
  induction ops with
  | nil => exact fun c h1 h2 => ⟨h1, h2⟩
  | cons op rest ih =>
    intro c h1 h2
    exact ih (cloud_op op c) ((cloud_op_step op c).1 h1) ((cloud_op_step op c).2.1 h2)

/-- C32: every call of the session manager (`cloud_initSession`,
`cloud_sessionConnectAndSend`, `cloud_sessionSendRecvAll`, `cloud_closeSession`,
`cloud_resetSessionStatus`) leaves `sendFailures` as it is, moves `sockFailures` by
nothing or by one, and moves `attempts` by one when it is a call of
`cloud_initSession` (whatever the call does and returns) and not at all otherwise; the
counters are 32-bit counters, so a counter below `2^32 - 1` is not decreased, and for
such a counter the count of an attempt is an increase by exactly one. -/
theorem C32_counters_monotone (op : CLOUD_OP) (c : CLOUD_MEM) :
    ((cloud_op op c).session.diags.attempts =
      (if cloud_op_is_init op then (c.session.diags.attempts + 1) % 2 ^ 32
        else c.session.diags.attempts)) ∧
    (cloud_op_is_init op = true → c.session.diags.attempts < 2 ^ 32 - 1 →
      (cloud_op op c).session.diags.attempts = c.session.diags.attempts + 1) ∧
    (c.session.diags.attempts < 2 ^ 32 - 1 →
      c.session.diags.attempts ≤ (cloud_op op c).session.diags.attempts) ∧
    ((cloud_op op c).session.diags.sockFailures = c.session.diags.sockFailures ∨
      (cloud_op op c).session.diags.sockFailures =
        (c.session.diags.sockFailures + 1) % 2 ^ 32) ∧
    (c.session.diags.sockFailures < 2 ^ 32 - 1 →
      c.session.diags.sockFailures ≤ (cloud_op op c).session.diags.sockFailures) ∧
    (cloud_op op c).session.diags.sendFailures = c.session.diags.sendFailures := by
  obtain ⟨_, _, ha, hs, hk⟩ := cloud_op_step op c
  refine ⟨ha, ?_, ?_, hk, ?_, hs⟩
  · intro hi hlt
    rw [ha, hi, if_pos rfl]
    exact Nat.mod_eq_of_lt (by omega)
  · intro hlt
    rw [ha]
    split_ifs
    · rw [Nat.mod_eq_of_lt (by omega)]
      omega
    · exact le_refl _
  · intro hlt
    rcases hk with h | h <;> rw [h]
    rw [Nat.mod_eq_of_lt (by omega)]
    omega

/-- Instance of `C32_counters_monotone`: a call of `cloud_initSession` that fails for
an empty server name counts the attempt. -/
theorem C32_counters_monotone_witness :
    (cloud_op (CLOUD_OP.initSession sample_init_io [] 80) sample_cloud).session.diags.attempts =
      1 ∧
    (cloud_initSession sample_init_io sample_cloud [] 80).1 = false :=
  ⟨(C32_counters_monotone (CLOUD_OP.initSession sample_init_io [] 80) sample_cloud).2.1 rfl
      (by decide),
    by decide⟩

/-- C33: in every state that the calls of the session manager reach from an idle
session, status `CLOUD_SESSION_RECV_SUCCESS` comes with `recvComplete` set and an
`httpStatus` that `parse_goodStatusCode` accepts.  And when a receive step reads
characters (a positive result of `recv`) that complete the response while the status
extracted is not accepted by `parse_goodStatusCode`, the step leaves the status
`CLOUD_SESSION_RECV_PENDING` with `recvComplete` set. -/
theorem C33_recv_success_complete (c0 : CLOUD_MEM) (ops : List CLOUD_OP)
    (hidle : c0.session.status = CLOUD_SESSION_IDLE) :
    ((cloud_run ops c0).session.status = CLOUD_SESSION_RECV_SUCCESS →
      (cloud_run ops c0).session.recvComplete = true ∧
      parse_goodStatusCode (cloud_run ops c0).session.httpStatus = true) ∧
    (∀ (io : CLOUD_RECV_IO) (c : CLOUD_MEM) (s2 : CLOUD_SESSION_T),
      (c.session.status = CLOUD_SESSION_IDLE ∨ c.session.status = CLOUD_SESSION_FAILED ∨
        c.session.status = CLOUD_SESSION_SEND_SUCCESS ∨
        c.session.status = CLOUD_SESSION_RECV_PENDING) →
      io.select ≥ 0 → io.readable = true → 0 < io.recv →
      s2 =
        { c.session with
          status := CLOUD_SESSION_RECV_PENDING
          recvBuf := store_at
            (if c.session.status = CLOUD_SESSION_RECV_PENDING then c.session.recvBuf
              else memset c.session.recvBuf (Char.ofNat 0) c.session.recvBufLen)
            (if c.session.status = CLOUD_SESSION_RECV_PENDING then c.session.totalBytesRcvd
              else 0).toNat io.recv_data
          totalBytesRcvd := int_of_long
            ((if c.session.status = CLOUD_SESSION_RECV_PENDING then c.session.totalBytesRcvd
              else 0) + io.recv) } →
      (cloud_recvComplete s2).1 = true →
      parse_goodStatusCode (cloud_recvComplete s2).2.httpStatus = false →
      (cloud_sessionRecv io c).session.status = CLOUD_SESSION_RECV_PENDING ∧
      (cloud_sessionRecv io c).session.recvComplete = true ∧
      (cloud_sessionRecv io c).session.httpStatus = (cloud_recvComplete s2).2.httpStatus) := by
  constructor
  · have h0 : cloud_failed_closed c0.session := by
      intro h
      rw [hidle] at h
      exact absurd h (by decide)
    have h1 : cloud_success_complete c0.session := by
      intro h
      rw [hidle] at h
      exact absurd h (by decide)
    exact (cloud_run_invariant ops c0 h0 h1).2
  · intro io c s2 hst hsel hrd hpos hs2 hcomplete hbad
    have hne : ¬ CLOUD_SOCKET_ERROR = io.recv := by
      unfold CLOUD_SOCKET_ERROR
      omega
    have hn0 : ¬ 0 = io.recv := by omega
    rw [cloud_sessionRecv_read io c s2 hst hsel hrd hne hn0 hs2, if_pos hcomplete, hbad]
    simp only [Bool.false_eq_true, if_false]
    refine ⟨?_, trivial, trivial⟩
    rw [(cloud_recvComplete_fields s2).1, hs2]

/-- Instance of `C33_recv_success_complete`: a complete exchange with the response
`HTTP/1.1 200 OK` ends in `CLOUD_SESSION_RECV_SUCCESS` with `recvComplete` set; and a
receive step that reads the whole response `HTTP/1.1 500` leaves
`CLOUD_SESSION_RECV_PENDING` with `recvComplete` set and `httpStatus` 500. -/
theorem C33_recv_success_complete_witness :
    (cloud_run (sample_ops_exchange "HTTP/1.1 200 OK\r\n\r\n".toList)
      sample_cloud_ready).session.status = CLOUD_SESSION_RECV_SUCCESS ∧
    (cloud_run (sample_ops_exchange "HTTP/1.1 200 OK\r\n\r\n".toList)
      sample_cloud_ready).session.recvComplete = true ∧
    (cloud_sessionRecv (sample_recv_io 16 "HTTP/1.1 500\r\n\r\n".toList 0)
      sample_cloud_small).session.status = CLOUD_SESSION_RECV_PENDING ∧
    (cloud_sessionRecv (sample_recv_io 16 "HTTP/1.1 500\r\n\r\n".toList 0)
      sample_cloud_small).session.recvComplete = true ∧
    (cloud_sessionRecv (sample_recv_io 16 "HTTP/1.1 500\r\n\r\n".toList 0)
      sample_cloud_small).session.httpStatus = 500 := by
  have h := (C33_recv_success_complete sample_cloud_ready [] rfl).2
    (sample_recv_io 16 "HTTP/1.1 500\r\n\r\n".toList 0) sample_cloud_small _
    (Or.inr (Or.inr (Or.inl rfl))) (by decide) rfl (by decide) rfl (by decide) (by decide)
  exact ⟨by decide,
    ((C33_recv_success_complete sample_cloud_ready
      (sample_ops_exchange "HTTP/1.1 200 OK\r\n\r\n".toList) rfl).1 (by decide)).1,
    h.1, h.2.1, h.2.2.trans (by decide)⟩

/-- The status is read 8 characters behind `HTTP/` also when the string ends before:
for the received characters CR LF CR LF `HTTP/` NUL `xx404` the C string ends behind
`HTTP/`, `parse_getStatusCode` reads `404` behind the NUL, and the receive step ends
in `CLOUD_SESSION_RECV_SUCCESS` with `httpStatus` 404. -/
theorem cloud_sessionRecv_status_behind_nul :
    c_str sample_response_nul = "\r\n\r\nHTTP/".toList ∧
    parse_getStatusCode sample_response_nul = 404 ∧
    (cloud_sessionRecv (sample_recv_io 15 sample_response_nul 0)
      sample_cloud_small).session.httpStatus = 404 ∧
    (cloud_sessionRecv (sample_recv_io 15 sample_response_nul 0)
      sample_cloud_small).session.status = CLOUD_SESSION_RECV_SUCCESS ∧
    (cloud_sessionRecv (sample_recv_io 15 sample_response_nul 0)
      sample_cloud_small).session.recvComplete = true := by
  decide

/-- C40: in every state that the calls of the session manager (`cloud_initSession`,
`cloud_sessionConnectAndSend`, `cloud_sessionSendRecvAll`, `cloud_closeSession`,
`cloud_resetSessionStatus`) reach from an idle session, status `CLOUD_SESSION_FAILED`
comes with the handle `CLOUD_INVALID_SOCKET`; each call keeps this property. -/
theorem C40_failed_session_closed (c0 : CLOUD_MEM) (ops : List CLOUD_OP)
    (hidle : c0.session.status = CLOUD_SESSION_IDLE) :
    ((cloud_run ops c0).session.status = CLOUD_SESSION_FAILED →
      (cloud_run ops c0).session.handle = CLOUD_INVALID_SOCKET) ∧
    (∀ (op : CLOUD_OP) (c : CLOUD_MEM),
      (c.session.status = CLOUD_SESSION_FAILED → c.session.handle = CLOUD_INVALID_SOCKET) →
      (cloud_op op c).session.status = CLOUD_SESSION_FAILED →
      (cloud_op op c).session.handle = CLOUD_INVALID_SOCKET) := by
  constructor
  · have h0 : cloud_failed_closed c0.session := by
      intro h
      rw [hidle] at h
      exact absurd h (by decide)
    have h1 : cloud_success_complete c0.session := by
      intro h
      rw [hidle] at h
      exact absurd h (by decide)
    exact (cloud_run_invariant ops c0 h0 h1).1
  · intro op c h
    exact (cloud_op_step op c).1 h

/-- Instance of `C40_failed_session_closed`: the session is opened on descriptor 3 and
the connection is refused; the failed session has no handle, and the system was asked
to close descriptor 3. -/
theorem C40_failed_session_closed_witness :
    (cloud_run (sample_ops_refused.take 3) sample_cloud).session.status =
      CLOUD_SESSION_FAILED ∧
    (cloud_run (sample_ops_refused.take 3) sample_cloud).session.handle =
      CLOUD_INVALID_SOCKET ∧
    CLOUD_SYSCALL.close 3 ∈ (cloud_run (sample_ops_refused.take 3) sample_cloud).syscalls :=
  ⟨by decide,
    (C40_failed_session_closed sample_cloud (sample_ops_refused.take 3) rfl).1 (by decide),
    by decide⟩

/-! ## The end of an exchange in the task (claim C34) -/

/-- A receive step of `cloud_sessionSendRecvAll` in which `recv` returns 0: the call
returns true and the session has `recvComplete` set, its `httpStatus` as before. -/
theorem cloud_sessionSendRecvAll_zero_read (io : CLOUD_IO) (c : CLOUD_MEM) (timeoutSec : Nat)
    (hst : c.session.status = CLOUD_SESSION_SEND_SUCCESS ∨
      c.session.status = CLOUD_SESSION_RECV_PENDING)
    (hsel : io.recv.select ≥ 0) (hrd : io.recv.readable = true) (h0 : io.recv.recv = 0) :
    (cloud_sessionSendRecvAll io c timeoutSec).1 = true ∧
    (cloud_sessionSendRecvAll io c timeoutSec).2.session.recvComplete = true ∧
    (cloud_sessionSendRecvAll io c timeoutSec).2.session.status =
      CLOUD_SESSION_RECV_PENDING ∧
    (cloud_sessionSendRecvAll io c timeoutSec).2.session.httpStatus = c.session.httpStatus := by
  have hne : ¬ (CLOUD_SOCKET_ERROR = (0 : Int)) := by decide
  have hguard : ¬ (CLOUD_SESSION_IDLE ≠ c.session.status ∧
      CLOUD_SESSION_FAILED ≠ c.session.status ∧
      CLOUD_SESSION_SEND_SUCCESS ≠ c.session.status ∧
      CLOUD_SESSION_RECV_PENDING ≠ c.session.status) := by
    rcases hst with h | h <;> rw [h] <;> decide
  have hs : (cloud_sessionRecv io.recv c).session =
      { c.session with
        status := CLOUD_SESSION_RECV_PENDING
        totalBytesRcvd :=
          if c.session.status = CLOUD_SESSION_RECV_PENDING then c.session.totalBytesRcvd
          else 0
        recvBuf := if c.session.status = CLOUD_SESSION_RECV_PENDING then c.session.recvBuf
          else memset c.session.recvBuf (Char.ofNat 0) c.session.recvBufLen
        recvComplete := true } := by
    unfold cloud_sessionRecv
    rw [if_neg hguard]
    simp only [cloud_sessionRecv_enter, hsel, hrd, if_true, h0, hne, if_false]
  have hd : cloud_sessionSendRecvAll_dispatch io c = cloud_sessionRecv io.recv c := by
    unfold cloud_sessionSendRecvAll_dispatch
    rcases hst with h | h <;> rw [h]
  have h1 : (cloud_sessionRecv io.recv c).session.status = CLOUD_SESSION_RECV_PENDING := by
    rw [hs]
  have h2 : (cloud_sessionRecv io.recv c).session.recvComplete = true := by
    rw [hs]
  have hall : cloud_sessionSendRecvAll io c timeoutSec =
      (true, cloud_sessionRecv io.recv c) := by
    unfold cloud_sessionSendRecvAll
    simp only [hd]
    rw [if_neg (by rw [h1]; decide), if_pos ⟨h1.symm, h2⟩]
  rw [hall]
  exact ⟨rfl, h2, h1, by rw [hs]⟩

/-- C34, a defect of the code: in the step `SEND_CONTINUE` the function `sendActivity`
sets `SEND_COMPLETED` exactly when `cloud_sessionSendRecvAll` returns true and
`httpStatus` is below 400, whether a status was received or not.  So when the server
closes the connection before any response was parsed (`recv` returns 0, `httpStatus`
still 0), `recvComplete` is set, `send_status` becomes `SEND_COMPLETED`, and `sendExit`
takes the exchange for a success: it sets `send_errors` to 0 where a failure is
counted by an increment. -/
theorem C34_closed_connection_completes (io : TASK_SEND_IO) (e : TASK_ENV) (WEBGET : Bool)
    (hcont : e.send_status = SEND_CONTINUE) :
    ((sendActivity io e).send_status = SEND_COMPLETED ↔
      ((cloud_sessionSendRecvAll io.cloud e.cloud TASK_SEND_TIMER).1 = true ∧
        (cloud_sessionSendRecvAll io.cloud e.cloud TASK_SEND_TIMER).2.session.httpStatus <
          400)) ∧
    ((e.cloud.session.status = CLOUD_SESSION_SEND_SUCCESS ∨
        e.cloud.session.status = CLOUD_SESSION_RECV_PENDING) →
      e.cloud.session.httpStatus = 0 →
      io.cloud.recv.select ≥ 0 → io.cloud.recv.readable = true → io.cloud.recv.recv = 0 →
      (sendActivity io e).cloud.session.recvComplete = true ∧
      (sendActivity io e).cloud.session.httpStatus = 0 ∧
      (sendActivity io e).send_status = SEND_COMPLETED ∧
      (sendActivity io e).data_sending = false ∧
      (sendExit WEBGET (sendActivity io e)).send_errors = 0 ∧
      (sendExit WEBGET (sendActivity io e)).initialized = e.initialized ∧
      (WEBGET = true → (sendExit WEBGET (sendActivity io e)).task_completed = true)) := by
  have hact : sendActivity io e =
      (if (cloud_sessionSendRecvAll io.cloud e.cloud TASK_SEND_TIMER).1 then
        (if HTTP_BAD_REQUEST >
            (cloud_sessionSendRecvAll io.cloud e.cloud TASK_SEND_TIMER).2.session.httpStatus then
          { e with
            cloud := (cloud_sessionSendRecvAll io.cloud e.cloud TASK_SEND_TIMER).2
            data_sending := false
            send_status := SEND_COMPLETED }
        else
          { e with
            cloud := (cloud_sessionSendRecvAll io.cloud e.cloud TASK_SEND_TIMER).2
            data_sending := false })
      else { e with cloud := (cloud_sessionSendRecvAll io.cloud e.cloud TASK_SEND_TIMER).2 }) := by
    unfold sendActivity
    rw [hcont]
    simp only []
    split_ifs
    · unfold setSendStatus
      simp [hcont]
    · rfl
    · rfl
  constructor
  · rw [hact]
    unfold HTTP_BAD_REQUEST
    split_ifs with h1 h2
    · simp [h1, h2]
    · simp only [hcont]
      constructor
      · intro h
        exact absurd h (by decide)
      · intro h
        exact absurd h.2 h2
    · simp only [hcont]
      constructor
      · intro h
        exact absurd h (by decide)
      · intro h
        exact absurd h.1 h1
  · intro hst hzero hsel hrd h0
    obtain ⟨r1, r2, _, r4⟩ :=
      cloud_sessionSendRecvAll_zero_read io.cloud e.cloud TASK_SEND_TIMER hst hsel hrd h0
    have hlt : HTTP_BAD_REQUEST >
        (cloud_sessionSendRecvAll io.cloud e.cloud TASK_SEND_TIMER).2.session.httpStatus := by
      rw [r4, hzero]
      decide
    have hres : sendActivity io e =
        { e with
          cloud := (cloud_sessionSendRecvAll io.cloud e.cloud TASK_SEND_TIMER).2
          data_sending := false
          send_status := SEND_COMPLETED } := by
      rw [hact, r1, if_pos rfl, if_pos hlt]
    rw [hres]
    refine ⟨r2, r4.trans hzero, rfl, rfl, ?_, ?_, ?_⟩
    · unfold sendExit
      simp only [if_true]
      split_ifs <;> rfl
    · unfold sendExit
      simp only [if_true]
      split_ifs <;> rfl
    · intro hw
      unfold sendExit
      simp only [if_true, hw]

/-- Instance of `C34_closed_connection_completes`: the task waits for its response
after two failed exchanges and the server closes the connection; the exchange is
marked `SEND_COMPLETED` and the count of failures goes from 2 to 0, not to 3. -/
theorem C34_closed_connection_completes_witness :
    sample_task_env_waiting.send_errors = 2 ∧
    (sendActivity sample_task_io_closed sample_task_env_waiting).cloud.session.httpStatus = 0 ∧
    (sendActivity sample_task_io_closed sample_task_env_waiting).send_status =
      SEND_COMPLETED ∧
    (sendExit false (sendActivity sample_task_io_closed sample_task_env_waiting)).send_errors =
      0 ∧
    (sendExit true (sendActivity sample_task_io_closed sample_task_env_waiting)).task_completed =
      true := by
  have h := (C34_closed_connection_completes sample_task_io_closed sample_task_env_waiting
    false rfl).2 (Or.inr rfl) rfl (by decide) rfl rfl
  exact ⟨rfl, h.2.1, h.2.2.1, h.2.2.2.2.1, by decide⟩

/-! ## The range of `current_state` (claim C39) -/

/-- Where a scan of the transition table can leave `current_state`: where it was, or
at the target of a rule of the table that is not the end marker. -/
theorem fsm_scan_current_state {ε : Type} (sc : FSM_STATE_CONFIG_T ε) (s : Nat)
    (hexit : fsm_opt_keeps_workspace sc.exit_action_funct_ptr)
    (tbl : List (FSM_TRANS_CONFIG_T ε))
    (htbl : ∀ t ∈ tbl, fsm_opt_keeps_workspace t.trans_funct_ptr)
    (r r1 : FSM_RUN ε) (h : fsm_scan sc s tbl r = some r1) :
    r1.mem.workspace.current_state = r.mem.workspace.current_state ∨
    ∃ t ∈ tbl, FSM_TRANS_END ≠ t.next_state ∧
      r1.mem.workspace.current_state = t.next_state := by
  induction tbl with
  | nil => cases h
  | cons t rest ih =>
    have ih2 := ih (fun u hu => htbl u (List.mem_cons_of_mem t hu))
    have hlift : (r1.mem.workspace.current_state = r.mem.workspace.current_state ∨
        ∃ u ∈ rest, FSM_TRANS_END ≠ u.next_state ∧
          r1.mem.workspace.current_state = u.next_state) →
        (r1.mem.workspace.current_state = r.mem.workspace.current_state ∨
        ∃ u ∈ t :: rest, FSM_TRANS_END ≠ u.next_state ∧
          r1.mem.workspace.current_state = u.next_state) := by
      rintro (h1 | ⟨u, hu, h2⟩)
      · exact Or.inl h1
      · exact Or.inr ⟨u, List.mem_cons_of_mem t hu, h2⟩
    unfold fsm_scan at h
    split_ifs at h with hend
    · cases h
      have hw := fsm_fire_workspace sc s t r hexit (htbl t (List.mem_cons_self t rest))
      by_cases hs : r.mem.workspace.current_state ≠ t.next_state
      · rw [if_pos hs] at hw
        refine Or.inr ⟨t, List.mem_cons_self t rest, hend, ?_⟩
        rw [hw]
      · rw [if_neg hs] at hw
        refine Or.inl ?_
        rw [hw]
    · exact hlift (ih2 h)
    · exact hlift (ih2 h)
    · cases h
      exact Or.inl rfl

/-- Every rule of the three shipped tables that is not the end marker leads to one of
the three states. -/
theorem fsm_state_config_targets {ε : Type} (f : FSM_FUNCTS_T ε)
    (sc : FSM_STATE_CONFIG_T ε) (hsc : sc ∈ fsm_state_config f)
    (t : FSM_TRANS_CONFIG_T ε) (ht : t ∈ sc.state_trans_config_ptr)
    (hend : FSM_TRANS_END ≠ t.next_state) : fsm_state_in_range t.next_state := by
  simp only [fsm_state_config, List.mem_cons, List.mem_singleton, List.not_mem_nil,
    or_false] at hsc
  rcases hsc with h | h | h <;> subst h
  · simp only [init_state_config, init_state_trans_config, List.mem_cons, List.mem_singleton,
      List.not_mem_nil, or_false] at ht
    rcases ht with h | h <;> subst h
    · exact Or.inr (Or.inl rfl)
    · exact absurd rfl hend
  · simp only [idle_state_config, idle_state_trans_config, List.mem_cons, List.mem_singleton,
      List.not_mem_nil, or_false] at ht
    rcases ht with h | h | h | h <;> subst h
    · exact Or.inr (Or.inr rfl)
    · exact Or.inl rfl
    · exact Or.inl rfl
    · exact absurd rfl hend
  · simp only [send_state_config, send_state_trans_config, List.mem_cons, List.mem_singleton,
      List.not_mem_nil, or_false] at ht
    rcases ht with h | h | h | h | h <;> subst h
    · exact Or.inl rfl
    · exact Or.inl rfl
    · exact Or.inr (Or.inl rfl)
    · exact Or.inr (Or.inl rfl)
    · exact absurd rfl hend

theorem fsm_state_config_keeps_workspace {ε : Type} (f : FSM_FUNCTS_T ε)
    (hf : fsm_functs_keep_workspace f)
    (sc : FSM_STATE_CONFIG_T ε) (hsc : sc ∈ fsm_state_config f) :
    fsm_state_keeps_workspace sc := by
  obtain ⟨h1, h2, h3, h4, h5, h6, h7, h8, _⟩ := hf
  simp only [fsm_state_config, List.mem_cons, List.mem_singleton, List.not_mem_nil,
    or_false] at hsc
  rcases hsc with h | h | h <;> subst h
  · refine ⟨?_, ?_, ?_, ?_⟩
    · intro g hg; cases hg; exact h1
    · intro g hg; cases hg; exact h4
    · intro g hg; cases hg
    · intro t ht
      simp only [init_state_config, init_state_trans_config, List.mem_cons,
        List.mem_singleton, List.not_mem_nil, or_false] at ht
      rcases ht with h | h <;> subst h <;> (intro g hg; cases hg)
  · refine ⟨?_, ?_, ?_, ?_⟩
    · intro g hg; cases hg; exact h2
    · intro g hg; cases hg; exact h5
    · intro g hg; cases hg
    · intro t ht
      simp only [idle_state_config, idle_state_trans_config, List.mem_cons,
        List.mem_singleton, List.not_mem_nil, or_false] at ht
      rcases ht with h | h | h | h <;> subst h <;> intro g hg <;> cases hg
      exact h8
  · refine ⟨?_, ?_, ?_, ?_⟩
    · intro g hg; cases hg; exact h3
    · intro g hg; cases hg; exact h6
    · intro g hg; cases hg; exact h7
    · intro t ht
      simp only [send_state_config, send_state_trans_config, List.mem_cons,
        List.mem_singleton, List.not_mem_nil, or_false] at ht
      rcases ht with h | h | h | h | h <;> subst h <;> (intro g hg; cases hg)

/-- Each of the three shipped transition tables holds the end marker, so a scan stops
inside the table. -/
theorem fsm_state_config_scan {ε : Type} (f : FSM_FUNCTS_T ε)
    (sc : FSM_STATE_CONFIG_T ε) (hsc : sc ∈ fsm_state_config f) (s : Nat) (r : FSM_RUN ε) :
    (fsm_scan sc s sc.state_trans_config_ptr r).isSome = true := by
  simp only [fsm_state_config, List.mem_cons, List.mem_singleton, List.not_mem_nil,
    or_false] at hsc
  rcases hsc with h | h | h <;> subst h
  · exact (fsm_scan_stops_at_end _ s [⟨FSM_IDLE_STATE, 0x00000009, 0x00000009, none⟩]
      ⟨FSM_TRANS_END, 0, 0, none⟩ [] r rfl).1
  · exact (fsm_scan_stops_at_end _ s
      [⟨FSM_SEND_STATE, 0x0000000B, 0x0000000B, some f.idle_state_to_send_state1⟩,
        ⟨FSM_INIT_STATE, 0x00000001, 0x00000009, none⟩,
        ⟨FSM_INIT_STATE, 0x00000000, 0x00000001, none⟩]
      ⟨FSM_TRANS_END, 0, 0, none⟩ [] r rfl).1
  · exact (fsm_scan_stops_at_end _ s
      [⟨FSM_INIT_STATE, 0x00000001, 0x00000009, none⟩,
        ⟨FSM_INIT_STATE, 0x00000000, 0x00000001, none⟩,
        ⟨FSM_IDLE_STATE, 0x00000000, 0x00000002, none⟩,
        ⟨FSM_IDLE_STATE, 0x00000004, 0x00000004, none⟩]
      ⟨FSM_TRANS_END, 0, 0, none⟩ [] r rfl).1

/-- A state in the range has a descriptor in the shipped state table. -/
theorem fsm_state_config_get {ε : Type} (f : FSM_FUNCTS_T ε) (s : Nat)
    (hs : fsm_state_in_range s) :
    ∃ sc, (fsm_state_config f).get? s = some sc ∧ sc ∈ fsm_state_config f := by
  rcases hs with h | h | h <;> subst h
  · exact ⟨init_state_config f, rfl,
      List.get?_mem (show (fsm_state_config f).get? 0 = some (init_state_config f) from rfl)⟩
  · exact ⟨idle_state_config f, rfl,
      List.get?_mem (show (fsm_state_config f).get? 1 = some (idle_state_config f) from rfl)⟩
  · exact ⟨send_state_config f, rfl,
      List.get?_mem (show (fsm_state_config f).get? 2 = some (send_state_config f) from rfl)⟩

/-- One step of the shipped machine from a state in the range returns, with the state
in the range again. -/
theorem fsm_config_step_in_range {ε : Type} (f : FSM_FUNCTS_T ε)
    (hf : fsm_functs_keep_workspace f) (r : FSM_RUN ε)
    (hs : fsm_state_in_range r.mem.workspace.current_state) :
    (∃ r1, fsm_process (fsm_config f) r = some r1) ∧
    ∀ r1, fsm_process (fsm_config f) r = some r1 →
      fsm_state_in_range r1.mem.workspace.current_state := by
  obtain ⟨sc, hget, hmem⟩ := fsm_state_config_get f _ hs
  have hget2 : (fsm_config f).state_config_ptr.get? r.mem.workspace.current_state = some sc :=
    hget
  obtain ⟨hentry, hact, hexit, htr⟩ := fsm_state_config_keeps_workspace f hf sc hmem
  have hin : fsm_keeps_workspace (fsm_config f).process_inputs_funct_ptr := hf.2.2.2.2.2.2.2.2
  have hfront := fsm_process_front_workspace (fsm_config f) sc r.mem.workspace.current_state r
    hin hentry hact
  have hfs : (fsm_process_front (fsm_config f) sc r.mem.workspace.current_state
      r).mem.workspace.current_state = r.mem.workspace.current_state := by
    rw [hfront]
    exact fsm_process_timers_current_state r.mem
  rw [fsm_process_eq (fsm_config f) r sc hget2, fsm_process_transitions]
  constructor
  · split_ifs
    · exact Option.isSome_iff_exists.mp (fsm_state_config_scan f sc hmem _ _)
    · exact ⟨_, rfl⟩
  · intro r1 h
    split_ifs at h
    · rcases fsm_scan_current_state sc _ hexit _ htr _ _ h with h1 | ⟨t, ht, hend, h1⟩
      · rw [h1]
        have h2 : (fsm_store_input (fsm_process_front (fsm_config f) sc
            r.mem.workspace.current_state r)).mem.workspace.current_state =
            r.mem.workspace.current_state := hfs
        rw [h2]
        exact hs
      · rw [h1]
        exact fsm_state_config_targets f sc hmem t ht hend
    · cases h
      rw [hfs]
      exact hs

/-- C39: for the shipped configuration and callbacks that do not write the workspace,
in every run reachable from `fsm_init` by steps of `fsm_process` (timer control calls
between the steps included) `current_state` is one of `FSM_INIT_STATE`,
`FSM_IDLE_STATE`, `FSM_SEND_STATE`; it is below the length 3 of the state table, so the
lookup of the descriptor is in bounds, it is never the sentinel 255, and the next step
of `fsm_process` returns. -/
theorem C39_state_in_range {ε : Type} (f : FSM_FUNCTS_T ε) (hf : fsm_functs_keep_workspace f)
    (r : FSM_RUN ε) (hr : fsm_reachable (fsm_config f) r) :
    (r.mem.workspace.current_state = FSM_INIT_STATE ∨
      r.mem.workspace.current_state = FSM_IDLE_STATE ∨
      r.mem.workspace.current_state = FSM_SEND_STATE) ∧
    r.mem.workspace.current_state < (fsm_config f).state_config_ptr.length ∧
    ((fsm_config f).state_config_ptr.get? r.mem.workspace.current_state).isSome = true ∧
    r.mem.workspace.current_state ≠ FSM_TRANS_END ∧
    ∃ r1, fsm_process (fsm_config f) r = some r1 := by
  have hs : fsm_state_in_range r.mem.workspace.current_state := by
    induction hr with
    | init r0 => exact Or.inl rfl
    | process r0 r1 _ hstep ih => exact (fsm_config_step_in_range f hf r0 ih).2 r1 hstep
    | control r0 k c _ ih =>
      have h1 : (fsm_timer_control k c r0.mem).workspace.current_state =
          r0.mem.workspace.current_state := (fsm_timer_control_frame k c r0.mem).1
      have h2 : fsm_state_in_range (fsm_timer_control k c r0.mem).workspace.current_state := by
        rw [h1]
        exact ih
      exact h2
  refine ⟨hs, ?_, ?_, ?_, (fsm_config_step_in_range f hf r hs).1⟩
  · rcases hs with h | h | h <;> rw [h] <;>
      simp [fsm_config, fsm_state_config, FSM_INIT_STATE, FSM_IDLE_STATE, FSM_SEND_STATE]
  · obtain ⟨sc, hget, _⟩ := fsm_state_config_get f _ hs
    have hget2 : (fsm_config f).state_config_ptr.get? r.mem.workspace.current_state =
        some sc := hget
    rw [hget2]
    rfl
  · rcases hs with h | h | h <;> rw [h] <;> decide

/-- Instance of `C39_state_in_range`: the shipped machine with the functions of
`functs.c`, after `fsm_init` and two steps. -/
theorem C39_state_in_range_witness :
    ∃ r2, fsm_process_n (fsm_config (functs sample_activity)) 2
        (fsm_init (fsm_config (functs sample_activity)) sample_task_start) = some r2 ∧
      fsm_state_in_range r2.mem.workspace.current_state ∧
      r2.mem.workspace.current_state ≠ FSM_TRANS_END := by
  have hf : fsm_functs_keep_workspace (functs sample_activity) :=
    ⟨task_call_keeps_workspace _, task_call_keeps_workspace _, task_call_keeps_workspace _,
      task_call_keeps_workspace _, task_call_keeps_workspace _, task_call_keeps_workspace _,
      task_call_keeps_workspace _, task_call_keeps_workspace _,
      fsm_process_inputs_keeps_workspace⟩
  have h0 : fsm_reachable (fsm_config (functs sample_activity))
      (fsm_init (fsm_config (functs sample_activity)) sample_task_start) :=
    fsm_reachable.init sample_task_start
  obtain ⟨r1, hr1⟩ := (C39_state_in_range (functs sample_activity) hf _ h0).2.2.2.2
  have h1 := fsm_reachable.process _ r1 h0 hr1
  obtain ⟨r2, hr2⟩ := (C39_state_in_range (functs sample_activity) hf _ h1).2.2.2.2
  have h2 := fsm_reachable.process _ r2 h1 hr2
  have h3 := C39_state_in_range (functs sample_activity) hf _ h2
  refine ⟨r2, ?_, h3.1, h3.2.2.2.1⟩
  simp only [fsm_process_n, Option.bind, hr1, hr2]

end Webtool
